import Mathlib

/-!
# Prim reconstruction of tinyusdz: attribute matchers and typed reconstructors

A shallow embedding of `src/prim-reconstruct.cc`.  The functions of that file are
translated one to one; the types they operate on (`Property`, `Attribute`,
`PrimVar`, `TypedAttribute`, ...) are declared in headers that are not part of the
sources at hand, so they are modelled here as records of what their accessors
return.
-/

namespace tinyusdz

/-! ## Data model -/

/-- Modelled from the spec: `Path` (prim-types.hh is absent).  Paths are value-equal
names; only equality and copying are used by the reconstructor. -/
abbrev Path := String

/-- Modelled from the spec: `AttrMeta` (prim-types.hh is absent), the open-ended
metadata dictionary carried by an attribute. -/
abbrev AttrMeta := List (String × String)

/-- Sample times are C++ doubles; the reconstructor only copies them, so they are
carried as exact numbers. -/
abbrev Time := Rat

/-- The processed-names table, `std::set<std::string>`. -/
abbrev Table := Finset String

/-- Modelled from the spec: `value::Value` (value-types.hh is absent), a sum of typed
variants.  Only the variants read by the modelled reconstructors are listed; every
other variant is `other`, carrying its type name. -/
inductive Value where
  | bool (b : Bool)
  | int (i : Int)
  | float (x : Rat)
  | double (x : Rat)
  | token (s : String)
  | float2 (x y : Rat)
  | float3 (x y z : Rat)
  | float4 (x y z w : Rat)
  | double3 (x y z : Rat)
  | quatf (x y z w : Rat)
  | quatd (x y z w : Rat)
  | matrix4d (m : List Rat)
  | string (s : String)
  | asset (path : String)
  | intArray (xs : List Int)
  | floatArray (xs : List Rat)
  | tokenArray (xs : List String)
  | float3Array (xs : List (Rat × Rat × Rat))
  | matrix4dArray (xs : List (List Rat))
  | other (type_name : String)
  deriving DecidableEq, Repr

/-- Modelled from the spec: `value::TypeTraits<T>` (value-types.hh is absent): the type
name of `T`, the name of its underlying type, and the typed read `get_value<T>` of a
`value::Value`. -/
structure TypeTraits (T : Type) where
  type_name : String
  underlying_type_name : String
  get_value : Value → Option T

/-- `Variability` of an attribute. -/
inductive Variability where
  | Uniform
  | Varying
  deriving DecidableEq, Repr

/-- One entry of `value::TimeSamples`: `value::TimeSamples::Sample` with its fields
`t`, `value` and `blocked`. -/
structure Sample where
  t : Time
  value : Value
  blocked : Bool
  deriving DecidableEq, Repr

/-- Modelled from the spec: `primvar::PrimVar` (primvar.hh is absent), as the record of
what its accessors return: `is_valid()`, `is_scalar()`, `is_timesamples()`, the scalar
value seen by `get_value<T>()` and the samples of `ts_raw()`. -/
structure PrimVar where
  is_valid : Bool
  is_scalar : Bool
  is_timesamples : Bool
  scalar : Option Value
  ts_raw : List Sample
  deriving DecidableEq, Repr

/-- The typed read `var.get_value<T>()`. -/
def PrimVar.get_value {T : Type} (var : PrimVar) (tt : TypeTraits T) : Option T :=
  var.scalar.bind tt.get_value

/-- Modelled from the spec: `Attribute` (prim-types.hh is absent), as the record of
what its accessors return: `type_name()`, `variability()`, `is_blocked()`,
`connections()`, `metas()` and `get_var()`. -/
structure Attribute where
  type_name : String
  variability : Variability
  is_blocked : Bool
  connections : List Path
  metas : AttrMeta
  var : PrimVar
  deriving DecidableEq, Repr

/-- Modelled from the spec: `Attribute::is_connection()`; an attribute is a connection
when it carries target paths (1..N). -/
def Attribute.is_connection (a : Attribute) : Bool := !a.connections.isEmpty

/-- The typed read `attr.get_value<T>()`. -/
def Attribute.get_value {T : Type} (a : Attribute) (tt : TypeTraits T) : Option T :=
  a.var.get_value tt

/-- Modelled from the spec: the target of a `Relationship` (prim-types.hh is absent):
empty, a single target path, or a vector of target paths. -/
inductive RelTarget where
  | empty
  | path (p : Path)
  | pathvector (ps : List Path)
  deriving DecidableEq, Repr

/-- Modelled from the spec: `Relationship` (prim-types.hh is absent): a typeless
pointer with metadata. -/
structure Relationship where
  target : RelTarget
  metas : AttrMeta
  deriving DecidableEq, Repr

/-- `rel.is_path()`. -/
def Relationship.is_path (r : Relationship) : Bool :=
  match r.target with
  | .path _ => true
  | _ => false

/-- `rel.is_pathvector()`. -/
def Relationship.is_pathvector (r : Relationship) : Bool :=
  match r.target with
  | .pathvector _ => true
  | _ => false

/-- `rel.targetPathVector`. -/
def Relationship.targetPathVector (r : Relationship) : List Path :=
  match r.target with
  | .pathvector ps => ps
  | _ => []

/-- `Property::Type`. -/
inductive PropertyType where
  | EmptyAttrib
  | Attrib
  | Relation
  | NoTargetsRelation
  | Connection
  deriving DecidableEq, Repr

/-- Modelled from the spec: `Property` (prim-types.hh is absent): its property type,
its attribute part and its relationship part. -/
structure Property where
  type : PropertyType
  attrib : Attribute
  rel : Relationship
  deriving DecidableEq, Repr

/-- `prop.get_property_type()`. -/
def Property.get_property_type (p : Property) : PropertyType := p.type

/-- `prop.get_attribute()`. -/
def Property.get_attribute (p : Property) : Attribute := p.attrib

/-- `prop.get_relationship()`. -/
def Property.get_relationship (p : Property) : Relationship := p.rel

/-- Modelled from the spec: `Property::is_connection()`; a property acts as a connection
carrier when its type is `Connection`. -/
def Property.is_connection (p : Property) : Bool := p.type == .Connection

/-- Modelled from the spec: `Property::is_relationship()`. -/
def Property.is_relationship (p : Property) : Bool :=
  p.type == .Relation || p.type == .NoTargetsRelation

/-- Modelled from the spec: `Property::is_empty()`: declared only. -/
def Property.is_empty (p : Property) : Bool :=
  p.type == .EmptyAttrib || p.type == .NoTargetsRelation

/-- Modelled from the spec: `Property::get_relationTarget()`; the single target path of
the relationship part of a connection property, if it has one. -/
def Property.get_relationTarget (p : Property) : Option Path :=
  if p.is_connection then
    match p.rel.target with
    | .path q => some q
    | _ => none
  else none

/-- One recorded `add_sample` / `add_blocked_sample` call on an `Animatable<T>`:
the time, and the value (`none` for a blocked sample). -/
structure AnimSample (T : Type) where
  t : Time
  value : Option T

/-- Modelled from the spec: `Animatable<T>` (prim-types.hh is absent): a scalar value
(`none` while never set), a blocked flag and the samples added so far, in call order. -/
structure Animatable (T : Type) where
  value : Option T
  blocked : Bool
  samples : List (AnimSample T)

/-- A default-constructed `Animatable<T>`. -/
def Animatable.default {T : Type} : Animatable T := ⟨none, false, []⟩

/-- The converting constructor `Animatable<T>(const T &)`. -/
def Animatable.ofValue {T : Type} (v : T) : Animatable T := ⟨some v, false, []⟩

/-- `Animatable<T>::set(v)`. -/
def Animatable.set {T : Type} (a : Animatable T) (v : T) : Animatable T :=
  { a with value := some v, blocked := false }

/-- `Animatable<T>::add_sample(t, v)`. -/
def Animatable.add_sample {T : Type} (a : Animatable T) (t : Time) (v : T) : Animatable T :=
  { a with samples := a.samples ++ [⟨t, some v⟩] }

/-- `Animatable<T>::add_blocked_sample(t)`. -/
def Animatable.add_blocked_sample {T : Type} (a : Animatable T) (t : Time) : Animatable T :=
  { a with samples := a.samples ++ [⟨t, none⟩] }

/-- Modelled from the spec: `TypedAttributeWithFallback<T>` (prim-types.hh is absent): a
slot with a compile-time default, an optional authored value, the declared-only and
blocked flags, connection paths and metadata. -/
structure TypedAttributeWithFallback (T : Type) where
  fallback : T
  attrib : Option T
  empty : Bool
  blocked : Bool
  paths : List Path
  metas : AttrMeta

namespace TypedAttributeWithFallback

/-- A slot holding only its fallback value. -/
def fresh {T : Type} (fb : T) : TypedAttributeWithFallback T := ⟨fb, none, false, false, [], []⟩

/-- `set_value(v)`. -/
def set_value {T : Type} (s : TypedAttributeWithFallback T) (v : T) :
    TypedAttributeWithFallback T := { s with attrib := some v }

/-- `set_value_empty()`. -/
def set_value_empty {T : Type} (s : TypedAttributeWithFallback T) :
    TypedAttributeWithFallback T := { s with empty := true }

/-- `set_blocked(onoff)`. -/
def set_blocked {T : Type} (s : TypedAttributeWithFallback T) (onoff : Bool) :
    TypedAttributeWithFallback T := { s with blocked := onoff }

/-- `set_connection(path)`. -/
def set_connection {T : Type} (s : TypedAttributeWithFallback T) (p : Path) :
    TypedAttributeWithFallback T := { s with paths := [p] }

/-- `set_connections(paths)`. -/
def set_connections {T : Type} (s : TypedAttributeWithFallback T) (ps : List Path) :
    TypedAttributeWithFallback T := { s with paths := ps }

/-- The assignment `metas() = m`. -/
def set_metas {T : Type} (s : TypedAttributeWithFallback T) (m : AttrMeta) :
    TypedAttributeWithFallback T := { s with metas := m }

end TypedAttributeWithFallback

/-- Modelled from the spec: `TypedAttribute<T>` (prim-types.hh is absent): a slot with
an optional authored value, the declared-only and blocked flags, connection paths and
metadata. -/
structure TypedAttribute (T : Type) where
  attrib : Option T
  empty : Bool
  blocked : Bool
  paths : List Path
  metas : AttrMeta

namespace TypedAttribute

/-- A default-constructed slot. -/
def fresh {T : Type} : TypedAttribute T := ⟨none, false, false, [], []⟩

/-- `set_value(v)`. -/
def set_value {T : Type} (s : TypedAttribute T) (v : T) : TypedAttribute T :=
  { s with attrib := some v }

/-- `set_value_empty()`. -/
def set_value_empty {T : Type} (s : TypedAttribute T) : TypedAttribute T :=
  { s with empty := true }

/-- `set_blocked(onoff)`. -/
def set_blocked {T : Type} (s : TypedAttribute T) (onoff : Bool) : TypedAttribute T :=
  { s with blocked := onoff }

/-- `set_connections(paths)`. -/
def set_connections {T : Type} (s : TypedAttribute T) (ps : List Path) : TypedAttribute T :=
  { s with paths := ps }

/-- The assignment `metas() = m`. -/
def set_metas {T : Type} (s : TypedAttribute T) (m : AttrMeta) : TypedAttribute T :=
  { s with metas := m }

end TypedAttribute

/-- Modelled from the spec: `removeSuffix` (str-util.hh is absent): the string without
the given suffix when it ends with it, and the string itself otherwise. -/
def removeSuffix (str suffix : String) : String :=
  if suffix.data.isSuffixOf str.data then
    String.mk (str.data.take (str.data.length - suffix.data.length))
  else str

/-! ## Matchers -/

/-- `ParseResult::ResultCode`. -/
inductive ResultCode where
  | Success
  | Unmatched
  | AlreadyProcessed
  | TypeMismatch
  | VariabilityMismatch
  | ConnectionNotAllowed
  | InvalidConnection
  | InternalError
  deriving DecidableEq, Repr

/-- `ParseResult`. -/
structure ParseResult where
  code : ResultCode
  err : String
  deriving DecidableEq, Repr

/-- What a matcher leaves behind: its `ParseResult`, the in/out `table` and the out
parameter `target`. -/
structure Parsed (τ : Type) where
  ret : ParseResult
  table : Table
  target : τ

/-- The loop of `ConvertToAnimatable<T>` over `var.ts_raw().get_samples()`. -/
def convertSamples {T : Type} (tt : TypeTraits T) :
    List Sample → Animatable T → Option (Animatable T)
  | [], dst => some dst
  | s :: rest, dst =>
    if s.blocked then
      convertSamples tt rest (dst.add_blocked_sample s.t)
    else
      match tt.get_value s.value with
      | some pv => convertSamples tt rest (dst.add_sample s.t pv)
      | none => none

/-- `ConvertToAnimatable<T>`. -/
def ConvertToAnimatable {T : Type} (tt : TypeTraits T) (var : PrimVar) :
    Option (Animatable T) :=
  if !var.is_valid then none
  else if var.is_scalar then
    match var.get_value tt with
    | some pv => some (Animatable.default.set pv)
    | none => none
  else if var.is_timesamples then
    convertSamples tt var.ts_raw Animatable.default
  else none

/-- `ParseTypedAttribute` for `TypedAttributeWithFallback<Animatable<T>>`. -/
def ParseTypedAttribute_WithFallbackAnimatable {T : Type} (tt : TypeTraits T)
    (table : Table) (prop_name : String) (prop : Property) (name : String)
    (target : TypedAttributeWithFallback (Animatable T)) :
    Parsed (TypedAttributeWithFallback (Animatable T)) :=
  if prop_name = name ++ ".connect" then
    let propname := removeSuffix name ".connect"
    if propname ∈ table then
      ⟨⟨.AlreadyProcessed, ""⟩, table, target⟩
    else if prop.is_connection then
      match prop.get_relationTarget with
      | some pv =>
        ⟨⟨.Success, ""⟩, insert propname table,
          (target.set_connection pv).set_metas prop.get_attribute.metas⟩
      | none => ⟨⟨.InvalidConnection, "Connection target not found."⟩, table, target⟩
    else
      ⟨⟨.InternalError, "Internal error. Unsupported/Unimplemented property type."⟩,
        table, target⟩
  else if prop_name = name then
    if name ∈ table then
      ⟨⟨.AlreadyProcessed, ""⟩, table, target⟩
    else
      let attr := prop.get_attribute
      if prop.is_connection then
        if attr.is_connection then
          ⟨⟨.Success, ""⟩, insert prop_name table,
            (target.set_connections attr.connections).set_metas attr.metas⟩
        else
          ⟨⟨.InternalError, "Internal error. Invalid Property with Attribute connection."⟩,
            table, target⟩
      else
        let attr_type_name := attr.type_name
        if tt.type_name = attr_type_name ∨ tt.underlying_type_name = attr_type_name then
          if prop.get_property_type = .EmptyAttrib then
            ⟨⟨.Success, ""⟩, insert name table,
              (target.set_value_empty).set_metas attr.metas⟩
          else if prop.get_property_type = .Attrib then
            if attr.is_blocked then
              ⟨⟨.Success, ""⟩, insert name table,
                (target.set_blocked true).set_metas attr.metas⟩
            else if attr.variability = .Uniform then
              if !attr.var.is_scalar then
                ⟨⟨.VariabilityMismatch,
                  "TimeSample value is assigned to `uniform` property `" ++ name⟩,
                  table, target⟩
              else
                match attr.get_value tt with
                | some pv =>
                  ⟨⟨.Success, ""⟩, insert name table,
                    (target.set_value (Animatable.ofValue pv)).set_metas attr.metas⟩
                | none =>
                  ⟨⟨.InternalError, "Failed to retrieve value with requested type."⟩,
                    table, target⟩
            else if attr.var.is_timesamples then
              match ConvertToAnimatable tt attr.var with
              | some av =>
                ⟨⟨.Success, ""⟩, insert name table,
                  (target.set_value av).set_metas attr.metas⟩
              | none =>
                ⟨⟨.InternalError,
                  "Converting Attribute data failed. Maybe TimeSamples have values with different types?"⟩,
                  table, target⟩
            else if attr.var.is_scalar then
              match attr.get_value tt with
              | some pv =>
                ⟨⟨.Success, ""⟩, insert name table,
                  (target.set_value (Animatable.ofValue pv)).set_metas attr.metas⟩
              | none => ⟨⟨.InternalError, "Invalid attribute value."⟩, table, target⟩
            else
              ⟨⟨.InternalError, "Invalid attribute value."⟩, table, target⟩
          else
            ⟨⟨.InternalError, "Invalid Property type(internal error)"⟩, table, target⟩
        else
          ⟨⟨.TypeMismatch,
            "Property type mismatch. " ++ name ++ " expects type `" ++ tt.type_name
              ++ "` but defined as type `" ++ attr_type_name ++ "`"⟩,
            table, target⟩
  else
    ⟨⟨.Unmatched, ""⟩, table, target⟩

/-- `ParseTypedAttribute` for `TypedAttributeWithFallback<T>` (uniform attributes). -/
def ParseTypedAttribute_WithFallback {T : Type} (tt : TypeTraits T)
    (table : Table) (prop_name : String) (prop : Property) (name : String)
    (target : TypedAttributeWithFallback T) : Parsed (TypedAttributeWithFallback T) :=
  if prop_name = name ++ ".connect" then
    let propname := removeSuffix name ".connect"
    if propname ∈ table then
      ⟨⟨.AlreadyProcessed, ""⟩, table, target⟩
    else if prop.is_connection then
      let attr := prop.get_attribute
      if attr.is_connection then
        ⟨⟨.Success, ""⟩, insert propname table,
          (target.set_connections attr.connections).set_metas prop.get_attribute.metas⟩
      else
        ⟨⟨.InvalidConnection, "Connection target not found."⟩, table, target⟩
    else
      ⟨⟨.InternalError, "Internal error. Unsupported/Unimplemented property type."⟩,
        table, target⟩
  else if prop_name = name then
    if name ∈ table then
      ⟨⟨.AlreadyProcessed, ""⟩, table, target⟩
    else if prop.is_connection then
      let attr := prop.get_attribute
      if attr.is_connection then
        ⟨⟨.Success, ""⟩, insert prop_name table,
          (target.set_connections attr.connections).set_metas prop.get_attribute.metas⟩
      else
        ⟨⟨.InternalError, "Internal error. Invalid property with connection."⟩,
          table, target⟩
    else
      let attr := prop.get_attribute
      let attr_type_name := attr.type_name
      if tt.type_name = attr_type_name ∨ tt.underlying_type_name = attr_type_name then
        if prop.get_property_type = .EmptyAttrib then
          ⟨⟨.Success, ""⟩, insert name table,
            (target.set_value_empty).set_metas attr.metas⟩
        else if prop.get_property_type = .Attrib then
          if prop.get_attribute.variability ≠ .Uniform then
            ⟨⟨.VariabilityMismatch,
              "Attribute `" ++ name ++ "` must be `uniform` variability."⟩, table, target⟩
          else if attr.is_blocked then
            ⟨⟨.Success, ""⟩, insert name table,
              (target.set_blocked true).set_metas attr.metas⟩
          else if attr.var.is_scalar then
            match attr.get_value tt with
            | some pv =>
              ⟨⟨.Success, ""⟩, insert name table,
                (target.set_value pv).set_metas attr.metas⟩
            | none => ⟨⟨.InternalError, "Internal data corrupsed."⟩, table, target⟩
          else
            ⟨⟨.VariabilityMismatch,
              "TimeSample or corrupted value assigned to a property where `uniform` variability is set."⟩,
              table, target⟩
        else
          ⟨⟨.InternalError, "Invalid Property type(internal error)"⟩, table, target⟩
      else
        ⟨⟨.TypeMismatch,
          "Property type mismatch. " ++ name ++ " expects type `" ++ tt.type_name
            ++ "` but defined as type `" ++ attr_type_name ++ "`"⟩,
          table, target⟩
  else
    ⟨⟨.Unmatched, ""⟩, table, target⟩

/-- `ParseTypedAttribute` for `TypedAttribute<Animatable<T>>` (varying attributes). -/
def ParseTypedAttribute_Animatable {T : Type} (tt : TypeTraits T)
    (table : Table) (prop_name : String) (prop : Property) (name : String)
    (target : TypedAttribute (Animatable T)) : Parsed (TypedAttribute (Animatable T)) :=
  if prop_name = name ++ ".connect" then
    let propname := removeSuffix name ".connect"
    if propname ∈ table then
      ⟨⟨.AlreadyProcessed, ""⟩, table, target⟩
    else if prop.is_connection then
      let attr := prop.get_attribute
      if attr.is_connection then
        ⟨⟨.Success, ""⟩, insert propname table,
          (target.set_connections attr.connections).set_metas prop.get_attribute.metas⟩
      else
        ⟨⟨.InvalidConnection, "Connection target not found."⟩, table, target⟩
    else
      ⟨⟨.InternalError, "Internal error. Unsupported/Unimplemented property type."⟩,
        table, target⟩
  else if prop_name = name then
    if name ∈ table then
      ⟨⟨.AlreadyProcessed, ""⟩, table, target⟩
    else if prop.is_connection then
      let attr := prop.get_attribute
      if attr.is_connection then
        ⟨⟨.Success, ""⟩, insert prop_name table,
          (target.set_connections attr.connections).set_metas prop.get_attribute.metas⟩
      else
        ⟨⟨.InternalError, "Internal error. Invalid property with connection."⟩,
          table, target⟩
    else
      let attr := prop.get_attribute
      let attr_type_name := attr.type_name
      if tt.type_name = attr_type_name ∨ tt.underlying_type_name = attr_type_name then
        if prop.get_property_type = .EmptyAttrib then
          ⟨⟨.Success, ""⟩, insert name table,
            (target.set_value_empty).set_metas attr.metas⟩
        else if prop.get_property_type = .Attrib then
          if attr.is_blocked then
            ⟨⟨.Success, ""⟩, insert name table,
              (target.set_blocked true).set_metas attr.metas⟩
          else if attr.variability = .Uniform then
            if !attr.var.is_scalar then
              ⟨⟨.VariabilityMismatch,
                "TimeSample value is assigned to `uniform` property `" ++ name⟩,
                table, target⟩
            else
              match attr.get_value tt with
              | some pv =>
                ⟨⟨.Success, ""⟩, insert name table,
                  (target.set_value (Animatable.ofValue pv)).set_metas attr.metas⟩
              | none =>
                ⟨⟨.InternalError, "Failed to retrieve value with requested type."⟩,
                  table, target⟩
          else if attr.var.is_timesamples then
            match ConvertToAnimatable tt attr.var with
            | some av =>
              ⟨⟨.Success, ""⟩, insert name table,
                (target.set_value av).set_metas attr.metas⟩
            | none =>
              ⟨⟨.InternalError,
                "Converting Attribute data failed. Maybe TimeSamples have values with different types?"⟩,
                table, target⟩
          else if attr.var.is_scalar then
            match attr.get_value tt with
            | some pv =>
              ⟨⟨.Success, ""⟩, insert name table,
                (target.set_value (Animatable.ofValue pv)).set_metas attr.metas⟩
            | none =>
              ⟨⟨.InternalError, "Failed to retrieve value with requested type."⟩,
                table, target⟩
          else
            ⟨⟨.InternalError, "Invalid or Unsupported attribute data."⟩, table, target⟩
        else
          ⟨⟨.InternalError, "Invalid Property type(internal error)"⟩, table, target⟩
      else
        ⟨⟨.TypeMismatch,
          "Property type mismatch. " ++ name ++ " expects type `" ++ tt.type_name
            ++ "` but defined as type `" ++ attr_type_name ++ "`"⟩,
          table, target⟩
  else
    ⟨⟨.Unmatched, ""⟩, table, target⟩

/-- `ParseTypedAttribute` for `TypedAttribute<T>` (uniform attributes). -/
def ParseTypedAttribute_Uniform {T : Type} (tt : TypeTraits T)
    (table : Table) (prop_name : String) (prop : Property) (name : String)
    (target : TypedAttribute T) : Parsed (TypedAttribute T) :=
  if prop_name = name ++ ".connect" then
    let propname := removeSuffix name ".connect"
    if propname ∈ table then
      ⟨⟨.AlreadyProcessed, ""⟩, table, target⟩
    else if prop.is_connection then
      let attr := prop.get_attribute
      if attr.is_connection then
        ⟨⟨.Success, ""⟩, insert propname table,
          (target.set_connections attr.connections).set_metas prop.get_attribute.metas⟩
      else
        ⟨⟨.InvalidConnection, "Connection target not found."⟩, table, target⟩
    else
      ⟨⟨.InternalError, "Internal error. Unsupported/Unimplemented property type."⟩,
        table, target⟩
  else if prop_name = name then
    if name ∈ table then
      ⟨⟨.AlreadyProcessed, ""⟩, table, target⟩
    else if prop.is_connection then
      let attr := prop.get_attribute
      if attr.is_connection then
        ⟨⟨.Success, ""⟩, insert prop_name table,
          (target.set_connections attr.connections).set_metas prop.get_attribute.metas⟩
      else
        ⟨⟨.InternalError, "Internal error. Invalid property with connection."⟩,
          table, target⟩
    else
      let attr := prop.get_attribute
      let attr_type_name := attr.type_name
      if tt.type_name = attr_type_name ∨ tt.underlying_type_name = attr_type_name then
        if prop.get_property_type = .EmptyAttrib then
          ⟨⟨.Success, ""⟩, insert name table,
            (target.set_value_empty).set_metas attr.metas⟩
        else if prop.get_property_type = .Attrib then
          if prop.get_attribute.variability ≠ .Uniform then
            ⟨⟨.VariabilityMismatch,
              "Attribute `" ++ name ++ "` must be `uniform` variability."⟩, table, target⟩
          else if attr.is_blocked then
            ⟨⟨.Success, ""⟩, insert name table,
              (target.set_blocked true).set_metas attr.metas⟩
          else if attr.var.is_scalar then
            match attr.get_value tt with
            | some pv =>
              ⟨⟨.Success, ""⟩, insert name table,
                (target.set_value pv).set_metas attr.metas⟩
            | none => ⟨⟨.VariabilityMismatch, "Internal data corrupsed."⟩, table, target⟩
          else
            ⟨⟨.VariabilityMismatch,
              "TimeSample or corrupted value assigned to a property where `uniform` variability is set."⟩,
              table, target⟩
        else
          ⟨⟨.InternalError, "Invalid Property type(internal error)"⟩, table, target⟩
      else
        ⟨⟨.TypeMismatch,
          "Property type mismatch. " ++ name ++ " expects type `" ++ tt.type_name
            ++ "` but defined as type `" ++ attr_type_name ++ "`"⟩,
          table, target⟩
  else
    ⟨⟨.Unmatched, ""⟩, table, target⟩

/-- Modelled from the spec: `value::float3` (value-types.hh is absent). -/
abbrev float3 := Rat × Rat × Rat

/-- `Extent`: the bounding pair `lower`, `upper` of type `float3`. -/
structure Extent where
  lower : float3
  upper : float3
  deriving DecidableEq, Repr

/-- Modelled from the spec: `value::TypeTraits<std::vector<value::float3>>`
(value-types.hh is absent): the array form `float3[]`. -/
def float3ArrayTraits : TypeTraits (List float3) where
  type_name := "float3[]"
  underlying_type_name := "float3[]"
  get_value := fun v =>
    match v with
    | .float3Array xs => some xs
    | _ => none

/-- The loop of `ConvertToAnimatable<Extent>` over the samples. -/
def convertSamples_Extent : List Sample → Animatable Extent → Option (Animatable Extent)
  | [], dst => some dst
  | s :: rest, dst =>
    if s.blocked then
      convertSamples_Extent rest (dst.add_blocked_sample s.t)
    else
      match float3ArrayTraits.get_value s.value with
      | some pv =>
        match pv with
        | [lo, up] => convertSamples_Extent rest (dst.add_sample s.t ⟨lo, up⟩)
        | _ => none
      | none => none

/-- `ConvertToAnimatable<Extent>`, the specialization for `float3[2]`. -/
def ConvertToAnimatable_Extent (var : PrimVar) : Option (Animatable Extent) :=
  if !var.is_valid then none
  else if var.is_scalar then
    match var.get_value float3ArrayTraits with
    | some pv =>
      match pv with
      | [lo, up] => some (Animatable.default.set ⟨lo, up⟩)
      | _ => none
    | none => none
  else if var.is_timesamples then
    convertSamples_Extent var.ts_raw Animatable.default
  else none

/-- `ParseExtentAttribute`. -/
def ParseExtentAttribute (table : Table) (prop_name : String) (prop : Property)
    (name : String) (target : TypedAttribute (Animatable Extent)) :
    Parsed (TypedAttribute (Animatable Extent)) :=
  if prop_name = name ++ ".connect" then
    let propname := removeSuffix name ".connect"
    if propname ∈ table then
      ⟨⟨.AlreadyProcessed, ""⟩, table, target⟩
    else if prop.is_connection then
      let attr := prop.get_attribute
      if attr.is_connection then
        ⟨⟨.Success, ""⟩, insert propname table,
          (target.set_connections attr.connections).set_metas prop.get_attribute.metas⟩
      else
        ⟨⟨.InvalidConnection, "Connection target not found."⟩, table, target⟩
    else
      ⟨⟨.InternalError, "Internal error. Unsupported/Unimplemented property type."⟩,
        table, target⟩
  else if prop_name = name then
    if name ∈ table then
      ⟨⟨.AlreadyProcessed, ""⟩, table, target⟩
    else if prop.is_connection then
      let attr := prop.get_attribute
      if attr.is_connection then
        ⟨⟨.Success, ""⟩, insert prop_name table,
          (target.set_connections attr.connections).set_metas prop.get_attribute.metas⟩
      else
        ⟨⟨.InternalError, "Internal error. Invalid property with connection."⟩,
          table, target⟩
    else
      let attr := prop.get_attribute
      if prop.get_property_type = .EmptyAttrib then
        ⟨⟨.Success, ""⟩, insert name table,
          (target.set_value_empty).set_metas attr.metas⟩
      else if prop.get_property_type = .Attrib then
        if attr.is_blocked then
          ⟨⟨.Success, ""⟩, insert name table,
            (target.set_blocked true).set_metas attr.metas⟩
        else if attr.variability = .Uniform then
          ⟨⟨.VariabilityMismatch,
            "`extent` attribute is varying. `uniform` qualifier assigned to it."⟩,
            table, target⟩
        else if attr.var.is_scalar then
          match attr.get_value float3ArrayTraits with
          | some pv =>
            match pv with
            | [lo, up] =>
              ⟨⟨.Success, ""⟩, insert name table,
                (target.set_value (Animatable.ofValue ⟨lo, up⟩)).set_metas attr.metas⟩
            | _ =>
              ⟨⟨.TypeMismatch,
                "`extent` must be `float3[2]`, but got array size " ++ toString pv.length⟩,
                table, target⟩
          | none =>
            ⟨⟨.TypeMismatch,
              "`extent` must be type `float3[]`, but got type `" ++ attr.type_name⟩,
              table, target⟩
        else if attr.var.is_timesamples then
          match ConvertToAnimatable_Extent attr.var with
          | some av =>
            ⟨⟨.Success, ""⟩, insert name table,
              (target.set_value av).set_metas attr.metas⟩
          | none =>
            ⟨⟨.InternalError,
              "Converting Attribute data failed. Maybe TimeSamples have values with different types or invalid array size?"⟩,
              table, target⟩
        else
          ⟨⟨.InternalError, "Invalid or Unsupported Extent attribute value."⟩, table, target⟩
      else
        ⟨⟨.InternalError, "Invalid Property type(internal error)"⟩, table, target⟩
  else
    ⟨⟨.Unmatched, ""⟩, table, target⟩

/-- Modelled from the spec: `TypedTerminalAttribute<T>` (prim-types.hh is absent): an
output terminal that is only authored, never given a value or a connection. -/
structure TypedTerminalAttribute (T : Type) where
  authored : Bool
  metas : AttrMeta

/-- `set_authored(onoff)`. -/
def TypedTerminalAttribute.set_authored {T : Type} (s : TypedTerminalAttribute T)
    (onoff : Bool) : TypedTerminalAttribute T := { s with authored := onoff }

/-- The assignment `metas() = m`. -/
def TypedTerminalAttribute.set_metas {T : Type} (s : TypedTerminalAttribute T)
    (m : AttrMeta) : TypedTerminalAttribute T := { s with metas := m }

/-- `ParseShaderOutputTerminalAttribute`. -/
def ParseShaderOutputTerminalAttribute {T : Type} (tt : TypeTraits T)
    (table : Table) (prop_name : String) (prop : Property) (name : String)
    (target : TypedTerminalAttribute T) : Parsed (TypedTerminalAttribute T) :=
  if prop_name = name ++ ".connect" then
    ⟨⟨.ConnectionNotAllowed, "Connection is not allowed for output terminal attribute."⟩,
      table, target⟩
  else if prop_name = name then
    if name ∈ table then
      ⟨⟨.AlreadyProcessed, ""⟩, table, target⟩
    else if prop.is_connection then
      ⟨⟨.ConnectionNotAllowed, "Connection is not allowed for output terminal attribute."⟩,
        table, target⟩
    else
      let attr := prop.get_attribute
      let attr_type_name := attr.type_name
      if tt.type_name = attr_type_name then
        if prop.get_property_type = .EmptyAttrib then
          ⟨⟨.Success, ""⟩, insert name table,
            (target.set_authored true).set_metas prop.get_attribute.metas⟩
        else
          ⟨⟨.InvalidConnection,
            "Invalid connection or value assigned for output terminal attribute."⟩,
            table, target⟩
      else
        ⟨⟨.TypeMismatch,
          "Property type mismatch. " ++ name ++ " expects type `" ++ tt.type_name
            ++ "` but defined as type `" ++ attr_type_name ++ "`."⟩,
          table, target⟩
  else
    ⟨⟨.Unmatched, ""⟩, table, target⟩

/-- Modelled from the spec: `value::TypeTraits<double>` (value-types.hh is absent). -/
def doubleTraits : TypeTraits Rat where
  type_name := "double"
  underlying_type_name := "double"
  get_value := fun v =>
    match v with
    | .double x => some x
    | _ => none

/-- Modelled from the spec: `value::TypeTraits<value::color3f>` (value-types.hh is
absent): a role type whose underlying type is `float3`. -/
def color3fTraits : TypeTraits float3 where
  type_name := "color3f"
  underlying_type_name := "float3"
  get_value := fun v =>
    match v with
    | .float3 x y z => some (x, y, z)
    | _ => none

/-- Modelled from the spec: `value::TypeTraits<bool>` (value-types.hh is absent). -/
def boolTraits : TypeTraits Bool where
  type_name := "bool"
  underlying_type_name := "bool"
  get_value := fun v =>
    match v with
    | .bool b => some b
    | _ => none

/-- Modelled from the spec: `value::TypeTraits<value::token>` (value-types.hh is
absent); a token is read as its string. -/
def tokenTraits : TypeTraits String where
  type_name := "token"
  underlying_type_name := "token"
  get_value := fun v =>
    match v with
    | .token s => some s
    | _ => none

/-- A variable holding one scalar value. -/
def PrimVar.ofScalar (v : Value) : PrimVar := ⟨true, true, false, some v, []⟩

/-- A variable holding time samples. -/
def PrimVar.ofTimeSamples (ts : List Sample) : PrimVar := ⟨true, false, true, none, ts⟩

/-- A variable holding nothing (a blocked or declared-only attribute). -/
def PrimVar.none : PrimVar := ⟨false, true, false, Option.none, []⟩

/-- A relationship part without target. -/
def Relationship.none : Relationship := ⟨.empty, []⟩

/-- An attribute property `<type_name> name = v` with the given variability. -/
def Property.ofScalar (type_name : String) (vy : Variability) (v : Value) : Property :=
  ⟨.Attrib, ⟨type_name, vy, false, [], [], PrimVar.ofScalar v⟩, Relationship.none⟩

/-- An attribute property `<type_name> name.timeSamples = ts` with the given variability. -/
def Property.ofTimeSamples (type_name : String) (vy : Variability) (ts : List Sample) :
    Property :=
  ⟨.Attrib, ⟨type_name, vy, false, [], [], PrimVar.ofTimeSamples ts⟩, Relationship.none⟩

/-- An attribute property `<type_name> name = None` (blocked) with the given variability. -/
def Property.ofBlocked (type_name : String) (vy : Variability) : Property :=
  ⟨.Attrib, ⟨type_name, vy, true, [], [], PrimVar.none⟩, Relationship.none⟩

/-- A connection property `<type_name> name.connect = paths`, with the given
relationship part. -/
def Property.ofConnection (type_name : String) (paths : List Path) (rel : RelTarget) :
    Property :=
  ⟨.Connection, ⟨type_name, .Varying, false, paths, [], PrimVar.none⟩, ⟨rel, []⟩⟩

/-- The sample that `ConvertToAnimatable<T>` adds for one raw sample: `add_blocked_sample`
at its time when it is blocked, `add_sample` at its time with its typed value otherwise. -/
def recordedSample {T : Type} (tt : TypeTraits T) (s : Sample) : AnimSample T :=
  ⟨s.t, if s.blocked then none else tt.get_value s.value⟩

/-- The shape shared by the typed-attribute matchers: table, property name, property,
slot name and target in, `Parsed` out. -/
abbrev Matcher (τ : Type) := Table → String → Property → String → τ → Parsed τ

/-- What the already-processed table guarantees for a matcher `m` and a slot `X`, the
slot being observed through `hasValue` (an authored value is stored) and `paths` (its
connection targets):
* once `X` is in the table, a property named `X` or `X.connect` is answered with
  `AlreadyProcessed` and nothing changes;
* a call that does not answer `Success` changes neither the target nor the table;
* when `X` and then `X.connect` are handed to the matcher (the order of iteration of
  `std::map`), the table only growing in between, they are not both answered with
  `Success`, so at most one of them writes the slot;
* starting from a slot with neither a value nor a connection, the slot does not end up
  with both a value and a connection. -/
def SlotGuard {τ : Type} (m : Matcher τ) (hasValue : τ → Bool) (paths : τ → List Path)
    (X : String) : Prop :=
  (∀ table prop target, X ∈ table →
      m table X prop X target = ⟨⟨.AlreadyProcessed, ""⟩, table, target⟩
      ∧ m table (X ++ ".connect") prop X target = ⟨⟨.AlreadyProcessed, ""⟩, table, target⟩)
  ∧ (∀ table prop_name prop target,
      (m table prop_name prop X target).ret.code ≠ .Success →
      (m table prop_name prop X target).target = target
      ∧ (m table prop_name prop X target).table = table)
  ∧ (∀ table table2 pX pC target,
      (m table X pX X target).table ⊆ table2 →
      ¬ ((m table X pX X target).ret.code = .Success
          ∧ (m table2 (X ++ ".connect") pC X (m table X pX X target).target).ret.code
              = .Success))
  ∧ (∀ table table2 pX pC target,
      hasValue target = false → paths target = [] →
      (m table X pX X target).table ⊆ table2 →
      ¬ (hasValue (m table2 (X ++ ".connect") pC X (m table X pX X target).target).target
            = true
          ∧ paths (m table2 (X ++ ".connect") pC X (m table X pX X target).target).target
            ≠ []))

/-! ## Reconstructors -/

/-- `PropertyMap`, a `std::map<std::string, Property>`, as the list of its entries in
iteration order; the keys of a map are pairwise distinct. -/
abbrev PropertyMap := List (String × Property)

/-- `properties.find(key)` / `properties.at(key)`: the entry under `key`, if any. -/
def PropertyMap.find (m : PropertyMap) (key : String) : Option Property :=
  match m with
  | [] => none
  | (k, p) :: rest => if k = key then some p else PropertyMap.find rest key

/-- `properties.count(key)`. -/
def PropertyMap.count (m : PropertyMap) (key : String) : Bool := (m.find key).isSome

/-- The assignment `dst[key] = p`: the entry under `key` is created or replaced. -/
def PropertyMap.assign (m : PropertyMap) (key : String) (p : Property) : PropertyMap :=
  match m with
  | [] => [(key, p)]
  | (k, q) :: rest => if k = key then (k, p) :: rest else (k, q) :: PropertyMap.assign rest key p

/-- An lvalue argument of a macro (`__target`, `__dst`): how to read and how to
overwrite one member of the primitive of type `σ`. -/
structure Field (σ α : Type) where
  get : σ → α
  set : α → σ → σ

/-- The state a reconstructor works on: the processed-names `table`, the primitive
`prim` being filled, and the `warn` and `err` strings (absent when the caller passes a
null pointer). -/
structure ReconState (τ : Type) where
  table : Table
  prim : τ
  warn : Option String
  err : Option String

/-- `PushError(s)`: `if (err) { (*err) += s; }`. -/
def PushError (err : Option String) (s : String) : Option String :=
  err.map (fun e => e ++ s)

/-- `PushWarn(s)`: `if (warn) { (*warn) += s; }`. -/
def PushWarn (warn : Option String) (s : String) : Option String :=
  warn.map (fun w => w ++ s)

/-- The state after `PushError(msg)`. -/
def ReconState.withError {τ : Type} (s : ReconState τ) (msg : String) : ReconState τ :=
  { s with err := PushError s.err msg }

/-- How one arm of a property loop leaves the current property: control falls through
to the next arm (`next`), the loop goes on with the next property (`continue`), or the
reconstructor returns false (`PUSH_ERROR_AND_RETURN`). -/
inductive Step (σ : Type) where
  | next (s : σ)
  | continue_ (s : σ)
  | ret_false (s : σ)

/-- Sequencing of arms: the second arm runs only when the first falls through. -/
def Step.andThen {σ : Type} (r : Step σ) (f : σ → Step σ) : Step σ :=
  match r with
  | .next s => f s
  | .continue_ s => .continue_ s
  | .ret_false s => .ret_false s

/-- How a reconstructor ends: it returns true (`ok`), returns false (`fail`), or is left
through `value()` called on an empty optional (`raise`). -/
inductive Outcome (σ : Type) where
  | ok (s : σ)
  | fail (s : σ)
  | raise

/-- Modelled from the spec: `PUSH_ERROR_AND_RETURN(s)` (common-macros.inc is absent):
the message is appended to `err` and the reconstructor returns false.  The frame that
the macro puts around the message (source position, line break) is left out. -/
def PUSH_ERROR_AND_RETURN {τ : Type} (s : ReconState τ) (msg : String) :
    Step (ReconState τ) :=
  .ret_false (s.withError msg)

/-- Modelled from the spec: `PUSH_WARN(s)` (common-macros.inc is absent): the message is
appended to `warn`; the frame around the message is left out. -/
def PUSH_WARN {τ : Type} (s : ReconState τ) (msg : String) : ReconState τ :=
  { s with warn := PushWarn s.warn msg }

/-- The loop `for (const auto &prop : properties) { body }`. -/
def propertyLoop {σ : Type} (body : σ → String × Property → Step σ) :
    σ → List (String × Property) → Outcome σ
  | s, [] => .ok s
  | s, prop :: rest =>
    match body s prop with
    | .next s1 => propertyLoop body s1 rest
    | .continue_ s1 => propertyLoop body s1 rest
    | .ret_false s1 => .fail s1

/-- `PARSE_SINGLE_TARGET_PATH_RELATION(table, prop, propname, target)`. -/
def PARSE_SINGLE_TARGET_PATH_RELATION {τ : Type} (propname : String)
    (target : Field τ (Option Relationship)) (s : ReconState τ)
    (prop : String × Property) : Step (ReconState τ) :=
  if prop.1 = propname then
    if propname ∈ s.table then .continue_ s
    else if prop.2.is_relationship && prop.2.is_empty then
      PUSH_ERROR_AND_RETURN s
        ("`" ++ propname ++ "` must be a Relationship with Path target.")
    else
      let rel := prop.2.get_relationship
      if rel.is_path then
        .continue_ { s with prim := target.set (some rel) s.prim,
                            table := insert prop.1 s.table }
      else if rel.is_pathvector then
        if rel.targetPathVector.length = 1 then
          .continue_ { s with prim := target.set (some rel) s.prim,
                              table := insert prop.1 s.table }
        else
          PUSH_ERROR_AND_RETURN s
            ("`" ++ propname
              ++ "` target is empty or has mutiple Paths. Must be single Path.")
      else
        PUSH_ERROR_AND_RETURN s ("`" ++ propname ++ "` target must be Path.")
  else .next s

/-- `PARSE_TYPED_ATTRIBUTE(table, prop, name, klass, target)`, for the overload `m` of
`ParseTypedAttribute` selected by the type of `target`. -/
def PARSE_TYPED_ATTRIBUTE {τ α : Type} (m : Matcher α) (name : String)
    (target : Field τ α) (s : ReconState τ) (prop : String × Property) :
    Step (ReconState τ) :=
  let ret := m s.table prop.1 prop.2 name (target.get s.prim)
  let s1 : ReconState τ := { s with table := ret.table, prim := target.set ret.target s.prim }
  if ret.ret.code = .Success ∨ ret.ret.code = .AlreadyProcessed then
    .continue_ s1
  else if ret.ret.code = .Unmatched then
    .next s1
  else
    PUSH_ERROR_AND_RETURN s1
      ("Parsing attribute `" ++ name ++ "` failed. Error: " ++ ret.ret.err)

/-- `PARSE_EXTENT_ATTRIBUTE(table, prop, name, klass, target)`. -/
def PARSE_EXTENT_ATTRIBUTE {τ : Type} (name : String)
    (target : Field τ (TypedAttribute (Animatable Extent))) (s : ReconState τ)
    (prop : String × Property) : Step (ReconState τ) :=
  let ret := ParseExtentAttribute s.table prop.1 prop.2 name (target.get s.prim)
  let s1 : ReconState τ := { s with table := ret.table, prim := target.set ret.target s.prim }
  if ret.ret.code = .Success ∨ ret.ret.code = .AlreadyProcessed then
    .continue_ s1
  else if ret.ret.code = .Unmatched then
    .next s1
  else
    PUSH_ERROR_AND_RETURN s1 ("Parsing attribute `extent` failed. Error: " ++ ret.ret.err)

/-- Modelled from the spec: `quote` (str-util.hh is absent): the string between double
quotes. -/
def quote (s : String) : String := "\"" ++ s ++ "\""

/-- Modelled from the spec: `join(sep, xs)` (str-util.hh is absent): the strings with
`sep` between neighbours. -/
def join (sep : String) (xs : List String) : String := sep.intercalate xs

/-- `CheckAllowedTokens` (the `std::vector` overload); an empty table allows all. -/
def CheckAllowedTokens {E : Type} (allowedTokens : List (E × String)) (tok : String) :
    Except String Bool :=
  if allowedTokens.isEmpty then .ok true
  else if allowedTokens.any (fun item => tok = item.2) then .ok true
  else
    .error ("Allowed tokens are [" ++ join ", " ((allowedTokens.map Prod.snd).map quote)
      ++ "] but got " ++ quote tok ++ ".")

/-- `EnumHandler<T>`. -/
def EnumHandler {E : Type} (prop_name : String) (tok : String) (enums : List (E × String)) :
    Except String E :=
  match CheckAllowedTokens enums tok with
  | .error e => .error e
  | .ok _ =>
    match enums.find? (fun item => tok = item.2) with
    | some item => .ok item.1
    | none => .error (quote tok ++ " is an invalid token for attribute `" ++ prop_name ++ "`")

/-- `Purpose`. -/
inductive Purpose where
  | Default
  | Render
  | Proxy
  | Guide
  deriving DecidableEq, Repr

/-- `Visibility`. -/
inductive Visibility where
  | Inherited
  | Invisible
  deriving DecidableEq, Repr

/-- `Orientation`. -/
inductive Orientation where
  | RightHanded
  | LeftHanded
  deriving DecidableEq, Repr

/-- `PurposeEnumHandler`. -/
def PurposeEnumHandler (tok : String) : Except String Purpose :=
  EnumHandler "purpose" tok
    [(.Default, "default"), (.Proxy, "proxy"), (.Render, "render"), (.Guide, "guide")]

/-- `VisibilityEnumHandler`. -/
def VisibilityEnumHandler (tok : String) : Except String Visibility :=
  EnumHandler "visilibity" tok [(.Inherited, "inherited"), (.Invisible, "invisible")]

/-- `OrientationEnumHandler`. -/
def OrientationEnumHandler (tok : String) : Except String Orientation :=
  EnumHandler "orientation" tok [(.RightHanded, "rightHanded"), (.LeftHanded, "leftHanded")]

/-- `PARSE_ENUM_PROPETY(table, prop, name, enum_handler, klass, target)`; `klass_name`
stands for `value::TypeTraits<klass>::type_name()`, and `assign` for the assignment
`target = e.value()`. -/
def PARSE_ENUM_PROPETY {τ E : Type} (name : String) (enum_handler : String → Except String E)
    (klass_name : String) (assign : E → τ → τ) (s : ReconState τ)
    (prop : String × Property) : Step (ReconState τ) :=
  if prop.1 = name then
    if name ∈ s.table then .continue_ s
    else
      let attr := prop.2.get_attribute
      match attr.get_value tokenTraits with
      | some tok =>
        match enum_handler tok with
        | .ok e => .next { s with prim := assign e s.prim, table := insert name s.table }
        | .error msg => PUSH_ERROR_AND_RETURN s ("(" ++ klass_name ++ ") " ++ msg)
      | none =>
        PUSH_ERROR_AND_RETURN s
          ("(" ++ klass_name ++ ") Property type mismatch. " ++ name
            ++ " must be type `token`, but got `" ++ attr.type_name ++ "`.")
  else .next s

/-- `ADD_PROPERTY(table, prop, klass, dst)`. -/
def ADD_PROPERTY {τ : Type} (dst : Field τ PropertyMap) (s : ReconState τ)
    (prop : String × Property) : Step (ReconState τ) :=
  if prop.1 ∉ s.table then
    .next { s with prim := dst.set ((dst.get s.prim).assign prop.1 prop.2) s.prim,
                   table := insert prop.1 s.table }
  else .next s

/-- `PARSE_PROPERTY_END_MAKE_ERROR(table, prop)`. -/
def PARSE_PROPERTY_END_MAKE_ERROR {τ : Type} (s : ReconState τ)
    (prop : String × Property) : Step (ReconState τ) :=
  if prop.1 ∉ s.table then
    PUSH_ERROR_AND_RETURN s ("Unsupported/unimplemented property: " ++ prop.1)
  else .next s

/-- `PARSE_PROPERTY_END_MAKE_WARN(table, prop)`. -/
def PARSE_PROPERTY_END_MAKE_WARN {τ : Type} (s : ReconState τ)
    (prop : String × Property) : Step (ReconState τ) :=
  if prop.1 ∉ s.table then
    .next (PUSH_WARN s ("Unsupported/unimplemented property: " ++ prop.1))
  else .next s

/-- Modelled from the spec: `startsWith` (str-util.hh is absent). -/
def startsWith (s pre : String) : Bool := pre.data.isPrefixOf s.data

/-- Modelled from the spec: `removePrefix` (str-util.hh is absent): the string without
the given start when it starts with it, and the string itself otherwise. -/
def removePrefix (s pre : String) : String :=
  if startsWith s pre then String.mk (s.data.drop pre.data.length) else s

/-- `XformOp::OpType`. -/
inductive OpType where
  | Transform
  | Translate
  | Scale
  | RotateX
  | RotateY
  | RotateZ
  | RotateXYZ
  | RotateXZY
  | RotateYXZ
  | RotateYZX
  | RotateZXY
  | RotateZYX
  | Orient
  | ResetXformStack
  deriving DecidableEq, Repr

/-- What an `XformOp` holds after `set_value` or `set_timesamples`, or nothing. -/
inductive XformOpVar where
  | none
  | value (v : Value)
  | timesamples (ts : List Sample)
  deriving DecidableEq, Repr

/-- Modelled from the spec: `XformOp` (xform.hh is absent): op type, `inverted` flag,
suffix and value. -/
structure XformOp where
  op_type : OpType
  inverted : Bool
  suffix : String
  var : XformOpVar
  deriving DecidableEq, Repr

/-- Modelled from the spec: `value::TypeTraits<std::vector<value::token>>`
(value-types.hh is absent). -/
def tokenArrayTraits : TypeTraits (List String) where
  type_name := "token[]"
  underlying_type_name := "token[]"
  get_value := fun v =>
    match v with
    | .tokenArray xs => some xs
    | _ => none

/-- Modelled from the spec: `attr.get_value<value::matrix4d>()`, the value kept as a
`value::Value`. -/
def Attribute.get_matrix4d (a : Attribute) : Option Value :=
  a.var.scalar.bind (fun v => match v with | .matrix4d _ => some v | _ => none)

/-- Modelled from the spec: `attr.get_value<value::double3>()`. -/
def Attribute.get_double3 (a : Attribute) : Option Value :=
  a.var.scalar.bind (fun v => match v with | .double3 _ _ _ => some v | _ => none)

/-- Modelled from the spec: `attr.get_value<value::float3>()`. -/
def Attribute.get_float3 (a : Attribute) : Option Value :=
  a.var.scalar.bind (fun v => match v with | .float3 _ _ _ => some v | _ => none)

/-- Modelled from the spec: `attr.get_value<double>()`. -/
def Attribute.get_double (a : Attribute) : Option Value :=
  a.var.scalar.bind (fun v => match v with | .double _ => some v | _ => none)

/-- Modelled from the spec: `attr.get_value<float>()`. -/
def Attribute.get_float (a : Attribute) : Option Value :=
  a.var.scalar.bind (fun v => match v with | .float _ => some v | _ => none)

/-- Modelled from the spec: `attr.get_value<value::quatf>()`. -/
def Attribute.get_quatf (a : Attribute) : Option Value :=
  a.var.scalar.bind (fun v => match v with | .quatf _ _ _ _ => some v | _ => none)

/-- Modelled from the spec: `attr.get_value<value::quatd>()`. -/
def Attribute.get_quatd (a : Attribute) : Option Value :=
  a.var.scalar.bind (fun v => match v with | .quatd _ _ _ _ => some v | _ => none)

/-- The lambda `SplitXformOpToken` of `ReconstructXformOpsFromProperties`: nothing when
`s` does not start with `pre`; the empty suffix for `pre` alone; the text after `pre:`
otherwise. -/
def SplitXformOpToken (s pre : String) : Option String :=
  if startsWith s pre then
    if s = pre then some ""
    else
      let suffix := removePrefix s pre
      if suffix.length = 1 then none
      else if suffix.data.head? = some ':' then some (String.mk (suffix.data.drop 1))
      else none
  else none

/-- The value read that every op branch of `ReconstructXformOpsFromProperties` repeats:
the time samples when the attribute has them, else the first of the two typed reads
that succeeds, else nothing (the branch then reports its type error). -/
def readOpValue (attr : Attribute) (first second : Option Value) : Option XformOpVar :=
  if attr.var.is_timesamples then some (.timesamples attr.var.ts_raw)
  else
    match first with
    | some v => some (.value v)
    | none =>
      match second with
      | some v => some (.value v)
      | none => none

/-- The state of `ReconstructXformOpsFromProperties`: the in/out `table`, the `xformOps`
vector and `err`. -/
structure XformState where
  table : Table
  xformOps : List XformOp
  err : Option String

/-- `PUSH_ERROR_AND_RETURN(msg)` inside `ReconstructXformOpsFromProperties` (see
`PUSH_ERROR_AND_RETURN`). -/
def xformError (s : XformState) (msg : String) : Outcome XformState :=
  .fail { s with err := PushError s.err msg }

/-- The end of an op branch: the op is appended and the token recorded, or the type
error of the branch is pushed and false returned. -/
def finishOp (s : XformState) (tok : String) (op_type : OpType) (inverted : Bool)
    (suffix : String) (v : Option XformOpVar) (msg : String) : Outcome XformState :=
  match v with
  | some var =>
    .ok { s with xformOps := s.xformOps ++ [⟨op_type, inverted, suffix, var⟩],
                 table := insert tok s.table }
  | none => xformError s msg

/-- The body of the loop over the tokens of `xformOpOrder`, for the token `item` at
index `i`.  `ok` stands for reaching the end of the body (or its `continue`).  In the
`rotateY` branch the source assigns `op.suffix = rotX.value()`, the optional of the
`rotateX` test that has just failed; `value()` on that empty optional does not
return (`raise`). -/
def xformOpStep (properties : PropertyMap) (s : XformState) (i : Nat) (item : String) :
    Outcome XformState :=
  if startsWith item "!resetXformStack!" then
    if item ≠ "!resetXformStack!" then
      xformError s
        "`!resetXformStack!` must be defined solely(not to be a prefix to \"xformOp:*\")"
    else if i ≠ 0 then
      xformError s
        "`!resetXformStack!` must appear at the first element of xformOpOrder list."
    else
      .ok { s with xformOps := s.xformOps ++ [⟨.ResetXformStack, false, "", .none⟩] }
  else
    let inverted := startsWith item "!invert!"
    let tok := if startsWith item "!invert!" then removePrefix item "!invert!" else item
    match properties.find tok with
    | none => xformError s ("Property `" ++ tok ++ "` not found.")
    | some p =>
      if p.is_connection then
        xformError s
          ("Connection(.connect) of xformOp property is not yet supported: `" ++ tok ++ "`")
      else
        let attr := p.get_attribute
        match SplitXformOpToken tok "xformOp:transform" with
        | some xfm =>
          finishOp s tok .Transform inverted xfm
            (readOpValue attr attr.get_matrix4d none)
            ("`xformOp:transform` must be type `matrix4d`, but got type `"
              ++ attr.type_name ++ "`.")
        | none =>
        match SplitXformOpToken tok "xformOp:translate" with
        | some tx =>
          finishOp s tok .Translate inverted tx
            (readOpValue attr attr.get_double3 attr.get_float3)
            ("`xformOp:translate` must be type `double3` or `float3`, but got type `"
              ++ attr.type_name ++ "`.")
        | none =>
        match SplitXformOpToken tok "xformOp:scale" with
        | some scale =>
          finishOp s tok .Scale inverted scale
            (readOpValue attr attr.get_double3 attr.get_float3)
            ("`xformOp:scale` must be type `double3` or `float3`, but got type `"
              ++ attr.type_name ++ "`.")
        | none =>
        let rotX := SplitXformOpToken tok "xformOp:rotateX"
        match rotX with
        | some sfx =>
          finishOp s tok .RotateX inverted sfx
            (readOpValue attr attr.get_double attr.get_float)
            ("`xformOp:rotateX` must be type `double` or `float`, but got type `"
              ++ attr.type_name ++ "`.")
        | none =>
        match SplitXformOpToken tok "xformOp:rotateY" with
        | some _rotY =>
          match rotX with
          | none => .raise
          | some sfx =>
            finishOp s tok .RotateY inverted sfx
              (readOpValue attr attr.get_double attr.get_float)
              ("`xformOp:rotateY` must be type `double` or `float`, but got type `"
                ++ attr.type_name ++ "`.")
        | none =>
        match SplitXformOpToken tok "xformOp:rotateZ" with
        | some rotZ =>
          finishOp s tok .RotateY inverted rotZ
            (readOpValue attr attr.get_double attr.get_float)
            ("`xformOp:rotateZ` must be type `double` or `float`, but got type `"
              ++ attr.type_name ++ "`.")
        | none =>
        match SplitXformOpToken tok "xformOp:rotateXYZ" with
        | some rotateXYZ =>
          finishOp s tok .RotateXYZ inverted rotateXYZ
            (readOpValue attr attr.get_double3 attr.get_float3)
            ("`xformOp:rotateXYZ` must be type `double3` or `float3`, but got type `"
              ++ attr.type_name ++ "`.")
        | none =>
        match SplitXformOpToken tok "xformOp:rotateXZY" with
        | some rotateXZY =>
          finishOp s tok .RotateXZY inverted rotateXZY
            (readOpValue attr attr.get_double3 attr.get_float3)
            ("`xformOp:rotateXZY` must be type `double3` or `float3`, but got type `"
              ++ attr.type_name ++ "`.")
        | none =>
        match SplitXformOpToken tok "xformOp:rotateYXZ" with
        | some rotateYXZ =>
          finishOp s tok .RotateYXZ inverted rotateYXZ
            (readOpValue attr attr.get_double3 attr.get_float3)
            ("`xformOp:rotateYXZ` must be type `double3` or `float3`, but got type `"
              ++ attr.type_name ++ "`.")
        | none =>
        match SplitXformOpToken tok "xformOp:rotateYZX" with
        | some rotateYZX =>
          finishOp s tok .RotateYZX inverted rotateYZX
            (readOpValue attr attr.get_double3 attr.get_float3)
            ("`xformOp:rotateYZX` must be type `double3` or `float3`, but got type `"
              ++ attr.type_name ++ "`.")
        | none =>
        match SplitXformOpToken tok "xformOp:rotateZXY" with
        | some rotateZXY =>
          finishOp s tok .RotateZXY inverted rotateZXY
            (readOpValue attr attr.get_double3 attr.get_float3)
            ("`xformOp:rotateZXY` must be type `double3` or `float3`, but got type `"
              ++ attr.type_name ++ "`.")
        | none =>
        match SplitXformOpToken tok "xformOp:rotateZYX" with
        | some rotateZYX =>
          finishOp s tok .RotateZYX inverted rotateZYX
            (readOpValue attr attr.get_double3 attr.get_float3)
            ("`xformOp:rotateZYX` must be type `double3` or `float3`, but got type `"
              ++ attr.type_name ++ "`.")
        | none =>
        match SplitXformOpToken tok "xformOp:orient" with
        | some orient =>
          finishOp s tok .Orient inverted orient
            (readOpValue attr attr.get_quatf attr.get_quatd)
            ("`xformOp:orient` must be type `quatf` or `quatd`, but got type `"
              ++ attr.type_name ++ "`.")
        | none =>
          xformError s "token for xformOpOrder must have namespace `xformOp:***`, or ."

/-- The loop `for (size_t i = 0; i < pv.value().size(); i++)` of
`ReconstructXformOpsFromProperties`, from index `i` on. -/
def xformOpLoop (properties : PropertyMap) : XformState → Nat → List String → Outcome XformState
  | s, _, [] => .ok s
  | s, i, item :: rest =>
    match xformOpStep properties s i item with
    | .ok s1 => xformOpLoop properties s1 (i + 1) rest
    | .fail s1 => .fail s1
    | .raise => .raise

/-- `ReconstructXformOpsFromProperties`. -/
def ReconstructXformOpsFromProperties (table : Table) (properties : PropertyMap)
    (xformOps : List XformOp) (err : Option String) : Outcome XformState :=
  let s : XformState := ⟨table, xformOps, err⟩
  if properties.count "xformOpOrder" then
    match properties.find "xformOpOrder" with
    | none => .raise
    | some prop =>
      if prop.is_relationship then
        xformError s "Relationship for `xformOpOrder` is not supported."
      else
        match prop.get_attribute.get_value tokenArrayTraits with
        | some pv =>
          if prop.get_attribute.variability ≠ .Uniform then
            xformError s ("`xformOpOrder` must have `uniform` variability.")
          else
            match xformOpLoop properties s 0 pv with
            | .ok s1 => .ok { s1 with table := insert "xformOpOrder" s1.table }
            | .fail s1 => .fail s1
            | .raise => .raise
        | none =>
          xformError s
            ("`xformOpOrder` must be type `token[]` but got type `"
              ++ prop.get_attribute.type_name ++ "`.")
  else
    .ok { s with table := insert "xformOpOrder" s.table }

/-- `GeomSphere`, restricted to the members that `ReconstructPrim<GeomSphere>` writes:
the xform ops, the three material-binding relationships, `radius` (fallback 2.0),
`extent`, `purpose` and the residual `props`. -/
structure GeomSphere where
  xformOps : List XformOp
  materialBinding : Option Relationship
  materialBindingCorrection : Option Relationship
  materialBindingPreview : Option Relationship
  radius : TypedAttributeWithFallback (Animatable Rat)
  extent : TypedAttribute (Animatable Extent)
  purpose : TypedAttributeWithFallback Purpose
  props : PropertyMap

/-- A default-constructed `GeomSphere`. -/
def GeomSphere.fresh : GeomSphere where
  xformOps := []
  materialBinding := none
  materialBindingCorrection := none
  materialBindingPreview := none
  radius := TypedAttributeWithFallback.fresh (Animatable.ofValue 2)
  extent := TypedAttribute.fresh
  purpose := TypedAttributeWithFallback.fresh .Default
  props := []

/-- The lvalue `sphere->materialBinding`. -/
def GeomSphere.materialBindingField : Field GeomSphere (Option Relationship) :=
  ⟨fun g => g.materialBinding, fun v g => { g with materialBinding := v }⟩

/-- The lvalue `sphere->materialBindingCorrection`. -/
def GeomSphere.materialBindingCorrectionField : Field GeomSphere (Option Relationship) :=
  ⟨fun g => g.materialBindingCorrection, fun v g => { g with materialBindingCorrection := v }⟩

/-- The lvalue `sphere->materialBindingPreview`. -/
def GeomSphere.materialBindingPreviewField : Field GeomSphere (Option Relationship) :=
  ⟨fun g => g.materialBindingPreview, fun v g => { g with materialBindingPreview := v }⟩

/-- The lvalue `sphere->radius`. -/
def GeomSphere.radiusField :
    Field GeomSphere (TypedAttributeWithFallback (Animatable Rat)) :=
  ⟨fun g => g.radius, fun v g => { g with radius := v }⟩

/-- The lvalue `sphere->extent`. -/
def GeomSphere.extentField : Field GeomSphere (TypedAttribute (Animatable Extent)) :=
  ⟨fun g => g.extent, fun v g => { g with extent := v }⟩

/-- The lvalue `sphere->props`. -/
def GeomSphere.propsField : Field GeomSphere PropertyMap :=
  ⟨fun g => g.props, fun v g => { g with props := v }⟩

/-- The arms of the property loop of `ReconstructPrim<GeomSphere>` that stand before
`ADD_PROPERTY`; `klass_name` stands for `value::TypeTraits<GeomSphere>::type_name()`. -/
def GeomSphere.arms (klass_name : String) (s : ReconState GeomSphere)
    (prop : String × Property) : Step (ReconState GeomSphere) :=
  (PARSE_SINGLE_TARGET_PATH_RELATION "material:binding"
      GeomSphere.materialBindingField s prop).andThen fun s =>
  (PARSE_SINGLE_TARGET_PATH_RELATION "material:binding:correction"
      GeomSphere.materialBindingCorrectionField s prop).andThen fun s =>
  (PARSE_SINGLE_TARGET_PATH_RELATION "material:binding:preview"
      GeomSphere.materialBindingPreviewField s prop).andThen fun s =>
  (PARSE_TYPED_ATTRIBUTE (ParseTypedAttribute_WithFallbackAnimatable doubleTraits) "radius"
      GeomSphere.radiusField s prop).andThen fun s =>
  (PARSE_EXTENT_ATTRIBUTE "extent" GeomSphere.extentField s prop).andThen fun s =>
  PARSE_ENUM_PROPETY "purpose" PurposeEnumHandler klass_name
      (fun e g => { g with purpose := g.purpose.set_value e }) s prop

/-- The body of the property loop of `ReconstructPrim<GeomSphere>`. -/
def GeomSphere.body (klass_name : String) (s : ReconState GeomSphere)
    (prop : String × Property) : Step (ReconState GeomSphere) :=
  (GeomSphere.arms klass_name s prop).andThen fun s =>
  (ADD_PROPERTY GeomSphere.propsField s prop).andThen fun s =>
  PARSE_PROPERTY_END_MAKE_ERROR s prop

/-- `ReconstructPrim<GeomSphere>`. -/
def ReconstructPrim_GeomSphere (klass_name : String) (properties : PropertyMap)
    (sphere : GeomSphere) (warn err : Option String) : Outcome (ReconState GeomSphere) :=
  match ReconstructXformOpsFromProperties ∅ properties sphere.xformOps err with
  | .fail x => .fail ⟨x.table, { sphere with xformOps := x.xformOps }, warn, x.err⟩
  | .raise => .raise
  | .ok x =>
    propertyLoop (GeomSphere.body klass_name)
      ⟨x.table, { sphere with xformOps := x.xformOps }, warn, x.err⟩ properties

/-- The body of a property loop that ends with `ADD_PROPERTY`: the schema arms `arms`,
then `ADD_PROPERTY` into `dst`, then the closing check `endArm`
(`PARSE_PROPERTY_END_MAKE_ERROR` or `PARSE_PROPERTY_END_MAKE_WARN`). -/
def bodyWithAddProperty {τ : Type}
    (arms : ReconState τ → String × Property → Step (ReconState τ))
    (dst : Field τ PropertyMap)
    (endArm : ReconState τ → String × Property → Step (ReconState τ))
    (s : ReconState τ) (prop : String × Property) : Step (ReconState τ) :=
  (arms s prop).andThen fun s1 =>
  (ADD_PROPERTY dst s1 prop).andThen fun s2 =>
  endArm s2 prop

/-- The properties that, in the run of such a loop from the state `s`, no schema arm
consumes: the arms fall through on them and their name is not in the table when
`ADD_PROPERTY` is reached. -/
def unconsumed {τ : Type}
    (arms : ReconState τ → String × Property → Step (ReconState τ))
    (dst : Field τ PropertyMap)
    (endArm : ReconState τ → String × Property → Step (ReconState τ)) :
    ReconState τ → List (String × Property) → List (String × Property)
  | _, [] => []
  | s, prop :: rest =>
    match arms s prop with
    | .next s1 =>
      match (ADD_PROPERTY dst s1 prop).andThen (fun s2 => endArm s2 prop) with
      | .next s3 =>
        (if prop.1 ∈ s1.table then [] else [prop]) ++ unconsumed arms dst endArm s3 rest
      | .continue_ s3 =>
        (if prop.1 ∈ s1.table then [] else [prop]) ++ unconsumed arms dst endArm s3 rest
      | .ret_false _ => []
    | .continue_ s1 => unconsumed arms dst endArm s1 rest
    | .ret_false _ => []

/-- What an `ok` outcome of one op branch leaves behind: the token recorded in the table
and `err` untouched. -/
def okTable (tok : String) (s : XformState) (o : Outcome XformState) : Prop :=
  ∀ s1, o = .ok s1 → s1.table = insert tok s.table ∧ s1.err = s.err

/-- The property name a token of xformOpOrder refers to: the token without its
`!invert!` start. -/
def xformOpName (item : String) : String :=
  if startsWith item "!invert!" then removePrefix item "!invert!" else item

/-- The names of the properties that the xformOpOrder tokens of `properties` refer to:
every token except `!resetXformStack!`, without its `!invert!` start. -/
def xformOpNames (properties : PropertyMap) : List String :=
  match properties.find "xformOpOrder" with
  | none => []
  | some prop =>
    match prop.get_attribute.get_value tokenArrayTraits with
    | none => []
    | some pv =>
      (pv.filter (fun item => !startsWith item "!resetXformStack!")).map xformOpName

/-- The property names that the schema slots of `ReconstructPrim<GeomSphere>` take. -/
def GeomSphere.slotNames : List String :=
  ["material:binding", "material:binding:correction", "material:binding:preview",
    "radius", "radius.connect", "extent", "extent.connect", "purpose"]

/-- A property name is consumed in `ReconstructPrim<GeomSphere>` when a schema slot
takes it, or it is `xformOpOrder`, or an xformOpOrder token names it. -/
def GeomSphere.consumed (properties : PropertyMap) (k : String) : Bool :=
  decide (k ∈ GeomSphere.slotNames) || decide (k = "xformOpOrder")
    || decide (k ∈ xformOpNames properties)

/-- What the property loop needs to know of a matcher `m` for the slot `X`: it answers
`Unmatched`, changing nothing, exactly when the property is named neither `X` nor
`X.connect`, and the only name it ever adds to the table is `X`. -/
def MatcherSpec {α : Type} (m : Matcher α) (X : String) : Prop :=
  ∀ (table : Table) (prop_name : String) (prop : Property) (target : α),
    (prop_name ≠ X → prop_name ≠ X ++ ".connect" →
      m table prop_name prop X target = ⟨⟨.Unmatched, ""⟩, table, target⟩)
    ∧ ((prop_name = X ∨ prop_name = X ++ ".connect") →
      (m table prop_name prop X target).ret.code ≠ .Unmatched)
    ∧ ((m table prop_name prop X target).table = table
        ∨ (m table prop_name prop X target).table = insert X table)

/-- What the property loop needs to know of a schema arm that takes the property names
`names` and leaves the residual map `dst` alone: it falls through, changing nothing, on
every other name; it never writes `dst`, never shrinks the table and adds only names of
`names` to it; and when it falls through on one of its names, that name is in the
table. -/
def ArmSpec {τ : Type} (dst : Field τ PropertyMap)
    (arm : ReconState τ → String × Property → Step (ReconState τ))
    (names : List String) : Prop :=
  ∀ (s : ReconState τ) (prop : String × Property),
    (prop.1 ∉ names → arm s prop = .next s)
    ∧ (∀ s1, (arm s prop = .next s1 ∨ arm s prop = .continue_ s1) →
        dst.get s1.prim = dst.get s.prim ∧ s.table ⊆ s1.table
        ∧ ∀ x ∈ s1.table, x ∈ s.table ∨ x ∈ names)
    ∧ (prop.1 ∈ names → ∀ s1, arm s prop = .next s1 → prop.1 ∈ s1.table)

/-- A sample property map of a sphere: `int radius = 1`, a type error, followed by a
custom property. -/
def sampleBadSphere : PropertyMap :=
  [("radius", Property.ofScalar "int" .Varying (.int 1)),
   ("userProperties:note", Property.ofScalar "string" .Varying (.other "string"))]

/-- A sample property map of a sphere: a primvar, `double radius = 1.5`, a translate op
and the `xformOpOrder` that names it. -/
def sampleSphere : PropertyMap :=
  [("primvars:displayColor", Property.ofScalar "color3f[]" .Varying (.other "color3f[]")),
   ("radius", Property.ofScalar "double" .Varying (.double (3/2))),
   ("xformOp:translate", Property.ofScalar "double3" .Varying (.double3 1 2 3)),
   ("xformOpOrder", Property.ofScalar "token[]" .Uniform (.tokenArray ["xformOp:translate"]))]

/-- The state in which `ReconstructPrim<GeomSphere>` returns true on `sampleSphere`. -/
def sampleSphereResult : ReconState GeomSphere where
  table := insert "radius" (insert "primvars:displayColor"
    (insert "xformOpOrder" (insert "xformOp:translate" ∅)))
  prim :=
    { xformOps := [⟨.Translate, false, "", .value (.double3 1 2 3)⟩]
      materialBinding := none
      materialBindingCorrection := none
      materialBindingPreview := none
      radius := ((TypedAttributeWithFallback.fresh (Animatable.ofValue 2)).set_value
        (Animatable.ofValue (3/2))).set_metas []
      extent := TypedAttribute.fresh
      purpose := TypedAttributeWithFallback.fresh .Default
      props := [("primvars:displayColor",
        Property.ofScalar "color3f[]" .Varying (.other "color3f[]"))] }
  warn := some ""
  err := some ""

/-- `GeomMesh::InterpolateBoundary` (usdGeom.hh). -/
inductive GeomMesh.InterpolateBoundary where
  | InterpolateBoundaryNone
  | EdgeAndCorner
  | EdgeOnly
  deriving DecidableEq, Repr

/-- `GeomMesh::FaceVaryingLinearInterpolation` (usdGeom.hh). -/
inductive GeomMesh.FaceVaryingLinearInterpolation where
  | CornersPlus1
  | CornersPlus2
  | CornersOnly
  | Boundaries
  | FaceVaryingLinearInterpolationNone
  | All
  deriving DecidableEq, Repr

/-- `GeomMesh::SubdivisionScheme` (usdGeom.hh). -/
inductive GeomMesh.SubdivisionScheme where
  | CatmullClark
  | Loop
  | Bilinear
  | SubdivisionSchemeNone
  deriving DecidableEq, Repr

/-- `GeomCamera::Projection` (usdGeom.hh). -/
inductive GeomCamera.Projection where
  | Perspective
  | Orthographic
  deriving DecidableEq, Repr

/-- `GeomCamera::StereoRole` (usdGeom.hh). -/
inductive GeomCamera.StereoRole where
  | Mono
  | Left
  | Right
  deriving DecidableEq, Repr

/-- `GeomBasisCurves::Type` (usdGeom.hh). -/
inductive GeomBasisCurves.Type where
  | Cubic
  | Linear
  deriving DecidableEq, Repr

/-- `GeomBasisCurves::Basis` (usdGeom.hh). -/
inductive GeomBasisCurves.Basis where
  | Bezier
  | Bspline
  | CatmullRom
  deriving DecidableEq, Repr

/-- `GeomBasisCurves::Wrap` (usdGeom.hh). -/
inductive GeomBasisCurves.Wrap where
  | Nonperiodic
  | Periodic
  | Pinned
  deriving DecidableEq, Repr

/-- The token written beside each enumerator of `GeomMesh::InterpolateBoundary` in
usdGeom.hh. -/
def GeomMesh.InterpolateBoundary.token : GeomMesh.InterpolateBoundary → String
  | .InterpolateBoundaryNone => "none"
  | .EdgeAndCorner => "edgeAndCorner"
  | .EdgeOnly => "edgeOnly"

/-- The token written beside each enumerator of `GeomMesh::FaceVaryingLinearInterpolation`
in usdGeom.hh. -/
def GeomMesh.FaceVaryingLinearInterpolation.token :
    GeomMesh.FaceVaryingLinearInterpolation → String
  | .CornersPlus1 => "cornersPlus1"
  | .CornersPlus2 => "cornersPlus2"
  | .CornersOnly => "cornersOnly"
  | .Boundaries => "boundaries"
  | .FaceVaryingLinearInterpolationNone => "none"
  | .All => "all"

/-- The token written beside each enumerator of `GeomMesh::SubdivisionScheme` in
usdGeom.hh. -/
def GeomMesh.SubdivisionScheme.token : GeomMesh.SubdivisionScheme → String
  | .CatmullClark => "catmullClark"
  | .Loop => "loop"
  | .Bilinear => "bilinear"
  | .SubdivisionSchemeNone => "none"

/-- The token written beside each enumerator of `GeomCamera::Projection` in usdGeom.hh. -/
def GeomCamera.Projection.token : GeomCamera.Projection → String
  | .Perspective => "perspective"
  | .Orthographic => "orthographic"

/-- The token written beside each enumerator of `GeomCamera::StereoRole` in usdGeom.hh. -/
def GeomCamera.StereoRole.token : GeomCamera.StereoRole → String
  | .Mono => "mono"
  | .Left => "left"
  | .Right => "right"

/-- The token written beside each enumerator of `GeomBasisCurves::Type` in usdGeom.hh. -/
def GeomBasisCurves.Type.token : GeomBasisCurves.Type → String
  | .Cubic => "cubic"
  | .Linear => "linear"

/-- The token written beside each enumerator of `GeomBasisCurves::Basis` in usdGeom.hh. -/
def GeomBasisCurves.Basis.token : GeomBasisCurves.Basis → String
  | .Bezier => "bezier"
  | .Bspline => "bspline"
  | .CatmullRom => "catmullRom"

/-- The token written beside each enumerator of `GeomBasisCurves::Wrap` in usdGeom.hh. -/
def GeomBasisCurves.Wrap.token : GeomBasisCurves.Wrap → String
  | .Nonperiodic => "nonperiodic"
  | .Periodic => "periodic"
  | .Pinned => "pinned"

/-- `SubdivisioSchemeHandler`, local to `ReconstructPrim<GeomMesh>`. -/
def GeomMesh.SubdivisioSchemeHandler (tok : String) : Except String GeomMesh.SubdivisionScheme :=
  EnumHandler "subdivisionScheme" tok
    [(.SubdivisionSchemeNone, "none"), (.CatmullClark, "catmullClark"), (.Loop, "loop"),
      (.Bilinear, "bilinear")]

/-- `InterpolateBoundaryHandler`, local to `ReconstructPrim<GeomMesh>`. -/
def GeomMesh.InterpolateBoundaryHandler (tok : String) :
    Except String GeomMesh.InterpolateBoundary :=
  EnumHandler "interpolateBoundary" tok
    [(.InterpolateBoundaryNone, "none"), (.EdgeAndCorner, "edgeAndCorner"),
      (.EdgeOnly, "edgeOnly")]

/-- `FaceVaryingLinearInterpolationHandler`, local to `ReconstructPrim<GeomMesh>`. -/
def GeomMesh.FaceVaryingLinearInterpolationHandler (tok : String) :
    Except String GeomMesh.FaceVaryingLinearInterpolation :=
  EnumHandler "facevaryingLinearInterpolation" tok
    [(.CornersPlus1, "cornersPlus1"), (.CornersPlus2, "cornersPlus2"),
      (.CornersOnly, "cornersOnly"), (.Boundaries, "boundaries"),
      (.FaceVaryingLinearInterpolationNone, "none"), (.All, "all")]

/-- `ProjectionHandler`, local to `ReconstructPrim<GeomCamera>`; it checks the token
with the `std::array` overload of `CheckAllowedTokens`, whose body is that of the
`std::vector` overload, and then searches the table itself. -/
def GeomCamera.ProjectionHandler (tok : String) : Except String GeomCamera.Projection :=
  let enums : List (GeomCamera.Projection × String) :=
    [(.Perspective, "perspective"), (.Orthographic, "orthographic")]
  match CheckAllowedTokens enums tok with
  | .error e => .error e
  | .ok _ =>
    match enums.find? (fun item => tok = item.2) with
    | some item => .ok item.1
    | none => .error (quote tok ++ " is invalid token for `projection` propety")

/-- `StereoRoleHandler`, local to `ReconstructPrim<GeomCamera>`. -/
def GeomCamera.StereoRoleHandler (tok : String) : Except String GeomCamera.StereoRole :=
  let enums : List (GeomCamera.StereoRole × String) :=
    [(.Mono, "mono"), (.Left, "left"), (.Right, "right")]
  match CheckAllowedTokens enums tok with
  | .error e => .error e
  | .ok _ =>
    match enums.find? (fun item => tok = item.2) with
    | some item => .ok item.1
    | none => .error (quote tok ++ " is invalid token for `stereoRole` propety")

/-- `BasisHandler`, local to `ReconstructPrim<GeomBasisCurves>`. -/
def GeomBasisCurves.BasisHandler (tok : String) : Except String GeomBasisCurves.Basis :=
  EnumHandler "basis" tok
    [(.Bezier, "bezier"), (.Bspline, "bspline"), (.CatmullRom, "catmullRom")]

/-- `TypeHandler`, local to `ReconstructPrim<GeomBasisCurves>`. -/
def GeomBasisCurves.TypeHandler (tok : String) : Except String GeomBasisCurves.Type :=
  EnumHandler "type" tok [(.Cubic, "cubic"), (.Linear, "linear")]

/-- `WrapHandler`, local to `ReconstructPrim<GeomBasisCurves>`. -/
def GeomBasisCurves.WrapHandler (tok : String) : Except String GeomBasisCurves.Wrap :=
  EnumHandler "wrap" tok
    [(.Nonperiodic, "nonperiodic"), (.Periodic, "periodic"), (.Pinned, "periodic")]

/-- What it means for an enum handler to realise the documented tokens `token` of an
enum: each enumerator is returned for its own token, a token that is accepted is the
token of the enumerator returned, and so two accepted tokens with the same enumerator
are equal and two enumerators with the same token are equal. -/
def HandlerBijective {E : Type} (handler : String → Except String E) (token : E → String) :
    Prop :=
  (∀ e, handler (token e) = .ok e)
  ∧ (∀ tok e, handler tok = .ok e → tok = token e)
  ∧ (∀ t1 t2 e, handler t1 = .ok e → handler t2 = .ok e → t1 = t2)
  ∧ (∀ e1 e2, token e1 = token e2 → e1 = e2)

/-- The `Extent` read from one value by `ConvertToAnimatable<Extent>` and
`ParseExtentAttribute`: the value must be a `float3[]` of exactly two elements, the
first being `lower` and the second `upper`. -/
def extentOfValue (v : Value) : Option Extent :=
  match float3ArrayTraits.get_value v with
  | some [lo, up] => some ⟨lo, up⟩
  | _ => none

/-- The sample that `ConvertToAnimatable<Extent>` adds for one raw sample. -/
def recordedExtentSample (s : Sample) : AnimSample Extent :=
  ⟨s.t, if s.blocked then none else extentOfValue s.value⟩

/-- Modelled from the spec: `Scope` (xform.hh is absent), a grouping primitive; the only
member that `ReconstructPrim<Scope>` writes is the residual `props`. -/
structure Scope where
  props : PropertyMap

/-- The lvalue `scope->props`. -/
def Scope.propsField : Field Scope PropertyMap :=
  ⟨fun g => g.props, fun v _ => { props := v }⟩

/-- The arms of the property loop of `ReconstructPrim<Scope>` that stand before
`ADD_PROPERTY`: there are none. -/
def Scope.arms (s : ReconState Scope) (_prop : String × Property) : Step (ReconState Scope) :=
  .next s

/-- The body of the property loop of `ReconstructPrim<Scope>`. -/
def Scope.body (s : ReconState Scope) (prop : String × Property) : Step (ReconState Scope) :=
  (ADD_PROPERTY Scope.propsField s prop).andThen fun s =>
  PARSE_PROPERTY_END_MAKE_WARN s prop

/-- `ReconstructPrim<Scope>`. -/
def ReconstructPrim_Scope (properties : PropertyMap) (scope : Scope)
    (warn err : Option String) : Outcome (ReconState Scope) :=
  propertyLoop Scope.body ⟨∅, scope, warn, err⟩ properties

/-- `Xform` (usdGeom.hh: a `GPrim` without members of its own), restricted to the
members that `ReconstructPrim<Xform>` writes.  The relationship slots hold what the
reconstructor assigns to them, a `Relationship`. -/
structure Xform where
  xformOps : List XformOp
  materialBinding : Option Relationship
  proxyPrim : Option Relationship
  visibility : TypedAttributeWithFallback (Animatable Visibility)
  purpose : TypedAttributeWithFallback Purpose
  orientation : TypedAttributeWithFallback Orientation
  extent : TypedAttribute (Animatable Extent)
  props : PropertyMap

/-- A default-constructed `Xform`, with the fallbacks of `GPrim`. -/
def Xform.fresh : Xform where
  xformOps := []
  materialBinding := none
  proxyPrim := none
  visibility := TypedAttributeWithFallback.fresh (Animatable.ofValue .Inherited)
  purpose := TypedAttributeWithFallback.fresh .Default
  orientation := TypedAttributeWithFallback.fresh .RightHanded
  extent := TypedAttribute.fresh
  props := []

/-- The lvalue `xform->materialBinding`. -/
def Xform.materialBindingField : Field Xform (Option Relationship) :=
  ⟨fun g => g.materialBinding, fun v g => { g with materialBinding := v }⟩

/-- The lvalue `xform->proxyPrim`. -/
def Xform.proxyPrimField : Field Xform (Option Relationship) :=
  ⟨fun g => g.proxyPrim, fun v g => { g with proxyPrim := v }⟩

/-- The lvalue `xform->extent`. -/
def Xform.extentField : Field Xform (TypedAttribute (Animatable Extent)) :=
  ⟨fun g => g.extent, fun v g => { g with extent := v }⟩

/-- The lvalue `xform->props`. -/
def Xform.propsField : Field Xform PropertyMap :=
  ⟨fun g => g.props, fun v g => { g with props := v }⟩

/-- The arms of the property loop of `ReconstructPrim<Xform>` that stand before
`ADD_PROPERTY`; `klass_name` stands for `value::TypeTraits<Xform>::type_name()`. -/
def Xform.arms (klass_name : String) (s : ReconState Xform)
    (prop : String × Property) : Step (ReconState Xform) :=
  (PARSE_SINGLE_TARGET_PATH_RELATION "material:binding"
      Xform.materialBindingField s prop).andThen fun s =>
  (PARSE_SINGLE_TARGET_PATH_RELATION "proxyPrim" Xform.proxyPrimField s prop).andThen fun s =>
  (PARSE_ENUM_PROPETY "visibility" VisibilityEnumHandler klass_name
      (fun e g => { g with visibility := g.visibility.set_value (Animatable.ofValue e) })
      s prop).andThen fun s =>
  (PARSE_ENUM_PROPETY "purpose" PurposeEnumHandler klass_name
      (fun e g => { g with purpose := g.purpose.set_value e }) s prop).andThen fun s =>
  (PARSE_ENUM_PROPETY "orientation" OrientationEnumHandler klass_name
      (fun e g => { g with orientation := g.orientation.set_value e }) s prop).andThen fun s =>
  PARSE_EXTENT_ATTRIBUTE "extent" Xform.extentField s prop

/-- The body of the property loop of `ReconstructPrim<Xform>`. -/
def Xform.body (klass_name : String) (s : ReconState Xform)
    (prop : String × Property) : Step (ReconState Xform) :=
  (Xform.arms klass_name s prop).andThen fun s =>
  (ADD_PROPERTY Xform.propsField s prop).andThen fun s =>
  PARSE_PROPERTY_END_MAKE_WARN s prop

/-- `ReconstructPrim<Xform>`. -/
def ReconstructPrim_Xform (klass_name : String) (properties : PropertyMap)
    (xform : Xform) (warn err : Option String) : Outcome (ReconState Xform) :=
  match ReconstructXformOpsFromProperties ∅ properties xform.xformOps err with
  | .fail x => .fail ⟨x.table, { xform with xformOps := x.xformOps }, warn, x.err⟩
  | .raise => .raise
  | .ok x =>
    propertyLoop (Xform.body klass_name)
      ⟨x.table, { xform with xformOps := x.xformOps }, warn, x.err⟩ properties

/-- The property names that the schema slots of `ReconstructPrim<Xform>` take. -/
def Xform.slotNames : List String :=
  ["material:binding", "proxyPrim", "visibility", "purpose", "orientation", "extent",
    "extent.connect"]

/-- An arm leaves `warn` alone: however it ends, the `warn` string is the one it
started with. -/
def WarnFrame {τ : Type} (arm : ReconState τ → String × Property → Step (ReconState τ)) :
    Prop :=
  ∀ (s : ReconState τ) (prop : String × Property) (s1 : ReconState τ),
    (arm s prop = .next s1 ∨ arm s prop = .continue_ s1 ∨ arm s prop = .ret_false s1) →
    s1.warn = s.warn

/-- A sample property map of a scope: two custom properties. -/
def sampleScope : PropertyMap :=
  [("myCustom", Property.ofScalar "float" .Varying (.float 1)),
   ("userProperties:note", Property.ofScalar "string" .Varying (.string "hello"))]

/-- `PARSE_PROXY_PRIM_RELATION(table, prop, ptarget)`; `target` is the lvalue
`ptarget->proxyPrim`. -/
def PARSE_PROXY_PRIM_RELATION {τ : Type} (target : Field τ (Option Relationship))
    (s : ReconState τ) (prop : String × Property) : Step (ReconState τ) :=
  if prop.1 = "proxyPrim" then
    if "proxyPrim" ∈ s.table then .continue_ s
    else if prop.2.is_relationship && prop.2.is_empty then
      PUSH_ERROR_AND_RETURN s
        ("`" ++ "proxyPrim" ++ "` must be a Relationship with Path target.")
    else
      let rel := prop.2.get_relationship
      if rel.is_path then
        .continue_ { s with prim := target.set (some rel) s.prim,
                            table := insert prop.1 s.table }
      else
        PUSH_ERROR_AND_RETURN s ("`" ++ "proxyPrim" ++ "` target must be Path.")
  else .next s

/-- `PARSE_TARGET_PATHS_RELATION(table, prop, propname, target)`. -/
def PARSE_TARGET_PATHS_RELATION {τ : Type} (propname : String)
    (target : Field τ (Option Relationship)) (s : ReconState τ)
    (prop : String × Property) : Step (ReconState τ) :=
  if prop.1 = propname then
    if propname ∈ s.table then .continue_ s
    else if !prop.2.is_relationship then
      PUSH_ERROR_AND_RETURN s ("`" ++ propname ++ "` must be a Relationship")
    else
      let rel := prop.2.get_relationship
      .continue_ { s with prim := target.set (some rel) s.prim,
                          table := insert prop.1 s.table }
  else .next s

/-- Modelled from the spec: `value::TypeTraits<std::vector<value::point3f>>`
(value-types.hh is absent): a role type over `float3[]`. -/
def point3fArrayTraits : TypeTraits (List float3) where
  type_name := "point3f[]"
  underlying_type_name := "float3[]"
  get_value := fun v =>
    match v with
    | .float3Array xs => some xs
    | _ => none

/-- Modelled from the spec: `value::TypeTraits<std::vector<value::normal3f>>`
(value-types.hh is absent): a role type over `float3[]`. -/
def normal3fArrayTraits : TypeTraits (List float3) where
  type_name := "normal3f[]"
  underlying_type_name := "float3[]"
  get_value := fun v =>
    match v with
    | .float3Array xs => some xs
    | _ => none

/-- Modelled from the spec: `value::TypeTraits<std::vector<int32_t>>` (value-types.hh is
absent). -/
def intArrayTraits : TypeTraits (List Int) where
  type_name := "int[]"
  underlying_type_name := "int[]"
  get_value := fun v =>
    match v with
    | .intArray xs => some xs
    | _ => none

/-- Modelled from the spec: `value::TypeTraits<std::vector<float>>` (value-types.hh is
absent). -/
def floatArrayTraits : TypeTraits (List Rat) where
  type_name := "float[]"
  underlying_type_name := "float[]"
  get_value := fun v =>
    match v with
    | .floatArray xs => some xs
    | _ => none

/-- `GeomMesh` (usdGeom.hh), restricted to the predefined attributes, the enum slots and
the members that `ReconstructPrim<GeomMesh>` writes.  The relationship slots hold what
the reconstructor assigns to them, a `Relationship`; `blendShapes` and
`blendShapeTargets` are not declared in the header at hand, which only notes them as
`uniform token[] skel:blendShapes` and `skel:blendShapeTargets`. -/
structure GeomMesh where
  xformOps : List XformOp
  proxyPrim : Option Relationship
  materialBinding : Option Relationship
  materialBindingCorrection : Option Relationship
  materialBindingPreview : Option Relationship
  skeleton : Option Relationship
  blendShapeTargets : Option Relationship
  points : TypedAttribute (Animatable (List float3))
  normals : TypedAttribute (Animatable (List float3))
  faceVertexCounts : TypedAttribute (Animatable (List Int))
  faceVertexIndices : TypedAttribute (Animatable (List Int))
  cornerIndices : TypedAttribute (Animatable (List Int))
  cornerSharpnesses : TypedAttribute (Animatable (List Rat))
  creaseIndices : TypedAttribute (Animatable (List Int))
  creaseLengths : TypedAttribute (Animatable (List Int))
  creaseSharpnesses : TypedAttribute (Animatable (List Rat))
  holeIndices : TypedAttribute (Animatable (List Int))
  doubleSided : TypedAttributeWithFallback Bool
  subdivisionScheme : TypedAttributeWithFallback GeomMesh.SubdivisionScheme
  interpolateBoundary : TypedAttributeWithFallback (Animatable GeomMesh.InterpolateBoundary)
  faceVaryingLinearInterpolation :
    TypedAttributeWithFallback (Animatable GeomMesh.FaceVaryingLinearInterpolation)
  purpose : TypedAttributeWithFallback Purpose
  orientation : TypedAttributeWithFallback Orientation
  extent : TypedAttribute (Animatable Extent)
  blendShapes : TypedAttribute (List String)
  props : PropertyMap

/-- A default-constructed `GeomMesh`, with the fallbacks of usdGeom.hh. -/
def GeomMesh.fresh : GeomMesh where
  xformOps := []
  proxyPrim := none
  materialBinding := none
  materialBindingCorrection := none
  materialBindingPreview := none
  skeleton := none
  blendShapeTargets := none
  points := TypedAttribute.fresh
  normals := TypedAttribute.fresh
  faceVertexCounts := TypedAttribute.fresh
  faceVertexIndices := TypedAttribute.fresh
  cornerIndices := TypedAttribute.fresh
  cornerSharpnesses := TypedAttribute.fresh
  creaseIndices := TypedAttribute.fresh
  creaseLengths := TypedAttribute.fresh
  creaseSharpnesses := TypedAttribute.fresh
  holeIndices := TypedAttribute.fresh
  doubleSided := TypedAttributeWithFallback.fresh false
  subdivisionScheme := TypedAttributeWithFallback.fresh .CatmullClark
  interpolateBoundary := TypedAttributeWithFallback.fresh (Animatable.ofValue .EdgeAndCorner)
  faceVaryingLinearInterpolation :=
    TypedAttributeWithFallback.fresh (Animatable.ofValue .CornersPlus1)
  purpose := TypedAttributeWithFallback.fresh .Default
  orientation := TypedAttributeWithFallback.fresh .RightHanded
  extent := TypedAttribute.fresh
  blendShapes := TypedAttribute.fresh
  props := []

/-- The lvalue `mesh->proxyPrim`. -/
def GeomMesh.proxyPrimField : Field GeomMesh (Option Relationship) :=
  ⟨fun g => g.proxyPrim, fun v g => { g with proxyPrim := v }⟩

/-- The lvalue `mesh->materialBinding`. -/
def GeomMesh.materialBindingField : Field GeomMesh (Option Relationship) :=
  ⟨fun g => g.materialBinding, fun v g => { g with materialBinding := v }⟩

/-- The lvalue `mesh->materialBindingCorrection`. -/
def GeomMesh.materialBindingCorrectionField : Field GeomMesh (Option Relationship) :=
  ⟨fun g => g.materialBindingCorrection, fun v g => { g with materialBindingCorrection := v }⟩

/-- The lvalue `mesh->materialBindingPreview`. -/
def GeomMesh.materialBindingPreviewField : Field GeomMesh (Option Relationship) :=
  ⟨fun g => g.materialBindingPreview, fun v g => { g with materialBindingPreview := v }⟩

/-- The lvalue `mesh->skeleton`. -/
def GeomMesh.skeletonField : Field GeomMesh (Option Relationship) :=
  ⟨fun g => g.skeleton, fun v g => { g with skeleton := v }⟩

/-- The lvalue `mesh->blendShapeTargets`. -/
def GeomMesh.blendShapeTargetsField : Field GeomMesh (Option Relationship) :=
  ⟨fun g => g.blendShapeTargets, fun v g => { g with blendShapeTargets := v }⟩

/-- The lvalue `mesh->points`. -/
def GeomMesh.pointsField : Field GeomMesh (TypedAttribute (Animatable (List float3))) :=
  ⟨fun g => g.points, fun v g => { g with points := v }⟩

/-- The lvalue `mesh->normals`. -/
def GeomMesh.normalsField : Field GeomMesh (TypedAttribute (Animatable (List float3))) :=
  ⟨fun g => g.normals, fun v g => { g with normals := v }⟩

/-- The lvalue `mesh->faceVertexCounts`. -/
def GeomMesh.faceVertexCountsField : Field GeomMesh (TypedAttribute (Animatable (List Int))) :=
  ⟨fun g => g.faceVertexCounts, fun v g => { g with faceVertexCounts := v }⟩

/-- The lvalue `mesh->faceVertexIndices`. -/
def GeomMesh.faceVertexIndicesField : Field GeomMesh (TypedAttribute (Animatable (List Int))) :=
  ⟨fun g => g.faceVertexIndices, fun v g => { g with faceVertexIndices := v }⟩

/-- The lvalue `mesh->cornerIndices`. -/
def GeomMesh.cornerIndicesField : Field GeomMesh (TypedAttribute (Animatable (List Int))) :=
  ⟨fun g => g.cornerIndices, fun v g => { g with cornerIndices := v }⟩

/-- The lvalue `mesh->doubleSided`. -/
def GeomMesh.doubleSidedField : Field GeomMesh (TypedAttributeWithFallback Bool) :=
  ⟨fun g => g.doubleSided, fun v g => { g with doubleSided := v }⟩

/-- The lvalue `mesh->extent`. -/
def GeomMesh.extentField : Field GeomMesh (TypedAttribute (Animatable Extent)) :=
  ⟨fun g => g.extent, fun v g => { g with extent := v }⟩

/-- The lvalue `mesh->blendShapes`. -/
def GeomMesh.blendShapesField : Field GeomMesh (TypedAttribute (List String)) :=
  ⟨fun g => g.blendShapes, fun v g => { g with blendShapes := v }⟩

/-- The lvalue `mesh->props`. -/
def GeomMesh.propsField : Field GeomMesh PropertyMap :=
  ⟨fun g => g.props, fun v g => { g with props := v }⟩

/-- The relationship arms of the property loop of `ReconstructPrim<GeomMesh>`. -/
def GeomMesh.relationArms (s : ReconState GeomMesh)
    (prop : String × Property) : Step (ReconState GeomMesh) :=
  (PARSE_PROXY_PRIM_RELATION GeomMesh.proxyPrimField s prop).andThen fun s =>
  (PARSE_SINGLE_TARGET_PATH_RELATION "material:binding"
      GeomMesh.materialBindingField s prop).andThen fun s =>
  (PARSE_SINGLE_TARGET_PATH_RELATION "material:binding:correction"
      GeomMesh.materialBindingCorrectionField s prop).andThen fun s =>
  (PARSE_SINGLE_TARGET_PATH_RELATION "material:binding:preview"
      GeomMesh.materialBindingPreviewField s prop).andThen fun s =>
  (PARSE_SINGLE_TARGET_PATH_RELATION "skel:skeleton" GeomMesh.skeletonField s prop).andThen
    fun s =>
  PARSE_TARGET_PATHS_RELATION "skel:blendShapeTargets" GeomMesh.blendShapeTargetsField s prop

/-- The typed-attribute arms of the property loop of `ReconstructPrim<GeomMesh>` up to
`doubleSided`; the six SubD arms all name `mesh->cornerIndices` as their target. -/
def GeomMesh.attributeArms (s : ReconState GeomMesh)
    (prop : String × Property) : Step (ReconState GeomMesh) :=
  (PARSE_TYPED_ATTRIBUTE (ParseTypedAttribute_Animatable point3fArrayTraits) "points"
      GeomMesh.pointsField s prop).andThen fun s =>
  (PARSE_TYPED_ATTRIBUTE (ParseTypedAttribute_Animatable normal3fArrayTraits) "normals"
      GeomMesh.normalsField s prop).andThen fun s =>
  (PARSE_TYPED_ATTRIBUTE (ParseTypedAttribute_Animatable intArrayTraits) "faceVertexCounts"
      GeomMesh.faceVertexCountsField s prop).andThen fun s =>
  (PARSE_TYPED_ATTRIBUTE (ParseTypedAttribute_Animatable intArrayTraits) "faceVertexIndices"
      GeomMesh.faceVertexIndicesField s prop).andThen fun s =>
  (PARSE_TYPED_ATTRIBUTE (ParseTypedAttribute_Animatable intArrayTraits) "cornerIndices"
      GeomMesh.cornerIndicesField s prop).andThen fun s =>
  (PARSE_TYPED_ATTRIBUTE (ParseTypedAttribute_Animatable intArrayTraits) "cornerSharpnesses"
      GeomMesh.cornerIndicesField s prop).andThen fun s =>
  (PARSE_TYPED_ATTRIBUTE (ParseTypedAttribute_Animatable intArrayTraits) "creaseIndices"
      GeomMesh.cornerIndicesField s prop).andThen fun s =>
  (PARSE_TYPED_ATTRIBUTE (ParseTypedAttribute_Animatable intArrayTraits) "creaseLengths"
      GeomMesh.cornerIndicesField s prop).andThen fun s =>
  (PARSE_TYPED_ATTRIBUTE (ParseTypedAttribute_Animatable intArrayTraits) "creaseSharpnesses"
      GeomMesh.cornerIndicesField s prop).andThen fun s =>
  (PARSE_TYPED_ATTRIBUTE (ParseTypedAttribute_Animatable intArrayTraits) "holeIndices"
      GeomMesh.cornerIndicesField s prop).andThen fun s =>
  PARSE_TYPED_ATTRIBUTE (ParseTypedAttribute_WithFallback boolTraits) "doubleSided"
      GeomMesh.doubleSidedField s prop

/-- The enum arms of the property loop of `ReconstructPrim<GeomMesh>`, followed by
`extent` and `skel:blendShapes`; `klass_name` stands for
`value::TypeTraits<GeomMesh>::type_name()`. -/
def GeomMesh.enumArms (klass_name : String) (s : ReconState GeomMesh)
    (prop : String × Property) : Step (ReconState GeomMesh) :=
  (PARSE_ENUM_PROPETY "subdivisionScheme" GeomMesh.SubdivisioSchemeHandler klass_name
      (fun e g => { g with subdivisionScheme := g.subdivisionScheme.set_value e })
      s prop).andThen fun s =>
  (PARSE_ENUM_PROPETY "interpolateBoundary" GeomMesh.InterpolateBoundaryHandler klass_name
      (fun e g => { g with
        interpolateBoundary := g.interpolateBoundary.set_value (Animatable.ofValue e) })
      s prop).andThen fun s =>
  (PARSE_ENUM_PROPETY "facevaryingLinearInterpolation"
      GeomMesh.FaceVaryingLinearInterpolationHandler klass_name
      (fun e g => { g with
        faceVaryingLinearInterpolation :=
          g.faceVaryingLinearInterpolation.set_value (Animatable.ofValue e) })
      s prop).andThen fun s =>
  (PARSE_ENUM_PROPETY "purpose" PurposeEnumHandler klass_name
      (fun e g => { g with purpose := g.purpose.set_value e }) s prop).andThen fun s =>
  (PARSE_ENUM_PROPETY "orientation" OrientationEnumHandler klass_name
      (fun e g => { g with orientation := g.orientation.set_value e }) s prop).andThen fun s =>
  (PARSE_EXTENT_ATTRIBUTE "extent" GeomMesh.extentField s prop).andThen fun s =>
  PARSE_TYPED_ATTRIBUTE (ParseTypedAttribute_Uniform tokenArrayTraits) "skel:blendShapes"
      GeomMesh.blendShapesField s prop

/-- The arms of the property loop of `ReconstructPrim<GeomMesh>` that stand before
`ADD_PROPERTY`, in the order of the source. -/
def GeomMesh.arms (klass_name : String) (s : ReconState GeomMesh)
    (prop : String × Property) : Step (ReconState GeomMesh) :=
  (GeomMesh.relationArms s prop).andThen fun s =>
  (GeomMesh.attributeArms s prop).andThen fun s =>
  GeomMesh.enumArms klass_name s prop

/-- The body of the property loop of `ReconstructPrim<GeomMesh>`. -/
def GeomMesh.body (klass_name : String) (s : ReconState GeomMesh)
    (prop : String × Property) : Step (ReconState GeomMesh) :=
  (GeomMesh.arms klass_name s prop).andThen fun s =>
  (ADD_PROPERTY GeomMesh.propsField s prop).andThen fun s =>
  PARSE_PROPERTY_END_MAKE_WARN s prop

/-- `ReconstructPrim<GeomMesh>`. -/
def ReconstructPrim_GeomMesh (klass_name : String) (properties : PropertyMap)
    (mesh : GeomMesh) (warn err : Option String) : Outcome (ReconState GeomMesh) :=
  match ReconstructXformOpsFromProperties ∅ properties mesh.xformOps err with
  | .fail x => .fail ⟨x.table, { mesh with xformOps := x.xformOps }, warn, x.err⟩
  | .raise => .raise
  | .ok x =>
    propertyLoop (GeomMesh.body klass_name)
      ⟨x.table, { mesh with xformOps := x.xformOps }, warn, x.err⟩ properties

/-- Modelled from the spec: `Property::is_attribute()` (prim-types.hh is absent): the
property is an attribute, possibly declared only; a relationship or a connection is
not. -/
def Property.is_attribute (p : Property) : Bool :=
  p.type == .EmptyAttrib || p.type == .Attrib

/-- Modelled from the spec: `value::float2` (value-types.hh is absent). -/
abbrev float2 := Rat × Rat

/-- Modelled from the spec: `value::float4` (value-types.hh is absent). -/
abbrev float4 := Rat × Rat × Rat × Rat

/-- Modelled from the spec: `value::TypeTraits<int>` (value-types.hh is absent). -/
def intTraits : TypeTraits Int where
  type_name := "int"
  underlying_type_name := "int"
  get_value := fun v =>
    match v with
    | .int i => some i
    | _ => none

/-- Modelled from the spec: `value::TypeTraits<float>` (value-types.hh is absent). -/
def floatTraits : TypeTraits Rat where
  type_name := "float"
  underlying_type_name := "float"
  get_value := fun v =>
    match v with
    | .float x => some x
    | _ => none

/-- Modelled from the spec: `value::TypeTraits<value::float2>` (value-types.hh is
absent). -/
def float2Traits : TypeTraits float2 where
  type_name := "float2"
  underlying_type_name := "float2"
  get_value := fun v =>
    match v with
    | .float2 x y => some (x, y)
    | _ => none

/-- Modelled from the spec: `value::TypeTraits<value::float3>` (value-types.hh is
absent). -/
def float3Traits : TypeTraits float3 where
  type_name := "float3"
  underlying_type_name := "float3"
  get_value := fun v =>
    match v with
    | .float3 x y z => some (x, y, z)
    | _ => none

/-- Modelled from the spec: `value::TypeTraits<value::float4>` (value-types.hh is
absent). -/
def float4Traits : TypeTraits float4 where
  type_name := "float4"
  underlying_type_name := "float4"
  get_value := fun v =>
    match v with
    | .float4 x y z w => some (x, y, z, w)
    | _ => none

/-- Modelled from the spec: `value::TypeTraits<value::normal3f>` (value-types.hh is
absent): a role type over `float3`. -/
def normal3fTraits : TypeTraits float3 where
  type_name := "normal3f"
  underlying_type_name := "float3"
  get_value := fun v =>
    match v with
    | .float3 x y z => some (x, y, z)
    | _ => none

/-- Modelled from the spec: `value::TypeTraits<value::texcoord2f>` (value-types.hh is
absent): a role type over `float2`. -/
def texcoord2fTraits : TypeTraits float2 where
  type_name := "texCoord2f"
  underlying_type_name := "float2"
  get_value := fun v =>
    match v with
    | .float2 x y => some (x, y)
    | _ => none

/-- Modelled from the spec: `value::TypeTraits<value::AssetPath>` (value-types.hh is
absent); an asset path is read as its string. -/
def assetTraits : TypeTraits String where
  type_name := "asset"
  underlying_type_name := "asset"
  get_value := fun v =>
    match v with
    | .asset p => some p
    | _ => none

/-- `ParseShaderOutputProperty`.  A default-constructed `Relationship` has no target and
no metadata; `rel.set(path)`, `rel.set(paths)` and `rel.set_novalue()` give it a single
path, a vector of paths and no target. -/
def ParseShaderOutputProperty (table : Table) (prop_name : String) (prop : Property)
    (name : String) (target : Option Relationship) : Parsed (Option Relationship) :=
  if prop_name = name ++ ".connect" then
    let propname := removeSuffix name ".connect"
    if propname ∈ table then
      ⟨⟨.AlreadyProcessed, ""⟩, table, target⟩
    else
      match prop.get_relationTarget with
      | some pv =>
        ⟨⟨.Success, ""⟩, insert propname table,
          some ⟨.path pv, prop.get_attribute.metas⟩⟩
      | none => ⟨⟨.Unmatched, ""⟩, table, target⟩
  else if prop_name = name then
    if name ∈ table then
      ⟨⟨.AlreadyProcessed, ""⟩, table, target⟩
    else if prop.is_connection then
      let attr := prop.get_attribute
      if attr.is_connection then
        let conns := attr.connections
        if conns.length = 0 then
          ⟨⟨.InternalError,
            "Invalid shader output attribute with connection. connection targetPath size is zero."⟩,
            table, target⟩
        else
          let rel : Relationship :=
            match conns with
            | [c] => ⟨.path c, prop.get_attribute.metas⟩
            | _ => ⟨.pathvector conns, prop.get_attribute.metas⟩
          ⟨⟨.Success, ""⟩, insert prop_name table, some rel⟩
      else
        ⟨⟨.InternalError, "Invalid shader output attribute with connection."⟩, table, target⟩
    else
      let attr := prop.get_attribute
      let attr_type_name := attr.type_name
      if tokenTraits.type_name = attr_type_name then
        if prop.get_property_type = .EmptyAttrib then
          ⟨⟨.Success, ""⟩, insert name table, some ⟨.empty, prop.get_attribute.metas⟩⟩
        else
          ⟨⟨.InvalidConnection, "Invalid connection or value assigned for output attribute."⟩,
            table, target⟩
      else
        ⟨⟨.TypeMismatch,
          "Property type mismatch. " ++ name ++ " expects type `token` but defined as type `"
            ++ attr.type_name ++ "`"⟩,
          table, target⟩
  else
    ⟨⟨.Unmatched, ""⟩, table, target⟩

/-- `PARSE_SHADER_TERMINAL_ATTRIBUTE(table, prop, name, klass, target)`; `tt` stands for
the value type of the terminal `target`. -/
def PARSE_SHADER_TERMINAL_ATTRIBUTE {τ T : Type} (tt : TypeTraits T) (name : String)
    (target : Field τ (TypedTerminalAttribute T)) (s : ReconState τ)
    (prop : String × Property) : Step (ReconState τ) :=
  let ret := ParseShaderOutputTerminalAttribute tt s.table prop.1 prop.2 name
    (target.get s.prim)
  let s1 : ReconState τ := { s with table := ret.table, prim := target.set ret.target s.prim }
  if ret.ret.code = .Success ∨ ret.ret.code = .AlreadyProcessed then
    .continue_ s1
  else if ret.ret.code = .Unmatched then
    .next s1
  else
    PUSH_ERROR_AND_RETURN s1
      ("Parsing shader output property `" ++ name ++ "` failed. Error: " ++ ret.ret.err)

/-- `PARSE_SHADER_OUTPUT_PROPERTY(table, prop, name, klass, target)`. -/
def PARSE_SHADER_OUTPUT_PROPERTY {τ : Type} (name : String)
    (target : Field τ (Option Relationship)) (s : ReconState τ)
    (prop : String × Property) : Step (ReconState τ) :=
  let ret := ParseShaderOutputProperty s.table prop.1 prop.2 name (target.get s.prim)
  let s1 : ReconState τ := { s with table := ret.table, prim := target.set ret.target s.prim }
  if ret.ret.code = .Success ∨ ret.ret.code = .AlreadyProcessed then
    .continue_ s1
  else if ret.ret.code = .Unmatched then
    .next s1
  else
    PUSH_ERROR_AND_RETURN s1
      ("Parsing shader output property `" ++ name ++ "` failed. Error: " ++ ret.ret.err)

/-- Modelled from the spec: `UsdPrimvarReader<T>` (usdShade.hh is absent), with the
members that the reconstructors write: the inputs `fallback` and `varname` (a token),
the output terminal `result` and the residual `props`. -/
structure UsdPrimvarReader (T : Type) where
  fallback : TypedAttribute (Animatable T)
  varname : TypedAttribute (Animatable String)
  result : TypedTerminalAttribute T
  props : PropertyMap

/-- A default-constructed `UsdPrimvarReader<T>`. -/
def UsdPrimvarReader.fresh {T : Type} : UsdPrimvarReader T where
  fallback := TypedAttribute.fresh
  varname := TypedAttribute.fresh
  result := ⟨false, []⟩
  props := []

/-- The lvalue `preader->fallback`. -/
def UsdPrimvarReader.fallbackField {T : Type} :
    Field (UsdPrimvarReader T) (TypedAttribute (Animatable T)) :=
  ⟨fun g => g.fallback, fun v g => { g with fallback := v }⟩

/-- The lvalue `preader->varname`. -/
def UsdPrimvarReader.varnameField {T : Type} :
    Field (UsdPrimvarReader T) (TypedAttribute (Animatable String)) :=
  ⟨fun g => g.varname, fun v g => { g with varname := v }⟩

/-- The lvalue `preader->result`. -/
def UsdPrimvarReader.resultField {T : Type} :
    Field (UsdPrimvarReader T) (TypedTerminalAttribute T) :=
  ⟨fun g => g.result, fun v g => { g with result := v }⟩

/-- The lvalue `preader->props`. -/
def UsdPrimvarReader.propsField {T : Type} : Field (UsdPrimvarReader T) PropertyMap :=
  ⟨fun g => g.props, fun v g => { g with props := v }⟩

/-- The loop body shared by `ReconstructShader<UsdPrimvarReader_int>`, `_float`,
`_float3` and `_float4`: `inputs:fallback`, `inputs:varname`, `outputs:result`,
`ADD_PROPERTY`, `PARSE_PROPERTY_END_MAKE_WARN`. -/
def UsdPrimvarReader.body {T : Type} (tt : TypeTraits T) (s : ReconState (UsdPrimvarReader T))
    (prop : String × Property) : Step (ReconState (UsdPrimvarReader T)) :=
  (PARSE_TYPED_ATTRIBUTE (ParseTypedAttribute_Animatable tt) "inputs:fallback"
      UsdPrimvarReader.fallbackField s prop).andThen fun s =>
  (PARSE_TYPED_ATTRIBUTE (ParseTypedAttribute_Animatable tokenTraits) "inputs:varname"
      UsdPrimvarReader.varnameField s prop).andThen fun s =>
  (PARSE_SHADER_TERMINAL_ATTRIBUTE tt "outputs:result"
      UsdPrimvarReader.resultField s prop).andThen fun s =>
  (ADD_PROPERTY UsdPrimvarReader.propsField s prop).andThen fun s =>
  PARSE_PROPERTY_END_MAKE_WARN s prop

/-- The loop body of `ReconstructShader<UsdPrimvarReader_float2>`, which looks at
`inputs:varname` before `inputs:fallback`. -/
def UsdPrimvarReader.body_float2 (s : ReconState (UsdPrimvarReader float2))
    (prop : String × Property) : Step (ReconState (UsdPrimvarReader float2)) :=
  (PARSE_TYPED_ATTRIBUTE (ParseTypedAttribute_Animatable tokenTraits) "inputs:varname"
      UsdPrimvarReader.varnameField s prop).andThen fun s =>
  (PARSE_TYPED_ATTRIBUTE (ParseTypedAttribute_Animatable float2Traits) "inputs:fallback"
      UsdPrimvarReader.fallbackField s prop).andThen fun s =>
  (PARSE_SHADER_TERMINAL_ATTRIBUTE float2Traits "outputs:result"
      UsdPrimvarReader.resultField s prop).andThen fun s =>
  (ADD_PROPERTY UsdPrimvarReader.propsField s prop).andThen fun s =>
  PARSE_PROPERTY_END_MAKE_WARN s prop

/-- The end of a shader reconstructor whose last statement is `return false`: the loop
runs, and false is returned also when it ran to its end. -/
def returnFalse {σ : Type} (o : Outcome σ) : Outcome σ :=
  match o with
  | .ok s => .fail s
  | .fail s => .fail s
  | .raise => .raise

/-- `ReconstructShader<UsdPrimvarReader_int>`; the table starts with `info:id`, and the
function ends with `return false`. -/
def ReconstructShader_UsdPrimvarReader_int (properties : PropertyMap)
    (preader : UsdPrimvarReader Int) (warn err : Option String) :
    Outcome (ReconState (UsdPrimvarReader Int)) :=
  returnFalse
    (propertyLoop (UsdPrimvarReader.body intTraits)
      ⟨insert "info:id" ∅, preader, warn, err⟩ properties)

/-- `ReconstructShader<UsdPrimvarReader_float>`; the function ends with
`return false`. -/
def ReconstructShader_UsdPrimvarReader_float (properties : PropertyMap)
    (preader : UsdPrimvarReader Rat) (warn err : Option String) :
    Outcome (ReconState (UsdPrimvarReader Rat)) :=
  returnFalse
    (propertyLoop (UsdPrimvarReader.body floatTraits)
      ⟨insert "info:id" ∅, preader, warn, err⟩ properties)

/-- `ReconstructShader<UsdPrimvarReader_float2>`. -/
def ReconstructShader_UsdPrimvarReader_float2 (properties : PropertyMap)
    (preader : UsdPrimvarReader float2) (warn err : Option String) :
    Outcome (ReconState (UsdPrimvarReader float2)) :=
  propertyLoop UsdPrimvarReader.body_float2 ⟨insert "info:id" ∅, preader, warn, err⟩ properties

/-- `ReconstructShader<UsdPrimvarReader_float3>`. -/
def ReconstructShader_UsdPrimvarReader_float3 (properties : PropertyMap)
    (preader : UsdPrimvarReader float3) (warn err : Option String) :
    Outcome (ReconState (UsdPrimvarReader float3)) :=
  propertyLoop (UsdPrimvarReader.body float3Traits)
    ⟨insert "info:id" ∅, preader, warn, err⟩ properties

/-- `ReconstructShader<UsdPrimvarReader_float4>`. -/
def ReconstructShader_UsdPrimvarReader_float4 (properties : PropertyMap)
    (preader : UsdPrimvarReader float4) (warn err : Option String) :
    Outcome (ReconState (UsdPrimvarReader float4)) :=
  propertyLoop (UsdPrimvarReader.body float4Traits)
    ⟨insert "info:id" ∅, preader, warn, err⟩ properties

/-- Modelled from the spec: `UsdTransform2d` (usdShade.hh is absent), with the members
that the reconstructor writes: the inputs `in`, `rotation`, `scale` and `translation`,
each with a fallback, the output terminal `result` and the residual `props`. -/
structure UsdTransform2d where
  in_ : TypedAttributeWithFallback (Animatable float2)
  rotation : TypedAttributeWithFallback (Animatable Rat)
  scale : TypedAttributeWithFallback (Animatable float2)
  translation : TypedAttributeWithFallback (Animatable float2)
  result : TypedTerminalAttribute float2
  props : PropertyMap

/-- The loop body of `ReconstructShader<UsdTransform2d>`. -/
def UsdTransform2d.body (s : ReconState UsdTransform2d)
    (prop : String × Property) : Step (ReconState UsdTransform2d) :=
  (PARSE_TYPED_ATTRIBUTE (ParseTypedAttribute_WithFallbackAnimatable float2Traits) "inputs:in"
      ⟨fun g => g.in_, fun v g => { g with in_ := v }⟩ s prop).andThen fun s =>
  (PARSE_TYPED_ATTRIBUTE (ParseTypedAttribute_WithFallbackAnimatable floatTraits)
      "inputs:rotation"
      ⟨fun g => g.rotation, fun v g => { g with rotation := v }⟩ s prop).andThen fun s =>
  (PARSE_TYPED_ATTRIBUTE (ParseTypedAttribute_WithFallbackAnimatable float2Traits)
      "inputs:scale"
      ⟨fun g => g.scale, fun v g => { g with scale := v }⟩ s prop).andThen fun s =>
  (PARSE_TYPED_ATTRIBUTE (ParseTypedAttribute_WithFallbackAnimatable float2Traits)
      "inputs:translation"
      ⟨fun g => g.translation, fun v g => { g with translation := v }⟩ s prop).andThen fun s =>
  (PARSE_SHADER_TERMINAL_ATTRIBUTE float2Traits "outputs:result"
      ⟨fun g => g.result, fun v g => { g with result := v }⟩ s prop).andThen fun s =>
  (ADD_PROPERTY ⟨fun g => g.props, fun v g => { g with props := v }⟩ s prop).andThen fun s =>
  PARSE_PROPERTY_END_MAKE_WARN s prop

/-- `ReconstructShader<UsdTransform2d>`. -/
def ReconstructShader_UsdTransform2d (properties : PropertyMap)
    (transform : UsdTransform2d) (warn err : Option String) :
    Outcome (ReconState UsdTransform2d) :=
  propertyLoop UsdTransform2d.body ⟨insert "info:id" ∅, transform, warn, err⟩ properties

/-- `UsdUVTexture::SourceColorSpace`, with the enumerators that the reconstructor
names. -/
inductive UsdUVTexture.SourceColorSpace where
  | Auto
  | Raw
  | SRGB
  deriving DecidableEq, Repr

/-- `UsdUVTexture::Wrap`, with the enumerators that the reconstructor names. -/
inductive UsdUVTexture.Wrap where
  | UseMetadata
  | Black
  | Clamp
  | Repeat
  | Mirror
  deriving DecidableEq, Repr

/-- `SourceColorSpaceHandler`, local to `ReconstructShader<UsdUVTexture>`. -/
def UsdUVTexture.SourceColorSpaceHandler (tok : String) :
    Except String UsdUVTexture.SourceColorSpace :=
  EnumHandler "inputs:sourceColorSpace" tok [(.Auto, "auto"), (.Raw, "raw"), (.SRGB, "sRGB")]

/-- `WrapHandler`, local to `ReconstructShader<UsdUVTexture>`. -/
def UsdUVTexture.WrapHandler (tok : String) : Except String UsdUVTexture.Wrap :=
  EnumHandler "inputs:wrap*" tok
    [(.UseMetadata, "useMetadata"), (.Black, "black"), (.Clamp, "clamp"),
      (.Repeat, "repeat"), (.Mirror, "mirror")]

/-- Modelled from the spec: `UsdUVTexture` (usdShade.hh is absent), with the members
that the reconstructor writes: the inputs `file` (an asset path) and `st`, the enum
inputs `sourceColorSpace`, `wrapS` and `wrapT`, the five output terminals and the
residual `props`. -/
structure UsdUVTexture where
  file : TypedAttribute (Animatable String)
  st : TypedAttributeWithFallback (Animatable float2)
  sourceColorSpace : TypedAttributeWithFallback (Animatable UsdUVTexture.SourceColorSpace)
  wrapS : TypedAttributeWithFallback (Animatable UsdUVTexture.Wrap)
  wrapT : TypedAttributeWithFallback (Animatable UsdUVTexture.Wrap)
  outputsR : TypedTerminalAttribute Rat
  outputsG : TypedTerminalAttribute Rat
  outputsB : TypedTerminalAttribute Rat
  outputsA : TypedTerminalAttribute Rat
  outputsRGB : TypedTerminalAttribute float3
  props : PropertyMap

/-- The loop body of `ReconstructShader<UsdUVTexture>`; `klass_name` stands for
`value::TypeTraits<UsdUVTexture>::type_name()`. -/
def UsdUVTexture.body (klass_name : String) (s : ReconState UsdUVTexture)
    (prop : String × Property) : Step (ReconState UsdUVTexture) :=
  (PARSE_TYPED_ATTRIBUTE (ParseTypedAttribute_Animatable assetTraits) "inputs:file"
      ⟨fun g => g.file, fun v g => { g with file := v }⟩ s prop).andThen fun s =>
  (PARSE_TYPED_ATTRIBUTE (ParseTypedAttribute_WithFallbackAnimatable texcoord2fTraits)
      "inputs:st"
      ⟨fun g => g.st, fun v g => { g with st := v }⟩ s prop).andThen fun s =>
  (PARSE_ENUM_PROPETY "inputs:sourceColorSpace" UsdUVTexture.SourceColorSpaceHandler
      klass_name
      (fun e g => { g with sourceColorSpace :=
        g.sourceColorSpace.set_value (Animatable.ofValue e) }) s prop).andThen fun s =>
  (PARSE_ENUM_PROPETY "inputs:wrapS" UsdUVTexture.WrapHandler klass_name
      (fun e g => { g with wrapS := g.wrapS.set_value (Animatable.ofValue e) })
      s prop).andThen fun s =>
  (PARSE_ENUM_PROPETY "inputs:wrapT" UsdUVTexture.WrapHandler klass_name
      (fun e g => { g with wrapT := g.wrapT.set_value (Animatable.ofValue e) })
      s prop).andThen fun s =>
  (PARSE_SHADER_TERMINAL_ATTRIBUTE floatTraits "outputs:r"
      ⟨fun g => g.outputsR, fun v g => { g with outputsR := v }⟩ s prop).andThen fun s =>
  (PARSE_SHADER_TERMINAL_ATTRIBUTE floatTraits "outputs:g"
      ⟨fun g => g.outputsG, fun v g => { g with outputsG := v }⟩ s prop).andThen fun s =>
  (PARSE_SHADER_TERMINAL_ATTRIBUTE floatTraits "outputs:b"
      ⟨fun g => g.outputsB, fun v g => { g with outputsB := v }⟩ s prop).andThen fun s =>
  (PARSE_SHADER_TERMINAL_ATTRIBUTE floatTraits "outputs:a"
      ⟨fun g => g.outputsA, fun v g => { g with outputsA := v }⟩ s prop).andThen fun s =>
  (PARSE_SHADER_TERMINAL_ATTRIBUTE float3Traits "outputs:rgb"
      ⟨fun g => g.outputsRGB, fun v g => { g with outputsRGB := v }⟩ s prop).andThen fun s =>
  (ADD_PROPERTY ⟨fun g => g.props, fun v g => { g with props := v }⟩ s prop).andThen fun s =>
  PARSE_PROPERTY_END_MAKE_WARN s prop

/-- `ReconstructShader<UsdUVTexture>`. -/
def ReconstructShader_UsdUVTexture (klass_name : String) (properties : PropertyMap)
    (texture : UsdUVTexture) (warn err : Option String) :
    Outcome (ReconState UsdUVTexture) :=
  propertyLoop (UsdUVTexture.body klass_name)
    ⟨insert "info:id" ∅, texture, warn, err⟩ properties

/-- Modelled from the spec: `UsdPreviewSurface` (usdShade.hh is absent), with the members
that the reconstructor writes: fourteen inputs, each with a fallback, the two outputs
(a relationship each) and the residual `props`. -/
structure UsdPreviewSurface where
  diffuseColor : TypedAttributeWithFallback (Animatable float3)
  emissiveColor : TypedAttributeWithFallback (Animatable float3)
  roughness : TypedAttributeWithFallback (Animatable Rat)
  specularColor : TypedAttributeWithFallback (Animatable float3)
  metallic : TypedAttributeWithFallback (Animatable Rat)
  clearcoat : TypedAttributeWithFallback (Animatable Rat)
  clearcoatRoughness : TypedAttributeWithFallback (Animatable Rat)
  opacity : TypedAttributeWithFallback (Animatable Rat)
  opacityThreshold : TypedAttributeWithFallback (Animatable Rat)
  ior : TypedAttributeWithFallback (Animatable Rat)
  normal : TypedAttributeWithFallback (Animatable float3)
  displacement : TypedAttributeWithFallback (Animatable Rat)
  occlusion : TypedAttributeWithFallback (Animatable Rat)
  useSpecularWorkflow : TypedAttributeWithFallback (Animatable Int)
  outputsSurface : Option Relationship
  outputsDisplacement : Option Relationship
  props : PropertyMap

/-- The colour and roughness arms of the loop of `ReconstructShader<UsdPreviewSurface>`. -/
def UsdPreviewSurface.colorArms (s : ReconState UsdPreviewSurface)
    (prop : String × Property) : Step (ReconState UsdPreviewSurface) :=
  (PARSE_TYPED_ATTRIBUTE (ParseTypedAttribute_WithFallbackAnimatable color3fTraits)
      "inputs:diffuseColor"
      ⟨fun g => g.diffuseColor, fun v g => { g with diffuseColor := v }⟩ s prop).andThen
    fun s =>
  (PARSE_TYPED_ATTRIBUTE (ParseTypedAttribute_WithFallbackAnimatable color3fTraits)
      "inputs:emissiveColor"
      ⟨fun g => g.emissiveColor, fun v g => { g with emissiveColor := v }⟩ s prop).andThen
    fun s =>
  (PARSE_TYPED_ATTRIBUTE (ParseTypedAttribute_WithFallbackAnimatable floatTraits)
      "inputs:roughness"
      ⟨fun g => g.roughness, fun v g => { g with roughness := v }⟩ s prop).andThen fun s =>
  (PARSE_TYPED_ATTRIBUTE (ParseTypedAttribute_WithFallbackAnimatable color3fTraits)
      "inputs:specularColor"
      ⟨fun g => g.specularColor, fun v g => { g with specularColor := v }⟩ s prop).andThen
    fun s =>
  (PARSE_TYPED_ATTRIBUTE (ParseTypedAttribute_WithFallbackAnimatable floatTraits)
      "inputs:metallic"
      ⟨fun g => g.metallic, fun v g => { g with metallic := v }⟩ s prop).andThen fun s =>
  (PARSE_TYPED_ATTRIBUTE (ParseTypedAttribute_WithFallbackAnimatable floatTraits)
      "inputs:clearcoat"
      ⟨fun g => g.clearcoat, fun v g => { g with clearcoat := v }⟩ s prop).andThen fun s =>
  PARSE_TYPED_ATTRIBUTE (ParseTypedAttribute_WithFallbackAnimatable floatTraits)
      "inputs:clearcoatRoughness"
      ⟨fun g => g.clearcoatRoughness, fun v g => { g with clearcoatRoughness := v }⟩ s prop

/-- The remaining input arms of the loop of `ReconstructShader<UsdPreviewSurface>`; the
arm of the `displacement` slot is registered under the name `inputs:dispacement`. -/
def UsdPreviewSurface.inputArms (s : ReconState UsdPreviewSurface)
    (prop : String × Property) : Step (ReconState UsdPreviewSurface) :=
  (PARSE_TYPED_ATTRIBUTE (ParseTypedAttribute_WithFallbackAnimatable floatTraits)
      "inputs:opacity"
      ⟨fun g => g.opacity, fun v g => { g with opacity := v }⟩ s prop).andThen fun s =>
  (PARSE_TYPED_ATTRIBUTE (ParseTypedAttribute_WithFallbackAnimatable floatTraits)
      "inputs:opacityThreshold"
      ⟨fun g => g.opacityThreshold, fun v g => { g with opacityThreshold := v }⟩
      s prop).andThen fun s =>
  (PARSE_TYPED_ATTRIBUTE (ParseTypedAttribute_WithFallbackAnimatable floatTraits) "inputs:ior"
      ⟨fun g => g.ior, fun v g => { g with ior := v }⟩ s prop).andThen fun s =>
  (PARSE_TYPED_ATTRIBUTE (ParseTypedAttribute_WithFallbackAnimatable normal3fTraits)
      "inputs:normal"
      ⟨fun g => g.normal, fun v g => { g with normal := v }⟩ s prop).andThen fun s =>
  (PARSE_TYPED_ATTRIBUTE (ParseTypedAttribute_WithFallbackAnimatable floatTraits)
      "inputs:dispacement"
      ⟨fun g => g.displacement, fun v g => { g with displacement := v }⟩ s prop).andThen
    fun s =>
  (PARSE_TYPED_ATTRIBUTE (ParseTypedAttribute_WithFallbackAnimatable floatTraits)
      "inputs:occlusion"
      ⟨fun g => g.occlusion, fun v g => { g with occlusion := v }⟩ s prop).andThen fun s =>
  PARSE_TYPED_ATTRIBUTE (ParseTypedAttribute_WithFallbackAnimatable intTraits)
      "inputs:useSpecularWorkflow"
      ⟨fun g => g.useSpecularWorkflow, fun v g => { g with useSpecularWorkflow := v }⟩ s prop

/-- The loop body of `ReconstructShader<UsdPreviewSurface>`, in the order of the
source. -/
def UsdPreviewSurface.body (s : ReconState UsdPreviewSurface)
    (prop : String × Property) : Step (ReconState UsdPreviewSurface) :=
  (UsdPreviewSurface.colorArms s prop).andThen fun s =>
  (UsdPreviewSurface.inputArms s prop).andThen fun s =>
  (PARSE_SHADER_OUTPUT_PROPERTY "outputs:surface"
      ⟨fun g => g.outputsSurface, fun v g => { g with outputsSurface := v }⟩ s prop).andThen
    fun s =>
  (PARSE_SHADER_OUTPUT_PROPERTY "outputs:displacement"
      ⟨fun g => g.outputsDisplacement, fun v g => { g with outputsDisplacement := v }⟩
      s prop).andThen fun s =>
  (ADD_PROPERTY ⟨fun g => g.props, fun v g => { g with props := v }⟩ s prop).andThen fun s =>
  PARSE_PROPERTY_END_MAKE_WARN s prop

/-- `ReconstructShader<UsdPreviewSurface>`. -/
def ReconstructShader_UsdPreviewSurface (properties : PropertyMap)
    (surface : UsdPreviewSurface) (warn err : Option String) :
    Outcome (ReconState UsdPreviewSurface) :=
  propertyLoop UsdPreviewSurface.body ⟨insert "info:id" ∅, surface, warn, err⟩ properties

/-- What `shader->value` can hold after `ReconstructPrim<Shader>`: the record of one of
the eight shader kinds. -/
inductive ShaderValue where
  | surface (v : UsdPreviewSurface)
  | texture (v : UsdUVTexture)
  | preader_int (v : UsdPrimvarReader Int)
  | preader_float (v : UsdPrimvarReader Rat)
  | preader_float2 (v : UsdPrimvarReader float2)
  | preader_float3 (v : UsdPrimvarReader float3)
  | preader_float4 (v : UsdPrimvarReader float4)
  | transform (v : UsdTransform2d)

/-- Modelled from the spec: `Shader` (usdShade.hh is absent), with the two members that
`ReconstructPrim<Shader>` writes: `info_id` and `value` (empty until assigned). -/
structure Shader where
  info_id : String
  value : Option ShaderValue

/-- Modelled from the spec: the default-constructed `UsdPreviewSurface`, `UsdUVTexture`
and `UsdTransform2d` (usdShade.hh is absent), whose fallback values the sources at hand
do not give. -/
structure ShaderDefaults where
  surface : UsdPreviewSurface
  texture : UsdUVTexture
  transform : UsdTransform2d

/-- The state in which `ReconstructPrim<Shader>` works: the shader, `warn` and `err`;
the reconstructor keeps no table of its own, so `table` stays empty. -/
def Shader.state (shader : Shader) (warn err : Option String) : ReconState Shader :=
  ⟨∅, shader, warn, err⟩

/-- What `ReconstructPrim<Shader>` does with the outcome of a sub-reconstructor: on
false it pushes "Failed to Reconstruct" and the name of the kind, on true it assigns
`info_id` and `value` and returns true. -/
def Shader.finish {σ : Type} (kind : String) (wrap : σ → ShaderValue) (shader : Shader)
    (o : Outcome (ReconState σ)) : Outcome (ReconState Shader) :=
  match o with
  | .ok s => .ok (Shader.state { shader with info_id := kind, value := some (wrap s.prim) }
      s.warn s.err)
  | .fail s => .fail ((Shader.state shader s.warn s.err).withError
      ("Failed to Reconstruct " ++ kind))
  | .raise => .raise

/-- The second half of `ReconstructPrim<Shader>`: the chain of comparisons of
`shader_type` with the eight names, each running its sub-reconstructor on a
default-constructed record. -/
def Shader.dispatch (d : ShaderDefaults) (klass_name : String) (shader_type : String)
    (properties : PropertyMap) (shader : Shader) (warn err : Option String) :
    Outcome (ReconState Shader) :=
  if shader_type = "UsdPreviewSurface" then
    Shader.finish "UsdPreviewSurface" .surface shader
      (ReconstructShader_UsdPreviewSurface properties d.surface warn err)
  else if shader_type = "UsdUVTexture" then
    Shader.finish "UsdUVTexture" .texture shader
      (ReconstructShader_UsdUVTexture klass_name properties d.texture warn err)
  else if shader_type = "UsdPrimvarReader_int" then
    Shader.finish "UsdPrimvarReader_int" .preader_int shader
      (ReconstructShader_UsdPrimvarReader_int properties UsdPrimvarReader.fresh warn err)
  else if shader_type = "UsdPrimvarReader_float" then
    Shader.finish "UsdPrimvarReader_float" .preader_float shader
      (ReconstructShader_UsdPrimvarReader_float properties UsdPrimvarReader.fresh warn err)
  else if shader_type = "UsdPrimvarReader_float2" then
    Shader.finish "UsdPrimvarReader_float2" .preader_float2 shader
      (ReconstructShader_UsdPrimvarReader_float2 properties UsdPrimvarReader.fresh warn err)
  else if shader_type = "UsdPrimvarReader_float3" then
    Shader.finish "UsdPrimvarReader_float3" .preader_float3 shader
      (ReconstructShader_UsdPrimvarReader_float3 properties UsdPrimvarReader.fresh warn err)
  else if shader_type = "UsdPrimvarReader_float4" then
    Shader.finish "UsdPrimvarReader_float4" .preader_float4 shader
      (ReconstructShader_UsdPrimvarReader_float4 properties UsdPrimvarReader.fresh warn err)
  else if shader_type = "UsdTransform2d" then
    Shader.finish "UsdTransform2d" .transform shader
      (ReconstructShader_UsdTransform2d properties d.transform warn err)
  else
    .fail ((Shader.state shader warn err).withError
      ("Invalid or Unsupported Shader type. info:id = \"" ++ shader_type ++ "\n"))

/-- `ReconstructPrim<Shader>`: the lookup and the checks of `info:id`, then the
dispatch on its token; `klass_name` stands for
`value::TypeTraits<UsdUVTexture>::type_name()`. -/
def ReconstructPrim_Shader (d : ShaderDefaults) (klass_name : String)
    (properties : PropertyMap) (shader : Shader) (warn err : Option String) :
    Outcome (ReconState Shader) :=
  match properties.find "info:id" with
  | none =>
    .fail ((Shader.state shader warn err).withError
      "`Shader` must contain `info:id` property.")
  | some info_id_prop =>
    if info_id_prop.is_attribute then
      let attr := info_id_prop.get_attribute
      if attr.type_name = "token" then
        match attr.get_value tokenTraits with
        | some pv =>
          let warn1 :=
            if attr.variability ≠ .Uniform then
              PushWarn warn "`info:id` attribute must have `uniform` variability."
            else warn
          Shader.dispatch d klass_name pv properties shader warn1 err
        | none =>
          .fail ((Shader.state shader warn err).withError
            "Internal errror. `info:id` has invalid type.")
      else
        .fail ((Shader.state shader warn err).withError
          "`info:id` attribute must be `token` type.")
    else
      .fail ((Shader.state shader warn err).withError
        "Invalid type or value for `info:id` property in `Shader`.")

/-- The eight values of `info:id` that `ReconstructPrim<Shader>` knows. -/
def Shader.kinds : List String :=
  ["UsdPreviewSurface", "UsdUVTexture", "UsdPrimvarReader_int", "UsdPrimvarReader_float",
    "UsdPrimvarReader_float2", "UsdPrimvarReader_float3", "UsdPrimvarReader_float4",
    "UsdTransform2d"]

/-- A default-constructed `Shader`. -/
def Shader.fresh : Shader := ⟨"", none⟩

/-- Sample default records for the three shader kinds that have fallbacks: every input
at zero. -/
def sampleShaderDefaults : ShaderDefaults where
  surface :=
    { diffuseColor := TypedAttributeWithFallback.fresh (Animatable.ofValue (0, 0, 0))
      emissiveColor := TypedAttributeWithFallback.fresh (Animatable.ofValue (0, 0, 0))
      roughness := TypedAttributeWithFallback.fresh (Animatable.ofValue 0)
      specularColor := TypedAttributeWithFallback.fresh (Animatable.ofValue (0, 0, 0))
      metallic := TypedAttributeWithFallback.fresh (Animatable.ofValue 0)
      clearcoat := TypedAttributeWithFallback.fresh (Animatable.ofValue 0)
      clearcoatRoughness := TypedAttributeWithFallback.fresh (Animatable.ofValue 0)
      opacity := TypedAttributeWithFallback.fresh (Animatable.ofValue 0)
      opacityThreshold := TypedAttributeWithFallback.fresh (Animatable.ofValue 0)
      ior := TypedAttributeWithFallback.fresh (Animatable.ofValue 0)
      normal := TypedAttributeWithFallback.fresh (Animatable.ofValue (0, 0, 0))
      displacement := TypedAttributeWithFallback.fresh (Animatable.ofValue 0)
      occlusion := TypedAttributeWithFallback.fresh (Animatable.ofValue 0)
      useSpecularWorkflow := TypedAttributeWithFallback.fresh (Animatable.ofValue 0)
      outputsSurface := none
      outputsDisplacement := none
      props := [] }
  texture :=
    { file := TypedAttribute.fresh
      st := TypedAttributeWithFallback.fresh (Animatable.ofValue (0, 0))
      sourceColorSpace := TypedAttributeWithFallback.fresh (Animatable.ofValue .Auto)
      wrapS := TypedAttributeWithFallback.fresh (Animatable.ofValue .UseMetadata)
      wrapT := TypedAttributeWithFallback.fresh (Animatable.ofValue .UseMetadata)
      outputsR := ⟨false, []⟩
      outputsG := ⟨false, []⟩
      outputsB := ⟨false, []⟩
      outputsA := ⟨false, []⟩
      outputsRGB := ⟨false, []⟩
      props := [] }
  transform :=
    { in_ := TypedAttributeWithFallback.fresh (Animatable.ofValue (0, 0))
      rotation := TypedAttributeWithFallback.fresh (Animatable.ofValue 0)
      scale := TypedAttributeWithFallback.fresh (Animatable.ofValue (0, 0))
      translation := TypedAttributeWithFallback.fresh (Animatable.ofValue (0, 0))
      result := ⟨false, []⟩
      props := [] }

/-- The property names that the schema slots of `ReconstructPrim<GeomMesh>` take, in the
order of its arms. -/
def GeomMesh.slotNames : List String :=
  ["proxyPrim", "material:binding", "material:binding:correction",
    "material:binding:preview", "skel:skeleton", "skel:blendShapeTargets",
    "points", "points.connect", "normals", "normals.connect",
    "faceVertexCounts", "faceVertexCounts.connect",
    "faceVertexIndices", "faceVertexIndices.connect",
    "cornerIndices", "cornerIndices.connect",
    "cornerSharpnesses", "cornerSharpnesses.connect",
    "creaseIndices", "creaseIndices.connect",
    "creaseLengths", "creaseLengths.connect",
    "creaseSharpnesses", "creaseSharpnesses.connect",
    "holeIndices", "holeIndices.connect",
    "doubleSided", "doubleSided.connect",
    "subdivisionScheme", "interpolateBoundary", "facevaryingLinearInterpolation",
    "purpose", "orientation", "extent", "extent.connect",
    "skel:blendShapes", "skel:blendShapes.connect"]

/-- Modelled from the spec: the `VALUE_TYPE_*` constants of `CrateDataTypeId`
(crate-format.hh is absent) that `GetValueType` registers, in the order of
registration; their numeric values are not in the sources at hand. -/
inductive CrateDataTypeId where
  | VALUE_TYPE_BOOL
  | VALUE_TYPE_UCHAR
  | VALUE_TYPE_INT
  | VALUE_TYPE_UINT
  | VALUE_TYPE_INT64
  | VALUE_TYPE_UINT64
  | VALUE_TYPE_HALF
  | VALUE_TYPE_FLOAT
  | VALUE_TYPE_DOUBLE
  | VALUE_TYPE_STRING
  | VALUE_TYPE_TOKEN
  | VALUE_TYPE_ASSET_PATH
  | VALUE_TYPE_QUATD
  | VALUE_TYPE_QUATF
  | VALUE_TYPE_QUATH
  | VALUE_TYPE_VEC2D
  | VALUE_TYPE_VEC2F
  | VALUE_TYPE_VEC2H
  | VALUE_TYPE_VEC2I
  | VALUE_TYPE_VEC3D
  | VALUE_TYPE_VEC3F
  | VALUE_TYPE_VEC3H
  | VALUE_TYPE_VEC3I
  | VALUE_TYPE_VEC4D
  | VALUE_TYPE_VEC4F
  | VALUE_TYPE_VEC4H
  | VALUE_TYPE_VEC4I
  | VALUE_TYPE_MATRIX2D
  | VALUE_TYPE_MATRIX3D
  | VALUE_TYPE_MATRIX4D
  | VALUE_TYPE_DICTIONARY
  | VALUE_TYPE_TOKEN_LIST_OP
  | VALUE_TYPE_STRING_LIST_OP
  | VALUE_TYPE_PATH_LIST_OP
  | VALUE_TYPE_REFERENCE_LIST_OP
  | VALUE_TYPE_INT_LIST_OP
  | VALUE_TYPE_INT64_LIST_OP
  | VALUE_TYPE_UINT_LIST_OP
  | VALUE_TYPE_UINT64_LIST_OP
  | VALUE_TYPE_PATH_VECTOR
  | VALUE_TYPE_TOKEN_VECTOR
  | VALUE_TYPE_SPECIFIER
  | VALUE_TYPE_PERMISSION
  | VALUE_TYPE_VARIABILITY
  | VALUE_TYPE_VARIANT_SELECTION_MAP
  | VALUE_TYPE_TIME_SAMPLES
  | VALUE_TYPE_PAYLOAD
  | VALUE_TYPE_DOUBLE_VECTOR
  | VALUE_TYPE_LAYER_OFFSET_VECTOR
  | VALUE_TYPE_STRING_VECTOR
  | VALUE_TYPE_VALUE_BLOCK
  | VALUE_TYPE_VALUE
  | VALUE_TYPE_UNREGISTERED_VALUE
  | VALUE_TYPE_UNREGISTERED_VALUE_LIST_OP
  | VALUE_TYPE_PAYLOAD_LIST_OP
  | VALUE_TYPE_TIME_CODE
  deriving DecidableEq, Repr

/-- `ValueType` (crate-format.hh is absent), with the members that crate-format.cc
reads: `name`, `id` and `supports_array`. -/
structure ValueType where
  name : String
  id : Nat
  supports_array : Bool
  deriving DecidableEq, Repr

/-- One `ADD_VALUE_TYPE(NAME_STR, TYPE_ID, SUPPORTS_ARRAY)` line of `GetValueType`;
`type_id` is `none` for the literal `0` of the first line and the name of the constant
otherwise. -/
structure ValueTypeRow where
  name : String
  type_id : Option CrateDataTypeId
  supports_array : Bool
  deriving DecidableEq, Repr

/-- The `ADD_VALUE_TYPE` lines of `GetValueType`, in the order of the source. -/
def valueTypeRows : List ValueTypeRow :=
  [⟨"InvaldOrUnsupported", none, false⟩, ⟨"Bool", some .VALUE_TYPE_BOOL, true⟩,
   ⟨"UChar", some .VALUE_TYPE_UCHAR, true⟩, ⟨"Int", some .VALUE_TYPE_INT, true⟩,
   ⟨"UInt", some .VALUE_TYPE_UINT, true⟩, ⟨"Int64", some .VALUE_TYPE_INT64, true⟩,
   ⟨"UInt64", some .VALUE_TYPE_UINT64, true⟩, ⟨"Half", some .VALUE_TYPE_HALF, true⟩,
   ⟨"Float", some .VALUE_TYPE_FLOAT, true⟩, ⟨"Double", some .VALUE_TYPE_DOUBLE, true⟩,
   ⟨"String", some .VALUE_TYPE_STRING, true⟩, ⟨"Token", some .VALUE_TYPE_TOKEN, true⟩,
   ⟨"AssetPath", some .VALUE_TYPE_ASSET_PATH, true⟩, ⟨"Quatd", some .VALUE_TYPE_QUATD, true⟩,
   ⟨"Quatf", some .VALUE_TYPE_QUATF, true⟩, ⟨"Quath", some .VALUE_TYPE_QUATH, true⟩,
   ⟨"Vec2d", some .VALUE_TYPE_VEC2D, true⟩, ⟨"Vec2f", some .VALUE_TYPE_VEC2F, true⟩,
   ⟨"Vec2h", some .VALUE_TYPE_VEC2H, true⟩, ⟨"Vec2i", some .VALUE_TYPE_VEC2I, true⟩,
   ⟨"Vec3d", some .VALUE_TYPE_VEC3D, true⟩, ⟨"Vec3f", some .VALUE_TYPE_VEC3F, true⟩,
   ⟨"Vec3h", some .VALUE_TYPE_VEC3H, true⟩, ⟨"Vec3i", some .VALUE_TYPE_VEC3I, true⟩,
   ⟨"Vec4d", some .VALUE_TYPE_VEC4D, true⟩, ⟨"Vec4f", some .VALUE_TYPE_VEC4F, true⟩,
   ⟨"Vec4h", some .VALUE_TYPE_VEC4H, true⟩, ⟨"Vec4i", some .VALUE_TYPE_VEC4I, true⟩,
   ⟨"Matrix2d", some .VALUE_TYPE_MATRIX2D, true⟩,
   ⟨"Matrix3d", some .VALUE_TYPE_MATRIX3D, true⟩,
   ⟨"Matrix4d", some .VALUE_TYPE_MATRIX4D, true⟩,
   ⟨"Dictionary", some .VALUE_TYPE_DICTIONARY, false⟩,
   ⟨"TokenListOp", some .VALUE_TYPE_TOKEN_LIST_OP, false⟩,
   ⟨"StringListOp", some .VALUE_TYPE_STRING_LIST_OP, false⟩,
   ⟨"PathListOp", some .VALUE_TYPE_PATH_LIST_OP, false⟩,
   ⟨"ReferenceListOp", some .VALUE_TYPE_REFERENCE_LIST_OP, false⟩,
   ⟨"IntListOp", some .VALUE_TYPE_INT_LIST_OP, false⟩,
   ⟨"Int64ListOp", some .VALUE_TYPE_INT64_LIST_OP, false⟩,
   ⟨"UIntListOp", some .VALUE_TYPE_UINT_LIST_OP, false⟩,
   ⟨"UInt64ListOp", some .VALUE_TYPE_UINT64_LIST_OP, false⟩,
   ⟨"PathVector", some .VALUE_TYPE_PATH_VECTOR, false⟩,
   ⟨"TokenVector", some .VALUE_TYPE_TOKEN_VECTOR, false⟩,
   ⟨"Specifier", some .VALUE_TYPE_SPECIFIER, false⟩,
   ⟨"Permission", some .VALUE_TYPE_PERMISSION, false⟩,
   ⟨"Variability", some .VALUE_TYPE_VARIABILITY, false⟩,
   ⟨"VariantSelectionMap", some .VALUE_TYPE_VARIANT_SELECTION_MAP, false⟩,
   ⟨"TimeSamples", some .VALUE_TYPE_TIME_SAMPLES, false⟩,
   ⟨"Payload", some .VALUE_TYPE_PAYLOAD, false⟩,
   ⟨"DoubleVector", some .VALUE_TYPE_DOUBLE_VECTOR, false⟩,
   ⟨"LayerOffsetVector", some .VALUE_TYPE_LAYER_OFFSET_VECTOR, false⟩,
   ⟨"StringVector", some .VALUE_TYPE_STRING_VECTOR, false⟩,
   ⟨"ValueBlock", some .VALUE_TYPE_VALUE_BLOCK, false⟩,
   ⟨"Value", some .VALUE_TYPE_VALUE, false⟩,
   ⟨"UnregisteredValue", some .VALUE_TYPE_UNREGISTERED_VALUE, false⟩,
   ⟨"UnregisteredValueListOp", some .VALUE_TYPE_UNREGISTERED_VALUE_LIST_OP, false⟩,
   ⟨"PayloadListOp", some .VALUE_TYPE_PAYLOAD_LIST_OP, false⟩,
   ⟨"TimeCode", some .VALUE_TYPE_TIME_CODE, true⟩]

/-- The table of `GetValueType`, a `std::map<uint32_t, ValueType>`, as the list of its
entries. -/
abbrev ValueTypeTable := List (Nat × ValueType)

/-- `table.count(key)`. -/
def ValueTypeTable.count (t : ValueTypeTable) (key : Nat) : Bool := (t.lookup key).isSome

/-- `table.at(key)`, when the key is there. -/
def ValueTypeTable.at (t : ValueTypeTable) (key : Nat) : Option ValueType := t.lookup key

/-- The assignment `table[key] = v`: the entry under `key` is created or replaced. -/
def ValueTypeTable.assign (t : ValueTypeTable) (key : Nat) (v : ValueType) : ValueTypeTable :=
  match t with
  | [] => [(key, v)]
  | (k, w) :: rest =>
    if k = key then (k, v) :: rest else (k, w) :: ValueTypeTable.assign rest key v

/-- The `uint32_t` value of the `TYPE_ID` argument of a registration line, given the
values `ids` of the constants. -/
def ValueTypeRow.key (ids : CrateDataTypeId → Nat) (r : ValueTypeRow) : Nat :=
  match r.type_id with
  | none => 0
  | some c => ids c

/-- `ADD_VALUE_TYPE(NAME_STR, TYPE_ID, SUPPORTS_ARRAY)`: the assertion that the id is not
yet registered, then the assignment; `none` stands for a failed assertion. -/
def ADD_VALUE_TYPE (table : Option ValueTypeTable) (name : String) (type_id : Nat)
    (supports_array : Bool) : Option ValueTypeTable :=
  match table with
  | none => none
  | some t =>
    if t.count type_id then none
    else some (t.assign type_id ⟨name, type_id, supports_array⟩)

/-- The registration block of `GetValueType`, run on the empty table. -/
def registerValueTypes (ids : CrateDataTypeId → Nat) : Option ValueTypeTable :=
  valueTypeRows.foldl
    (fun table r => ADD_VALUE_TYPE table r.name (r.key ids) r.supports_array) (some [])

/-- `GetValueType(type_id)`, given the values `ids` of the `VALUE_TYPE_*` constants;
`type_id` is an `int32_t`.  The outer `none` stands for a failed assertion of the
registration block. -/
def GetValueType (ids : CrateDataTypeId → Nat) (type_id : Int) :
    Option (Except String ValueType) :=
  match registerValueTypes ids with
  | none => none
  | some table =>
    if type_id < 0 then
      some (.error ("Unknown type id: " ++ toString type_id))
    else
      match table.at type_id.toNat with
      | none => some (.error ("Unknown or unspported type id: " ++ toString type_id))
      | some vt => some (.ok vt)

/-- The constants of the composite types that the table registers without array
form. -/
def nonArrayableTypes : List CrateDataTypeId :=
  [.VALUE_TYPE_DICTIONARY, .VALUE_TYPE_TOKEN_LIST_OP, .VALUE_TYPE_STRING_LIST_OP,
    .VALUE_TYPE_PATH_LIST_OP, .VALUE_TYPE_REFERENCE_LIST_OP, .VALUE_TYPE_INT_LIST_OP,
    .VALUE_TYPE_INT64_LIST_OP, .VALUE_TYPE_UINT_LIST_OP, .VALUE_TYPE_UINT64_LIST_OP,
    .VALUE_TYPE_PAYLOAD_LIST_OP, .VALUE_TYPE_PATH_VECTOR, .VALUE_TYPE_TOKEN_VECTOR,
    .VALUE_TYPE_SPECIFIER, .VALUE_TYPE_PERMISSION, .VALUE_TYPE_VARIABILITY,
    .VALUE_TYPE_VARIANT_SELECTION_MAP, .VALUE_TYPE_TIME_SAMPLES, .VALUE_TYPE_DOUBLE_VECTOR,
    .VALUE_TYPE_LAYER_OFFSET_VECTOR, .VALUE_TYPE_STRING_VECTOR, .VALUE_TYPE_VALUE_BLOCK,
    .VALUE_TYPE_UNREGISTERED_VALUE, .VALUE_TYPE_UNREGISTERED_VALUE_LIST_OP]

/-- The constants of the scalar, vector, matrix and quaternion types. -/
def arrayableTypes : List CrateDataTypeId :=
  [.VALUE_TYPE_BOOL, .VALUE_TYPE_UCHAR, .VALUE_TYPE_INT, .VALUE_TYPE_UINT, .VALUE_TYPE_INT64,
    .VALUE_TYPE_UINT64, .VALUE_TYPE_HALF, .VALUE_TYPE_FLOAT, .VALUE_TYPE_DOUBLE,
    .VALUE_TYPE_STRING, .VALUE_TYPE_TOKEN, .VALUE_TYPE_ASSET_PATH, .VALUE_TYPE_QUATD,
    .VALUE_TYPE_QUATF, .VALUE_TYPE_QUATH, .VALUE_TYPE_VEC2D, .VALUE_TYPE_VEC2F,
    .VALUE_TYPE_VEC2H, .VALUE_TYPE_VEC2I, .VALUE_TYPE_VEC3D, .VALUE_TYPE_VEC3F,
    .VALUE_TYPE_VEC3H, .VALUE_TYPE_VEC3I, .VALUE_TYPE_VEC4D, .VALUE_TYPE_VEC4F,
    .VALUE_TYPE_VEC4H, .VALUE_TYPE_VEC4I, .VALUE_TYPE_MATRIX2D, .VALUE_TYPE_MATRIX3D,
    .VALUE_TYPE_MATRIX4D]

/-- A sample numbering of the `VALUE_TYPE_*` constants: the position in the order of
registration, from 1. -/
def sampleTypeId : CrateDataTypeId → Nat
  | .VALUE_TYPE_BOOL => 1
  | .VALUE_TYPE_UCHAR => 2
  | .VALUE_TYPE_INT => 3
  | .VALUE_TYPE_UINT => 4
  | .VALUE_TYPE_INT64 => 5
  | .VALUE_TYPE_UINT64 => 6
  | .VALUE_TYPE_HALF => 7
  | .VALUE_TYPE_FLOAT => 8
  | .VALUE_TYPE_DOUBLE => 9
  | .VALUE_TYPE_STRING => 10
  | .VALUE_TYPE_TOKEN => 11
  | .VALUE_TYPE_ASSET_PATH => 12
  | .VALUE_TYPE_QUATD => 13
  | .VALUE_TYPE_QUATF => 14
  | .VALUE_TYPE_QUATH => 15
  | .VALUE_TYPE_VEC2D => 16
  | .VALUE_TYPE_VEC2F => 17
  | .VALUE_TYPE_VEC2H => 18
  | .VALUE_TYPE_VEC2I => 19
  | .VALUE_TYPE_VEC3D => 20
  | .VALUE_TYPE_VEC3F => 21
  | .VALUE_TYPE_VEC3H => 22
  | .VALUE_TYPE_VEC3I => 23
  | .VALUE_TYPE_VEC4D => 24
  | .VALUE_TYPE_VEC4F => 25
  | .VALUE_TYPE_VEC4H => 26
  | .VALUE_TYPE_VEC4I => 27
  | .VALUE_TYPE_MATRIX2D => 28
  | .VALUE_TYPE_MATRIX3D => 29
  | .VALUE_TYPE_MATRIX4D => 30
  | .VALUE_TYPE_DICTIONARY => 31
  | .VALUE_TYPE_TOKEN_LIST_OP => 32
  | .VALUE_TYPE_STRING_LIST_OP => 33
  | .VALUE_TYPE_PATH_LIST_OP => 34
  | .VALUE_TYPE_REFERENCE_LIST_OP => 35
  | .VALUE_TYPE_INT_LIST_OP => 36
  | .VALUE_TYPE_INT64_LIST_OP => 37
  | .VALUE_TYPE_UINT_LIST_OP => 38
  | .VALUE_TYPE_UINT64_LIST_OP => 39
  | .VALUE_TYPE_PATH_VECTOR => 40
  | .VALUE_TYPE_TOKEN_VECTOR => 41
  | .VALUE_TYPE_SPECIFIER => 42
  | .VALUE_TYPE_PERMISSION => 43
  | .VALUE_TYPE_VARIABILITY => 44
  | .VALUE_TYPE_VARIANT_SELECTION_MAP => 45
  | .VALUE_TYPE_TIME_SAMPLES => 46
  | .VALUE_TYPE_PAYLOAD => 47
  | .VALUE_TYPE_DOUBLE_VECTOR => 48
  | .VALUE_TYPE_LAYER_OFFSET_VECTOR => 49
  | .VALUE_TYPE_STRING_VECTOR => 50
  | .VALUE_TYPE_VALUE_BLOCK => 51
  | .VALUE_TYPE_VALUE => 52
  | .VALUE_TYPE_UNREGISTERED_VALUE => 53
  | .VALUE_TYPE_UNREGISTERED_VALUE_LIST_OP => 54
  | .VALUE_TYPE_PAYLOAD_LIST_OP => 55
  | .VALUE_TYPE_TIME_CODE => 56

/-- The constant with a given sample number. -/
def sampleTypeOfId : Nat → Option CrateDataTypeId
  | 1 => some .VALUE_TYPE_BOOL
  | 2 => some .VALUE_TYPE_UCHAR
  | 3 => some .VALUE_TYPE_INT
  | 4 => some .VALUE_TYPE_UINT
  | 5 => some .VALUE_TYPE_INT64
  | 6 => some .VALUE_TYPE_UINT64
  | 7 => some .VALUE_TYPE_HALF
  | 8 => some .VALUE_TYPE_FLOAT
  | 9 => some .VALUE_TYPE_DOUBLE
  | 10 => some .VALUE_TYPE_STRING
  | 11 => some .VALUE_TYPE_TOKEN
  | 12 => some .VALUE_TYPE_ASSET_PATH
  | 13 => some .VALUE_TYPE_QUATD
  | 14 => some .VALUE_TYPE_QUATF
  | 15 => some .VALUE_TYPE_QUATH
  | 16 => some .VALUE_TYPE_VEC2D
  | 17 => some .VALUE_TYPE_VEC2F
  | 18 => some .VALUE_TYPE_VEC2H
  | 19 => some .VALUE_TYPE_VEC2I
  | 20 => some .VALUE_TYPE_VEC3D
  | 21 => some .VALUE_TYPE_VEC3F
  | 22 => some .VALUE_TYPE_VEC3H
  | 23 => some .VALUE_TYPE_VEC3I
  | 24 => some .VALUE_TYPE_VEC4D
  | 25 => some .VALUE_TYPE_VEC4F
  | 26 => some .VALUE_TYPE_VEC4H
  | 27 => some .VALUE_TYPE_VEC4I
  | 28 => some .VALUE_TYPE_MATRIX2D
  | 29 => some .VALUE_TYPE_MATRIX3D
  | 30 => some .VALUE_TYPE_MATRIX4D
  | 31 => some .VALUE_TYPE_DICTIONARY
  | 32 => some .VALUE_TYPE_TOKEN_LIST_OP
  | 33 => some .VALUE_TYPE_STRING_LIST_OP
  | 34 => some .VALUE_TYPE_PATH_LIST_OP
  | 35 => some .VALUE_TYPE_REFERENCE_LIST_OP
  | 36 => some .VALUE_TYPE_INT_LIST_OP
  | 37 => some .VALUE_TYPE_INT64_LIST_OP
  | 38 => some .VALUE_TYPE_UINT_LIST_OP
  | 39 => some .VALUE_TYPE_UINT64_LIST_OP
  | 40 => some .VALUE_TYPE_PATH_VECTOR
  | 41 => some .VALUE_TYPE_TOKEN_VECTOR
  | 42 => some .VALUE_TYPE_SPECIFIER
  | 43 => some .VALUE_TYPE_PERMISSION
  | 44 => some .VALUE_TYPE_VARIABILITY
  | 45 => some .VALUE_TYPE_VARIANT_SELECTION_MAP
  | 46 => some .VALUE_TYPE_TIME_SAMPLES
  | 47 => some .VALUE_TYPE_PAYLOAD
  | 48 => some .VALUE_TYPE_DOUBLE_VECTOR
  | 49 => some .VALUE_TYPE_LAYER_OFFSET_VECTOR
  | 50 => some .VALUE_TYPE_STRING_VECTOR
  | 51 => some .VALUE_TYPE_VALUE_BLOCK
  | 52 => some .VALUE_TYPE_VALUE
  | 53 => some .VALUE_TYPE_UNREGISTERED_VALUE
  | 54 => some .VALUE_TYPE_UNREGISTERED_VALUE_LIST_OP
  | 55 => some .VALUE_TYPE_PAYLOAD_LIST_OP
  | 56 => some .VALUE_TYPE_TIME_CODE
  | _ => none

/-- `std::numeric_limits<int32_t>::max()`. -/
def INT32_MAX : Nat := 2 ^ 31 - 1

/-- `CrateReaderConfig` (crate-reader.hh); the `size_t` members are natural numbers. -/
structure CrateReaderConfig where
  numThreads : Int
  maxTOCSections : Nat
  maxNumTokens : Nat
  maxNumStrings : Nat
  maxNumFields : Nat
  maxNumFieldSets : Nat
  maxNumSpecifiers : Nat
  maxNumPaths : Nat
  maxNumIndices : Nat
  maxDictElements : Nat
  maxArrayElements : Nat
  maxAssetPathElements : Nat
  maxTokenLength : Nat
  maxStringLength : Nat
  maxMemoryBudget : Nat
  deriving DecidableEq, Repr

/-- A default-constructed `CrateReaderConfig`: the default member initializers of
crate-reader.hh, as written there. -/
def CrateReaderConfig.default : CrateReaderConfig where
  numThreads := -1
  maxTOCSections := 32
  maxNumTokens := 1024 * 1024
  maxNumStrings := 1024 * 1024
  maxNumFields := 1024 * 1024
  maxNumFieldSets := 1024 * 1024
  maxNumSpecifiers := 1024 * 1024
  maxNumPaths := 1024 * 1024
  maxNumIndices := 1024 * 1024 * 16
  maxDictElements := 256
  maxArrayElements := 1024 * 1024 * 1024
  maxAssetPathElements := 512
  maxTokenLength := 4096
  maxStringLength := 1024 * 1024 * 64
  maxMemoryBudget := INT32_MAX

/-- A sample property map with `uniform token[] xformOpOrder = ["!resetXformStack!",
"xformOp:translate", "!invert!" + third]` and attributes for `xformOp:translate`,
`xformOp:rotateX` and `xformOp:rotateY`. -/
def sampleXformOrder (third : String) : PropertyMap :=
  [("xformOp:rotateX", Property.ofScalar "double" .Varying (.double 90)),
   ("xformOp:rotateY", Property.ofScalar "double" .Varying (.double 90)),
   ("xformOp:translate", Property.ofScalar "double3" .Varying (.double3 1 2 3)),
   ("xformOpOrder", Property.ofScalar "token[]" .Uniform
     (.tokenArray ["!resetXformStack!", "xformOp:translate", "!invert!" ++ third]))]

/-- A sample property map with one xform op: the attribute `type_name name = v` and
`uniform token[] xformOpOrder = [item]`. -/
def sampleOp (item name type_name : String) (v : Value) : PropertyMap :=
  [(name, Property.ofScalar type_name .Varying v),
   ("xformOpOrder", Property.ofScalar "token[]" .Uniform (.tokenArray [item]))]

/-- The op types and suffixes of the ops that `ReconstructXformOpsFromProperties`
appends to an empty vector on `properties`, when it returns true. -/
def opsOf (properties : PropertyMap) : Option (List (OpType × Bool × String)) :=
  match ReconstructXformOpsFromProperties ∅ properties [] none with
  | .ok x => some (x.xformOps.map (fun op => (op.op_type, op.inverted, op.suffix)))
  | _ => none

/-- A sample property map whose `xformOpOrder` has `!resetXformStack!` in second
place, after a translate op. -/
def sampleResetSecond : PropertyMap :=
  [("xformOp:translate", Property.ofScalar "double3" .Varying (.double3 1 2 3)),
   ("xformOpOrder", Property.ofScalar "token[]" .Uniform
     (.tokenArray ["xformOp:translate", "!resetXformStack!"]))]

/-- A relationship property `rel name = target`. -/
def Property.ofRelation (target : RelTarget) : Property :=
  ⟨.Relation, ⟨"", .Varying, false, [], [], PrimVar.none⟩, ⟨target, []⟩⟩

/-- A relationship property declared without target, `rel name`. -/
def Property.ofNoTargetsRelation : Property :=
  ⟨.NoTargetsRelation, ⟨"", .Varying, false, [], [], PrimVar.none⟩, Relationship.none⟩

/-- A sample property map of a mesh: a material binding with a single target path, a
skeleton given as a vector of one path, and a custom property. -/
def sampleMesh : PropertyMap :=
  [("material:binding", Property.ofRelation (.path "/Looks/Mat")),
   ("skel:skeleton", Property.ofRelation (.pathvector ["/Skel"])),
   ("userProperties:note", Property.ofScalar "string" .Varying (.string "hello"))]

/-- Modelled from the spec: `value::TimeCode` (value-types.hh is absent): the default
time code, or a time. -/
inductive TimeCode where
  | Default
  | time (t : Time)
  deriving DecidableEq, Repr

/-- Modelled from the spec: the held lookup in samples kept in the order of their times:
going on from the sample `cur`, the last sample met before the first one whose time
is greater than `t`. -/
def heldFrom {T : Type} (cur : AnimSample T) : List (AnimSample T) → Time → AnimSample T
  | [], _ => cur
  | x :: rest, t => if x.t ≤ t then heldFrom x rest t else cur

/-- Modelled from the spec: `Animatable<T>::get(t, &v)` for a type without linear
interpolation (prim-types.hh is absent): the single value when there are no samples;
"`TimeCode::Default` returns the first sample's value"; otherwise held interpolation,
"the value at the greatest `t' ≤ t`", and the first sample when `t` is before all of
them.  `none` stands for a return of false. -/
def Animatable.get {T : Type} (a : Animatable T) (tc : TimeCode) : Option T :=
  match a.samples with
  | [] => if a.blocked then none else a.value
  | s :: rest =>
    match tc with
    | .Default => s.value
    | .time t => (heldFrom s rest t).value

/-- The part of `AsciiParser` that `PathStackDepth`, `PushPath` and `PopPath` use: the
member `std::stack<std::string> _path_stack`, its top first. -/
structure AsciiParser where
  _path_stack : List String
  deriving DecidableEq, Repr

/-- `AsciiParser::PushPath(p)`. -/
def AsciiParser.PushPath (a : AsciiParser) (p : String) : AsciiParser :=
  ⟨p :: a._path_stack⟩

/-- `AsciiParser::PopPath()`. -/
def AsciiParser.PopPath (a : AsciiParser) : AsciiParser :=
  if !a._path_stack.isEmpty then ⟨a._path_stack.tail⟩ else a

/-- `AsciiParser::PathStackDepth()`: declared `bool`, so the `size_t` of
`_path_stack.size()` is converted to `bool`, true exactly when it is not zero. -/
def AsciiParser.PathStackDepth (a : AsciiParser) : Bool :=
  a._path_stack.length != 0

/-- Modelled from the spec: `SkelRoot` (usdSkel.hh is absent), with the members that
`ReconstructPrim<SkelRoot>` writes: the xform ops, `visibility`, `purpose`, `extent` and
the residual `props`, typed as in `Xform`. -/
structure SkelRoot where
  xformOps : List XformOp
  visibility : TypedAttributeWithFallback (Animatable Visibility)
  purpose : TypedAttributeWithFallback Purpose
  extent : TypedAttribute (Animatable Extent)
  props : PropertyMap

/-- A default-constructed `SkelRoot`. -/
def SkelRoot.fresh : SkelRoot where
  xformOps := []
  visibility := TypedAttributeWithFallback.fresh (Animatable.ofValue .Inherited)
  purpose := TypedAttributeWithFallback.fresh .Default
  extent := TypedAttribute.fresh
  props := []

/-- The lvalue `root->props`. -/
def SkelRoot.propsField : Field SkelRoot PropertyMap :=
  ⟨fun g => g.props, fun v g => { g with props := v }⟩

/-- The body of the property loop of `ReconstructPrim<SkelRoot>`, in the order of the
source: `ADD_PROPERTY` stands first. -/
def SkelRoot.body (klass_name : String) (s : ReconState SkelRoot)
    (prop : String × Property) : Step (ReconState SkelRoot) :=
  (ADD_PROPERTY SkelRoot.propsField s prop).andThen fun s =>
  (PARSE_ENUM_PROPETY "visibility" VisibilityEnumHandler klass_name
      (fun e g => { g with visibility := g.visibility.set_value (Animatable.ofValue e) })
      s prop).andThen fun s =>
  (PARSE_ENUM_PROPETY "purpose" PurposeEnumHandler klass_name
      (fun e g => { g with purpose := g.purpose.set_value e }) s prop).andThen fun s =>
  (PARSE_EXTENT_ATTRIBUTE "extent"
      ⟨fun g => g.extent, fun v g => { g with extent := v }⟩ s prop).andThen fun s =>
  PARSE_PROPERTY_END_MAKE_WARN s prop

/-- `ReconstructPrim<SkelRoot>`. -/
def ReconstructPrim_SkelRoot (klass_name : String) (properties : PropertyMap)
    (root : SkelRoot) (warn err : Option String) : Outcome (ReconState SkelRoot) :=
  match ReconstructXformOpsFromProperties ∅ properties root.xformOps err with
  | .fail x => .fail ⟨x.table, { root with xformOps := x.xformOps }, warn, x.err⟩
  | .raise => .raise
  | .ok x =>
    propertyLoop (SkelRoot.body klass_name)
      ⟨x.table, { root with xformOps := x.xformOps }, warn, x.err⟩ properties

/-- Modelled from the spec: `value::matrix4d` (value-types.hh is absent), its sixteen
entries. -/
abbrev matrix4d := List Rat

/-- Modelled from the spec: `value::TypeTraits<std::vector<value::matrix4d>>`
(value-types.hh is absent): the array form `matrix4d[]`. -/
def matrix4dArrayTraits : TypeTraits (List matrix4d) where
  type_name := "matrix4d[]"
  underlying_type_name := "matrix4d[]"
  get_value := fun v =>
    match v with
    | .matrix4dArray xs => some xs
    | _ => none

/-- Modelled from the spec: `TypedAttribute<T>::get_value()` (prim-types.hh is absent):
the authored value, if the slot holds one. -/
def TypedAttribute.get_value {T : Type} (s : TypedAttribute T) : Option T := s.attrib

/-- Modelled from the spec: `Skeleton` (usdSkel.hh is absent), with the members that
`ReconstructPrim<Skeleton>` writes; `bindTransforms` and `restTransforms` are
`uniform matrix4d[]`, `joints` and `jointNames` are `uniform token[]`. -/
structure Skeleton where
  animationSource : Option Relationship
  bindTransforms : TypedAttribute (List matrix4d)
  joints : TypedAttribute (List String)
  jointNames : TypedAttribute (List String)
  restTransforms : TypedAttribute (List matrix4d)
  visibility : TypedAttributeWithFallback (Animatable Visibility)
  purpose : TypedAttributeWithFallback Purpose
  extent : TypedAttribute (Animatable Extent)
  props : PropertyMap

/-- A default-constructed `Skeleton`. -/
def Skeleton.fresh : Skeleton where
  animationSource := none
  bindTransforms := TypedAttribute.fresh
  joints := TypedAttribute.fresh
  jointNames := TypedAttribute.fresh
  restTransforms := TypedAttribute.fresh
  visibility := TypedAttributeWithFallback.fresh (Animatable.ofValue .Inherited)
  purpose := TypedAttributeWithFallback.fresh .Default
  extent := TypedAttribute.fresh
  props := []

/-- The lvalue `skel->bindTransforms`. -/
def Skeleton.bindTransformsField : Field Skeleton (TypedAttribute (List matrix4d)) :=
  ⟨fun g => g.bindTransforms, fun v g => { g with bindTransforms := v }⟩

/-- The lvalue `skel->restTransforms`. -/
def Skeleton.restTransformsField : Field Skeleton (TypedAttribute (List matrix4d)) :=
  ⟨fun g => g.restTransforms, fun v g => { g with restTransforms := v }⟩

/-- The lvalue `skel->joints`. -/
def Skeleton.jointsField : Field Skeleton (TypedAttribute (List String)) :=
  ⟨fun g => g.joints, fun v g => { g with joints := v }⟩

/-- The lvalue `skel->jointNames`. -/
def Skeleton.jointNamesField : Field Skeleton (TypedAttribute (List String)) :=
  ⟨fun g => g.jointNames, fun v g => { g with jointNames := v }⟩

/-- The lvalue `skel->extent`. -/
def Skeleton.extentField : Field Skeleton (TypedAttribute (Animatable Extent)) :=
  ⟨fun g => g.extent, fun v g => { g with extent := v }⟩

/-- The lvalue `skel->props`. -/
def Skeleton.propsField : Field Skeleton PropertyMap :=
  ⟨fun g => g.props, fun v g => { g with props := v }⟩

/-- The `skel:animationSource` block at the head of the loop of
`ReconstructPrim<Skeleton>`; it has no `continue`. -/
def Skeleton.animationSourceArm (s : ReconState Skeleton) (prop : String × Property) :
    Step (ReconState Skeleton) :=
  if prop.1 = "skel:animationSource" then
    if prop.2.is_relationship && prop.2.get_relationship.is_path then
      let rel := prop.2.get_relationship
      if rel.is_path then
        .next { s with prim := { s.prim with animationSource := some rel },
                       table := insert "skel:animationSource" s.table }
      else
        PUSH_ERROR_AND_RETURN s ("`" ++ "skel:animationSource" ++ "` target must be Path.")
    else
      PUSH_ERROR_AND_RETURN s
        ("`" ++ "skel:animationSource" ++ "` must be a Relationship with Path target.")
  else .next s

/-- The typed-attribute, enum and extent arms of the loop of
`ReconstructPrim<Skeleton>`; `klass_name` stands for
`value::TypeTraits<Skeleton>::type_name()`. -/
def Skeleton.schemaArms (klass_name : String) (s : ReconState Skeleton)
    (prop : String × Property) : Step (ReconState Skeleton) :=
  (PARSE_TYPED_ATTRIBUTE (ParseTypedAttribute_Uniform matrix4dArrayTraits) "bindTransforms"
      Skeleton.bindTransformsField s prop).andThen fun s =>
  (PARSE_TYPED_ATTRIBUTE (ParseTypedAttribute_Uniform tokenArrayTraits) "joints"
      Skeleton.jointsField s prop).andThen fun s =>
  (PARSE_TYPED_ATTRIBUTE (ParseTypedAttribute_Uniform tokenArrayTraits) "jointNames"
      Skeleton.jointNamesField s prop).andThen fun s =>
  (PARSE_TYPED_ATTRIBUTE (ParseTypedAttribute_Uniform matrix4dArrayTraits) "restTransforms"
      Skeleton.restTransformsField s prop).andThen fun s =>
  (PARSE_ENUM_PROPETY "visibility" VisibilityEnumHandler klass_name
      (fun e g => { g with visibility := g.visibility.set_value (Animatable.ofValue e) })
      s prop).andThen fun s =>
  (PARSE_ENUM_PROPETY "purpose" PurposeEnumHandler klass_name
      (fun e g => { g with purpose := g.purpose.set_value e }) s prop).andThen fun s =>
  PARSE_EXTENT_ATTRIBUTE "extent" Skeleton.extentField s prop

/-- The arms of the loop of `ReconstructPrim<Skeleton>` that stand before
`ADD_PROPERTY`. -/
def Skeleton.arms (klass_name : String) (s : ReconState Skeleton)
    (prop : String × Property) : Step (ReconState Skeleton) :=
  (Skeleton.animationSourceArm s prop).andThen fun s =>
  Skeleton.schemaArms klass_name s prop

/-- The body of the property loop of `ReconstructPrim<Skeleton>`. -/
def Skeleton.body (klass_name : String) (s : ReconState Skeleton)
    (prop : String × Property) : Step (ReconState Skeleton) :=
  (Skeleton.arms klass_name s prop).andThen fun s =>
  (ADD_PROPERTY Skeleton.propsField s prop).andThen fun s =>
  PARSE_PROPERTY_END_MAKE_ERROR s prop

/-- The check `len(bindTransforms) == len(restTransforms)` that ends
`ReconstructPrim<Skeleton>`: both slots hold a value and the two arrays have the same
size. -/
def Skeleton.valid (skel : Skeleton) : Bool :=
  match skel.bindTransforms.get_value with
  | some bt =>
    match skel.restTransforms.get_value with
    | some rt => decide (bt.length = rt.length)
    | none => false
  | none => false

/-- `ReconstructPrim<Skeleton>`; `PUSH_ERROR_AND_RETURN_TAG` is taken as
`PUSH_ERROR_AND_RETURN`, the tag being part of the frame of the message. -/
def ReconstructPrim_Skeleton (klass_name : String) (properties : PropertyMap)
    (skel : Skeleton) (warn err : Option String) : Outcome (ReconState Skeleton) :=
  match propertyLoop (Skeleton.body klass_name) ⟨∅, skel, warn, err⟩ properties with
  | .fail s => .fail s
  | .raise => .raise
  | .ok s =>
    if "bindTransforms" ∉ s.table then
      .fail (s.withError
        "`bindTransforms` is missing in Skeleton. Currently TinyUSDZ expects `bindTransforms` must exist in Skeleton.")
    else if "restTransforms" ∉ s.table then
      .fail (s.withError
        "`restTransforms`(local joint matrices at rest state) is missing in Skeleton. Currently TinyUSDZ expects `restTransforms` must exist in Skeleton.")
    else if !s.prim.valid then
      .fail (s.withError
        "Array length must be same for `bindTransforms` and `restTransforms`.")
    else .ok s

/-- What a loop arm may do to the value `f` of one slot: leave it as it was, or set it
to a value `v` with `R prop v`. -/
def SlotSpec {τ V : Type} (f : τ → Option V) (R : String × Property → V → Prop)
    (arm : ReconState τ → String × Property → Step (ReconState τ)) : Prop :=
  ∀ (s : ReconState τ) (prop : String × Property) (s1 : ReconState τ),
    (arm s prop = .next s1 ∨ arm s prop = .continue_ s1) →
    f s1.prim = f s.prim ∨ ∃ v, f s1.prim = some v ∧ R prop v

/-- What a loop arm may do to the membership of the name `k` in the table: leave it as
it was, or add `k` at a property whose name is in `own`. -/
def KeySpec {τ : Type} (k : String) (own : List String)
    (arm : ReconState τ → String × Property → Step (ReconState τ)) : Prop :=
  ∀ (s : ReconState τ) (prop : String × Property) (s1 : ReconState τ),
    (arm s prop = .next s1 ∨ arm s prop = .continue_ s1) →
    k ∈ s1.table → k ∈ s.table ∨ prop.1 ∈ own

/-- The property that an authored value `v` of the slot `X` comes from: named `X`, no
connection, not blocked, and read as `v` by the typed read of `tt`. -/
def AuthoredValue {T : Type} (tt : TypeTraits T) (X : String)
    (prop : String × Property) (v : T) : Prop :=
  prop.1 = X ∧ prop.2.is_connection = false ∧ prop.2.get_attribute.is_blocked = false
    ∧ prop.2.get_attribute.get_value tt = some v

/-- A sample property map of a skeleton: two bind transforms and two rest transforms. -/
def sampleSkeleton : PropertyMap :=
  [("bindTransforms", Property.ofScalar "matrix4d[]" .Uniform
      (.matrix4dArray [[1, 0, 0, 0, 0, 1, 0, 0, 0, 0, 1, 0, 0, 0, 0, 1],
        [1, 0, 0, 0, 0, 1, 0, 0, 0, 0, 1, 0, 0, 1, 0, 1]])),
   ("restTransforms", Property.ofScalar "matrix4d[]" .Uniform
      (.matrix4dArray [[1, 0, 0, 0, 0, 1, 0, 0, 0, 0, 1, 0, 0, 0, 0, 1],
        [1, 0, 0, 0, 0, 1, 0, 0, 0, 0, 1, 0, 0, 1, 0, 1]]))]

/-! ## Theorems -/

/-! ### Type mismatch (C1) -/

/-- A name never equals itself followed by `.connect`. -/
theorem ne_append_connect (name : String) : name ≠ name ++ ".connect" := by
  intro h
  have h2 := congrArg String.length h
  rw [String.length_append] at h2
  have h3 : (".connect" : String).length = 8 := by decide
  omega

/-- C1: in each of the four `ParseTypedAttribute` matchers, a property named like the
slot, not yet in the table, that is not a connection and whose attribute type name is
neither the type name of `T` nor the name of its underlying type, is rejected with
`TypeMismatch` and the text "Property type mismatch. <name> expects type <T> but
defined as type <attr type>" (both type names in backquotes); table and target are
left as they were. -/
theorem C1_type_mismatch {T : Type} (tt : TypeTraits T) (table : Table)
    (prop_name name : String) (prop : Property)
    (hname : prop_name = name) (htable : name ∉ table)
    (hconn : prop.is_connection = false)
    (hty : tt.type_name ≠ prop.get_attribute.type_name)
    (hunder : tt.underlying_type_name ≠ prop.get_attribute.type_name) :
    (∀ target, ParseTypedAttribute_WithFallbackAnimatable tt table prop_name prop name target
      = ⟨⟨.TypeMismatch, "Property type mismatch. " ++ name ++ " expects type `"
          ++ tt.type_name ++ "` but defined as type `" ++ prop.get_attribute.type_name
          ++ "`"⟩, table, target⟩)
    ∧ (∀ target, ParseTypedAttribute_WithFallback tt table prop_name prop name target
      = ⟨⟨.TypeMismatch, "Property type mismatch. " ++ name ++ " expects type `"
          ++ tt.type_name ++ "` but defined as type `" ++ prop.get_attribute.type_name
          ++ "`"⟩, table, target⟩)
    ∧ (∀ target, ParseTypedAttribute_Animatable tt table prop_name prop name target
      = ⟨⟨.TypeMismatch, "Property type mismatch. " ++ name ++ " expects type `"
          ++ tt.type_name ++ "` but defined as type `" ++ prop.get_attribute.type_name
          ++ "`"⟩, table, target⟩)
    ∧ (∀ target, ParseTypedAttribute_Uniform tt table prop_name prop name target
      = ⟨⟨.TypeMismatch, "Property type mismatch. " ++ name ++ " expects type `"
          ++ tt.type_name ++ "` but defined as type `" ++ prop.get_attribute.type_name
          ++ "`"⟩, table, target⟩) := by
  subst hname
  have hne := ne_append_connect prop_name
  refine ⟨?_, ?_, ?_, ?_⟩ <;> intro target
  · simp [ParseTypedAttribute_WithFallbackAnimatable, hne, htable, hconn, hty, hunder]
  · simp [ParseTypedAttribute_WithFallback, hne, htable, hconn, hty, hunder]
  · simp [ParseTypedAttribute_Animatable, hne, htable, hconn, hty, hunder]
  · simp [ParseTypedAttribute_Uniform, hne, htable, hconn, hty, hunder]

/-- C1 at `int radius = 1` read into the `double` slot `radius`: the hypotheses hold
and all four matchers answer `TypeMismatch` naming `radius`, `double` and `int`. -/
theorem C1_type_mismatch_witness :
    ("radius" ∉ (∅ : Table)
      ∧ (Property.ofScalar "int" .Varying (.int 1)).is_connection = false)
    ∧ ((∀ target, ParseTypedAttribute_WithFallbackAnimatable doubleTraits ∅ "radius"
          (Property.ofScalar "int" .Varying (.int 1)) "radius" target
        = ⟨⟨.TypeMismatch, "Property type mismatch. " ++ "radius" ++ " expects type `"
            ++ "double" ++ "` but defined as type `" ++ "int" ++ "`"⟩, ∅, target⟩)
      ∧ (∀ target, ParseTypedAttribute_WithFallback doubleTraits ∅ "radius"
          (Property.ofScalar "int" .Varying (.int 1)) "radius" target
        = ⟨⟨.TypeMismatch, "Property type mismatch. " ++ "radius" ++ " expects type `"
            ++ "double" ++ "` but defined as type `" ++ "int" ++ "`"⟩, ∅, target⟩)
      ∧ (∀ target, ParseTypedAttribute_Animatable doubleTraits ∅ "radius"
          (Property.ofScalar "int" .Varying (.int 1)) "radius" target
        = ⟨⟨.TypeMismatch, "Property type mismatch. " ++ "radius" ++ " expects type `"
            ++ "double" ++ "` but defined as type `" ++ "int" ++ "`"⟩, ∅, target⟩)
      ∧ (∀ target, ParseTypedAttribute_Uniform doubleTraits ∅ "radius"
          (Property.ofScalar "int" .Varying (.int 1)) "radius" target
        = ⟨⟨.TypeMismatch, "Property type mismatch. " ++ "radius" ++ " expects type `"
            ++ "double" ++ "` but defined as type `" ++ "int" ++ "`"⟩, ∅, target⟩)) :=
  ⟨⟨by decide, by decide⟩,
    C1_type_mismatch doubleTraits ∅ "radius" "radius"
      (Property.ofScalar "int" .Varying (.int 1)) rfl (by decide) (by decide)
      (by decide) (by decide)⟩

/-! ### The already-processed table (C2) and connections (C3) -/

/-- `SlotGuard` follows from four local facts about a matcher: the two
`AlreadyProcessed` exits, the frame of every answer other than `Success`, the table
entry made by a `Success` on the name itself, and the shape of a single write. -/
theorem slotGuard_of_local {τ : Type} (m : Matcher τ) (hasValue : τ → Bool)
    (paths : τ → List Path) (X : String)
    (h1 : ∀ table prop target, X ∈ table →
      m table X prop X target = ⟨⟨.AlreadyProcessed, ""⟩, table, target⟩
      ∧ m table (X ++ ".connect") prop X target = ⟨⟨.AlreadyProcessed, ""⟩, table, target⟩)
    (h2 : ∀ table prop_name prop target,
      (m table prop_name prop X target).ret.code ≠ .Success →
      (m table prop_name prop X target).target = target
      ∧ (m table prop_name prop X target).table = table)
    (h3 : ∀ table prop target, (m table X prop X target).ret.code = .Success →
      X ∈ (m table X prop X target).table)
    (h4 : ∀ table prop_name prop target, hasValue target = false → paths target = [] →
      ¬ (hasValue (m table prop_name prop X target).target = true
          ∧ paths (m table prop_name prop X target).target ≠ [])) :
    SlotGuard m hasValue paths X := by
  refine ⟨h1, h2, ?_, ?_⟩
  · intro table table2 pX pC target hsub ⟨hs1, hs2⟩
    have hmem : X ∈ table2 := hsub (h3 table pX target hs1)
    rw [(h1 table2 pC _ hmem).2] at hs2
    simp at hs2
  · intro table table2 pX pC target hv hp hsub
    by_cases hs1 : (m table X pX X target).ret.code = .Success
    · have hmem : X ∈ table2 := hsub (h3 table pX target hs1)
      rw [(h1 table2 pC _ hmem).2]
      exact h4 table X pX target hv hp
    · rw [(h2 table X pX target hs1).1]
      exact h4 table2 (X ++ ".connect") pC target hv hp

/-- Case analysis of `ParseTypedAttribute` for `TypedAttributeWithFallback<Animatable<T>>`:
every result is either an answer other than `Success` that leaves table and target as
they were, or one of the five writes. -/
theorem cases_WithFallbackAnimatable {T : Type} (tt : TypeTraits T) (X : String)
    (table : Table) (prop_name : String) (prop : Property)
    (target : TypedAttributeWithFallback (Animatable T))
    (P : Parsed (TypedAttributeWithFallback (Animatable T)) → Prop)
    (hfail : ∀ code err, code ≠ .Success →
      (code = .Unmatched → prop_name ≠ X ∧ prop_name ≠ X ++ ".connect") →
      P ⟨⟨code, err⟩, table, target⟩)
    (hconn : ∀ ps m, ps ≠ [] → prop_name = X ++ ".connect" →
      P ⟨⟨.Success, ""⟩, insert (removeSuffix X ".connect") table,
        (target.set_connections ps).set_metas m⟩)
    (hconn2 : ∀ ps m, ps ≠ [] → prop_name = X →
      P ⟨⟨.Success, ""⟩, insert X table, (target.set_connections ps).set_metas m⟩)
    (hempty : ∀ m, prop_name = X →
      P ⟨⟨.Success, ""⟩, insert X table, (target.set_value_empty).set_metas m⟩)
    (hblocked : ∀ m, prop_name = X →
      P ⟨⟨.Success, ""⟩, insert X table, (target.set_blocked true).set_metas m⟩)
    (hvalue : ∀ v m, prop_name = X →
      P ⟨⟨.Success, ""⟩, insert X table, (target.set_value v).set_metas m⟩) :
    P (ParseTypedAttribute_WithFallbackAnimatable tt table prop_name prop X target) := by
  unfold ParseTypedAttribute_WithFallbackAnimatable
  by_cases c1 : prop_name = X ++ ".connect"
  · rw [if_pos c1]
    by_cases c2 : removeSuffix X ".connect" ∈ table
    · simp only [c2, if_true]
      exact hfail _ _ (by decide) (by simp)
    · simp only [c2, if_false]
      by_cases c3 : prop.is_connection = true
      · rw [if_pos c3]
        cases c4 : prop.get_relationTarget with
        | none => exact hfail _ _ (by decide) (by simp)
        | some pv => exact hconn [_] _ (by simp) c1
      · rw [if_neg c3]
        exact hfail _ _ (by decide) (by simp)
  · rw [if_neg c1]
    by_cases d1 : prop_name = X
    · subst d1
      rw [if_pos rfl]
      by_cases d2 : prop_name ∈ table
      · rw [if_pos d2]
        exact hfail _ _ (by decide) (by simp)
      · rw [if_neg d2]
        dsimp only
        by_cases d3 : prop.is_connection = true
        · rw [if_pos d3]
          by_cases d4 : prop.get_attribute.is_connection = true
          · rw [if_pos d4]
            exact hconn2 _ _ (by simpa [Attribute.is_connection] using d4) rfl
          · rw [if_neg d4]
            exact hfail _ _ (by decide) (by simp)
        · rw [if_neg d3]
          by_cases d5 : tt.type_name = prop.get_attribute.type_name
              ∨ tt.underlying_type_name = prop.get_attribute.type_name
          · rw [if_pos d5]
            by_cases d6 : prop.get_property_type = .EmptyAttrib
            · rw [if_pos d6]
              exact hempty _ rfl
            · rw [if_neg d6]
              by_cases d7 : prop.get_property_type = .Attrib
              · rw [if_pos d7]
                by_cases d8 : prop.get_attribute.is_blocked = true
                · rw [if_pos d8]
                  exact hblocked _ rfl
                · rw [if_neg d8]
                  by_cases d9 : prop.get_attribute.variability = .Uniform
                  · rw [if_pos d9]
                    by_cases d10 : (!prop.get_attribute.var.is_scalar) = true
                    · rw [if_pos d10]
                      exact hfail _ _ (by decide) (by simp)
                    · rw [if_neg d10]
                      cases prop.get_attribute.get_value tt with
                      | none => exact hfail _ _ (by decide) (by simp)
                      | some pv => exact hvalue _ _ rfl
                  · rw [if_neg d9]
                    by_cases d11 : prop.get_attribute.var.is_timesamples = true
                    · rw [if_pos d11]
                      cases ConvertToAnimatable tt prop.get_attribute.var with
                      | none => exact hfail _ _ (by decide) (by simp)
                      | some av => exact hvalue _ _ rfl
                    · rw [if_neg d11]
                      by_cases d12 : prop.get_attribute.var.is_scalar = true
                      · rw [if_pos d12]
                        cases prop.get_attribute.get_value tt with
                        | none => exact hfail _ _ (by decide) (by simp)
                        | some pv => exact hvalue _ _ rfl
                      · rw [if_neg d12]
                        exact hfail _ _ (by decide) (by simp)
              · rw [if_neg d7]
                exact hfail _ _ (by decide) (by simp)
          · rw [if_neg d5]
            exact hfail _ _ (by decide) (by simp)
    · rw [if_neg d1]
      exact hfail _ _ (by decide) (fun _ => ⟨d1, c1⟩)

/-- Case analysis of `ParseTypedAttribute_WithFallback`: every result is either an answer other
than `Success` that leaves table and target as they were, or one of the five writes. -/
theorem cases_WithFallback {T : Type} (tt : TypeTraits T) (X : String)
    (table : Table) (prop_name : String) (prop : Property)
    (target : TypedAttributeWithFallback T)
    (P : Parsed (TypedAttributeWithFallback T) → Prop)
    (hfail : ∀ code err, code ≠ .Success →
      (code = .Unmatched → prop_name ≠ X ∧ prop_name ≠ X ++ ".connect") →
      P ⟨⟨code, err⟩, table, target⟩)
    (hconn : ∀ ps m, ps ≠ [] → prop_name = X ++ ".connect" →
      P ⟨⟨.Success, ""⟩, insert (removeSuffix X ".connect") table,
        (target.set_connections ps).set_metas m⟩)
    (hconn2 : ∀ ps m, ps ≠ [] → prop_name = X →
      P ⟨⟨.Success, ""⟩, insert X table, (target.set_connections ps).set_metas m⟩)
    (hempty : ∀ m, prop_name = X →
      P ⟨⟨.Success, ""⟩, insert X table, (target.set_value_empty).set_metas m⟩)
    (hblocked : ∀ m, prop_name = X →
      P ⟨⟨.Success, ""⟩, insert X table, (target.set_blocked true).set_metas m⟩)
    (hvalue : ∀ v m, prop_name = X →
      P ⟨⟨.Success, ""⟩, insert X table, (target.set_value v).set_metas m⟩) :
    P (ParseTypedAttribute_WithFallback tt table prop_name prop X target) := by
  unfold ParseTypedAttribute_WithFallback
  by_cases c1 : prop_name = X ++ ".connect"
  · rw [if_pos c1]
    by_cases c2 : removeSuffix X ".connect" ∈ table
    · simp only [c2, if_true]
      exact hfail _ _ (by decide) (by simp)
    · simp only [c2, if_false]
      by_cases c3 : prop.is_connection = true
      · rw [if_pos c3]
        by_cases c4 : prop.get_attribute.is_connection = true
        · rw [if_pos c4]
          exact hconn _ _ (by simpa [Attribute.is_connection] using c4) c1
        · rw [if_neg c4]
          exact hfail _ _ (by decide) (by simp)
      · rw [if_neg c3]
        exact hfail _ _ (by decide) (by simp)
  · rw [if_neg c1]
    by_cases d1 : prop_name = X
    · subst d1
      rw [if_pos rfl]
      by_cases d2 : prop_name ∈ table
      · rw [if_pos d2]
        exact hfail _ _ (by decide) (by simp)
      · rw [if_neg d2]
        by_cases d3 : prop.is_connection = true
        · rw [if_pos d3]
          by_cases d4 : prop.get_attribute.is_connection = true
          · simp only [d4, if_true]
            exact hconn2 _ _ (by simpa [Attribute.is_connection] using d4) rfl
          · simp only [d4]
            exact hfail _ _ (by decide) (by simp)
        · rw [if_neg d3]
          dsimp only
          by_cases d5 : tt.type_name = prop.get_attribute.type_name
              ∨ tt.underlying_type_name = prop.get_attribute.type_name
          · rw [if_pos d5]
            by_cases d6 : prop.get_property_type = .EmptyAttrib
            · rw [if_pos d6]
              exact hempty _ rfl
            · rw [if_neg d6]
              by_cases d7 : prop.get_property_type = .Attrib
              · rw [if_pos d7]
                by_cases d8 : prop.get_attribute.variability ≠ .Uniform
                · rw [if_pos d8]
                  exact hfail _ _ (by decide) (by simp)
                · rw [if_neg d8]
                  by_cases d9 : prop.get_attribute.is_blocked = true
                  · rw [if_pos d9]
                    exact hblocked _ rfl
                  · rw [if_neg d9]
                    by_cases d10 : prop.get_attribute.var.is_scalar = true
                    · rw [if_pos d10]
                      cases prop.get_attribute.get_value tt with
                      | none => exact hfail _ _ (by decide) (by simp)
                      | some pv => exact hvalue _ _ rfl
                    · rw [if_neg d10]
                      exact hfail _ _ (by decide) (by simp)
              · rw [if_neg d7]
                exact hfail _ _ (by decide) (by simp)
          · rw [if_neg d5]
            exact hfail _ _ (by decide) (by simp)
    · rw [if_neg d1]
      exact hfail _ _ (by decide) (fun _ => ⟨d1, c1⟩)

/-- Case analysis of `ParseTypedAttribute_Animatable`: every result is either an answer other
than `Success` that leaves table and target as they were, or one of the five writes. -/
theorem cases_Animatable {T : Type} (tt : TypeTraits T) (X : String)
    (table : Table) (prop_name : String) (prop : Property)
    (target : TypedAttribute (Animatable T))
    (P : Parsed (TypedAttribute (Animatable T)) → Prop)
    (hfail : ∀ code err, code ≠ .Success →
      (code = .Unmatched → prop_name ≠ X ∧ prop_name ≠ X ++ ".connect") →
      P ⟨⟨code, err⟩, table, target⟩)
    (hconn : ∀ ps m, ps ≠ [] → prop_name = X ++ ".connect" →
      P ⟨⟨.Success, ""⟩, insert (removeSuffix X ".connect") table,
        (target.set_connections ps).set_metas m⟩)
    (hconn2 : ∀ ps m, ps ≠ [] → prop_name = X →
      P ⟨⟨.Success, ""⟩, insert X table, (target.set_connections ps).set_metas m⟩)
    (hempty : ∀ m, prop_name = X →
      P ⟨⟨.Success, ""⟩, insert X table, (target.set_value_empty).set_metas m⟩)
    (hblocked : ∀ m, prop_name = X →
      P ⟨⟨.Success, ""⟩, insert X table, (target.set_blocked true).set_metas m⟩)
    (hvalue : ∀ v m, prop_name = X →
      P ⟨⟨.Success, ""⟩, insert X table, (target.set_value v).set_metas m⟩) :
    P (ParseTypedAttribute_Animatable tt table prop_name prop X target) := by
  unfold ParseTypedAttribute_Animatable
  by_cases c1 : prop_name = X ++ ".connect"
  · rw [if_pos c1]
    by_cases c2 : removeSuffix X ".connect" ∈ table
    · simp only [c2, if_true]
      exact hfail _ _ (by decide) (by simp)
    · simp only [c2, if_false]
      by_cases c3 : prop.is_connection = true
      · rw [if_pos c3]
        by_cases c4 : prop.get_attribute.is_connection = true
        · rw [if_pos c4]
          exact hconn _ _ (by simpa [Attribute.is_connection] using c4) c1
        · rw [if_neg c4]
          exact hfail _ _ (by decide) (by simp)
      · rw [if_neg c3]
        exact hfail _ _ (by decide) (by simp)
  · rw [if_neg c1]
    by_cases d1 : prop_name = X
    · subst d1
      rw [if_pos rfl]
      by_cases d2 : prop_name ∈ table
      · rw [if_pos d2]
        exact hfail _ _ (by decide) (by simp)
      · rw [if_neg d2]
        by_cases d3 : prop.is_connection = true
        · rw [if_pos d3]
          by_cases d4 : prop.get_attribute.is_connection = true
          · simp only [d4, if_true]
            exact hconn2 _ _ (by simpa [Attribute.is_connection] using d4) rfl
          · simp only [d4]
            exact hfail _ _ (by decide) (by simp)
        · rw [if_neg d3]
          dsimp only
          by_cases d5 : tt.type_name = prop.get_attribute.type_name
              ∨ tt.underlying_type_name = prop.get_attribute.type_name
          · rw [if_pos d5]
            by_cases d6 : prop.get_property_type = .EmptyAttrib
            · rw [if_pos d6]
              exact hempty _ rfl
            · rw [if_neg d6]
              by_cases d7 : prop.get_property_type = .Attrib
              · rw [if_pos d7]
                by_cases d8 : prop.get_attribute.is_blocked = true
                · rw [if_pos d8]
                  exact hblocked _ rfl
                · rw [if_neg d8]
                  by_cases d9 : prop.get_attribute.variability = .Uniform
                  · rw [if_pos d9]
                    by_cases d10 : (!prop.get_attribute.var.is_scalar) = true
                    · rw [if_pos d10]
                      exact hfail _ _ (by decide) (by simp)
                    · rw [if_neg d10]
                      cases prop.get_attribute.get_value tt with
                      | none => exact hfail _ _ (by decide) (by simp)
                      | some pv => exact hvalue _ _ rfl
                  · rw [if_neg d9]
                    by_cases d11 : prop.get_attribute.var.is_timesamples = true
                    · rw [if_pos d11]
                      cases ConvertToAnimatable tt prop.get_attribute.var with
                      | none => exact hfail _ _ (by decide) (by simp)
                      | some av => exact hvalue _ _ rfl
                    · rw [if_neg d11]
                      by_cases d12 : prop.get_attribute.var.is_scalar = true
                      · rw [if_pos d12]
                        cases prop.get_attribute.get_value tt with
                        | none => exact hfail _ _ (by decide) (by simp)
                        | some pv => exact hvalue _ _ rfl
                      · rw [if_neg d12]
                        exact hfail _ _ (by decide) (by simp)
              · rw [if_neg d7]
                exact hfail _ _ (by decide) (by simp)
          · rw [if_neg d5]
            exact hfail _ _ (by decide) (by simp)
    · rw [if_neg d1]
      exact hfail _ _ (by decide) (fun _ => ⟨d1, c1⟩)

/-- Case analysis of `ParseTypedAttribute_Uniform`: every result is either an answer other
than `Success` that leaves table and target as they were, or one of the five writes. -/
theorem cases_Uniform {T : Type} (tt : TypeTraits T) (X : String)
    (table : Table) (prop_name : String) (prop : Property)
    (target : TypedAttribute T)
    (P : Parsed (TypedAttribute T) → Prop)
    (hfail : ∀ code err, code ≠ .Success →
      (code = .Unmatched → prop_name ≠ X ∧ prop_name ≠ X ++ ".connect") →
      P ⟨⟨code, err⟩, table, target⟩)
    (hconn : ∀ ps m, ps ≠ [] → prop_name = X ++ ".connect" →
      P ⟨⟨.Success, ""⟩, insert (removeSuffix X ".connect") table,
        (target.set_connections ps).set_metas m⟩)
    (hconn2 : ∀ ps m, ps ≠ [] → prop_name = X →
      P ⟨⟨.Success, ""⟩, insert X table, (target.set_connections ps).set_metas m⟩)
    (hempty : ∀ m, prop_name = X →
      P ⟨⟨.Success, ""⟩, insert X table, (target.set_value_empty).set_metas m⟩)
    (hblocked : ∀ m, prop_name = X →
      P ⟨⟨.Success, ""⟩, insert X table, (target.set_blocked true).set_metas m⟩)
    (hvalue : ∀ v m, prop_name = X →
      P ⟨⟨.Success, ""⟩, insert X table, (target.set_value v).set_metas m⟩) :
    P (ParseTypedAttribute_Uniform tt table prop_name prop X target) := by
  unfold ParseTypedAttribute_Uniform
  by_cases c1 : prop_name = X ++ ".connect"
  · rw [if_pos c1]
    by_cases c2 : removeSuffix X ".connect" ∈ table
    · simp only [c2, if_true]
      exact hfail _ _ (by decide) (by simp)
    · simp only [c2, if_false]
      by_cases c3 : prop.is_connection = true
      · rw [if_pos c3]
        by_cases c4 : prop.get_attribute.is_connection = true
        · rw [if_pos c4]
          exact hconn _ _ (by simpa [Attribute.is_connection] using c4) c1
        · rw [if_neg c4]
          exact hfail _ _ (by decide) (by simp)
      · rw [if_neg c3]
        exact hfail _ _ (by decide) (by simp)
  · rw [if_neg c1]
    by_cases d1 : prop_name = X
    · subst d1
      rw [if_pos rfl]
      by_cases d2 : prop_name ∈ table
      · rw [if_pos d2]
        exact hfail _ _ (by decide) (by simp)
      · rw [if_neg d2]
        by_cases d3 : prop.is_connection = true
        · rw [if_pos d3]
          by_cases d4 : prop.get_attribute.is_connection = true
          · simp only [d4, if_true]
            exact hconn2 _ _ (by simpa [Attribute.is_connection] using d4) rfl
          · simp only [d4]
            exact hfail _ _ (by decide) (by simp)
        · rw [if_neg d3]
          dsimp only
          by_cases d5 : tt.type_name = prop.get_attribute.type_name
              ∨ tt.underlying_type_name = prop.get_attribute.type_name
          · rw [if_pos d5]
            by_cases d6 : prop.get_property_type = .EmptyAttrib
            · rw [if_pos d6]
              exact hempty _ rfl
            · rw [if_neg d6]
              by_cases d7 : prop.get_property_type = .Attrib
              · rw [if_pos d7]
                by_cases d8 : prop.get_attribute.variability ≠ .Uniform
                · rw [if_pos d8]
                  exact hfail _ _ (by decide) (by simp)
                · rw [if_neg d8]
                  by_cases d9 : prop.get_attribute.is_blocked = true
                  · rw [if_pos d9]
                    exact hblocked _ rfl
                  · rw [if_neg d9]
                    by_cases d10 : prop.get_attribute.var.is_scalar = true
                    · rw [if_pos d10]
                      cases prop.get_attribute.get_value tt with
                      | none => exact hfail _ _ (by decide) (by simp)
                      | some pv => exact hvalue _ _ rfl
                    · rw [if_neg d10]
                      exact hfail _ _ (by decide) (by simp)
              · rw [if_neg d7]
                exact hfail _ _ (by decide) (by simp)
          · rw [if_neg d5]
            exact hfail _ _ (by decide) (by simp)
    · rw [if_neg d1]
      exact hfail _ _ (by decide) (fun _ => ⟨d1, c1⟩)

/-- Case analysis of `ParseExtentAttribute`: every result is either an answer other
than `Success` that leaves table and target as they were, or one of the five writes. -/
theorem cases_Extent (X : String)
    (table : Table) (prop_name : String) (prop : Property)
    (target : TypedAttribute (Animatable Extent))
    (P : Parsed (TypedAttribute (Animatable Extent)) → Prop)
    (hfail : ∀ code err, code ≠ .Success →
      (code = .Unmatched → prop_name ≠ X ∧ prop_name ≠ X ++ ".connect") →
      P ⟨⟨code, err⟩, table, target⟩)
    (hconn : ∀ ps m, ps ≠ [] → prop_name = X ++ ".connect" →
      P ⟨⟨.Success, ""⟩, insert (removeSuffix X ".connect") table,
        (target.set_connections ps).set_metas m⟩)
    (hconn2 : ∀ ps m, ps ≠ [] → prop_name = X →
      P ⟨⟨.Success, ""⟩, insert X table, (target.set_connections ps).set_metas m⟩)
    (hempty : ∀ m, prop_name = X →
      P ⟨⟨.Success, ""⟩, insert X table, (target.set_value_empty).set_metas m⟩)
    (hblocked : ∀ m, prop_name = X →
      P ⟨⟨.Success, ""⟩, insert X table, (target.set_blocked true).set_metas m⟩)
    (hvalue : ∀ v m, prop_name = X →
      P ⟨⟨.Success, ""⟩, insert X table, (target.set_value v).set_metas m⟩) :
    P (ParseExtentAttribute table prop_name prop X target) := by
  unfold ParseExtentAttribute
  by_cases c1 : prop_name = X ++ ".connect"
  · rw [if_pos c1]
    by_cases c2 : removeSuffix X ".connect" ∈ table
    · simp only [c2, if_true]
      exact hfail _ _ (by decide) (by simp)
    · simp only [c2, if_false]
      by_cases c3 : prop.is_connection = true
      · rw [if_pos c3]
        by_cases c4 : prop.get_attribute.is_connection = true
        · rw [if_pos c4]
          exact hconn _ _ (by simpa [Attribute.is_connection] using c4) c1
        · rw [if_neg c4]
          exact hfail _ _ (by decide) (by simp)
      · rw [if_neg c3]
        exact hfail _ _ (by decide) (by simp)
  · rw [if_neg c1]
    by_cases d1 : prop_name = X
    · subst d1
      rw [if_pos rfl]
      by_cases d2 : prop_name ∈ table
      · rw [if_pos d2]
        exact hfail _ _ (by decide) (by simp)
      · rw [if_neg d2]
        by_cases d3 : prop.is_connection = true
        · rw [if_pos d3]
          by_cases d4 : prop.get_attribute.is_connection = true
          · simp only [d4, if_true]
            exact hconn2 _ _ (by simpa [Attribute.is_connection] using d4) rfl
          · simp only [d4]
            exact hfail _ _ (by decide) (by simp)
        · rw [if_neg d3]
          dsimp only
          by_cases d6 : prop.get_property_type = .EmptyAttrib
          · rw [if_pos d6]
            exact hempty _ rfl
          · rw [if_neg d6]
            by_cases d7 : prop.get_property_type = .Attrib
            · rw [if_pos d7]
              by_cases d8 : prop.get_attribute.is_blocked = true
              · rw [if_pos d8]
                exact hblocked _ rfl
              · rw [if_neg d8]
                by_cases d9 : prop.get_attribute.variability = .Uniform
                · rw [if_pos d9]
                  exact hfail _ _ (by decide) (by simp)
                · rw [if_neg d9]
                  by_cases d10 : prop.get_attribute.var.is_scalar = true
                  · rw [if_pos d10]
                    cases prop.get_attribute.get_value float3ArrayTraits with
                    | none => exact hfail _ _ (by decide) (by simp)
                    | some pv =>
                      match pv with
                      | [] => exact hfail _ _ (by decide) (by simp)
                      | [_] => exact hfail _ _ (by decide) (by simp)
                      | [_, _] => exact hvalue _ _ rfl
                      | _ :: _ :: _ :: _ => exact hfail _ _ (by decide) (by simp)
                  · rw [if_neg d10]
                    by_cases d11 : prop.get_attribute.var.is_timesamples = true
                    · rw [if_pos d11]
                      cases ConvertToAnimatable_Extent prop.get_attribute.var with
                      | none => exact hfail _ _ (by decide) (by simp)
                      | some av => exact hvalue _ _ rfl
                    · rw [if_neg d11]
                      exact hfail _ _ (by decide) (by simp)
            · rw [if_neg d7]
              exact hfail _ _ (by decide) (by simp)
    · rw [if_neg d1]
      exact hfail _ _ (by decide) (fun _ => ⟨d1, c1⟩)

/-- The already-processed guarantees of `ParseTypedAttribute_WithFallbackAnimatable` for a slot name
that a trailing `.connect` removal leaves unchanged. -/
theorem slotGuard_WithFallbackAnimatable {T : Type} (tt : TypeTraits T) (X : String)
    (hX : removeSuffix X ".connect" = X) :
    SlotGuard (ParseTypedAttribute_WithFallbackAnimatable tt) (fun t => t.attrib.isSome) (fun t => t.paths) X := by
  have hne := ne_append_connect X
  apply slotGuard_of_local
  · intro table prop target hmem
    simp [ParseTypedAttribute_WithFallbackAnimatable, hX, hmem, hne]
  · intro table prop_name prop target
    apply cases_WithFallbackAnimatable tt X table prop_name prop target
      (fun r => r.ret.code ≠ .Success → r.target = target ∧ r.table = table)
    · intro code err _ _ _
      exact ⟨rfl, rfl⟩
    all_goals
      intros
      simp at *
  · intro table prop target
    apply cases_WithFallbackAnimatable tt X table X prop target
      (fun r => r.ret.code = .Success → X ∈ r.table)
    · intro code err h1 _ h2
      exact absurd h2 h1
    · intro ps m _ h
      exact absurd h hne
    all_goals
      intros
      simp
  · intro table prop_name prop target hv hp
    apply cases_WithFallbackAnimatable tt X table prop_name prop target
      (fun r => ¬ ((fun t : TypedAttributeWithFallback (Animatable T) => t.attrib.isSome) r.target = true
        ∧ (fun t : TypedAttributeWithFallback (Animatable T) => t.paths) r.target ≠ []))
    · intro code err _ _ h
      simp at hv
      simp [hv] at h
    all_goals
      intros
      simp at hv hp
      simp [TypedAttributeWithFallback.set_metas, TypedAttributeWithFallback.set_connections, TypedAttributeWithFallback.set_value, TypedAttributeWithFallback.set_blocked,
        TypedAttributeWithFallback.set_value_empty, hv, hp]

/-- The already-processed guarantees of `ParseTypedAttribute_WithFallback` for a slot name
that a trailing `.connect` removal leaves unchanged. -/
theorem slotGuard_WithFallback {T : Type} (tt : TypeTraits T) (X : String)
    (hX : removeSuffix X ".connect" = X) :
    SlotGuard (ParseTypedAttribute_WithFallback tt) (fun t => t.attrib.isSome) (fun t => t.paths) X := by
  have hne := ne_append_connect X
  apply slotGuard_of_local
  · intro table prop target hmem
    simp [ParseTypedAttribute_WithFallback, hX, hmem, hne]
  · intro table prop_name prop target
    apply cases_WithFallback tt X table prop_name prop target
      (fun r => r.ret.code ≠ .Success → r.target = target ∧ r.table = table)
    · intro code err _ _ _
      exact ⟨rfl, rfl⟩
    all_goals
      intros
      simp at *
  · intro table prop target
    apply cases_WithFallback tt X table X prop target
      (fun r => r.ret.code = .Success → X ∈ r.table)
    · intro code err h1 _ h2
      exact absurd h2 h1
    · intro ps m _ h
      exact absurd h hne
    all_goals
      intros
      simp
  · intro table prop_name prop target hv hp
    apply cases_WithFallback tt X table prop_name prop target
      (fun r => ¬ ((fun t : TypedAttributeWithFallback T => t.attrib.isSome) r.target = true
        ∧ (fun t : TypedAttributeWithFallback T => t.paths) r.target ≠ []))
    · intro code err _ _ h
      simp at hv
      simp [hv] at h
    all_goals
      intros
      simp at hv hp
      simp [TypedAttributeWithFallback.set_metas, TypedAttributeWithFallback.set_connections, TypedAttributeWithFallback.set_value, TypedAttributeWithFallback.set_blocked,
        TypedAttributeWithFallback.set_value_empty, hv, hp]

/-- The already-processed guarantees of `ParseTypedAttribute_Animatable` for a slot name
that a trailing `.connect` removal leaves unchanged. -/
theorem slotGuard_Animatable {T : Type} (tt : TypeTraits T) (X : String)
    (hX : removeSuffix X ".connect" = X) :
    SlotGuard (ParseTypedAttribute_Animatable tt) (fun t => t.attrib.isSome) (fun t => t.paths) X := by
  have hne := ne_append_connect X
  apply slotGuard_of_local
  · intro table prop target hmem
    simp [ParseTypedAttribute_Animatable, hX, hmem, hne]
  · intro table prop_name prop target
    apply cases_Animatable tt X table prop_name prop target
      (fun r => r.ret.code ≠ .Success → r.target = target ∧ r.table = table)
    · intro code err _ _ _
      exact ⟨rfl, rfl⟩
    all_goals
      intros
      simp at *
  · intro table prop target
    apply cases_Animatable tt X table X prop target
      (fun r => r.ret.code = .Success → X ∈ r.table)
    · intro code err h1 _ h2
      exact absurd h2 h1
    · intro ps m _ h
      exact absurd h hne
    all_goals
      intros
      simp
  · intro table prop_name prop target hv hp
    apply cases_Animatable tt X table prop_name prop target
      (fun r => ¬ ((fun t : TypedAttribute (Animatable T) => t.attrib.isSome) r.target = true
        ∧ (fun t : TypedAttribute (Animatable T) => t.paths) r.target ≠ []))
    · intro code err _ _ h
      simp at hv
      simp [hv] at h
    all_goals
      intros
      simp at hv hp
      simp [TypedAttribute.set_metas, TypedAttribute.set_connections, TypedAttribute.set_value, TypedAttribute.set_blocked,
        TypedAttribute.set_value_empty, hv, hp]

/-- The already-processed guarantees of `ParseTypedAttribute_Uniform` for a slot name
that a trailing `.connect` removal leaves unchanged. -/
theorem slotGuard_Uniform {T : Type} (tt : TypeTraits T) (X : String)
    (hX : removeSuffix X ".connect" = X) :
    SlotGuard (ParseTypedAttribute_Uniform tt) (fun t => t.attrib.isSome) (fun t => t.paths) X := by
  have hne := ne_append_connect X
  apply slotGuard_of_local
  · intro table prop target hmem
    simp [ParseTypedAttribute_Uniform, hX, hmem, hne]
  · intro table prop_name prop target
    apply cases_Uniform tt X table prop_name prop target
      (fun r => r.ret.code ≠ .Success → r.target = target ∧ r.table = table)
    · intro code err _ _ _
      exact ⟨rfl, rfl⟩
    all_goals
      intros
      simp at *
  · intro table prop target
    apply cases_Uniform tt X table X prop target
      (fun r => r.ret.code = .Success → X ∈ r.table)
    · intro code err h1 _ h2
      exact absurd h2 h1
    · intro ps m _ h
      exact absurd h hne
    all_goals
      intros
      simp
  · intro table prop_name prop target hv hp
    apply cases_Uniform tt X table prop_name prop target
      (fun r => ¬ ((fun t : TypedAttribute T => t.attrib.isSome) r.target = true
        ∧ (fun t : TypedAttribute T => t.paths) r.target ≠ []))
    · intro code err _ _ h
      simp at hv
      simp [hv] at h
    all_goals
      intros
      simp at hv hp
      simp [TypedAttribute.set_metas, TypedAttribute.set_connections, TypedAttribute.set_value, TypedAttribute.set_blocked,
        TypedAttribute.set_value_empty, hv, hp]

/-- The already-processed guarantees of `ParseExtentAttribute` for a slot name
that a trailing `.connect` removal leaves unchanged. -/
theorem slotGuard_Extent (X : String)
    (hX : removeSuffix X ".connect" = X) :
    SlotGuard (ParseExtentAttribute) (fun t => t.attrib.isSome) (fun t => t.paths) X := by
  have hne := ne_append_connect X
  apply slotGuard_of_local
  · intro table prop target hmem
    simp [ParseExtentAttribute, hX, hmem, hne]
  · intro table prop_name prop target
    apply cases_Extent X table prop_name prop target
      (fun r => r.ret.code ≠ .Success → r.target = target ∧ r.table = table)
    · intro code err _ _ _
      exact ⟨rfl, rfl⟩
    all_goals
      intros
      simp at *
  · intro table prop target
    apply cases_Extent X table X prop target
      (fun r => r.ret.code = .Success → X ∈ r.table)
    · intro code err h1 _ h2
      exact absurd h2 h1
    · intro ps m _ h
      exact absurd h hne
    all_goals
      intros
      simp
  · intro table prop_name prop target hv hp
    apply cases_Extent X table prop_name prop target
      (fun r => ¬ ((fun t : TypedAttribute (Animatable Extent) => t.attrib.isSome) r.target = true
        ∧ (fun t : TypedAttribute (Animatable Extent) => t.paths) r.target ≠ []))
    · intro code err _ _ h
      simp at hv
      simp [hv] at h
    all_goals
      intros
      simp at hv hp
      simp [TypedAttribute.set_metas, TypedAttribute.set_connections, TypedAttribute.set_value, TypedAttribute.set_blocked,
        TypedAttribute.set_value_empty, hv, hp]

/-- C2, as stated, fails for a slot name that itself ends in `.connect`: with the slot
`x.connect` already in the table, a connection property named `x.connect.connect` is
looked up under `x` (the slot name with its trailing `.connect` removed), is not found,
and is written: the answer is `Success`, not `AlreadyProcessed`, the table grows and the
target becomes a connection. -/
theorem C2_already_processed_counterexample :
    "x.connect" ∈ ({"x.connect"} : Table)
    ∧ (ParseTypedAttribute_Animatable doubleTraits {"x.connect"} ("x.connect" ++ ".connect")
        (Property.ofConnection "double" ["/a.b"] (.path "/a.b")) "x.connect"
        TypedAttribute.fresh).ret.code = .Success
    ∧ (ParseTypedAttribute_Animatable doubleTraits {"x.connect"} ("x.connect" ++ ".connect")
        (Property.ofConnection "double" ["/a.b"] (.path "/a.b")) "x.connect"
        TypedAttribute.fresh).table = {"x", "x.connect"}
    ∧ (ParseTypedAttribute_Animatable doubleTraits {"x.connect"} ("x.connect" ++ ".connect")
        (Property.ofConnection "double" ["/a.b"] (.path "/a.b")) "x.connect"
        TypedAttribute.fresh).target.paths = ["/a.b"] := by
  refine ⟨by decide, by decide, by decide, by decide⟩

/-- C2, amended: for each of the five typed-attribute matchers and every slot name `X`
that a trailing `.connect` removal leaves unchanged (`X` does not itself end in
`.connect`): once `X` is in the table, a property named `X` or `X.connect` is answered
with `AlreadyProcessed`, target and table unchanged; an answer other than `Success`
never changes target or table; when `X` and then `X.connect` are matched, at most one
of them is answered with `Success` and so writes the slot; and a slot that starts with
neither value nor connection never ends with both. -/
theorem C2_already_processed {T : Type} (tt : TypeTraits T) (X : String)
    (hX : removeSuffix X ".connect" = X) :
    SlotGuard (ParseTypedAttribute_WithFallbackAnimatable tt)
        (fun t => t.attrib.isSome) (fun t => t.paths) X
    ∧ SlotGuard (ParseTypedAttribute_WithFallback tt)
        (fun t => t.attrib.isSome) (fun t => t.paths) X
    ∧ SlotGuard (ParseTypedAttribute_Animatable tt)
        (fun t => t.attrib.isSome) (fun t => t.paths) X
    ∧ SlotGuard (ParseTypedAttribute_Uniform tt)
        (fun t => t.attrib.isSome) (fun t => t.paths) X
    ∧ SlotGuard ParseExtentAttribute (fun t => t.attrib.isSome) (fun t => t.paths) X :=
  ⟨slotGuard_WithFallbackAnimatable tt X hX, slotGuard_WithFallback tt X hX,
    slotGuard_Animatable tt X hX, slotGuard_Uniform tt X hX, slotGuard_Extent X hX⟩

/-- C2 (amended) at the slot `radius`: removing a trailing `.connect` leaves the name
unchanged, and the guarantees hold for the matcher of the `radius` slot. -/
theorem C2_already_processed_witness :
    removeSuffix "radius" ".connect" = "radius"
    ∧ SlotGuard (ParseTypedAttribute_WithFallbackAnimatable doubleTraits)
        (fun t => t.attrib.isSome) (fun t => t.paths) "radius" :=
  ⟨by decide, (C2_already_processed doubleTraits "radius" (by decide)).1⟩

/-- The `.connect` branch of the matchers for `TypedAttributeWithFallback<T>`,
`TypedAttribute<Animatable<T>>` and `TypedAttribute<T>`, for a slot name that a trailing
`.connect` removal leaves unchanged: a property named `name.connect`, with `name` not in
the table, that is a connection whose attribute carries at least one target path is
answered with `Success`; the target becomes a connection to exactly those target paths,
its metadata is the metadata of the attribute, and `name` is added to the table. -/
theorem connect_of_attr_connections {T : Type} (tt : TypeTraits T) (table : Table)
    (prop_name name : String) (prop : Property)
    (hname : prop_name = name ++ ".connect")
    (hX : removeSuffix name ".connect" = name) (htable : name ∉ table)
    (hconn : prop.is_connection = true)
    (hpaths : prop.get_attribute.connections ≠ []) :
    (∀ target, ParseTypedAttribute_WithFallback tt table prop_name prop name target
      = ⟨⟨.Success, ""⟩, insert name table,
          (target.set_connections prop.get_attribute.connections).set_metas
            prop.get_attribute.metas⟩)
    ∧ (∀ target, ParseTypedAttribute_Animatable tt table prop_name prop name target
      = ⟨⟨.Success, ""⟩, insert name table,
          (target.set_connections prop.get_attribute.connections).set_metas
            prop.get_attribute.metas⟩)
    ∧ (∀ target, ParseTypedAttribute_Uniform tt table prop_name prop name target
      = ⟨⟨.Success, ""⟩, insert name table,
          (target.set_connections prop.get_attribute.connections).set_metas
            prop.get_attribute.metas⟩) := by
  subst hname
  have hc : prop.get_attribute.is_connection = true := by
    simpa [Attribute.is_connection] using hpaths
  refine ⟨?_, ?_, ?_⟩ <;> intro target
  · simp [ParseTypedAttribute_WithFallback, hX, htable, hconn, hc]
  · simp [ParseTypedAttribute_Animatable, hX, htable, hconn, hc]
  · simp [ParseTypedAttribute_Uniform, hX, htable, hconn, hc]

/-- The `.connect` branch of the matcher for `TypedAttributeWithFallback<Animatable<T>>`
never reads the target paths of the attribute: for a connection property named
`name.connect`, not yet processed, it answers by the relationship target of the property
alone, `InvalidConnection` without one and a connection to that single path with one. -/
theorem connect_of_relationTarget {T : Type} (tt : TypeTraits T) (table : Table)
    (name : String) (prop : Property)
    (target : TypedAttributeWithFallback (Animatable T))
    (htable : removeSuffix name ".connect" ∉ table)
    (hconn : prop.is_connection = true) :
    (prop.get_relationTarget = none →
      ParseTypedAttribute_WithFallbackAnimatable tt table (name ++ ".connect") prop name target
        = ⟨⟨.InvalidConnection, "Connection target not found."⟩, table, target⟩)
    ∧ (∀ q, prop.get_relationTarget = some q →
      ParseTypedAttribute_WithFallbackAnimatable tt table (name ++ ".connect") prop name target
        = ⟨⟨.Success, ""⟩, insert (removeSuffix name ".connect") table,
            (target.set_connection q).set_metas prop.get_attribute.metas⟩) := by
  refine ⟨?_, ?_⟩
  · intro h
    simp [ParseTypedAttribute_WithFallbackAnimatable, htable, hconn, h]
  · intro q h
    simp [ParseTypedAttribute_WithFallbackAnimatable, htable, hconn, h]

/-- C3 (the code departs from it): of the four `ParseTypedAttribute` matchers, the one for
`TypedAttributeWithFallback<Animatable<T>>` reads, in its `.connect` branch, the single
relationship target of the property (`prop.get_relationTarget()`) instead of the target
paths of its attribute (`attr.connections()`).  For
`color3f inputs:diffuseColor.connect = </Mat/Tex.outputs:rgb>`, given as a connection
whose attribute carries that path, the matcher of the slot `diffuseColor` answers
`InvalidConnection`, leaves table and target as they were, and
`ReconstructShader<UsdPreviewSurface>` returns false with "Connection target not found.".
For every such property the answer depends on the relationship target alone; with two
target paths the slot never becomes a connection to them, whatever the relationship part.
The three other matchers, and the plain-name branch of this very matcher, read the target
paths of the attribute: for every slot name that a trailing `.connect` removal leaves
unchanged they answer `Success`, connect the target to exactly those paths, copy the
metadata and add the name to the table. -/
theorem C3_connect :
    (∀ target : TypedAttributeWithFallback (Animatable float3),
      ParseTypedAttribute_WithFallbackAnimatable color3fTraits ∅
          ("inputs:diffuseColor" ++ ".connect")
          (Property.ofConnection "color3f" ["/Mat/Tex.outputs:rgb"] .empty)
          "inputs:diffuseColor" target
        = ⟨⟨.InvalidConnection, "Connection target not found."⟩, ∅, target⟩)
    ∧ (∃ st, ReconstructShader_UsdPreviewSurface
        [("inputs:diffuseColor.connect",
          Property.ofConnection "color3f" ["/Mat/Tex.outputs:rgb"] .empty)]
        sampleShaderDefaults.surface (some "") (some "") = .fail st
      ∧ st.prim.diffuseColor.paths = []
      ∧ st.err = some ("" ++ ("Parsing attribute `" ++ "inputs:diffuseColor"
          ++ "` failed. Error: " ++ "Connection target not found.")))
    ∧ (∀ {T : Type} (tt : TypeTraits T) (table : Table) (name : String) (prop : Property)
        (target : TypedAttributeWithFallback (Animatable T)),
        removeSuffix name ".connect" ∉ table → prop.is_connection = true →
        (prop.get_relationTarget = none →
          ParseTypedAttribute_WithFallbackAnimatable tt table (name ++ ".connect") prop name
              target
            = ⟨⟨.InvalidConnection, "Connection target not found."⟩, table, target⟩)
        ∧ (∀ q, prop.get_relationTarget = some q →
          ParseTypedAttribute_WithFallbackAnimatable tt table (name ++ ".connect") prop name
              target
            = ⟨⟨.Success, ""⟩, insert (removeSuffix name ".connect") table,
                (target.set_connection q).set_metas prop.get_attribute.metas⟩))
    ∧ (∀ rel, (Property.ofConnection "double" ["/a.x", "/b.y"] rel).is_connection = true
        ∧ (ParseTypedAttribute_WithFallbackAnimatable doubleTraits ∅
            ("radius" ++ ".connect") (Property.ofConnection "double" ["/a.x", "/b.y"] rel)
            "radius" (TypedAttributeWithFallback.fresh (Animatable.ofValue 2))).target.paths
          ≠ ["/a.x", "/b.y"])
    ∧ (∀ {T : Type} (tt : TypeTraits T) (table : Table) (name : String) (prop : Property),
        removeSuffix name ".connect" = name → name ∉ table →
        prop.is_connection = true → prop.get_attribute.connections ≠ [] →
        (∀ target, ParseTypedAttribute_WithFallback tt table (name ++ ".connect") prop name
            target
          = ⟨⟨.Success, ""⟩, insert name table,
              (target.set_connections prop.get_attribute.connections).set_metas
                prop.get_attribute.metas⟩)
        ∧ (∀ target, ParseTypedAttribute_Animatable tt table (name ++ ".connect") prop name
            target
          = ⟨⟨.Success, ""⟩, insert name table,
              (target.set_connections prop.get_attribute.connections).set_metas
                prop.get_attribute.metas⟩)
        ∧ (∀ target, ParseTypedAttribute_Uniform tt table (name ++ ".connect") prop name
            target
          = ⟨⟨.Success, ""⟩, insert name table,
              (target.set_connections prop.get_attribute.connections).set_metas
                prop.get_attribute.metas⟩)
        ∧ (∀ target, ParseTypedAttribute_WithFallbackAnimatable tt table name prop name
            target
          = ⟨⟨.Success, ""⟩, insert name table,
              (target.set_connections prop.get_attribute.connections).set_metas
                prop.get_attribute.metas⟩))
    ∧ (∀ target : TypedAttribute (Animatable float3),
        ParseTypedAttribute_Animatable color3fTraits ∅ ("inputs:diffuseColor" ++ ".connect")
          (Property.ofConnection "color3f" ["/Mat/Tex.outputs:rgb"] .empty)
          "inputs:diffuseColor" target
        = ⟨⟨.Success, ""⟩, insert "inputs:diffuseColor" ∅,
            (target.set_connections ["/Mat/Tex.outputs:rgb"]).set_metas []⟩) := by
  refine ⟨fun _ => rfl, ⟨_, rfl, rfl, rfl⟩, ?_, ?_, ?_, fun _ => rfl⟩
  · intro T tt table name prop target htable hconn
    exact connect_of_relationTarget tt table name prop target htable hconn
  · intro rel
    refine ⟨rfl, ?_⟩
    cases rel <;>
      simp [ParseTypedAttribute_WithFallbackAnimatable, Property.ofConnection,
        Property.is_connection, Property.get_relationTarget,
        TypedAttributeWithFallback.fresh, TypedAttributeWithFallback.set_connection,
        TypedAttributeWithFallback.set_metas]
  · intro T tt table name prop hX htable hconn hpaths
    obtain ⟨h1, h2, h3⟩ := connect_of_attr_connections tt table (name ++ ".connect") name
      prop rfl hX htable hconn hpaths
    refine ⟨h1, h2, h3, ?_⟩
    intro target
    have hc : prop.get_attribute.is_connection = true := by
      simpa [Attribute.is_connection] using hpaths
    have hne := ne_append_connect name
    simp [ParseTypedAttribute_WithFallbackAnimatable, hne, htable, hconn, hc]

/-! ### Terminal attributes (C4) -/

/-- C4: `ParseShaderOutputTerminalAttribute` answers `ConnectionNotAllowed` for every
property named `name.connect`, whatever the property and the table, and for a property
named `name` that is a connection while `name` is not in the table; target and table
are left as they were. -/
theorem C4_terminal_rejects_connection {T : Type} (tt : TypeTraits T) (table : Table)
    (prop_name name : String) (prop : Property) (target : TypedTerminalAttribute T) :
    (prop_name = name ++ ".connect" →
      ParseShaderOutputTerminalAttribute tt table prop_name prop name target
        = ⟨⟨.ConnectionNotAllowed,
            "Connection is not allowed for output terminal attribute."⟩, table, target⟩)
    ∧ (prop_name = name → name ∉ table → prop.is_connection = true →
      ParseShaderOutputTerminalAttribute tt table prop_name prop name target
        = ⟨⟨.ConnectionNotAllowed,
            "Connection is not allowed for output terminal attribute."⟩, table, target⟩) := by
  constructor
  · intro h
    simp [ParseShaderOutputTerminalAttribute, h]
  · intro h htable hconn
    subst h
    simp [ParseShaderOutputTerminalAttribute, ne_append_connect, htable, hconn]

/-- C4 at the terminal `outputs:surface`: a property `outputs:surface.connect` and a
connection property `outputs:surface` are both answered with `ConnectionNotAllowed`. -/
theorem C4_terminal_rejects_connection_witness :
    ParseShaderOutputTerminalAttribute tokenTraits ∅ "outputs:surface.connect"
        (Property.ofConnection "token" ["/Mat/Tex.outputs:rgb"] .empty) "outputs:surface"
        ⟨false, []⟩
      = ⟨⟨.ConnectionNotAllowed,
          "Connection is not allowed for output terminal attribute."⟩, ∅, ⟨false, []⟩⟩
    ∧ ParseShaderOutputTerminalAttribute tokenTraits ∅ "outputs:surface"
        (Property.ofConnection "token" ["/Mat/Tex.outputs:rgb"] .empty) "outputs:surface"
        ⟨false, []⟩
      = ⟨⟨.ConnectionNotAllowed,
          "Connection is not allowed for output terminal attribute."⟩, ∅, ⟨false, []⟩⟩ :=
  ⟨(C4_terminal_rejects_connection tokenTraits ∅ "outputs:surface.connect"
      "outputs:surface" (Property.ofConnection "token" ["/Mat/Tex.outputs:rgb"] .empty)
      ⟨false, []⟩).1 (by decide),
   (C4_terminal_rejects_connection tokenTraits ∅ "outputs:surface"
      "outputs:surface" (Property.ofConnection "token" ["/Mat/Tex.outputs:rgb"] .empty)
      ⟨false, []⟩).2 rfl (by decide) (by decide)⟩

/-! ### Blocked, uniform and scalar values (C5, C6, C7) -/

/-- C5, as stated, fails on the uniform matcher for `TypedAttributeWithFallback<T>`:
`bool doubleSided = None`, authored without the `uniform` qualifier, meets every
condition of the claim (same name, empty table, no connection, authored attribute,
matching type name, blocked) and is answered with `VariabilityMismatch`, the slot and
the table being left untouched. -/
theorem C5_blocked_counterexample :
    "doubleSided" ∉ (∅ : Table)
    ∧ (Property.ofBlocked "bool" .Varying).is_connection = false
    ∧ (Property.ofBlocked "bool" .Varying).get_property_type = .Attrib
    ∧ boolTraits.type_name = (Property.ofBlocked "bool" .Varying).get_attribute.type_name
    ∧ (Property.ofBlocked "bool" .Varying).get_attribute.is_blocked = true
    ∧ (ParseTypedAttribute_WithFallback boolTraits ∅ "doubleSided"
        (Property.ofBlocked "bool" .Varying) "doubleSided"
        (TypedAttributeWithFallback.fresh false)).ret.code = .VariabilityMismatch
    ∧ (ParseTypedAttribute_WithFallback boolTraits ∅ "doubleSided"
        (Property.ofBlocked "bool" .Varying) "doubleSided"
        (TypedAttributeWithFallback.fresh false)).target.blocked = false
    ∧ (ParseTypedAttribute_WithFallback boolTraits ∅ "doubleSided"
        (Property.ofBlocked "bool" .Varying) "doubleSided"
        (TypedAttributeWithFallback.fresh false)).table = ∅ := by
  refine ⟨by decide, by decide, by decide, by decide, by decide, ?_, ?_, ?_⟩ <;>
    simp [ParseTypedAttribute_WithFallback, Property.ofBlocked, Property.is_connection,
      Property.get_attribute, Property.get_property_type, boolTraits,
      TypedAttributeWithFallback.fresh]

/-- C5, amended: for a property named like the slot, not in the table, that is a
non-connection authored attribute with matching type name and a blocked value, the two
varying matchers answer `Success`, mark the target blocked (and copy the metadata) and
add the name to the table; the two uniform matchers do the same when the variability of
the attribute is `Uniform`, and answer `VariabilityMismatch`, leaving target and table
as they were, when it is not. -/
theorem C5_blocked {T : Type} (tt : TypeTraits T) (table : Table)
    (prop_name name : String) (prop : Property)
    (hname : prop_name = name) (htable : name ∉ table)
    (hconn : prop.is_connection = false)
    (hauth : prop.get_property_type = .Attrib)
    (hty : tt.type_name = prop.get_attribute.type_name
      ∨ tt.underlying_type_name = prop.get_attribute.type_name)
    (hblocked : prop.get_attribute.is_blocked = true) :
    (∀ target, ParseTypedAttribute_WithFallbackAnimatable tt table prop_name prop name target
      = ⟨⟨.Success, ""⟩, insert name table,
          (target.set_blocked true).set_metas prop.get_attribute.metas⟩)
    ∧ (∀ target, ParseTypedAttribute_Animatable tt table prop_name prop name target
      = ⟨⟨.Success, ""⟩, insert name table,
          (target.set_blocked true).set_metas prop.get_attribute.metas⟩)
    ∧ (prop.get_attribute.variability = .Uniform →
        (∀ target, ParseTypedAttribute_WithFallback tt table prop_name prop name target
          = ⟨⟨.Success, ""⟩, insert name table,
              (target.set_blocked true).set_metas prop.get_attribute.metas⟩)
        ∧ (∀ target, ParseTypedAttribute_Uniform tt table prop_name prop name target
          = ⟨⟨.Success, ""⟩, insert name table,
              (target.set_blocked true).set_metas prop.get_attribute.metas⟩))
    ∧ (prop.get_attribute.variability ≠ .Uniform →
        (∀ target, ParseTypedAttribute_WithFallback tt table prop_name prop name target
          = ⟨⟨.VariabilityMismatch,
              "Attribute `" ++ name ++ "` must be `uniform` variability."⟩, table, target⟩)
        ∧ (∀ target, ParseTypedAttribute_Uniform tt table prop_name prop name target
          = ⟨⟨.VariabilityMismatch,
              "Attribute `" ++ name ++ "` must be `uniform` variability."⟩, table, target⟩)) := by
  subst hname
  have hne := ne_append_connect prop_name
  refine ⟨?_, ?_, ?_, ?_⟩
  · intro target
    simp [ParseTypedAttribute_WithFallbackAnimatable, hne, htable, hconn, hauth, hty,
      hblocked]
  · intro target
    simp [ParseTypedAttribute_Animatable, hne, htable, hconn, hauth, hty, hblocked]
  · intro hu
    constructor <;> intro target
    · simp [ParseTypedAttribute_WithFallback, hne, htable, hconn, hauth, hty, hblocked, hu]
    · simp [ParseTypedAttribute_Uniform, hne, htable, hconn, hauth, hty, hblocked, hu]
  · intro hu
    constructor <;> intro target
    · simp [ParseTypedAttribute_WithFallback, hne, htable, hconn, hauth, hty, hu]
    · simp [ParseTypedAttribute_Uniform, hne, htable, hconn, hauth, hty, hu]

/-- C5 (amended) at `double radius = None`: the hypotheses hold, and the varying matcher
of the `radius` slot marks it blocked and records `radius` in the table. -/
theorem C5_blocked_witness :
    ("radius" ∉ (∅ : Table)
      ∧ (Property.ofBlocked "double" .Varying).is_connection = false
      ∧ (Property.ofBlocked "double" .Varying).get_property_type = .Attrib
      ∧ (Property.ofBlocked "double" .Varying).get_attribute.is_blocked = true)
    ∧ (∀ target, ParseTypedAttribute_WithFallbackAnimatable doubleTraits ∅ "radius"
        (Property.ofBlocked "double" .Varying) "radius" target
      = ⟨⟨.Success, ""⟩, insert "radius" ∅,
          (target.set_blocked true).set_metas
            (Property.ofBlocked "double" .Varying).get_attribute.metas⟩) :=
  ⟨⟨by decide, by decide, by decide, by decide⟩,
    (C5_blocked doubleTraits ∅ "radius" "radius" (Property.ofBlocked "double" .Varying)
      rfl (by decide) (by decide) (by decide) (Or.inl (by decide)) (by decide)).1⟩

/-- C6: in each of the four `ParseTypedAttribute` matchers, a property named like the
slot, not in the table, that is a non-connection, non-blocked authored attribute with
matching type name, `Uniform` variability and a time-samples value (not a scalar) is
answered with `VariabilityMismatch`; target and table are left as they were. -/
theorem C6_uniform_timesamples {T : Type} (tt : TypeTraits T) (table : Table)
    (prop_name name : String) (prop : Property)
    (hname : prop_name = name) (htable : name ∉ table)
    (hconn : prop.is_connection = false)
    (hauth : prop.get_property_type = .Attrib)
    (hty : tt.type_name = prop.get_attribute.type_name
      ∨ tt.underlying_type_name = prop.get_attribute.type_name)
    (hblocked : prop.get_attribute.is_blocked = false)
    (huniform : prop.get_attribute.variability = .Uniform)
    (hts : prop.get_attribute.var.is_timesamples = true)
    (hscalar : prop.get_attribute.var.is_scalar = false) :
    (∀ target,
      (ParseTypedAttribute_WithFallbackAnimatable tt table prop_name prop name target).ret.code
          = .VariabilityMismatch
      ∧ (ParseTypedAttribute_WithFallbackAnimatable tt table prop_name prop name target).table
          = table
      ∧ (ParseTypedAttribute_WithFallbackAnimatable tt table prop_name prop name target).target
          = target)
    ∧ (∀ target,
      (ParseTypedAttribute_WithFallback tt table prop_name prop name target).ret.code
          = .VariabilityMismatch
      ∧ (ParseTypedAttribute_WithFallback tt table prop_name prop name target).table = table
      ∧ (ParseTypedAttribute_WithFallback tt table prop_name prop name target).target
          = target)
    ∧ (∀ target,
      (ParseTypedAttribute_Animatable tt table prop_name prop name target).ret.code
          = .VariabilityMismatch
      ∧ (ParseTypedAttribute_Animatable tt table prop_name prop name target).table = table
      ∧ (ParseTypedAttribute_Animatable tt table prop_name prop name target).target = target)
    ∧ (∀ target,
      (ParseTypedAttribute_Uniform tt table prop_name prop name target).ret.code
          = .VariabilityMismatch
      ∧ (ParseTypedAttribute_Uniform tt table prop_name prop name target).table = table
      ∧ (ParseTypedAttribute_Uniform tt table prop_name prop name target).target = target) := by
  subst hname
  have hne := ne_append_connect prop_name
  have _ := hts
  refine ⟨?_, ?_, ?_, ?_⟩ <;> intro target
  · simp [ParseTypedAttribute_WithFallbackAnimatable, hne, htable, hconn, hauth, hty,
      hblocked, huniform, hscalar]
  · simp [ParseTypedAttribute_WithFallback, hne, htable, hconn, hauth, hty, hblocked,
      huniform, hscalar]
  · simp [ParseTypedAttribute_Animatable, hne, htable, hconn, hauth, hty, hblocked,
      huniform, hscalar]
  · simp [ParseTypedAttribute_Uniform, hne, htable, hconn, hauth, hty, hblocked,
      huniform, hscalar]

/-- C6 at `uniform double radius.timeSamples = (0: 1.5)`: the hypotheses hold and the
matcher of the `radius` slot answers `VariabilityMismatch` without touching the slot or
the table. -/
theorem C6_uniform_timesamples_witness :
    ("radius" ∉ (∅ : Table)
      ∧ (Property.ofTimeSamples "double" .Uniform [⟨0, .double (3/2), false⟩]).is_connection
          = false
      ∧ (Property.ofTimeSamples "double" .Uniform
          [⟨0, .double (3/2), false⟩]).get_attribute.var.is_timesamples = true)
    ∧ (∀ target,
      (ParseTypedAttribute_WithFallbackAnimatable doubleTraits ∅ "radius"
        (Property.ofTimeSamples "double" .Uniform [⟨0, .double (3/2), false⟩]) "radius"
        target).ret.code = .VariabilityMismatch
      ∧ (ParseTypedAttribute_WithFallbackAnimatable doubleTraits ∅ "radius"
        (Property.ofTimeSamples "double" .Uniform [⟨0, .double (3/2), false⟩]) "radius"
        target).table = ∅
      ∧ (ParseTypedAttribute_WithFallbackAnimatable doubleTraits ∅ "radius"
        (Property.ofTimeSamples "double" .Uniform [⟨0, .double (3/2), false⟩]) "radius"
        target).target = target) :=
  ⟨⟨by decide, rfl, rfl⟩,
    (C6_uniform_timesamples doubleTraits ∅ "radius" "radius"
      (Property.ofTimeSamples "double" .Uniform [⟨0, .double (3/2), false⟩])
      rfl (by decide) rfl rfl (Or.inl rfl) rfl rfl rfl rfl).1⟩

/-- C7: in each of the four `ParseTypedAttribute` matchers, a property named like the
slot, not in the table, that is a non-connection, non-blocked authored attribute with
matching type name, `Uniform` variability and a scalar value `v` of type `T` is
answered with `Success`; the target then holds `v`, its metadata is the metadata of the
attribute, and the name is added to the table. -/
theorem C7_uniform_scalar {T : Type} (tt : TypeTraits T) (table : Table)
    (prop_name name : String) (prop : Property) (v : T)
    (hname : prop_name = name) (htable : name ∉ table)
    (hconn : prop.is_connection = false)
    (hauth : prop.get_property_type = .Attrib)
    (hty : tt.type_name = prop.get_attribute.type_name
      ∨ tt.underlying_type_name = prop.get_attribute.type_name)
    (hblocked : prop.get_attribute.is_blocked = false)
    (huniform : prop.get_attribute.variability = .Uniform)
    (hscalar : prop.get_attribute.var.is_scalar = true)
    (hv : prop.get_attribute.get_value tt = some v) :
    (∀ target, ParseTypedAttribute_WithFallbackAnimatable tt table prop_name prop name target
      = ⟨⟨.Success, ""⟩, insert name table,
          (target.set_value (Animatable.ofValue v)).set_metas prop.get_attribute.metas⟩)
    ∧ (∀ target, ParseTypedAttribute_WithFallback tt table prop_name prop name target
      = ⟨⟨.Success, ""⟩, insert name table,
          (target.set_value v).set_metas prop.get_attribute.metas⟩)
    ∧ (∀ target, ParseTypedAttribute_Animatable tt table prop_name prop name target
      = ⟨⟨.Success, ""⟩, insert name table,
          (target.set_value (Animatable.ofValue v)).set_metas prop.get_attribute.metas⟩)
    ∧ (∀ target, ParseTypedAttribute_Uniform tt table prop_name prop name target
      = ⟨⟨.Success, ""⟩, insert name table,
          (target.set_value v).set_metas prop.get_attribute.metas⟩) := by
  subst hname
  have hne := ne_append_connect prop_name
  refine ⟨?_, ?_, ?_, ?_⟩ <;> intro target
  · simp [ParseTypedAttribute_WithFallbackAnimatable, hne, htable, hconn, hauth, hty,
      hblocked, huniform, hscalar, hv]
  · simp [ParseTypedAttribute_WithFallback, hne, htable, hconn, hauth, hty, hblocked,
      huniform, hscalar, hv]
  · simp [ParseTypedAttribute_Animatable, hne, htable, hconn, hauth, hty, hblocked,
      huniform, hscalar, hv]
  · simp [ParseTypedAttribute_Uniform, hne, htable, hconn, hauth, hty, hblocked,
      huniform, hscalar, hv]

/-- C7 at `uniform bool doubleSided = true`: the hypotheses hold and the uniform matcher
of the `doubleSided` slot stores `true` and records the name. -/
theorem C7_uniform_scalar_witness :
    ("doubleSided" ∉ (∅ : Table)
      ∧ (Property.ofScalar "bool" .Uniform (.bool true)).is_connection = false
      ∧ (Property.ofScalar "bool" .Uniform (.bool true)).get_attribute.get_value boolTraits
          = some true)
    ∧ (∀ target, ParseTypedAttribute_WithFallback boolTraits ∅ "doubleSided"
        (Property.ofScalar "bool" .Uniform (.bool true)) "doubleSided" target
      = ⟨⟨.Success, ""⟩, insert "doubleSided" ∅,
          (target.set_value true).set_metas
            (Property.ofScalar "bool" .Uniform (.bool true)).get_attribute.metas⟩) :=
  ⟨⟨by decide, rfl, rfl⟩,
    (C7_uniform_scalar boolTraits ∅ "doubleSided" "doubleSided"
      (Property.ofScalar "bool" .Uniform (.bool true)) true
      rfl (by decide) rfl rfl (Or.inl rfl) rfl rfl rfl rfl).2.1⟩

/-! ### Time samples (C8) -/

/-- The sample recorded by `ConvertToAnimatable<T>` for one raw sample: a blocked
sample when the raw one is blocked, and its typed value otherwise. -/
theorem convertSamples_some {T : Type} (tt : TypeTraits T) (ts : List Sample)
    (dst : Animatable T)
    (hall : ∀ s ∈ ts, s.blocked = false → (tt.get_value s.value).isSome = true) :
    convertSamples tt ts dst
      = some ⟨dst.value, dst.blocked,
          dst.samples ++ ts.map (fun s =>
            ⟨s.t, if s.blocked then none else tt.get_value s.value⟩)⟩ := by
  induction ts generalizing dst with
  | nil => simp [convertSamples]
  | cons s rest ih =>
    have hrest : ∀ s ∈ rest, s.blocked = false → (tt.get_value s.value).isSome = true :=
      fun x hx => hall x (List.mem_cons_of_mem _ hx)
    by_cases hb : s.blocked = true
    · simp [convertSamples, hb, ih _ hrest, Animatable.add_blocked_sample]
    · have hb2 : s.blocked = false := by simpa using hb
      have hs := hall s (List.mem_cons_self _ _) hb2
      obtain ⟨pv, hpv⟩ := Option.isSome_iff_exists.mp hs
      simp [convertSamples, hb2, hpv, ih _ hrest, Animatable.add_sample]

/-- The loop of `ConvertToAnimatable<T>` gives up exactly when some sample that is not
blocked does not hold a `T`. -/
theorem convertSamples_none {T : Type} (tt : TypeTraits T) (ts : List Sample)
    (dst : Animatable T) :
    convertSamples tt ts dst = none
      ↔ ∃ s ∈ ts, s.blocked = false ∧ tt.get_value s.value = none := by
  induction ts generalizing dst with
  | nil => simp [convertSamples]
  | cons s rest ih =>
    by_cases hb : s.blocked = true
    · simp [convertSamples, hb, ih]
    · have hb2 : s.blocked = false := by simpa using hb
      cases hpv : tt.get_value s.value with
      | none => simp [convertSamples, hb2, hpv]
      | some pv => simp [convertSamples, hb2, hpv, ih]

/-- C8: on a time-samples variable (not a scalar), `ConvertToAnimatable<T>` returns
nothing exactly when the variable is invalid or some sample that is not blocked holds no
`T`; otherwise it returns the default `Animatable` after one add operation per raw
sample, in order: the i-th recorded sample has the time of the i-th raw one, is a
blocked sample iff the raw one is blocked, and carries its typed value otherwise.  The
two varying matchers store that result in the target, copy the metadata, add the name
to the table and answer `Success`. -/
theorem C8_convert_to_animatable {T : Type} (tt : TypeTraits T) (var : PrimVar)
    (hscalar : var.is_scalar = false) (hts : var.is_timesamples = true) :
    (ConvertToAnimatable tt var = none
      ↔ var.is_valid = false
        ∨ ∃ s ∈ var.ts_raw, s.blocked = false ∧ tt.get_value s.value = none)
    ∧ (var.is_valid = true
        → (∀ s ∈ var.ts_raw, s.blocked = false → (tt.get_value s.value).isSome = true)
        → ConvertToAnimatable tt var
            = some ⟨none, false, var.ts_raw.map (recordedSample tt)⟩
          ∧ (var.ts_raw.map (recordedSample tt)).length = var.ts_raw.length
          ∧ ∀ i : Nat, ∀ s, var.ts_raw[i]? = some s →
              (var.ts_raw.map (recordedSample tt))[i]? = some (recordedSample tt s)
              ∧ (recordedSample tt s).t = s.t
              ∧ ((recordedSample tt s).value = none ↔ s.blocked = true)
              ∧ (s.blocked = false → (recordedSample tt s).value = tt.get_value s.value))
    ∧ (∀ (table : Table) (prop_name name : String) (prop : Property) (av : Animatable T),
        prop.get_attribute.var = var → prop_name = name → name ∉ table
        → prop.is_connection = false → prop.get_property_type = .Attrib
        → (tt.type_name = prop.get_attribute.type_name
            ∨ tt.underlying_type_name = prop.get_attribute.type_name)
        → prop.get_attribute.is_blocked = false
        → prop.get_attribute.variability = .Varying
        → ConvertToAnimatable tt var = some av
        → (∀ target,
            ParseTypedAttribute_WithFallbackAnimatable tt table prop_name prop name target
              = ⟨⟨.Success, ""⟩, insert name table,
                  (target.set_value av).set_metas prop.get_attribute.metas⟩)
          ∧ (∀ target, ParseTypedAttribute_Animatable tt table prop_name prop name target
              = ⟨⟨.Success, ""⟩, insert name table,
                  (target.set_value av).set_metas prop.get_attribute.metas⟩)) := by
  refine ⟨?_, ?_, ?_⟩
  · cases hv : var.is_valid
    · simp [ConvertToAnimatable, hv]
    · simp [ConvertToAnimatable, hv, hscalar, hts, convertSamples_none]
  · intro hv hall
    refine ⟨?_, by simp, ?_⟩
    · simp [ConvertToAnimatable, hv, hscalar, hts, convertSamples_some tt _ _ hall,
        Animatable.default, recordedSample]
    · intro i s hs
      refine ⟨by simp [List.getElem?_map, hs], rfl, ?_, ?_⟩
      · have hmem : s ∈ var.ts_raw := List.getElem?_mem hs
        cases hb : s.blocked
        · have h := hall s hmem hb
          obtain ⟨pv, hpv⟩ := Option.isSome_iff_exists.mp h
          simp [recordedSample, hb, hpv]
        · simp [recordedSample, hb]
      · intro hb
        simp [recordedSample, hb]
  · intro table prop_name name prop av hvar hname htable hconn hauth hty hblocked hvary hav
    subst hname
    have hne := ne_append_connect prop_name
    constructor <;> intro target
    · simp [ParseTypedAttribute_WithFallbackAnimatable, hne, htable, hconn, hauth, hty,
        hblocked, hvary, hvar, hts, hav]
    · simp [ParseTypedAttribute_Animatable, hne, htable, hconn, hauth, hty, hblocked,
        hvary, hvar, hts, hav]

/-- C8 at the samples `0: 1.2, 1: None` of a `double` attribute: the variable is a
time-samples one and the conversion returns the two recorded samples in order, the
second one blocked. -/
theorem C8_convert_to_animatable_witness :
    ((PrimVar.ofTimeSamples [⟨0, .double (6/5), false⟩, ⟨1, .other "None", true⟩]).is_scalar
        = false
      ∧ (PrimVar.ofTimeSamples
          [⟨0, .double (6/5), false⟩, ⟨1, .other "None", true⟩]).is_timesamples = true)
    ∧ ConvertToAnimatable doubleTraits
        (PrimVar.ofTimeSamples [⟨0, .double (6/5), false⟩, ⟨1, .other "None", true⟩])
      = some ⟨none, false,
          (PrimVar.ofTimeSamples
            [⟨0, .double (6/5), false⟩, ⟨1, .other "None", true⟩]).ts_raw.map
              (recordedSample doubleTraits)⟩ :=
  ⟨⟨rfl, rfl⟩,
    ((C8_convert_to_animatable doubleTraits
      (PrimVar.ofTimeSamples [⟨0, .double (6/5), false⟩, ⟨1, .other "None", true⟩])
      rfl rfl).2.1 rfl (by
        intro s hs
        simp only [PrimVar.ofTimeSamples, List.mem_cons, List.mem_singleton,
          List.not_mem_nil, or_false] at hs
        rcases hs with rfl | rfl <;> simp [doubleTraits])).1⟩

/-! ### Hard errors stop the reconstructor (C9) -/

/-- A property whose name is neither the slot name nor the slot name followed by
`.connect` is `Unmatched` by the matcher of a `TypedAttributeWithFallback<Animatable<T>>`
slot. -/
theorem unmatched_WithFallbackAnimatable {T : Type} (tt : TypeTraits T) (table : Table)
    (prop_name name : String) (prop : Property)
    (target : TypedAttributeWithFallback (Animatable T))
    (h1 : prop_name ≠ name) (h2 : prop_name ≠ name ++ ".connect") :
    ParseTypedAttribute_WithFallbackAnimatable tt table prop_name prop name target
      = ⟨⟨.Unmatched, ""⟩, table, target⟩ := by
  simp [ParseTypedAttribute_WithFallbackAnimatable, h1, h2]

/-- A property whose name is neither `name` nor `name.connect` is `Unmatched` by
`ParseExtentAttribute`. -/
theorem unmatched_Extent (table : Table) (prop_name name : String) (prop : Property)
    (target : TypedAttribute (Animatable Extent))
    (h1 : prop_name ≠ name) (h2 : prop_name ≠ name ++ ".connect") :
    ParseExtentAttribute table prop_name prop name target
      = ⟨⟨.Unmatched, ""⟩, table, target⟩ := by
  simp [ParseExtentAttribute, h1, h2]

/-- A loop over `pre ++ rest` that gets through `pre` goes on with `rest` from the state
reached. -/
theorem propertyLoop_append {σ : Type} (body : σ → String × Property → Step σ)
    (pre rest : List (String × Property)) (s0 s : σ)
    (h : propertyLoop body s0 pre = .ok s) :
    propertyLoop body s0 (pre ++ rest) = propertyLoop body s rest := by
  induction pre generalizing s0 with
  | nil =>
    simp only [propertyLoop] at h
    cases h
    rfl
  | cons p ps ih =>
    simp only [List.cons_append, propertyLoop] at h ⊢
    cases hb : body s0 p with
    | next s1 =>
      rw [hb] at h
      exact ih s1 h
    | continue_ s1 =>
      rw [hb] at h
      exact ih s1 h
    | ret_false s1 =>
      rw [hb] at h
      cases h

/-- A loop stops at the first property whose body returns false: the properties after
it are not looked at. -/
theorem propertyLoop_ret_false {σ : Type} (body : σ → String × Property → Step σ)
    (s s1 : σ) (prop : String × Property) (rest : List (String × Property))
    (h : body s prop = .ret_false s1) :
    propertyLoop body s (prop :: rest) = .fail s1 := by
  simp [propertyLoop, h]

/-- C9: `PARSE_TYPED_ATTRIBUTE` turns every matcher code other than `Success`,
`AlreadyProcessed` and `Unmatched` into a return of false that appends
"Parsing attribute <name> failed. Error: <matcher error>" (the name in backquotes) to
`err`, while `Success` and `AlreadyProcessed` go on to the next property with `err`
untouched; a property loop stops at the property whose body returns false, whatever
follows it; and in `ReconstructPrim<GeomSphere>`, when the matcher of `radius` gives
such a code at some property, the reconstructor returns false with exactly that message
appended, whatever properties follow. -/
theorem C9_hard_error_returns_false :
    (∀ {τ α : Type} (m : Matcher α) (name : String) (target : Field τ α)
        (s : ReconState τ) (prop : String × Property),
      ((m s.table prop.1 prop.2 name (target.get s.prim)).ret.code ≠ .Success →
        (m s.table prop.1 prop.2 name (target.get s.prim)).ret.code ≠ .AlreadyProcessed →
        (m s.table prop.1 prop.2 name (target.get s.prim)).ret.code ≠ .Unmatched →
        PARSE_TYPED_ATTRIBUTE m name target s prop
          = .ret_false
              ⟨(m s.table prop.1 prop.2 name (target.get s.prim)).table,
                target.set (m s.table prop.1 prop.2 name (target.get s.prim)).target s.prim,
                s.warn,
                PushError s.err ("Parsing attribute `" ++ name ++ "` failed. Error: "
                  ++ (m s.table prop.1 prop.2 name (target.get s.prim)).ret.err)⟩)
      ∧ ((m s.table prop.1 prop.2 name (target.get s.prim)).ret.code = .Success
          ∨ (m s.table prop.1 prop.2 name (target.get s.prim)).ret.code = .AlreadyProcessed →
        PARSE_TYPED_ATTRIBUTE m name target s prop
          = .continue_
              ⟨(m s.table prop.1 prop.2 name (target.get s.prim)).table,
                target.set (m s.table prop.1 prop.2 name (target.get s.prim)).target s.prim,
                s.warn, s.err⟩))
    ∧ (∀ {σ : Type} (body : σ → String × Property → Step σ) (s s1 : σ)
        (prop : String × Property) (rest : List (String × Property)),
        body s prop = .ret_false s1 → propertyLoop body s (prop :: rest) = .fail s1)
    ∧ (∀ (klass_name : String) (pre post : List (String × Property))
        (prop : String × Property) (sphere : GeomSphere) (warn err : Option String)
        (x : XformState) (st : ReconState GeomSphere),
        ReconstructXformOpsFromProperties ∅ (pre ++ prop :: post) sphere.xformOps err = .ok x →
        propertyLoop (GeomSphere.body klass_name)
          ⟨x.table, { sphere with xformOps := x.xformOps }, warn, x.err⟩ pre = .ok st →
        (ParseTypedAttribute_WithFallbackAnimatable doubleTraits st.table prop.1 prop.2
          "radius" st.prim.radius).ret.code ≠ .Success →
        (ParseTypedAttribute_WithFallbackAnimatable doubleTraits st.table prop.1 prop.2
          "radius" st.prim.radius).ret.code ≠ .AlreadyProcessed →
        (ParseTypedAttribute_WithFallbackAnimatable doubleTraits st.table prop.1 prop.2
          "radius" st.prim.radius).ret.code ≠ .Unmatched →
        ReconstructPrim_GeomSphere klass_name (pre ++ prop :: post) sphere warn err
          = .fail (st.withError
              ("Parsing attribute `" ++ "radius" ++ "` failed. Error: "
                ++ (ParseTypedAttribute_WithFallbackAnimatable doubleTraits st.table
                      prop.1 prop.2 "radius" st.prim.radius).ret.err))) := by
  refine ⟨?_, ?_, ?_⟩
  · intro τ α m name target s prop
    constructor
    · intro h1 h2 h3
      simp [PARSE_TYPED_ATTRIBUTE, h1, h2, h3, PUSH_ERROR_AND_RETURN, ReconState.withError]
    · intro h
      simp [PARSE_TYPED_ATTRIBUTE, h]
  · intro σ body s s1 prop rest h
    exact propertyLoop_ret_false body s s1 prop rest h
  · intro klass_name pre post prop sphere warn err x st hx hpre h1 h2 h3
    have hname : prop.1 = "radius" ∨ prop.1 = "radius" ++ ".connect" := by
      by_contra hc
      push_neg at hc
      rw [unmatched_WithFallbackAnimatable doubleTraits st.table prop.1 "radius" prop.2
        st.prim.radius hc.1 hc.2] at h3
      exact h3 rfl
    have hframe := (slotGuard_WithFallbackAnimatable doubleTraits "radius"
      (by decide)).2.1 st.table prop.1 prop.2 st.prim.radius h1
    have hb : GeomSphere.body klass_name st prop
        = .ret_false (st.withError
            ("Parsing attribute `" ++ "radius" ++ "` failed. Error: "
              ++ (ParseTypedAttribute_WithFallbackAnimatable doubleTraits st.table
                    prop.1 prop.2 "radius" st.prim.radius).ret.err)) := by
      have n1 : prop.1 ≠ "material:binding" := by
        rcases hname with h | h <;> rw [h] <;> decide
      have n2 : prop.1 ≠ "material:binding:correction" := by
        rcases hname with h | h <;> rw [h] <;> decide
      have n3 : prop.1 ≠ "material:binding:preview" := by
        rcases hname with h | h <;> rw [h] <;> decide
      simp only [GeomSphere.body, GeomSphere.arms, PARSE_SINGLE_TARGET_PATH_RELATION,
        if_neg n1, if_neg n2, if_neg n3, Step.andThen, PARSE_TYPED_ATTRIBUTE,
        GeomSphere.radiusField, PUSH_ERROR_AND_RETURN]
      simp only [h1, h2, h3, or_self, if_false, hframe.1, hframe.2]
    unfold ReconstructPrim_GeomSphere
    rw [hx]
    simp only []
    rw [propertyLoop_append _ pre (prop :: post) _ st hpre]
    exact propertyLoop_ret_false _ _ _ _ _ hb

/-- C9 at `int radius = 1` followed by a custom property: the matcher of `radius`
answers `TypeMismatch`, and the reconstructor returns false with the message of
`PARSE_TYPED_ATTRIBUTE` appended to `err`; the custom property is never looked at. -/
theorem C9_hard_error_returns_false_witness :
    ReconstructPrim_GeomSphere "GeomSphere" sampleBadSphere GeomSphere.fresh (some "") (some "")
      = .fail ((⟨insert "xformOpOrder" ∅, GeomSphere.fresh, some "", some ""⟩ :
          ReconState GeomSphere).withError
          ("Parsing attribute `" ++ "radius" ++ "` failed. Error: "
            ++ (ParseTypedAttribute_WithFallbackAnimatable doubleTraits
                  (insert "xformOpOrder" ∅) "radius"
                  (Property.ofScalar "int" .Varying (.int 1)) "radius"
                  GeomSphere.fresh.radius).ret.err)) :=
  C9_hard_error_returns_false.2.2 "GeomSphere" []
    [("userProperties:note", Property.ofScalar "string" .Varying (.other "string"))]
    ("radius", Property.ofScalar "int" .Varying (.int 1)) GeomSphere.fresh (some "") (some "")
    ⟨insert "xformOpOrder" ∅, [], some ""⟩
    ⟨insert "xformOpOrder" ∅, GeomSphere.fresh, some "", some ""⟩
    rfl rfl (by decide) (by decide) (by decide)

/-! ### The residual `props` (C10) -/

/-- Assigning under a key that the map does not hold appends the entry. -/
theorem PropertyMap.assign_of_not_mem (m : PropertyMap) (k : String) (p : Property)
    (h : k ∉ m.map Prod.fst) : m.assign k p = m ++ [(k, p)] := by
  induction m with
  | nil => rfl
  | cons kv rest ih =>
    obtain ⟨k1, q⟩ := kv
    simp only [List.map_cons, List.mem_cons, not_or] at h
    have hne : k1 ≠ k := fun e => h.1 e.symm
    simp [PropertyMap.assign, hne, ih h.2]

/-- The residual `props` after a property loop that ends with `ADD_PROPERTY`: when the
schema arms never write `props` and never shrink the table, and every key of `props` is
in the table at the start, a run that returns true leaves in `props` the entries it had,
followed by exactly the properties that no arm consumed, each under its own name and
with its own value, in the order of iteration. -/
theorem props_of_loop {τ : Type}
    (arms : ReconState τ → String × Property → Step (ReconState τ))
    (dst : Field τ PropertyMap)
    (endArm : ReconState τ → String × Property → Step (ReconState τ))
    (hend : endArm = PARSE_PROPERTY_END_MAKE_ERROR ∨ endArm = PARSE_PROPERTY_END_MAKE_WARN)
    (hget : ∀ (v : PropertyMap) (x : τ), dst.get (dst.set v x) = v)
    (hframe : ∀ s prop s1,
      (arms s prop = .next s1 ∨ arms s prop = .continue_ s1) →
      dst.get s1.prim = dst.get s.prim ∧ s.table ⊆ s1.table)
    (properties : List (String × Property)) (s0 sf : ReconState τ)
    (hkeys : ∀ k ∈ (dst.get s0.prim).map Prod.fst, k ∈ s0.table)
    (hrun : propertyLoop (bodyWithAddProperty arms dst endArm) s0 properties = .ok sf) :
    dst.get sf.prim = dst.get s0.prim ++ unconsumed arms dst endArm s0 properties := by
  induction properties generalizing s0 with
  | nil =>
    simp only [propertyLoop] at hrun
    cases hrun
    simp [unconsumed]
  | cons prop rest ih =>
    simp only [propertyLoop, bodyWithAddProperty] at hrun
    simp only [unconsumed]
    cases ha : arms s0 prop with
    | ret_false s1 =>
      rw [ha] at hrun
      simp [Step.andThen] at hrun
    | continue_ s1 =>
      rw [ha] at hrun
      simp only [Step.andThen] at hrun
      dsimp only
      have hf := hframe s0 prop s1 (Or.inr ha)
      have := ih s1 (fun k hk => hf.2 (hkeys k (by rwa [hf.1] at hk))) hrun
      rw [this, hf.1]
    | next s1 =>
      rw [ha] at hrun
      simp only [Step.andThen] at hrun
      dsimp only
      have hf := hframe s0 prop s1 (Or.inl ha)
      have hkeys1 : ∀ k ∈ (dst.get s1.prim).map Prod.fst, k ∈ s1.table :=
        fun k hk => hf.2 (hkeys k (by rwa [hf.1] at hk))
      by_cases hmem : prop.1 ∈ s1.table
      · have hadd : ADD_PROPERTY dst s1 prop = .next s1 := by
          simp [ADD_PROPERTY, hmem]
        have hendn : endArm s1 prop = .next s1 := by
          rcases hend with h | h <;> subst h <;>
            simp [PARSE_PROPERTY_END_MAKE_ERROR, PARSE_PROPERTY_END_MAKE_WARN, hmem]
        rw [hadd] at hrun ⊢
        simp only [Step.andThen, hendn] at hrun ⊢
        have := ih s1 hkeys1 hrun
        simp [this, hf.1, hmem]
      · have hnk : prop.1 ∉ (dst.get s1.prim).map Prod.fst := fun hk => hmem (hkeys1 _ hk)
        have hadd : ADD_PROPERTY dst s1 prop
            = .next { s1 with prim := dst.set ((dst.get s1.prim) ++ [(prop.1, prop.2)]) s1.prim,
                              table := insert prop.1 s1.table } := by
          simp [ADD_PROPERTY, hmem, PropertyMap.assign_of_not_mem _ _ _ hnk]
        have hendn : ∀ s2 : ReconState τ, prop.1 ∈ s2.table → endArm s2 prop = .next s2 := by
          intro s2 h2
          rcases hend with h | h <;> subst h <;>
            simp [PARSE_PROPERTY_END_MAKE_ERROR, PARSE_PROPERTY_END_MAKE_WARN, h2]
        rw [hadd] at hrun ⊢
        simp only [Step.andThen] at hrun ⊢
        rw [hendn _ (Finset.mem_insert_self _ _)] at hrun ⊢
        simp only [] at hrun ⊢
        have hkeys2 : ∀ k ∈ (dst.get (dst.set ((dst.get s1.prim) ++ [(prop.1, prop.2)])
            s1.prim)).map Prod.fst, k ∈ insert prop.1 s1.table := by
          intro k hk
          rw [hget] at hk
          simp only [List.map_append, List.map_cons, List.map_nil, List.mem_append,
            List.mem_singleton] at hk
          rcases hk with hk | hk
          · exact Finset.mem_insert_of_mem (hkeys1 k hk)
          · rw [hk]
            exact Finset.mem_insert_self _ _
        have := ih _ hkeys2 hrun
        rw [this, hget, hf.1]
        simp [hmem]

/-- `MatcherSpec` for the matcher of a `TypedAttributeWithFallback<Animatable<T>>` slot. -/
theorem matcherSpec_WithFallbackAnimatable {T : Type} (tt : TypeTraits T) (X : String)
    (hX : removeSuffix X ".connect" = X) :
    MatcherSpec (ParseTypedAttribute_WithFallbackAnimatable tt) X := by
  intro table prop_name prop target
  refine ⟨fun h1 h2 => unmatched_WithFallbackAnimatable tt table prop_name X prop target h1 h2,
    ?_, ?_⟩
  · intro hname
    apply cases_WithFallbackAnimatable tt X table prop_name prop target
      (fun r => r.ret.code ≠ .Unmatched)
    · intro code err _ hu hc
      have := hu hc
      rcases hname with h | h
      · exact this.1 h
      · exact this.2 h
    all_goals
      intros
      simp
  · apply cases_WithFallbackAnimatable tt X table prop_name prop target
      (fun r => r.table = table ∨ r.table = insert X table)
    · intros
      exact Or.inl rfl
    · intros
      rw [hX]
      exact Or.inr rfl
    all_goals
      intros
      exact Or.inr rfl

/-- `MatcherSpec` for `ParseExtentAttribute`. -/
theorem matcherSpec_Extent (X : String) (hX : removeSuffix X ".connect" = X) :
    MatcherSpec ParseExtentAttribute X := by
  intro table prop_name prop target
  refine ⟨fun h1 h2 => unmatched_Extent table prop_name X prop target h1 h2, ?_, ?_⟩
  · intro hname
    apply cases_Extent X table prop_name prop target (fun r => r.ret.code ≠ .Unmatched)
    · intro code err _ hu hc
      have := hu hc
      rcases hname with h | h
      · exact this.1 h
      · exact this.2 h
    all_goals
      intros
      simp
  · apply cases_Extent X table prop_name prop target
      (fun r => r.table = table ∨ r.table = insert X table)
    · intros
      exact Or.inl rfl
    · intros
      rw [hX]
      exact Or.inr rfl
    all_goals
      intros
      exact Or.inr rfl

/-- Two arms in sequence take the names of both. -/
theorem ArmSpec.andThen {τ : Type} {dst : Field τ PropertyMap}
    {a1 a2 : ReconState τ → String × Property → Step (ReconState τ)}
    {n1 n2 : List String} (h1 : ArmSpec dst a1 n1) (h2 : ArmSpec dst a2 n2) :
    ArmSpec dst (fun s prop => (a1 s prop).andThen fun s1 => a2 s1 prop) (n1 ++ n2) := by
  intro s prop
  obtain ⟨h1a, h1b, h1c⟩ := h1 s prop
  refine ⟨?_, ?_, ?_⟩
  · intro hn
    simp only [List.mem_append, not_or] at hn
    simp only [h1a hn.1, Step.andThen]
    exact (h2 s prop).1 hn.2
  · intro s2 hs2
    cases ha : a1 s prop with
    | ret_false s1 =>
      simp [ha, Step.andThen] at hs2
    | continue_ s1 =>
      simp only [ha, Step.andThen] at hs2
      rcases hs2 with hs2 | hs2
      · cases hs2
      · have e : s1 = s2 := by injection hs2
        rw [← e]
        obtain ⟨e1, e2, e3⟩ := h1b s1 (Or.inr ha)
        exact ⟨e1, e2, fun x hx => (e3 x hx).imp id (fun h => List.mem_append_left _ h)⟩
    | next s1 =>
      simp only [ha, Step.andThen] at hs2
      obtain ⟨e1, e2, e3⟩ := h1b s1 (Or.inl ha)
      obtain ⟨f1, f2, f3⟩ := (h2 s1 prop).2.1 s2 hs2
      refine ⟨f1.trans e1, e2.trans f2, fun x hx => ?_⟩
      rcases f3 x hx with h | h
      · exact (e3 x h).imp id (fun h => List.mem_append_left _ h)
      · exact Or.inr (List.mem_append_right _ h)
  · intro hn s2 hs2
    cases ha : a1 s prop with
    | ret_false s1 =>
      simp [ha, Step.andThen] at hs2
    | continue_ s1 =>
      simp [ha, Step.andThen] at hs2
    | next s1 =>
      simp only [ha, Step.andThen] at hs2
      obtain ⟨f1, f2, f3⟩ := (h2 s1 prop).2.1 s2 (Or.inl hs2)
      by_cases hm : prop.1 ∈ n1
      · exact f2 (h1c hm s1 ha)
      · have hm2 : prop.1 ∈ n2 := by
          rcases List.mem_append.mp hn with h | h
          · exact absurd h hm
          · exact h
        exact (h2 s1 prop).2.2 hm2 s2 hs2

/-- `ArmSpec` for `PARSE_SINGLE_TARGET_PATH_RELATION`. -/
theorem armSpec_relation {τ : Type} (dst : Field τ PropertyMap) (propname : String)
    (target : Field τ (Option Relationship))
    (hdst : ∀ v x, dst.get (target.set v x) = dst.get x) :
    ArmSpec dst (PARSE_SINGLE_TARGET_PATH_RELATION propname target) [propname] := by
  intro s prop
  refine ⟨?_, ?_, ?_⟩
  · intro hn
    have : prop.1 ≠ propname := by simpa using hn
    simp [PARSE_SINGLE_TARGET_PATH_RELATION, this]
  · intro s1 hs1
    unfold PARSE_SINGLE_TARGET_PATH_RELATION at hs1
    by_cases c1 : prop.1 = propname
    · rw [if_pos c1] at hs1
      by_cases c2 : propname ∈ s.table
      · rw [if_pos c2] at hs1
        simp only [Step.continue_.injEq, false_or, reduceCtorEq] at hs1
        subst hs1
        exact ⟨rfl, Finset.Subset.refl _, fun x hx => Or.inl hx⟩
      · rw [if_neg c2] at hs1
        by_cases c3 : (prop.2.is_relationship && prop.2.is_empty) = true
        · rw [if_pos c3] at hs1
          simp [PUSH_ERROR_AND_RETURN] at hs1
        · rw [if_neg c3] at hs1
          dsimp only at hs1
          by_cases c4 : prop.2.get_relationship.is_path = true
          · rw [if_pos c4] at hs1
            simp only [Step.continue_.injEq, false_or, reduceCtorEq] at hs1
            subst hs1
            refine ⟨hdst _ _, Finset.subset_insert _ _, fun x hx => ?_⟩
            rcases Finset.mem_insert.mp hx with h | h
            · exact Or.inr (by simp [h, c1])
            · exact Or.inl h
          · rw [if_neg c4] at hs1
            by_cases c5 : prop.2.get_relationship.is_pathvector = true
            · rw [if_pos c5] at hs1
              by_cases c6 : prop.2.get_relationship.targetPathVector.length = 1
              · rw [if_pos c6] at hs1
                simp only [Step.continue_.injEq, false_or, reduceCtorEq] at hs1
                subst hs1
                refine ⟨hdst _ _, Finset.subset_insert _ _, fun x hx => ?_⟩
                rcases Finset.mem_insert.mp hx with h | h
                · exact Or.inr (by simp [h, c1])
                · exact Or.inl h
              · rw [if_neg c6] at hs1
                simp [PUSH_ERROR_AND_RETURN] at hs1
            · rw [if_neg c5] at hs1
              simp [PUSH_ERROR_AND_RETURN] at hs1
    · rw [if_neg c1] at hs1
      simp only [Step.next.injEq, or_false, reduceCtorEq] at hs1
      subst hs1
      exact ⟨rfl, Finset.Subset.refl _, fun x hx => Or.inl hx⟩
  · intro hn s1 hs1
    have c1 : prop.1 = propname := by simpa using hn
    unfold PARSE_SINGLE_TARGET_PATH_RELATION at hs1
    rw [if_pos c1] at hs1
    by_cases c2 : propname ∈ s.table
    · rw [if_pos c2] at hs1
      cases hs1
    · rw [if_neg c2] at hs1
      by_cases c3 : (prop.2.is_relationship && prop.2.is_empty) = true
      · rw [if_pos c3] at hs1
        simp [PUSH_ERROR_AND_RETURN] at hs1
      · rw [if_neg c3] at hs1
        dsimp only at hs1
        by_cases c4 : prop.2.get_relationship.is_path = true
        · rw [if_pos c4] at hs1
          cases hs1
        · rw [if_neg c4] at hs1
          by_cases c5 : prop.2.get_relationship.is_pathvector = true
          · rw [if_pos c5] at hs1
            by_cases c6 : prop.2.get_relationship.targetPathVector.length = 1
            · rw [if_pos c6] at hs1
              cases hs1
            · rw [if_neg c6] at hs1
              simp [PUSH_ERROR_AND_RETURN] at hs1
          · rw [if_neg c5] at hs1
            simp [PUSH_ERROR_AND_RETURN] at hs1

/-- `ArmSpec` for `PARSE_TYPED_ATTRIBUTE`. -/
theorem armSpec_typed {τ α : Type} (dst : Field τ PropertyMap) (m : Matcher α) (name : String)
    (target : Field τ α)
    (hm : MatcherSpec m name)
    (hdst : ∀ v x, dst.get (target.set v x) = dst.get x)
    (hset : ∀ x, target.set (target.get x) x = x) :
    ArmSpec dst (PARSE_TYPED_ATTRIBUTE m name target) [name, name ++ ".connect"] := by
  intro s prop
  obtain ⟨hm1, hm2, hm3⟩ := hm s.table prop.1 prop.2 (target.get s.prim)
  refine ⟨?_, ?_, ?_⟩
  · intro hn
    simp only [List.mem_cons, List.mem_singleton, List.not_mem_nil, or_false, not_or] at hn
    have e := hm1 hn.1 hn.2
    simp only [PARSE_TYPED_ATTRIBUTE, e, hset]
    simp
  · intro s1 hs1
    unfold PARSE_TYPED_ATTRIBUTE at hs1
    dsimp only at hs1
    have hsub : s.table ⊆ (m s.table prop.1 prop.2 name (target.get s.prim)).table := by
      rcases hm3 with h | h <;> rw [h]
      exact Finset.subset_insert _ _
    have hsup : ∀ x ∈ (m s.table prop.1 prop.2 name (target.get s.prim)).table,
        x ∈ s.table ∨ x ∈ [name, name ++ ".connect"] := by
      intro x hx
      rcases hm3 with h | h <;> rw [h] at hx
      · exact Or.inl hx
      · rcases Finset.mem_insert.mp hx with h2 | h2
        · exact Or.inr (by simp [h2])
        · exact Or.inl h2
    by_cases c1 : (m s.table prop.1 prop.2 name (target.get s.prim)).ret.code = .Success
        ∨ (m s.table prop.1 prop.2 name (target.get s.prim)).ret.code = .AlreadyProcessed
    · rw [if_pos c1] at hs1
      simp only [Step.continue_.injEq, false_or, reduceCtorEq] at hs1
      subst hs1
      exact ⟨hdst _ _, hsub, hsup⟩
    · rw [if_neg c1] at hs1
      by_cases c2 : (m s.table prop.1 prop.2 name (target.get s.prim)).ret.code = .Unmatched
      · rw [if_pos c2] at hs1
        simp only [Step.next.injEq, or_false, reduceCtorEq] at hs1
        subst hs1
        exact ⟨hdst _ _, hsub, hsup⟩
      · rw [if_neg c2] at hs1
        simp [PUSH_ERROR_AND_RETURN] at hs1
  · intro hn s1 hs1
    simp only [List.mem_cons, List.mem_singleton, List.not_mem_nil, or_false] at hn
    have hne := hm2 hn
    unfold PARSE_TYPED_ATTRIBUTE at hs1
    dsimp only at hs1
    by_cases c1 : (m s.table prop.1 prop.2 name (target.get s.prim)).ret.code = .Success
        ∨ (m s.table prop.1 prop.2 name (target.get s.prim)).ret.code = .AlreadyProcessed
    · rw [if_pos c1] at hs1
      cases hs1
    · rw [if_neg c1, if_neg hne] at hs1
      simp [PUSH_ERROR_AND_RETURN] at hs1

/-- `ArmSpec` for `PARSE_EXTENT_ATTRIBUTE`. -/
theorem armSpec_extent {τ : Type} (dst : Field τ PropertyMap) (name : String)
    (target : Field τ (TypedAttribute (Animatable Extent)))
    (hm : MatcherSpec ParseExtentAttribute name)
    (hdst : ∀ v x, dst.get (target.set v x) = dst.get x)
    (hset : ∀ x, target.set (target.get x) x = x) :
    ArmSpec dst (PARSE_EXTENT_ATTRIBUTE name target) [name, name ++ ".connect"] := by
  intro s prop
  obtain ⟨hm1, hm2, hm3⟩ := hm s.table prop.1 prop.2 (target.get s.prim)
  refine ⟨?_, ?_, ?_⟩
  · intro hn
    simp only [List.mem_cons, List.mem_singleton, List.not_mem_nil, or_false, not_or] at hn
    have e := hm1 hn.1 hn.2
    simp only [PARSE_EXTENT_ATTRIBUTE, e, hset]
    simp
  · intro s1 hs1
    unfold PARSE_EXTENT_ATTRIBUTE at hs1
    dsimp only at hs1
    have hsub : s.table ⊆ (ParseExtentAttribute s.table prop.1 prop.2 name (target.get s.prim)).table := by
      rcases hm3 with h | h <;> rw [h]
      exact Finset.subset_insert _ _
    have hsup : ∀ x ∈ (ParseExtentAttribute s.table prop.1 prop.2 name (target.get s.prim)).table,
        x ∈ s.table ∨ x ∈ [name, name ++ ".connect"] := by
      intro x hx
      rcases hm3 with h | h <;> rw [h] at hx
      · exact Or.inl hx
      · rcases Finset.mem_insert.mp hx with h2 | h2
        · exact Or.inr (by simp [h2])
        · exact Or.inl h2
    by_cases c1 : (ParseExtentAttribute s.table prop.1 prop.2 name (target.get s.prim)).ret.code = .Success
        ∨ (ParseExtentAttribute s.table prop.1 prop.2 name (target.get s.prim)).ret.code = .AlreadyProcessed
    · rw [if_pos c1] at hs1
      simp only [Step.continue_.injEq, false_or, reduceCtorEq] at hs1
      subst hs1
      exact ⟨hdst _ _, hsub, hsup⟩
    · rw [if_neg c1] at hs1
      by_cases c2 : (ParseExtentAttribute s.table prop.1 prop.2 name (target.get s.prim)).ret.code = .Unmatched
      · rw [if_pos c2] at hs1
        simp only [Step.next.injEq, or_false, reduceCtorEq] at hs1
        subst hs1
        exact ⟨hdst _ _, hsub, hsup⟩
      · rw [if_neg c2] at hs1
        simp [PUSH_ERROR_AND_RETURN] at hs1
  · intro hn s1 hs1
    simp only [List.mem_cons, List.mem_singleton, List.not_mem_nil, or_false] at hn
    have hne := hm2 hn
    unfold PARSE_EXTENT_ATTRIBUTE at hs1
    dsimp only at hs1
    by_cases c1 : (ParseExtentAttribute s.table prop.1 prop.2 name (target.get s.prim)).ret.code = .Success
        ∨ (ParseExtentAttribute s.table prop.1 prop.2 name (target.get s.prim)).ret.code = .AlreadyProcessed
    · rw [if_pos c1] at hs1
      cases hs1
    · rw [if_neg c1, if_neg hne] at hs1
      simp [PUSH_ERROR_AND_RETURN] at hs1

/-- `ArmSpec` for `PARSE_ENUM_PROPETY`. -/
theorem armSpec_enum {τ E : Type} (dst : Field τ PropertyMap) (name : String)
    (enum_handler : String → Except String E) (klass_name : String) (assign : E → τ → τ)
    (hdst : ∀ e x, dst.get (assign e x) = dst.get x) :
    ArmSpec dst (PARSE_ENUM_PROPETY name enum_handler klass_name assign) [name] := by
  intro s prop
  refine ⟨?_, ?_, ?_⟩
  · intro hn
    have : prop.1 ≠ name := by simpa using hn
    simp [PARSE_ENUM_PROPETY, this]
  · intro s1 hs1
    unfold PARSE_ENUM_PROPETY at hs1
    by_cases c1 : prop.1 = name
    · rw [if_pos c1] at hs1
      by_cases c2 : name ∈ s.table
      · rw [if_pos c2] at hs1
        simp only [Step.continue_.injEq, false_or, reduceCtorEq] at hs1
        subst hs1
        exact ⟨rfl, Finset.Subset.refl _, fun x hx => Or.inl hx⟩
      · rw [if_neg c2] at hs1
        dsimp only at hs1
        cases hv : prop.2.get_attribute.get_value tokenTraits with
        | none =>
          rw [hv] at hs1
          simp [PUSH_ERROR_AND_RETURN] at hs1
        | some tok =>
          rw [hv] at hs1
          dsimp only at hs1
          cases he : enum_handler tok with
          | error msg =>
            rw [he] at hs1
            simp [PUSH_ERROR_AND_RETURN] at hs1
          | ok e =>
            rw [he] at hs1
            simp only [Step.next.injEq, or_false, reduceCtorEq] at hs1
            subst hs1
            refine ⟨hdst _ _, Finset.subset_insert _ _, fun x hx => ?_⟩
            rcases Finset.mem_insert.mp hx with h | h
            · exact Or.inr (by simp [h])
            · exact Or.inl h
    · rw [if_neg c1] at hs1
      simp only [Step.next.injEq, or_false, reduceCtorEq] at hs1
      subst hs1
      exact ⟨rfl, Finset.Subset.refl _, fun x hx => Or.inl hx⟩
  · intro hn s1 hs1
    have c1 : prop.1 = name := by simpa using hn
    unfold PARSE_ENUM_PROPETY at hs1
    rw [if_pos c1] at hs1
    by_cases c2 : name ∈ s.table
    · rw [if_pos c2] at hs1
      cases hs1
    · rw [if_neg c2] at hs1
      dsimp only at hs1
      cases hv : prop.2.get_attribute.get_value tokenTraits with
      | none =>
        rw [hv] at hs1
        simp [PUSH_ERROR_AND_RETURN] at hs1
      | some tok =>
        rw [hv] at hs1
        dsimp only at hs1
        cases he : enum_handler tok with
        | error msg =>
          rw [he] at hs1
          simp [PUSH_ERROR_AND_RETURN] at hs1
        | ok e =>
          rw [he] at hs1
          simp only [Step.next.injEq] at hs1
          subst hs1
          rw [c1]
          exact Finset.mem_insert_self _ _

/-- An op branch that ends `ok` has recorded its token and left `err` alone. -/
theorem okTable_finishOp (s : XformState) (tok : String) (ty : OpType) (inv : Bool)
    (sfx : String) (v : Option XformOpVar) (msg : String) :
    okTable tok s (finishOp s tok ty inv sfx v msg) := by
  intro s1 h
  cases v with
  | none => simp [finishOp, xformError] at h
  | some var =>
    simp only [finishOp, Outcome.ok.injEq] at h
    subst h
    exact ⟨rfl, rfl⟩

/-- One token step that ends `ok` leaves `err` alone and adds to the table the property
name of the token, or nothing for `!resetXformStack!`. -/
theorem xformOpStep_table (properties : PropertyMap) (s : XformState) (i : Nat)
    (item : String) (s1 : XformState) (h : xformOpStep properties s i item = .ok s1) :
    s1.err = s.err ∧
    s1.table = (if startsWith item "!resetXformStack!" then s.table
      else insert (xformOpName item) s.table) := by
  unfold xformOpStep at h
  by_cases c1 : startsWith item "!resetXformStack!" = true
  · rw [if_pos c1] at h ⊢
    by_cases c2 : item ≠ "!resetXformStack!"
    · rw [if_pos c2] at h
      simp [xformError] at h
    · rw [if_neg c2] at h
      by_cases c3 : i ≠ 0
      · rw [if_pos c3] at h
        simp [xformError] at h
      · rw [if_neg c3] at h
        simp only [Outcome.ok.injEq] at h
        subst h
        exact ⟨rfl, rfl⟩
  · rw [if_neg c1] at h ⊢
    dsimp only at h
    unfold xformOpName
    generalize (if startsWith item "!invert!" = true then removePrefix item "!invert!"
      else item) = tok at h ⊢
    cases hf : properties.find tok with
    | none =>
      rw [hf] at h
      simp [xformError] at h
    | some p =>
      rw [hf] at h
      dsimp only at h
      by_cases c4 : p.is_connection = true
      · rw [if_pos c4] at h
        simp [xformError] at h
      · rw [if_neg c4] at h
        repeat' split at h
        all_goals first
          | exact ⟨(okTable_finishOp _ _ _ _ _ _ _ _ h).2, (okTable_finishOp _ _ _ _ _ _ _ _ h).1⟩
          | simp [xformError] at h

/-- A token loop that ends `ok` leaves `err` alone and has added to the table exactly
the property names of its tokens. -/
theorem xformOpLoop_table (properties : PropertyMap) (toks : List String)
    (s s1 : XformState) (i : Nat) (h : xformOpLoop properties s i toks = .ok s1) :
    s1.err = s.err ∧ ∀ k, k ∈ s1.table ↔
      k ∈ s.table ∨ k ∈ (toks.filter (fun item => !startsWith item "!resetXformStack!")).map
        xformOpName := by
  induction toks generalizing s i with
  | nil =>
    simp only [xformOpLoop, Outcome.ok.injEq] at h
    subst h
    simp
  | cons item rest ih =>
    simp only [xformOpLoop] at h
    cases hs : xformOpStep properties s i item with
    | fail s2 => simp [hs] at h
    | raise => simp [hs] at h
    | ok s2 =>
      rw [hs] at h
      obtain ⟨e1, e2⟩ := xformOpStep_table properties s i item s2 hs
      obtain ⟨f1, f2⟩ := ih s2 (i + 1) h
      refine ⟨f1.trans e1, fun k => ?_⟩
      rw [f2 k, e2]
      by_cases c : startsWith item "!resetXformStack!" = true
      · simp [c]
      · have c2 : startsWith item "!resetXformStack!" = false := by simpa using c
        simp only [c2, Bool.false_eq_true, if_false, Finset.mem_insert, List.filter_cons,
          Bool.not_false, if_true, List.map_cons, List.mem_cons]
        tauto

/-- When `ReconstructXformOpsFromProperties` returns true from an empty table, `err` is
untouched and the table holds `xformOpOrder` and the property names of the xformOpOrder
tokens, nothing else. -/
theorem xformOps_table (properties : PropertyMap) (ops : List XformOp)
    (err : Option String) (x : XformState)
    (h : ReconstructXformOpsFromProperties ∅ properties ops err = .ok x) :
    x.err = err ∧ ∀ k, k ∈ x.table ↔ k = "xformOpOrder" ∨ k ∈ xformOpNames properties := by
  unfold ReconstructXformOpsFromProperties at h
  dsimp only at h
  unfold xformOpNames
  cases hf : properties.find "xformOpOrder" with
  | none =>
    simp only [PropertyMap.count, hf, Option.isSome_none, Bool.false_eq_true, if_false,
      Outcome.ok.injEq] at h
    subst h
    simp
  | some prop =>
    simp only [PropertyMap.count, hf, Option.isSome_some, if_true] at h
    by_cases c1 : prop.is_relationship = true
    · simp [c1, xformError] at h
    · rw [if_neg c1] at h
      cases hv : prop.get_attribute.get_value tokenArrayTraits with
      | none => simp [hv, xformError] at h
      | some pv =>
        simp only [hv] at h
        by_cases c2 : prop.get_attribute.variability ≠ .Uniform
        · simp [c2, xformError] at h
        · rw [if_neg c2] at h
          cases hl : xformOpLoop properties ⟨∅, ops, err⟩ 0 pv with
          | fail s2 => simp [hl] at h
          | raise => simp [hl] at h
          | ok s2 =>
            simp only [hl, Outcome.ok.injEq] at h
            subst h
            obtain ⟨e1, e2⟩ := xformOpLoop_table properties pv _ s2 0 hl
            refine ⟨e1, fun k => ?_⟩
            simp [e2 k, hv]

/-- In a loop whose schema arms take the names `names` (`ArmSpec`), started with the
table `T0` of names consumed beforehand, a run that returns true over properties with
pairwise distinct names consumes exactly the properties named in `names` or in `T0`:
the others are the properties handed to `ADD_PROPERTY` with a name not in the table. -/
theorem unconsumed_eq_filter {τ : Type}
    (arms : ReconState τ → String × Property → Step (ReconState τ))
    (dst : Field τ PropertyMap)
    (endArm : ReconState τ → String × Property → Step (ReconState τ))
    (names : List String) (T0 : Table)
    (hend : endArm = PARSE_PROPERTY_END_MAKE_ERROR ∨ endArm = PARSE_PROPERTY_END_MAKE_WARN)
    (harms : ArmSpec dst arms names)
    (rest : List (String × Property)) (s sf : ReconState τ)
    (hnodup : (rest.map Prod.fst).Nodup)
    (hT0 : T0 ⊆ s.table)
    (hinv : ∀ x ∈ s.table, (x ∈ names ∨ x ∈ T0) ∨ x ∉ rest.map Prod.fst)
    (hrun : propertyLoop (bodyWithAddProperty arms dst endArm) s rest = .ok sf) :
    unconsumed arms dst endArm s rest
      = rest.filter (fun kv => decide (kv.1 ∉ names ∧ kv.1 ∉ T0)) := by
  induction rest generalizing s with
  | nil => simp [unconsumed]
  | cons prop tl ih =>
    simp only [List.map_cons, List.nodup_cons] at hnodup
    obtain ⟨hk, hnd⟩ := hnodup
    obtain ⟨ha, hb, hc⟩ := harms s prop
    have hendn : ∀ s2 : ReconState τ, prop.1 ∈ s2.table → endArm s2 prop = .next s2 := by
      intro s2 h2
      rcases hend with h | h <;> subst h <;>
        simp [PARSE_PROPERTY_END_MAKE_ERROR, PARSE_PROPERTY_END_MAKE_WARN, h2]
    simp only [propertyLoop, bodyWithAddProperty] at hrun
    simp only [unconsumed]
    cases hs : arms s prop with
    | ret_false s1 =>
      rw [hs] at hrun
      simp [Step.andThen] at hrun
    | continue_ s1 =>
      rw [hs] at hrun
      simp only [Step.andThen] at hrun
      dsimp only
      obtain ⟨_, e2, e3⟩ := hb s1 (Or.inr hs)
      have hmem : prop.1 ∈ names := by
        by_contra hn
        rw [ha hn] at hs
        cases hs
      have hinv1 : ∀ x ∈ s1.table, (x ∈ names ∨ x ∈ T0) ∨ x ∉ tl.map Prod.fst := by
        intro x hx
        rcases e3 x hx with h | h
        · rcases hinv x h with h2 | h2
          · exact Or.inl h2
          · exact Or.inr (fun h3 => h2 (List.mem_cons_of_mem _ h3))
        · exact Or.inl (Or.inl h)
      rw [ih s1 hnd (hT0.trans e2) hinv1 hrun]
      simp [List.filter_cons, hmem]
    | next s1 =>
      rw [hs] at hrun
      simp only [Step.andThen] at hrun
      dsimp only
      obtain ⟨_, e2, e3⟩ := hb s1 (Or.inl hs)
      have hinv1 : ∀ x ∈ s1.table, (x ∈ names ∨ x ∈ T0) ∨ x ∉ tl.map Prod.fst := by
        intro x hx
        rcases e3 x hx with h | h
        · rcases hinv x h with h2 | h2
          · exact Or.inl h2
          · exact Or.inr (fun h3 => h2 (List.mem_cons_of_mem _ h3))
        · exact Or.inl (Or.inl h)
      by_cases hcons : prop.1 ∈ names ∨ prop.1 ∈ T0
      · have hmem : prop.1 ∈ s1.table := by
          rcases hcons with h | h
          · exact hc h s1 hs
          · exact e2 (hT0 h)
        have hadd : ADD_PROPERTY dst s1 prop = .next s1 := by
          simp [ADD_PROPERTY, hmem]
        rw [hadd] at hrun ⊢
        simp only [Step.andThen, hendn s1 hmem] at hrun ⊢
        rw [ih s1 hnd (hT0.trans e2) hinv1 hrun]
        have hno : ¬ (prop.1 ∉ names ∧ prop.1 ∉ T0) := by tauto
        simp [List.filter_cons, hmem, hno]
      · have hnn : prop.1 ∉ names := fun h => hcons (Or.inl h)
        have hs' := ha hnn
        rw [hs'] at hs
        have es : s1 = s := by injection hs with e; exact e.symm
        subst es
        have hmem : prop.1 ∉ s1.table := by
          intro h
          rcases hinv _ h with h2 | h2
          · exact hcons h2
          · exact h2 (List.mem_cons_self _ _)
        have hadd : ADD_PROPERTY dst s1 prop
            = .next { s1 with prim := dst.set ((dst.get s1.prim).assign prop.1 prop.2) s1.prim,
                              table := insert prop.1 s1.table } := by
          simp [ADD_PROPERTY, hmem]
        rw [hadd] at hrun ⊢
        simp only [Step.andThen] at hrun ⊢
        rw [hendn _ (Finset.mem_insert_self _ _)] at hrun ⊢
        simp only [] at hrun ⊢
        have hinv2 : ∀ x ∈ insert prop.1 s1.table,
            (x ∈ names ∨ x ∈ T0) ∨ x ∉ tl.map Prod.fst := by
          intro x hx
          rcases Finset.mem_insert.mp hx with h | h
          · rw [h]
            exact Or.inr hk
          · exact hinv1 x h
        rw [ih _ hnd (hT0.trans (Finset.subset_insert _ _)) hinv2 hrun]
        have hyes : prop.1 ∉ names ∧ prop.1 ∉ T0 := by tauto
        simp [List.filter_cons, hmem, hyes]

/-- In a map with pairwise distinct keys, `find` returns exactly the entries. -/
theorem PropertyMap.find_eq_some_iff (m : PropertyMap) (hnd : (m.map Prod.fst).Nodup)
    (k : String) (p : Property) : m.find k = some p ↔ (k, p) ∈ m := by
  induction m with
  | nil => simp [PropertyMap.find]
  | cons kv rest ih =>
    obtain ⟨k1, q⟩ := kv
    simp only [List.map_cons, List.nodup_cons] at hnd
    by_cases hk : k1 = k
    · subst hk
      simp only [PropertyMap.find, if_true, Option.some.injEq, List.mem_cons, Prod.mk.injEq,
        true_and]
      constructor
      · intro h
        exact Or.inl h.symm
      · intro h
        rcases h with h | h
        · exact h.symm
        · exact absurd (List.mem_map_of_mem Prod.fst h) hnd.1
    · simp only [PropertyMap.find, if_neg hk, List.mem_cons, Prod.mk.injEq]
      rw [ih hnd.2]
      constructor
      · intro h
        exact Or.inr h
      · intro h
        rcases h with h | h
        · exact absurd h.1.symm hk
        · exact h

/-- Filtering a map keeps its keys pairwise distinct. -/
theorem PropertyMap.nodup_filter (m : PropertyMap) (hnd : (m.map Prod.fst).Nodup)
    (q : String × Property → Bool) : ((m.filter q).map Prod.fst).Nodup :=
  List.Nodup.sublist (List.Sublist.map _ (List.filter_sublist _)) hnd

/-- The schema arms of `ReconstructPrim<GeomSphere>` take the names of
`GeomSphere.slotNames`. -/
theorem armSpec_GeomSphere (klass_name : String) :
    ArmSpec GeomSphere.propsField (GeomSphere.arms klass_name) GeomSphere.slotNames := by
  have h := ArmSpec.andThen
    (armSpec_relation GeomSphere.propsField "material:binding"
      GeomSphere.materialBindingField (fun _ _ => rfl))
    (ArmSpec.andThen
      (armSpec_relation GeomSphere.propsField "material:binding:correction"
        GeomSphere.materialBindingCorrectionField (fun _ _ => rfl))
      (ArmSpec.andThen
        (armSpec_relation GeomSphere.propsField "material:binding:preview"
          GeomSphere.materialBindingPreviewField (fun _ _ => rfl))
        (ArmSpec.andThen
          (armSpec_typed GeomSphere.propsField
            (ParseTypedAttribute_WithFallbackAnimatable doubleTraits) "radius"
            GeomSphere.radiusField
            (matcherSpec_WithFallbackAnimatable doubleTraits "radius" (by decide))
            (fun _ _ => rfl) (fun _ => rfl))
          (ArmSpec.andThen
            (armSpec_extent GeomSphere.propsField "extent" GeomSphere.extentField
              (matcherSpec_Extent "extent" (by decide)) (fun _ _ => rfl) (fun _ => rfl))
            (armSpec_enum GeomSphere.propsField "purpose" PurposeEnumHandler klass_name
              (fun e g => { g with purpose := g.purpose.set_value e })
              (fun _ _ => rfl))))))
  have hn : (["material:binding"] ++ (["material:binding:correction"]
      ++ (["material:binding:preview"] ++ (["radius", "radius" ++ ".connect"]
      ++ (["extent", "extent" ++ ".connect"] ++ ["purpose"])))))
      = GeomSphere.slotNames := by decide
  rw [hn] at h
  exact h

/-- The residual map after a loop made of schema arms with `ArmSpec`, started with an
empty residual map and the table `T0`: the properties named neither in `names` nor in
`T0`, in order, each with its own value. -/
theorem props_eq_filter {τ : Type}
    (arms : ReconState τ → String × Property → Step (ReconState τ))
    (dst : Field τ PropertyMap)
    (endArm : ReconState τ → String × Property → Step (ReconState τ))
    (names : List String) (T0 : Table) (prim0 : τ) (warn err : Option String)
    (properties : List (String × Property)) (sf : ReconState τ)
    (hend : endArm = PARSE_PROPERTY_END_MAKE_ERROR ∨ endArm = PARSE_PROPERTY_END_MAKE_WARN)
    (hget : ∀ (v : PropertyMap) (x : τ), dst.get (dst.set v x) = v)
    (harms : ArmSpec dst arms names)
    (hnodup : (properties.map Prod.fst).Nodup)
    (hfresh : dst.get prim0 = [])
    (hrun : propertyLoop (bodyWithAddProperty arms dst endArm) ⟨T0, prim0, warn, err⟩
      properties = .ok sf) :
    dst.get sf.prim = properties.filter (fun kv => decide (kv.1 ∉ names ∧ kv.1 ∉ T0)) := by
  have h1 := props_of_loop arms dst endArm hend hget
    (fun s prop s1 h => ⟨((harms s prop).2.1 s1 h).1, ((harms s prop).2.1 s1 h).2.1⟩)
    properties ⟨T0, prim0, warn, err⟩ sf (by simp [hfresh]) hrun
  have h2 := unconsumed_eq_filter arms dst endArm names T0 hend harms properties
    ⟨T0, prim0, warn, err⟩ sf hnodup (Finset.Subset.refl _)
    (fun x hx => Or.inl (Or.inr hx)) hrun
  rw [h1, h2]
  simp [hfresh]

/-- C10: after a property loop that ends with `ADD_PROPERTY`, run into a fresh output,
the residual `props` holds exactly the properties that were not consumed, each under its
own name and with its own value, and nothing else.  Three readings are proved.  For
every such loop whose schema arms never write `props` and never shrink the table, the
properties kept are those on which the arms fall through with the name not in the table
(`unconsumed`).  For every such loop whose schema arms take a fixed list of names (as
the relationship, typed-attribute, extent and enum arms do), over properties with
pairwise distinct names, the properties kept are those named neither in that list nor
in the table the loop starts with.  For `ReconstructPrim<GeomSphere>` the consumed
names are the slot names (`material:binding`, `material:binding:correction`,
`material:binding:preview`, `radius`, `radius.connect`, `extent`, `extent.connect`,
`purpose`), `xformOpOrder` and the names that the xformOpOrder tokens refer to. -/
theorem C10_residual_props :
    (∀ {τ : Type} (arms : ReconState τ → String × Property → Step (ReconState τ))
        (dst : Field τ PropertyMap)
        (endArm : ReconState τ → String × Property → Step (ReconState τ))
        (T0 : Table) (prim0 : τ) (warn err : Option String)
        (properties : List (String × Property)) (sf : ReconState τ),
        (endArm = PARSE_PROPERTY_END_MAKE_ERROR ∨ endArm = PARSE_PROPERTY_END_MAKE_WARN) →
        (∀ (v : PropertyMap) (x : τ), dst.get (dst.set v x) = v) →
        (∀ s prop s1, (arms s prop = .next s1 ∨ arms s prop = .continue_ s1) →
          dst.get s1.prim = dst.get s.prim ∧ s.table ⊆ s1.table) →
        dst.get prim0 = [] →
        propertyLoop (bodyWithAddProperty arms dst endArm) ⟨T0, prim0, warn, err⟩
          properties = .ok sf →
        dst.get sf.prim = unconsumed arms dst endArm ⟨T0, prim0, warn, err⟩ properties)
    ∧ (∀ {τ : Type} (arms : ReconState τ → String × Property → Step (ReconState τ))
        (dst : Field τ PropertyMap)
        (endArm : ReconState τ → String × Property → Step (ReconState τ))
        (names : List String) (T0 : Table) (prim0 : τ) (warn err : Option String)
        (properties : List (String × Property)) (sf : ReconState τ),
        (endArm = PARSE_PROPERTY_END_MAKE_ERROR ∨ endArm = PARSE_PROPERTY_END_MAKE_WARN) →
        (∀ (v : PropertyMap) (x : τ), dst.get (dst.set v x) = v) →
        ArmSpec dst arms names →
        (properties.map Prod.fst).Nodup →
        dst.get prim0 = [] →
        propertyLoop (bodyWithAddProperty arms dst endArm) ⟨T0, prim0, warn, err⟩
          properties = .ok sf →
        dst.get sf.prim = properties.filter (fun kv => decide (kv.1 ∉ names ∧ kv.1 ∉ T0))
        ∧ ∀ k p, (dst.get sf.prim).find k = some p
            ↔ ((k, p) ∈ properties ∧ k ∉ names ∧ k ∉ T0))
    ∧ (∀ (klass_name : String) (properties : PropertyMap) (warn err : Option String)
        (st : ReconState GeomSphere),
        (properties.map Prod.fst).Nodup →
        ReconstructPrim_GeomSphere klass_name properties GeomSphere.fresh warn err = .ok st →
        st.prim.props = properties.filter (fun kv => !GeomSphere.consumed properties kv.1)
        ∧ ∀ k p, st.prim.props.find k = some p
            ↔ ((k, p) ∈ properties ∧ GeomSphere.consumed properties k = false)) := by
  refine ⟨?_, ?_, ?_⟩
  · intro τ arms dst endArm T0 prim0 warn err properties sf hend hget hframe hfresh hrun
    have h := props_of_loop arms dst endArm hend hget hframe properties
      ⟨T0, prim0, warn, err⟩ sf (by simp [hfresh]) hrun
    rw [h]
    simp [hfresh]
  · intro τ arms dst endArm names T0 prim0 warn err properties sf hend hget harms hnodup
      hfresh hrun
    have h := props_eq_filter arms dst endArm names T0 prim0 warn err properties sf hend hget
      harms hnodup hfresh hrun
    refine ⟨h, fun k p => ?_⟩
    rw [h, PropertyMap.find_eq_some_iff _ (PropertyMap.nodup_filter _ hnodup _)]
    simp [List.mem_filter]
  · intro klass_name properties warn err st hnodup hrun
    unfold ReconstructPrim_GeomSphere at hrun
    cases hx : ReconstructXformOpsFromProperties ∅ properties GeomSphere.fresh.xformOps err with
    | fail x => simp [hx] at hrun
    | raise => simp [hx] at hrun
    | ok x =>
      rw [hx] at hrun
      dsimp only at hrun
      obtain ⟨_, htab⟩ := xformOps_table properties _ err x hx
      have h := props_eq_filter (GeomSphere.arms klass_name) GeomSphere.propsField
        PARSE_PROPERTY_END_MAKE_ERROR GeomSphere.slotNames x.table
        { GeomSphere.fresh with xformOps := x.xformOps } warn x.err properties st
        (Or.inl rfl) (fun _ _ => rfl) (armSpec_GeomSphere klass_name) hnodup rfl hrun
      have hfilter : (fun kv : String × Property =>
          decide (kv.1 ∉ GeomSphere.slotNames ∧ kv.1 ∉ x.table))
          = (fun kv => !GeomSphere.consumed properties kv.1) := by
        funext kv
        simp only [GeomSphere.consumed, htab kv.1]
        by_cases a : kv.1 ∈ GeomSphere.slotNames <;> by_cases b : kv.1 = "xformOpOrder"
          <;> by_cases c : kv.1 ∈ xformOpNames properties <;> simp [a, b, c]
      rw [hfilter] at h
      have h' : st.prim.props
          = properties.filter (fun kv => !GeomSphere.consumed properties kv.1) := h
      refine ⟨h', fun k p => ?_⟩
      rw [h', PropertyMap.find_eq_some_iff _ (PropertyMap.nodup_filter _ hnodup _)]
      simp [List.mem_filter]

/-- C10 at `sampleSphere`: the names are pairwise distinct, the reconstructor returns
true, and `props` holds the primvar alone: `radius` went to its slot, `xformOpOrder` and
`xformOp:translate` to the xform ops. -/
theorem C10_residual_props_witness :
    (sampleSphere.map Prod.fst).Nodup
    ∧ ReconstructPrim_GeomSphere "GeomSphere" sampleSphere GeomSphere.fresh (some "") (some "")
        = .ok sampleSphereResult
    ∧ sampleSphereResult.prim.props
        = sampleSphere.filter (fun kv => !GeomSphere.consumed sampleSphere kv.1)
    ∧ sampleSphere.filter (fun kv => !GeomSphere.consumed sampleSphere kv.1)
        = [("primvars:displayColor",
            Property.ofScalar "color3f[]" .Varying (.other "color3f[]"))] :=
  ⟨by decide, rfl,
    (C10_residual_props.2.2 "GeomSphere" sampleSphere (some "") (some "") sampleSphereResult
      (by decide) rfl).1,
    by decide⟩

/-! ### Unrecognized properties (C11) -/

/-- After `ADD_PROPERTY` the name of the property is in the table, so the closing
`PARSE_PROPERTY_END_MAKE_WARN` falls through without a warning. -/
theorem addProperty_then_warn {τ : Type} (dst : Field τ PropertyMap) (s : ReconState τ)
    (prop : String × Property) :
    (ADD_PROPERTY dst s prop).andThen (fun s2 => PARSE_PROPERTY_END_MAKE_WARN s2 prop)
      = .next (if prop.1 ∈ s.table then s
          else { s with prim := dst.set ((dst.get s.prim).assign prop.1 prop.2) s.prim,
                        table := insert prop.1 s.table }) := by
  by_cases h : prop.1 ∈ s.table
  · simp [ADD_PROPERTY, PARSE_PROPERTY_END_MAKE_WARN, Step.andThen, h]
  · simp [ADD_PROPERTY, PARSE_PROPERTY_END_MAKE_WARN, Step.andThen, h]

/-- The relationship arm leaves `warn` alone. -/
theorem warnFrame_relation {τ : Type} (propname : String)
    (target : Field τ (Option Relationship)) :
    WarnFrame (PARSE_SINGLE_TARGET_PATH_RELATION propname target) := by
  intro s prop s1 h
  unfold PARSE_SINGLE_TARGET_PATH_RELATION PUSH_ERROR_AND_RETURN ReconState.withError at h
  by_cases c1 : prop.1 = propname
  · rw [if_pos c1] at h
    by_cases c2 : propname ∈ s.table
    · rw [if_pos c2] at h
      rcases h with h | h | h <;> cases h
      rfl
    · rw [if_neg c2] at h
      by_cases c3 : (prop.2.is_relationship && prop.2.is_empty) = true
      · rw [if_pos c3] at h
        rcases h with h | h | h <;> cases h
        rfl
      · rw [if_neg c3] at h
        dsimp only at h
        by_cases c4 : prop.2.get_relationship.is_path = true
        · rw [if_pos c4] at h
          rcases h with h | h | h <;> cases h
          rfl
        · rw [if_neg c4] at h
          by_cases c5 : prop.2.get_relationship.is_pathvector = true
          · rw [if_pos c5] at h
            by_cases c6 : prop.2.get_relationship.targetPathVector.length = 1
            · rw [if_pos c6] at h
              rcases h with h | h | h <;> cases h
              rfl
            · rw [if_neg c6] at h
              rcases h with h | h | h <;> cases h
              rfl
          · rw [if_neg c5] at h
            rcases h with h | h | h <;> cases h
            rfl
  · rw [if_neg c1] at h
    rcases h with h | h | h <;> cases h
    rfl

/-- The enum arm leaves `warn` alone. -/
theorem warnFrame_enum {τ E : Type} (name : String) (enum_handler : String → Except String E)
    (klass_name : String) (assign : E → τ → τ) :
    WarnFrame (PARSE_ENUM_PROPETY name enum_handler klass_name assign) := by
  intro s prop s1 h
  unfold PARSE_ENUM_PROPETY PUSH_ERROR_AND_RETURN ReconState.withError at h
  by_cases c1 : prop.1 = name
  · rw [if_pos c1] at h
    by_cases c2 : name ∈ s.table
    · rw [if_pos c2] at h
      rcases h with h | h | h <;> cases h
      rfl
    · rw [if_neg c2] at h
      dsimp only at h
      cases hv : prop.2.get_attribute.get_value tokenTraits with
      | none =>
        rw [hv] at h
        rcases h with h | h | h <;> cases h
        rfl
      | some tok =>
        rw [hv] at h
        dsimp only at h
        cases he : enum_handler tok with
        | error msg =>
          rw [he] at h
          rcases h with h | h | h <;> cases h
          rfl
        | ok e =>
          rw [he] at h
          rcases h with h | h | h <;> cases h
          rfl
  · rw [if_neg c1] at h
    rcases h with h | h | h <;> cases h
    rfl

/-- The typed-attribute arm leaves `warn` alone, whatever the matcher. -/
theorem warnFrame_typed {τ α : Type} (m : Matcher α) (name : String) (target : Field τ α) :
    WarnFrame (PARSE_TYPED_ATTRIBUTE m name target) := by
  intro s prop s1 h
  unfold PARSE_TYPED_ATTRIBUTE PUSH_ERROR_AND_RETURN ReconState.withError at h
  dsimp only at h
  by_cases c1 : (m s.table prop.1 prop.2 name (target.get s.prim)).ret.code = .Success
      ∨ (m s.table prop.1 prop.2 name (target.get s.prim)).ret.code = .AlreadyProcessed
  · rw [if_pos c1] at h
    rcases h with h | h | h <;> cases h
    rfl
  · rw [if_neg c1] at h
    by_cases c2 : (m s.table prop.1 prop.2 name (target.get s.prim)).ret.code = .Unmatched
    · rw [if_pos c2] at h
      rcases h with h | h | h <;> cases h
      rfl
    · rw [if_neg c2] at h
      rcases h with h | h | h <;> cases h
      rfl

/-- The extent arm leaves `warn` alone. -/
theorem warnFrame_extent {τ : Type} (name : String)
    (target : Field τ (TypedAttribute (Animatable Extent))) :
    WarnFrame (PARSE_EXTENT_ATTRIBUTE name target) := by
  intro s prop s1 h
  unfold PARSE_EXTENT_ATTRIBUTE PUSH_ERROR_AND_RETURN ReconState.withError at h
  dsimp only at h
  by_cases c1 : (ParseExtentAttribute s.table prop.1 prop.2 name (target.get s.prim)).ret.code
        = .Success
      ∨ (ParseExtentAttribute s.table prop.1 prop.2 name (target.get s.prim)).ret.code
        = .AlreadyProcessed
  · rw [if_pos c1] at h
    rcases h with h | h | h <;> cases h
    rfl
  · rw [if_neg c1] at h
    by_cases c2 : (ParseExtentAttribute s.table prop.1 prop.2 name
        (target.get s.prim)).ret.code = .Unmatched
    · rw [if_pos c2] at h
      rcases h with h | h | h <;> cases h
      rfl
    · rw [if_neg c2] at h
      rcases h with h | h | h <;> cases h
      rfl

/-- Arms that leave `warn` alone do so in sequence. -/
theorem warnFrame_seq {τ : Type}
    {a1 a2 : ReconState τ → String × Property → Step (ReconState τ)}
    (h1 : WarnFrame a1) (h2 : WarnFrame a2) :
    WarnFrame (fun s prop => (a1 s prop).andThen fun s1 => a2 s1 prop) := by
  intro s prop s2 h
  cases ha : a1 s prop with
  | next s1 =>
    simp only [ha, Step.andThen] at h
    rw [h2 s1 prop s2 h, h1 s prop s1 (Or.inl ha)]
  | continue_ s1 =>
    simp only [ha, Step.andThen] at h
    rcases h with h | h | h <;> cases h
    exact h1 s prop s2 (Or.inr (Or.inl ha))
  | ret_false s1 =>
    simp only [ha, Step.andThen] at h
    rcases h with h | h | h <;> cases h
    exact h1 s prop s2 (Or.inr (Or.inr ha))

/-- A loop body that ends with `ADD_PROPERTY` and `PARSE_PROPERTY_END_MAKE_WARN` leaves
`warn` alone when its schema arms do. -/
theorem warnFrame_body {τ : Type}
    (arms : ReconState τ → String × Property → Step (ReconState τ))
    (dst : Field τ PropertyMap) (harms : WarnFrame arms) :
    WarnFrame (bodyWithAddProperty arms dst PARSE_PROPERTY_END_MAKE_WARN) := by
  refine warnFrame_seq harms ?_
  intro s prop s1 h
  dsimp only at h
  rw [addProperty_then_warn] at h
  by_cases c : prop.1 ∈ s.table
  · rw [if_pos c] at h
    rcases h with h | h | h <;> cases h
    rfl
  · rw [if_neg c] at h
    rcases h with h | h | h <;> cases h
    rfl

/-- A property loop whose body leaves `warn` alone ends, true or false, with the `warn`
it started with. -/
theorem propertyLoop_warn {τ : Type}
    (body : ReconState τ → String × Property → Step (ReconState τ)) (hbody : WarnFrame body)
    (properties : List (String × Property)) (s sf : ReconState τ)
    (hrun : propertyLoop body s properties = .ok sf ∨ propertyLoop body s properties = .fail sf) :
    sf.warn = s.warn := by
  induction properties generalizing s with
  | nil =>
    simp only [propertyLoop] at hrun
    rcases hrun with h | h <;> cases h
    rfl
  | cons prop rest ih =>
    simp only [propertyLoop] at hrun
    cases hb : body s prop with
    | next s1 =>
      rw [hb] at hrun
      rw [ih s1 hrun, hbody s prop s1 (Or.inl hb)]
    | continue_ s1 =>
      rw [hb] at hrun
      rw [ih s1 hrun, hbody s prop s1 (Or.inr (Or.inl hb))]
    | ret_false s1 =>
      rw [hb] at hrun
      rcases hrun with h | h <;> cases h
      exact hbody s prop sf (Or.inr (Or.inr hb))

/-- The loop of `ReconstructPrim<Scope>` always runs to its end and touches neither
`warn` nor `err`. -/
theorem scope_loop_ok (properties : List (String × Property)) (s : ReconState Scope) :
    ∃ sf, propertyLoop Scope.body s properties = .ok sf ∧ sf.warn = s.warn ∧ sf.err = s.err := by
  induction properties generalizing s with
  | nil => exact ⟨s, rfl, rfl, rfl⟩
  | cons prop rest ih =>
    have hb : Scope.body s prop
        = .next (if prop.1 ∈ s.table then s
          else { s with prim := Scope.propsField.set
                          ((Scope.propsField.get s.prim).assign prop.1 prop.2) s.prim,
                        table := insert prop.1 s.table }) :=
      addProperty_then_warn Scope.propsField s prop
    simp only [propertyLoop, hb]
    obtain ⟨sf, h1, h2, h3⟩ := ih (if prop.1 ∈ s.table then s
          else { s with prim := Scope.propsField.set
                          ((Scope.propsField.get s.prim).assign prop.1 prop.2) s.prim,
                        table := insert prop.1 s.table })
    refine ⟨sf, h1, ?_, ?_⟩
    · rw [h2]; split <;> rfl
    · rw [h3]; split <;> rfl

/-- The schema arms of `ReconstructPrim<Xform>` take the names of `Xform.slotNames`. -/
theorem armSpec_Xform (klass_name : String) :
    ArmSpec Xform.propsField (Xform.arms klass_name) Xform.slotNames := by
  have h := ArmSpec.andThen
    (armSpec_relation Xform.propsField "material:binding"
      Xform.materialBindingField (fun _ _ => rfl))
    (ArmSpec.andThen
      (armSpec_relation Xform.propsField "proxyPrim" Xform.proxyPrimField (fun _ _ => rfl))
      (ArmSpec.andThen
        (armSpec_enum Xform.propsField "visibility" VisibilityEnumHandler klass_name
          (fun e g => { g with visibility := g.visibility.set_value (Animatable.ofValue e) })
          (fun _ _ => rfl))
        (ArmSpec.andThen
          (armSpec_enum Xform.propsField "purpose" PurposeEnumHandler klass_name
            (fun e g => { g with purpose := g.purpose.set_value e }) (fun _ _ => rfl))
          (ArmSpec.andThen
            (armSpec_enum Xform.propsField "orientation" OrientationEnumHandler klass_name
              (fun e g => { g with orientation := g.orientation.set_value e })
              (fun _ _ => rfl))
            (armSpec_extent Xform.propsField "extent" Xform.extentField
              (matcherSpec_Extent "extent" (by decide)) (fun _ _ => rfl) (fun _ => rfl))))))
  have hn : (["material:binding"] ++ (["proxyPrim"] ++ (["visibility"] ++ (["purpose"]
      ++ (["orientation"] ++ ["extent", "extent" ++ ".connect"])))))
      = Xform.slotNames := by decide
  rw [hn] at h
  exact h

/-- The schema arms of `ReconstructPrim<Xform>` leave `warn` alone. -/
theorem warnFrame_Xform (klass_name : String) : WarnFrame (Xform.arms klass_name) :=
  warnFrame_seq (warnFrame_relation _ _)
    (warnFrame_seq (warnFrame_relation _ _)
      (warnFrame_seq (warnFrame_enum _ _ _ _)
        (warnFrame_seq (warnFrame_enum _ _ _ _)
          (warnFrame_seq (warnFrame_enum _ _ _ _) (warnFrame_extent _ _)))))

/-- A property whose name is neither `name` nor `name.connect` is `Unmatched` by the
matcher for `TypedAttribute<Animatable<T>>`. -/
theorem unmatched_Animatable {T : Type} (tt : TypeTraits T) (table : Table)
    (prop_name name : String) (prop : Property) (target : TypedAttribute (Animatable T))
    (h1 : prop_name ≠ name) (h2 : prop_name ≠ name ++ ".connect") :
    ParseTypedAttribute_Animatable tt table prop_name prop name target
      = ⟨⟨.Unmatched, ""⟩, table, target⟩ := by
  simp [ParseTypedAttribute_Animatable, h1, h2]

/-- A property whose name is neither `name` nor `name.connect` is `Unmatched` by the
matcher for `TypedAttributeWithFallback<T>`. -/
theorem unmatched_WithFallback {T : Type} (tt : TypeTraits T) (table : Table)
    (prop_name name : String) (prop : Property) (target : TypedAttributeWithFallback T)
    (h1 : prop_name ≠ name) (h2 : prop_name ≠ name ++ ".connect") :
    ParseTypedAttribute_WithFallback tt table prop_name prop name target
      = ⟨⟨.Unmatched, ""⟩, table, target⟩ := by
  simp [ParseTypedAttribute_WithFallback, h1, h2]

/-- A property whose name is neither `name` nor `name.connect` is `Unmatched` by the
matcher for `TypedAttribute<T>`. -/
theorem unmatched_Uniform {T : Type} (tt : TypeTraits T) (table : Table)
    (prop_name name : String) (prop : Property) (target : TypedAttribute T)
    (h1 : prop_name ≠ name) (h2 : prop_name ≠ name ++ ".connect") :
    ParseTypedAttribute_Uniform tt table prop_name prop name target
      = ⟨⟨.Unmatched, ""⟩, table, target⟩ := by
  simp [ParseTypedAttribute_Uniform, h1, h2]

/-- `MatcherSpec` for the matcher of `TypedAttribute<Animatable<T>>`. -/
theorem matcherSpec_Animatable {T : Type} (tt : TypeTraits T) (X : String)
    (hX : removeSuffix X ".connect" = X) :
    MatcherSpec (ParseTypedAttribute_Animatable tt) X := by
  intro table prop_name prop target
  refine ⟨fun h1 h2 => unmatched_Animatable tt table prop_name X prop target h1 h2, ?_, ?_⟩
  · intro hname
    apply cases_Animatable tt X table prop_name prop target
      (fun r => r.ret.code ≠ .Unmatched)
    · intro code err _ hu hc
      have := hu hc
      rcases hname with h | h
      · exact this.1 h
      · exact this.2 h
    all_goals
      intros
      simp
  · apply cases_Animatable tt X table prop_name prop target
      (fun r => r.table = table ∨ r.table = insert X table)
    · intros
      exact Or.inl rfl
    · intros
      rw [hX]
      exact Or.inr rfl
    all_goals
      intros
      exact Or.inr rfl

/-- `MatcherSpec` for the matcher of `TypedAttributeWithFallback<T>`. -/
theorem matcherSpec_WithFallback {T : Type} (tt : TypeTraits T) (X : String)
    (hX : removeSuffix X ".connect" = X) :
    MatcherSpec (ParseTypedAttribute_WithFallback tt) X := by
  intro table prop_name prop target
  refine ⟨fun h1 h2 => unmatched_WithFallback tt table prop_name X prop target h1 h2, ?_, ?_⟩
  · intro hname
    apply cases_WithFallback tt X table prop_name prop target
      (fun r => r.ret.code ≠ .Unmatched)
    · intro code err _ hu hc
      have := hu hc
      rcases hname with h | h
      · exact this.1 h
      · exact this.2 h
    all_goals
      intros
      simp
  · apply cases_WithFallback tt X table prop_name prop target
      (fun r => r.table = table ∨ r.table = insert X table)
    · intros
      exact Or.inl rfl
    · intros
      rw [hX]
      exact Or.inr rfl
    all_goals
      intros
      exact Or.inr rfl

/-- `MatcherSpec` for the matcher of `TypedAttribute<T>`. -/
theorem matcherSpec_Uniform {T : Type} (tt : TypeTraits T) (X : String)
    (hX : removeSuffix X ".connect" = X) :
    MatcherSpec (ParseTypedAttribute_Uniform tt) X := by
  intro table prop_name prop target
  refine ⟨fun h1 h2 => unmatched_Uniform tt table prop_name X prop target h1 h2, ?_, ?_⟩
  · intro hname
    apply cases_Uniform tt X table prop_name prop target
      (fun r => r.ret.code ≠ .Unmatched)
    · intro code err _ hu hc
      have := hu hc
      rcases hname with h | h
      · exact this.1 h
      · exact this.2 h
    all_goals
      intros
      simp
  · apply cases_Uniform tt X table prop_name prop target
      (fun r => r.table = table ∨ r.table = insert X table)
    · intros
      exact Or.inl rfl
    · intros
      rw [hX]
      exact Or.inr rfl
    all_goals
      intros
      exact Or.inr rfl

/-- `ArmSpec` for `PARSE_PROXY_PRIM_RELATION`. -/
theorem armSpec_proxyPrim {τ : Type} (dst : Field τ PropertyMap)
    (target : Field τ (Option Relationship))
    (hdst : ∀ v x, dst.get (target.set v x) = dst.get x) :
    ArmSpec dst (PARSE_PROXY_PRIM_RELATION target) ["proxyPrim"] := by
  intro s prop
  refine ⟨?_, ?_, ?_⟩
  · intro hn
    have : prop.1 ≠ "proxyPrim" := by simpa using hn
    simp [PARSE_PROXY_PRIM_RELATION, this]
  · intro s1 hs1
    unfold PARSE_PROXY_PRIM_RELATION at hs1
    by_cases c1 : prop.1 = "proxyPrim"
    · rw [if_pos c1] at hs1
      by_cases c2 : "proxyPrim" ∈ s.table
      · rw [if_pos c2] at hs1
        simp only [Step.continue_.injEq, false_or, reduceCtorEq] at hs1
        subst hs1
        exact ⟨rfl, Finset.Subset.refl _, fun x hx => Or.inl hx⟩
      · rw [if_neg c2] at hs1
        by_cases c3 : (prop.2.is_relationship && prop.2.is_empty) = true
        · rw [if_pos c3] at hs1
          simp [PUSH_ERROR_AND_RETURN] at hs1
        · rw [if_neg c3] at hs1
          dsimp only at hs1
          by_cases c4 : prop.2.get_relationship.is_path = true
          · rw [if_pos c4] at hs1
            simp only [Step.continue_.injEq, false_or, reduceCtorEq] at hs1
            subst hs1
            refine ⟨hdst _ _, Finset.subset_insert _ _, fun x hx => ?_⟩
            rcases Finset.mem_insert.mp hx with h | h
            · exact Or.inr (by simp [h, c1])
            · exact Or.inl h
          · rw [if_neg c4] at hs1
            simp [PUSH_ERROR_AND_RETURN] at hs1
    · rw [if_neg c1] at hs1
      simp only [Step.next.injEq, or_false, reduceCtorEq] at hs1
      subst hs1
      exact ⟨rfl, Finset.Subset.refl _, fun x hx => Or.inl hx⟩
  · intro hn s1 hs1
    have c1 : prop.1 = "proxyPrim" := by simpa using hn
    unfold PARSE_PROXY_PRIM_RELATION at hs1
    rw [if_pos c1] at hs1
    by_cases c2 : "proxyPrim" ∈ s.table
    · rw [if_pos c2] at hs1
      cases hs1
    · rw [if_neg c2] at hs1
      by_cases c3 : (prop.2.is_relationship && prop.2.is_empty) = true
      · rw [if_pos c3] at hs1
        simp [PUSH_ERROR_AND_RETURN] at hs1
      · rw [if_neg c3] at hs1
        dsimp only at hs1
        by_cases c4 : prop.2.get_relationship.is_path = true
        · rw [if_pos c4] at hs1
          cases hs1
        · rw [if_neg c4] at hs1
          simp [PUSH_ERROR_AND_RETURN] at hs1

/-- `ArmSpec` for `PARSE_TARGET_PATHS_RELATION`. -/
theorem armSpec_targetPaths {τ : Type} (dst : Field τ PropertyMap) (propname : String)
    (target : Field τ (Option Relationship))
    (hdst : ∀ v x, dst.get (target.set v x) = dst.get x) :
    ArmSpec dst (PARSE_TARGET_PATHS_RELATION propname target) [propname] := by
  intro s prop
  refine ⟨?_, ?_, ?_⟩
  · intro hn
    have : prop.1 ≠ propname := by simpa using hn
    simp [PARSE_TARGET_PATHS_RELATION, this]
  · intro s1 hs1
    unfold PARSE_TARGET_PATHS_RELATION at hs1
    by_cases c1 : prop.1 = propname
    · rw [if_pos c1] at hs1
      by_cases c2 : propname ∈ s.table
      · rw [if_pos c2] at hs1
        simp only [Step.continue_.injEq, false_or, reduceCtorEq] at hs1
        subst hs1
        exact ⟨rfl, Finset.Subset.refl _, fun x hx => Or.inl hx⟩
      · rw [if_neg c2] at hs1
        by_cases c3 : (!prop.2.is_relationship) = true
        · rw [if_pos c3] at hs1
          simp [PUSH_ERROR_AND_RETURN] at hs1
        · rw [if_neg c3] at hs1
          dsimp only at hs1
          simp only [Step.continue_.injEq, false_or, reduceCtorEq] at hs1
          subst hs1
          refine ⟨hdst _ _, Finset.subset_insert _ _, fun x hx => ?_⟩
          rcases Finset.mem_insert.mp hx with h | h
          · exact Or.inr (by simp [h, c1])
          · exact Or.inl h
    · rw [if_neg c1] at hs1
      simp only [Step.next.injEq, or_false, reduceCtorEq] at hs1
      subst hs1
      exact ⟨rfl, Finset.Subset.refl _, fun x hx => Or.inl hx⟩
  · intro hn s1 hs1
    have c1 : prop.1 = propname := by simpa using hn
    unfold PARSE_TARGET_PATHS_RELATION at hs1
    rw [if_pos c1] at hs1
    by_cases c2 : propname ∈ s.table
    · rw [if_pos c2] at hs1
      cases hs1
    · rw [if_neg c2] at hs1
      by_cases c3 : (!prop.2.is_relationship) = true
      · rw [if_pos c3] at hs1
        simp [PUSH_ERROR_AND_RETURN] at hs1
      · rw [if_neg c3] at hs1
        cases hs1

/-- The proxy-prim arm leaves `warn` alone. -/
theorem warnFrame_proxyPrim {τ : Type} (target : Field τ (Option Relationship)) :
    WarnFrame (PARSE_PROXY_PRIM_RELATION target) := by
  intro s prop s1 h
  unfold PARSE_PROXY_PRIM_RELATION PUSH_ERROR_AND_RETURN ReconState.withError at h
  by_cases c1 : prop.1 = "proxyPrim"
  · rw [if_pos c1] at h
    by_cases c2 : "proxyPrim" ∈ s.table
    · rw [if_pos c2] at h
      rcases h with h | h | h <;> cases h
      rfl
    · rw [if_neg c2] at h
      by_cases c3 : (prop.2.is_relationship && prop.2.is_empty) = true
      · rw [if_pos c3] at h
        rcases h with h | h | h <;> cases h
        rfl
      · rw [if_neg c3] at h
        dsimp only at h
        by_cases c4 : prop.2.get_relationship.is_path = true
        · rw [if_pos c4] at h
          rcases h with h | h | h <;> cases h
          rfl
        · rw [if_neg c4] at h
          rcases h with h | h | h <;> cases h
          rfl
  · rw [if_neg c1] at h
    rcases h with h | h | h <;> cases h
    rfl

/-- The target-paths arm leaves `warn` alone. -/
theorem warnFrame_targetPaths {τ : Type} (propname : String)
    (target : Field τ (Option Relationship)) :
    WarnFrame (PARSE_TARGET_PATHS_RELATION propname target) := by
  intro s prop s1 h
  unfold PARSE_TARGET_PATHS_RELATION PUSH_ERROR_AND_RETURN ReconState.withError at h
  by_cases c1 : prop.1 = propname
  · rw [if_pos c1] at h
    by_cases c2 : propname ∈ s.table
    · rw [if_pos c2] at h
      rcases h with h | h | h <;> cases h
      rfl
    · rw [if_neg c2] at h
      by_cases c3 : (!prop.2.is_relationship) = true
      · rw [if_pos c3] at h
        rcases h with h | h | h <;> cases h
        rfl
      · rw [if_neg c3] at h
        dsimp only at h
        rcases h with h | h | h <;> cases h
        rfl
  · rw [if_neg c1] at h
    rcases h with h | h | h <;> cases h
    rfl

/-- The schema arms of `ReconstructPrim<GeomMesh>` take the names of
`GeomMesh.slotNames`. -/
theorem armSpec_GeomMesh (klass_name : String) :
    ArmSpec GeomMesh.propsField (GeomMesh.arms klass_name) GeomMesh.slotNames := by
  have hrel : ArmSpec GeomMesh.propsField GeomMesh.relationArms _ :=
    ArmSpec.andThen (armSpec_proxyPrim GeomMesh.propsField GeomMesh.proxyPrimField
        (fun _ _ => rfl))
      (ArmSpec.andThen (armSpec_relation GeomMesh.propsField "material:binding"
          GeomMesh.materialBindingField (fun _ _ => rfl))
        (ArmSpec.andThen (armSpec_relation GeomMesh.propsField "material:binding:correction"
            GeomMesh.materialBindingCorrectionField (fun _ _ => rfl))
          (ArmSpec.andThen (armSpec_relation GeomMesh.propsField "material:binding:preview"
              GeomMesh.materialBindingPreviewField (fun _ _ => rfl))
            (ArmSpec.andThen (armSpec_relation GeomMesh.propsField "skel:skeleton"
                GeomMesh.skeletonField (fun _ _ => rfl))
              (armSpec_targetPaths GeomMesh.propsField "skel:blendShapeTargets"
                GeomMesh.blendShapeTargetsField (fun _ _ => rfl))))))
  have hint : ∀ name : String, removeSuffix name ".connect" = name →
      ArmSpec GeomMesh.propsField
        (PARSE_TYPED_ATTRIBUTE (ParseTypedAttribute_Animatable intArrayTraits) name
          GeomMesh.cornerIndicesField) [name, name ++ ".connect"] :=
    fun name h => armSpec_typed GeomMesh.propsField _ name GeomMesh.cornerIndicesField
      (matcherSpec_Animatable intArrayTraits name h) (fun _ _ => rfl) (fun _ => rfl)
  have hattr : ArmSpec GeomMesh.propsField GeomMesh.attributeArms _ :=
    ArmSpec.andThen (armSpec_typed GeomMesh.propsField _ "points" GeomMesh.pointsField
        (matcherSpec_Animatable point3fArrayTraits "points" (by decide))
        (fun _ _ => rfl) (fun _ => rfl))
      (ArmSpec.andThen (armSpec_typed GeomMesh.propsField _ "normals" GeomMesh.normalsField
          (matcherSpec_Animatable normal3fArrayTraits "normals" (by decide))
          (fun _ _ => rfl) (fun _ => rfl))
        (ArmSpec.andThen (armSpec_typed GeomMesh.propsField _ "faceVertexCounts"
            GeomMesh.faceVertexCountsField
            (matcherSpec_Animatable intArrayTraits "faceVertexCounts" (by decide))
            (fun _ _ => rfl) (fun _ => rfl))
          (ArmSpec.andThen (armSpec_typed GeomMesh.propsField _ "faceVertexIndices"
              GeomMesh.faceVertexIndicesField
              (matcherSpec_Animatable intArrayTraits "faceVertexIndices" (by decide))
              (fun _ _ => rfl) (fun _ => rfl))
            (ArmSpec.andThen (hint "cornerIndices" (by decide))
              (ArmSpec.andThen (hint "cornerSharpnesses" (by decide))
                (ArmSpec.andThen (hint "creaseIndices" (by decide))
                  (ArmSpec.andThen (hint "creaseLengths" (by decide))
                    (ArmSpec.andThen (hint "creaseSharpnesses" (by decide))
                      (ArmSpec.andThen (hint "holeIndices" (by decide))
                        (armSpec_typed GeomMesh.propsField _ "doubleSided"
                          GeomMesh.doubleSidedField
                          (matcherSpec_WithFallback boolTraits "doubleSided" (by decide))
                          (fun _ _ => rfl) (fun _ => rfl)))))))))))
  have henum : ArmSpec GeomMesh.propsField (GeomMesh.enumArms klass_name) _ :=
    ArmSpec.andThen (armSpec_enum GeomMesh.propsField "subdivisionScheme"
        GeomMesh.SubdivisioSchemeHandler klass_name
        (fun e g => { g with subdivisionScheme := g.subdivisionScheme.set_value e })
        (fun _ _ => rfl))
      (ArmSpec.andThen (armSpec_enum GeomMesh.propsField "interpolateBoundary"
          GeomMesh.InterpolateBoundaryHandler klass_name
          (fun e g => { g with
            interpolateBoundary := g.interpolateBoundary.set_value (Animatable.ofValue e) })
          (fun _ _ => rfl))
        (ArmSpec.andThen (armSpec_enum GeomMesh.propsField "facevaryingLinearInterpolation"
            GeomMesh.FaceVaryingLinearInterpolationHandler klass_name
            (fun e g => { g with
              faceVaryingLinearInterpolation :=
                g.faceVaryingLinearInterpolation.set_value (Animatable.ofValue e) })
            (fun _ _ => rfl))
          (ArmSpec.andThen (armSpec_enum GeomMesh.propsField "purpose" PurposeEnumHandler
              klass_name (fun e g => { g with purpose := g.purpose.set_value e })
              (fun _ _ => rfl))
            (ArmSpec.andThen (armSpec_enum GeomMesh.propsField "orientation"
                OrientationEnumHandler klass_name
                (fun e g => { g with orientation := g.orientation.set_value e })
                (fun _ _ => rfl))
              (ArmSpec.andThen (armSpec_extent GeomMesh.propsField "extent"
                  GeomMesh.extentField (matcherSpec_Extent "extent" (by decide))
                  (fun _ _ => rfl) (fun _ => rfl))
                (armSpec_typed GeomMesh.propsField _ "skel:blendShapes"
                  GeomMesh.blendShapesField
                  (matcherSpec_Uniform tokenArrayTraits "skel:blendShapes" (by decide))
                  (fun _ _ => rfl) (fun _ => rfl)))))))
  have h := ArmSpec.andThen hrel (ArmSpec.andThen hattr henum)
  have key : ∀ names : List String,
      ArmSpec GeomMesh.propsField (GeomMesh.arms klass_name) names →
      names = GeomMesh.slotNames →
      ArmSpec GeomMesh.propsField (GeomMesh.arms klass_name) GeomMesh.slotNames :=
    fun _ h e => e ▸ h
  exact key _ h (by decide)

/-- The schema arms of `ReconstructPrim<GeomMesh>` leave `warn` alone. -/
theorem warnFrame_GeomMesh (klass_name : String) : WarnFrame (GeomMesh.arms klass_name) := by
  have hrel : WarnFrame GeomMesh.relationArms :=
    warnFrame_seq (warnFrame_proxyPrim _)
      (warnFrame_seq (warnFrame_relation _ _)
        (warnFrame_seq (warnFrame_relation _ _)
          (warnFrame_seq (warnFrame_relation _ _)
            (warnFrame_seq (warnFrame_relation _ _) (warnFrame_targetPaths _ _)))))
  have hattr : WarnFrame GeomMesh.attributeArms :=
    warnFrame_seq (warnFrame_typed _ _ _)
      (warnFrame_seq (warnFrame_typed _ _ _)
        (warnFrame_seq (warnFrame_typed _ _ _)
          (warnFrame_seq (warnFrame_typed _ _ _)
            (warnFrame_seq (warnFrame_typed _ _ _)
              (warnFrame_seq (warnFrame_typed _ _ _)
                (warnFrame_seq (warnFrame_typed _ _ _)
                  (warnFrame_seq (warnFrame_typed _ _ _)
                    (warnFrame_seq (warnFrame_typed _ _ _)
                      (warnFrame_seq (warnFrame_typed _ _ _)
                        (warnFrame_typed _ _ _))))))))))
  have henum : WarnFrame (GeomMesh.enumArms klass_name) :=
    warnFrame_seq (warnFrame_enum _ _ _ _)
      (warnFrame_seq (warnFrame_enum _ _ _ _)
        (warnFrame_seq (warnFrame_enum _ _ _ _)
          (warnFrame_seq (warnFrame_enum _ _ _ _)
            (warnFrame_seq (warnFrame_enum _ _ _ _)
              (warnFrame_seq (warnFrame_extent _ _) (warnFrame_typed _ _ _))))))
  exact warnFrame_seq hrel (warnFrame_seq hattr henum)

/-- C11, as stated, fails: `ReconstructPrim<Scope>` on two custom properties returns
true with both in `props`, and `warn` is the empty string it started with; no warning
was appended. -/
theorem C11_unrecognized_property_counterexample :
    ReconstructPrim_Scope sampleScope ⟨[]⟩ (some "") (some "")
      = .ok ⟨insert "userProperties:note" (insert "myCustom" ∅), ⟨sampleScope⟩,
          some "", some ""⟩ := by
  rfl

/-- C11, amended: an authored property that the schema does not recognize is copied to
`props` and its name recorded by `ADD_PROPERTY`, so the `PARSE_PROPERTY_END_MAKE_WARN`
that follows finds the name in the table and appends nothing; the loop goes on to the
next property.  This holds for every loop body made of schema arms with fixed names
followed by `ADD_PROPERTY` and `PARSE_PROPERTY_END_MAKE_WARN`, in particular for the
bodies of `ReconstructPrim<Scope>` (no arm), `ReconstructPrim<Xform>` and
`ReconstructPrim<GeomMesh>`.  `ReconstructPrim<Scope>` returns true on every property
map, with `warn` and `err` as they were and, for distinct names and a fresh output,
every property in `props`; `ReconstructPrim<Xform>` and `ReconstructPrim<GeomMesh>`,
whether they return true or false, leave `warn` as it was. -/
theorem C11_unrecognized_property :
    (∀ (τ : Type) (arms : ReconState τ → String × Property → Step (ReconState τ))
        (dst : Field τ PropertyMap) (names : List String) (s : ReconState τ)
        (prop : String × Property),
        ArmSpec dst arms names → prop.1 ∉ names →
        bodyWithAddProperty arms dst PARSE_PROPERTY_END_MAKE_WARN s prop
          = .next (if prop.1 ∈ s.table then s
              else { s with prim := dst.set ((dst.get s.prim).assign prop.1 prop.2) s.prim,
                            table := insert prop.1 s.table }))
    ∧ (Scope.body = bodyWithAddProperty Scope.arms Scope.propsField
          PARSE_PROPERTY_END_MAKE_WARN
        ∧ ArmSpec Scope.propsField Scope.arms [])
    ∧ (∀ klass_name : String,
        Xform.body klass_name = bodyWithAddProperty (Xform.arms klass_name) Xform.propsField
          PARSE_PROPERTY_END_MAKE_WARN
        ∧ ArmSpec Xform.propsField (Xform.arms klass_name) Xform.slotNames)
    ∧ (∀ klass_name : String,
        GeomMesh.body klass_name = bodyWithAddProperty (GeomMesh.arms klass_name)
          GeomMesh.propsField PARSE_PROPERTY_END_MAKE_WARN
        ∧ ArmSpec GeomMesh.propsField (GeomMesh.arms klass_name) GeomMesh.slotNames)
    ∧ (∀ (properties : PropertyMap) (scope : Scope) (warn err : Option String),
        ∃ sf, ReconstructPrim_Scope properties scope warn err = .ok sf
          ∧ sf.warn = warn ∧ sf.err = err
          ∧ ((properties.map Prod.fst).Nodup → scope.props = [] →
              sf.prim.props = properties))
    ∧ (∀ (klass_name : String) (properties : PropertyMap) (xform : Xform)
        (warn err : Option String) (sf : ReconState Xform),
        (ReconstructPrim_Xform klass_name properties xform warn err = .ok sf
          ∨ ReconstructPrim_Xform klass_name properties xform warn err = .fail sf) →
        sf.warn = warn)
    ∧ (∀ (klass_name : String) (properties : PropertyMap) (mesh : GeomMesh)
        (warn err : Option String) (sf : ReconState GeomMesh),
        (ReconstructPrim_GeomMesh klass_name properties mesh warn err = .ok sf
          ∨ ReconstructPrim_GeomMesh klass_name properties mesh warn err = .fail sf) →
        sf.warn = warn) := by
  have hscope : ArmSpec Scope.propsField Scope.arms [] := by
    intro s prop
    refine ⟨fun _ => rfl, ?_, ?_⟩
    · intro s1 h
      have e : s1 = s := by
        rcases h with h | h
        · simp only [Scope.arms] at h
          injection h with h
          exact h.symm
        · simp only [Scope.arms] at h
          cases h
      subst e
      exact ⟨rfl, Finset.Subset.refl _, fun x hx => Or.inl hx⟩
    · intro h
      cases h
  refine ⟨?_, ⟨rfl, hscope⟩, fun klass_name => ⟨rfl, armSpec_Xform klass_name⟩,
    fun klass_name => ⟨rfl, armSpec_GeomMesh klass_name⟩, ?_, ?_, ?_⟩
  · intro τ arms dst names s prop harms hn
    unfold bodyWithAddProperty
    rw [(harms s prop).1 hn]
    simp only [Step.andThen]
    exact addProperty_then_warn dst s prop
  · intro properties scope warn err
    obtain ⟨sf, h1, h2, h3⟩ := scope_loop_ok properties ⟨∅, scope, warn, err⟩
    refine ⟨sf, h1, h2, h3, ?_⟩
    intro hnodup hfresh
    have h := props_eq_filter Scope.arms Scope.propsField PARSE_PROPERTY_END_MAKE_WARN []
      ∅ scope warn err properties sf (Or.inr rfl) (fun _ _ => rfl) hscope hnodup hfresh h1
    have h' : sf.prim.props
        = properties.filter (fun kv => decide (kv.1 ∉ ([] : List String) ∧ kv.1 ∉ (∅ : Table))) := h
    rw [h']
    simp
  · intro klass_name properties xform warn err sf hrun
    unfold ReconstructPrim_Xform at hrun
    cases hx : ReconstructXformOpsFromProperties ∅ properties xform.xformOps err with
    | fail x =>
      rw [hx] at hrun
      rcases hrun with h | h <;> cases h
      rfl
    | raise =>
      rw [hx] at hrun
      rcases hrun with h | h <;> cases h
    | ok x =>
      rw [hx] at hrun
      dsimp only at hrun
      exact propertyLoop_warn (Xform.body klass_name)
        (warnFrame_body (Xform.arms klass_name) Xform.propsField (warnFrame_Xform klass_name))
        properties _ sf hrun
  · intro klass_name properties mesh warn err sf hrun
    unfold ReconstructPrim_GeomMesh at hrun
    cases hx : ReconstructXformOpsFromProperties ∅ properties mesh.xformOps err with
    | fail x =>
      rw [hx] at hrun
      rcases hrun with h | h <;> cases h
      rfl
    | raise =>
      rw [hx] at hrun
      rcases hrun with h | h <;> cases h
    | ok x =>
      rw [hx] at hrun
      dsimp only at hrun
      exact propertyLoop_warn (GeomMesh.body klass_name)
        (warnFrame_body (GeomMesh.arms klass_name) GeomMesh.propsField
          (warnFrame_GeomMesh klass_name))
        properties _ sf hrun

/-- C11 (amended) at a custom property `myCustom` met by the body of
`ReconstructPrim<Xform>` in its starting state: the name is not a slot name, the body
falls through to the next property, the property is in `props`, its name in the table,
and `warn` is untouched. -/
theorem C11_unrecognized_property_witness :
    ("myCustom" ∉ Xform.slotNames)
    ∧ bodyWithAddProperty (Xform.arms "Xform") Xform.propsField PARSE_PROPERTY_END_MAKE_WARN
        ⟨∅, Xform.fresh, some "", some ""⟩
        ("myCustom", Property.ofScalar "float" .Varying (.float 1))
      = .next ⟨insert "myCustom" ∅,
          { Xform.fresh with
            props := [("myCustom", Property.ofScalar "float" .Varying (.float 1))] },
          some "", some ""⟩ :=
  ⟨by decide,
    (C11_unrecognized_property.1 Xform (Xform.arms "Xform") Xform.propsField Xform.slotNames
      ⟨∅, Xform.fresh, some "", some ""⟩
      ("myCustom", Property.ofScalar "float" .Varying (.float 1))
      (C11_unrecognized_property.2.2.1 "Xform").2 (by decide)).trans (by rfl)⟩

/-! ### Enum tokens (C12, C13, C14) -/

/-- When `EnumHandler` returns an enumerator, the pair of that enumerator and the token
is an entry of the table. -/
theorem enumHandler_ok_mem {E : Type} (prop_name tok : String) (enums : List (E × String))
    (e : E) (h : EnumHandler prop_name tok enums = .ok e) : (e, tok) ∈ enums := by
  unfold EnumHandler at h
  cases hc : CheckAllowedTokens enums tok with
  | error msg => rw [hc] at h; cases h
  | ok b =>
    rw [hc] at h
    cases hf : enums.find? (fun item => decide (tok = item.2)) with
    | none => rw [hf] at h; cases h
    | some item =>
      rw [hf] at h
      have hmem := List.mem_of_find?_eq_some hf
      have hp := List.find?_some hf
      have he : item.1 = e := by injection h
      have ht : tok = item.2 := by simpa using hp
      have : (e, tok) = item := by rw [← he, ht]
      rw [this]; exact hmem

/-- The first entry of the table whose string is the token decides `EnumHandler`. -/
theorem enumHandler_first {E : Type} (prop_name tok : String) (pre post : List (E × String))
    (e : E) (hpre : ∀ x ∈ pre, x.2 ≠ tok) :
    EnumHandler prop_name tok (pre ++ (e, tok) :: post) = .ok e := by
  have hfind : (pre ++ (e, tok) :: post).find? (fun item => decide (tok = item.2))
      = some (e, tok) := by
    induction pre with
    | nil => simp
    | cons x rest ih =>
      have hx : x.2 ≠ tok := hpre x (List.mem_cons_self _ _)
      have hx2 : ¬ tok = x.2 := fun h => hx h.symm
      simp only [List.cons_append, List.find?_cons, hx2, decide_False]
      exact ih (fun y hy => hpre y (List.mem_cons_of_mem _ hy))
  have hany : (pre ++ (e, tok) :: post).any (fun item => decide (tok = item.2)) = true := by
    simp
  unfold EnumHandler CheckAllowedTokens
  rw [hany, hfind]
  cases (pre ++ (e, tok) :: post).isEmpty <;> rfl

/-- When no entry of a non-empty table carries the token, `EnumHandler` returns the
"Allowed tokens" message. -/
theorem enumHandler_none {E : Type} (prop_name tok : String) (enums : List (E × String))
    (hne : enums ≠ []) (hno : ∀ x ∈ enums, x.2 ≠ tok) :
    EnumHandler prop_name tok enums
      = .error ("Allowed tokens are [" ++ join ", " (enums.map (fun x => quote x.2))
          ++ "] but got " ++ quote tok ++ ".") := by
  have hempty : enums.isEmpty = false := by
    cases enums with
    | nil => exact absurd rfl hne
    | cons x rest => rfl
  have hany : enums.any (fun item => decide (tok = item.2)) = false := by
    rw [List.any_eq_false]
    intro x hx
    have := hno x hx
    simpa using fun h : tok = x.2 => this h.symm
  unfold EnumHandler CheckAllowedTokens
  rw [hempty, hany]
  simp [List.map_map, Function.comp_def]

/-- C12: for a non-empty table, `EnumHandler` returns the enumerator of the first entry
whose string is the token; when no entry carries the token it returns the error
"Allowed tokens are [...] but got ...", listing every allowed token, quoted, in table
order and joined by ", ", followed by the quoted token.  In `PARSE_ENUM_PROPETY`, for a
property named like the slot and not yet processed, an error of the handler ends the
reconstructor with the message "(klass) error" appended to `err`, and an attribute that
holds no token ends it with the "Property type mismatch" message; whatever follows in
the loop body, and whatever properties follow, the loop returns false. -/
theorem C12_enum_handler {E : Type} (prop_name tok : String) (enums : List (E × String))
    (hne : enums ≠ []) :
    (∀ (pre post : List (E × String)) (e : E), enums = pre ++ (e, tok) :: post →
        (∀ x ∈ pre, x.2 ≠ tok) → EnumHandler prop_name tok enums = .ok e)
    ∧ ((∀ x ∈ enums, x.2 ≠ tok) →
        EnumHandler prop_name tok enums
          = .error ("Allowed tokens are [" ++ join ", " (enums.map (fun x => quote x.2))
              ++ "] but got " ++ quote tok ++ "."))
    ∧ (∀ (τ : Type) (name klass_name : String) (assign : E → τ → τ) (s : ReconState τ)
        (prop : String × Property)
        (after : ReconState τ → String × Property → Step (ReconState τ))
        (rest : List (String × Property)),
        prop.1 = name → name ∉ s.table →
        ((∀ x ∈ enums, x.2 ≠ tok) →
          prop.2.get_attribute.get_value tokenTraits = some tok →
          PARSE_ENUM_PROPETY name (fun t => EnumHandler prop_name t enums) klass_name assign
              s prop
            = .ret_false (s.withError ("(" ++ klass_name ++ ") "
                ++ ("Allowed tokens are [" ++ join ", " (enums.map (fun x => quote x.2))
                  ++ "] but got " ++ quote tok ++ ".")))
          ∧ propertyLoop (fun st p =>
                (PARSE_ENUM_PROPETY name (fun t => EnumHandler prop_name t enums) klass_name
                  assign st p).andThen (fun st1 => after st1 p)) s (prop :: rest)
            = .fail (s.withError ("(" ++ klass_name ++ ") "
                ++ ("Allowed tokens are [" ++ join ", " (enums.map (fun x => quote x.2))
                  ++ "] but got " ++ quote tok ++ "."))))
        ∧ (prop.2.get_attribute.get_value tokenTraits = none →
          PARSE_ENUM_PROPETY name (fun t => EnumHandler prop_name t enums) klass_name assign
              s prop
            = .ret_false (s.withError ("(" ++ klass_name ++ ") Property type mismatch. "
                ++ name ++ " must be type `token`, but got `"
                ++ prop.2.get_attribute.type_name ++ "`."))
          ∧ propertyLoop (fun st p =>
                (PARSE_ENUM_PROPETY name (fun t => EnumHandler prop_name t enums) klass_name
                  assign st p).andThen (fun st1 => after st1 p)) s (prop :: rest)
            = .fail (s.withError ("(" ++ klass_name ++ ") Property type mismatch. "
                ++ name ++ " must be type `token`, but got `"
                ++ prop.2.get_attribute.type_name ++ "`.")))) := by
  refine ⟨?_, ?_, ?_⟩
  · intro pre post e henums hpre
    rw [henums]
    exact enumHandler_first prop_name tok pre post e hpre
  · exact enumHandler_none prop_name tok enums hne
  · intro τ name klass_name assign s prop after rest hname htable
    constructor
    · intro hno htok
      have hm : PARSE_ENUM_PROPETY name (fun t => EnumHandler prop_name t enums) klass_name
          assign s prop
          = .ret_false (s.withError ("(" ++ klass_name ++ ") "
              ++ ("Allowed tokens are [" ++ join ", " (enums.map (fun x => quote x.2))
                ++ "] but got " ++ quote tok ++ "."))) := by
        unfold PARSE_ENUM_PROPETY
        rw [if_pos hname, if_neg htable]
        simp only [htok, enumHandler_none prop_name tok enums hne hno, PUSH_ERROR_AND_RETURN]
      refine ⟨hm, ?_⟩
      simp only [propertyLoop, hm, Step.andThen]
    · intro htok
      have hm : PARSE_ENUM_PROPETY name (fun t => EnumHandler prop_name t enums) klass_name
          assign s prop
          = .ret_false (s.withError ("(" ++ klass_name ++ ") Property type mismatch. "
              ++ name ++ " must be type `token`, but got `"
              ++ prop.2.get_attribute.type_name ++ "`.")) := by
        unfold PARSE_ENUM_PROPETY
        rw [if_pos hname, if_neg htable]
        simp only [htok, PUSH_ERROR_AND_RETURN]
      refine ⟨hm, ?_⟩
      simp only [propertyLoop, hm, Step.andThen]

/-- C12 at the table of `purpose` and the token `"guide"` (the fourth entry), and at
`token purpose = "preview"` on a sphere: the handler lists the four allowed tokens. -/
theorem C12_enum_handler_witness :
    ([(Purpose.Default, "default"), (Purpose.Proxy, "proxy"), (Purpose.Render, "render"),
        (Purpose.Guide, "guide")] ≠ [])
    ∧ EnumHandler "purpose" "guide"
        [(Purpose.Default, "default"), (Purpose.Proxy, "proxy"), (Purpose.Render, "render"),
          (Purpose.Guide, "guide")] = .ok Purpose.Guide
    ∧ EnumHandler "purpose" "preview"
        [(Purpose.Default, "default"), (Purpose.Proxy, "proxy"), (Purpose.Render, "render"),
          (Purpose.Guide, "guide")]
      = .error "Allowed tokens are [\"default\", \"proxy\", \"render\", \"guide\"] but got \"preview\"." :=
  ⟨by decide,
    (C12_enum_handler "purpose" "guide"
      [(Purpose.Default, "default"), (Purpose.Proxy, "proxy"), (Purpose.Render, "render"),
        (Purpose.Guide, "guide")] (by decide)).1
      [(Purpose.Default, "default"), (Purpose.Proxy, "proxy"), (Purpose.Render, "render")] []
      Purpose.Guide rfl (by decide),
    rfl⟩

/-- A handler built on `EnumHandler` over a table realises the documented tokens when
every enumerator is found under its own token and every entry of the table pairs an
enumerator with its own token. -/
theorem handlerBijective_of_table {E : Type} (prop_name : String) (enums : List (E × String))
    (token : E → String)
    (hfwd : ∀ e, EnumHandler prop_name (token e) enums = .ok e)
    (htable : ∀ x ∈ enums, x.2 = token x.1) :
    HandlerBijective (fun tok => EnumHandler prop_name tok enums) token := by
  have hback : ∀ tok e, EnumHandler prop_name tok enums = .ok e → tok = token e := by
    intro tok e h
    exact htable (e, tok) (enumHandler_ok_mem prop_name tok enums e h)
  refine ⟨hfwd, hback, ?_, ?_⟩
  · intro t1 t2 e h1 h2
    rw [hback t1 e h1, hback t2 e h2]
  · intro e1 e2 h
    have h1 := hfwd e1
    rw [h, hfwd e2] at h1
    injection h1 with h1
    exact h1.symm

/-- The same for a handler that checks the token and then searches the table itself, as
the two handlers of the camera do. -/
theorem handlerBijective_of_search {E : Type} (handler : String → Except String E)
    (enums : List (E × String)) (token : E → String)
    (hfwd : ∀ e, handler (token e) = .ok e)
    (hfind : ∀ tok e, handler tok = .ok e →
      ∃ item, enums.find? (fun item => decide (tok = item.2)) = some item ∧ item.1 = e)
    (htable : ∀ x ∈ enums, x.2 = token x.1) :
    HandlerBijective handler token := by
  have hback : ∀ tok e, handler tok = .ok e → tok = token e := by
    intro tok e h
    obtain ⟨item, hf, he⟩ := hfind tok e h
    have hmem := List.mem_of_find?_eq_some hf
    have hp : tok = item.2 := by simpa using List.find?_some hf
    rw [hp, htable item hmem, he]
  refine ⟨hfwd, hback, ?_, ?_⟩
  · intro t1 t2 e h1 h2
    rw [hback t1 e h1, hback t2 e h2]
  · intro e1 e2 h
    have h1 := hfwd e1
    rw [h, hfwd e2] at h1
    injection h1 with h1
    exact h1.symm

/-- C13: each of the seven handlers maps the token documented beside an enumerator in
usdGeom.hh to exactly that enumerator, accepts no other token for it, and is therefore a
bijection between its accepted tokens and the values of the enum. -/
theorem C13_enum_handlers_bijective :
    HandlerBijective GeomMesh.SubdivisioSchemeHandler GeomMesh.SubdivisionScheme.token
    ∧ HandlerBijective GeomMesh.InterpolateBoundaryHandler GeomMesh.InterpolateBoundary.token
    ∧ HandlerBijective GeomMesh.FaceVaryingLinearInterpolationHandler
        GeomMesh.FaceVaryingLinearInterpolation.token
    ∧ HandlerBijective GeomCamera.ProjectionHandler GeomCamera.Projection.token
    ∧ HandlerBijective GeomCamera.StereoRoleHandler GeomCamera.StereoRole.token
    ∧ HandlerBijective GeomBasisCurves.TypeHandler GeomBasisCurves.Type.token
    ∧ HandlerBijective GeomBasisCurves.BasisHandler GeomBasisCurves.Basis.token := by
  refine ⟨?_, ?_, ?_, ?_, ?_, ?_, ?_⟩
  · exact handlerBijective_of_table _ _ _ (by intro e; cases e <;> rfl) (by decide)
  · exact handlerBijective_of_table _ _ _ (by intro e; cases e <;> rfl) (by decide)
  · exact handlerBijective_of_table _ _ _ (by intro e; cases e <;> rfl) (by decide)
  · refine handlerBijective_of_search _
      [(.Perspective, "perspective"), (.Orthographic, "orthographic")] _
      (by intro e; cases e <;> rfl) ?_ (by decide)
    intro tok e h
    unfold GeomCamera.ProjectionHandler at h
    dsimp only at h
    cases hc : CheckAllowedTokens
        [(GeomCamera.Projection.Perspective, "perspective"),
          (GeomCamera.Projection.Orthographic, "orthographic")] tok with
    | error msg => rw [hc] at h; cases h
    | ok b =>
      rw [hc] at h
      cases hf : List.find? (fun item => decide (tok = item.2))
          [(GeomCamera.Projection.Perspective, "perspective"),
            (GeomCamera.Projection.Orthographic, "orthographic")] with
      | none => rw [hf] at h; cases h
      | some item =>
        rw [hf] at h
        exact ⟨item, rfl, by injection h⟩
  · refine handlerBijective_of_search _
      [(.Mono, "mono"), (.Left, "left"), (.Right, "right")] _
      (by intro e; cases e <;> rfl) ?_ (by decide)
    intro tok e h
    unfold GeomCamera.StereoRoleHandler at h
    dsimp only at h
    cases hc : CheckAllowedTokens
        [(GeomCamera.StereoRole.Mono, "mono"), (GeomCamera.StereoRole.Left, "left"),
          (GeomCamera.StereoRole.Right, "right")] tok with
    | error msg => rw [hc] at h; cases h
    | ok b =>
      rw [hc] at h
      cases hf : List.find? (fun item => decide (tok = item.2))
          [(GeomCamera.StereoRole.Mono, "mono"), (GeomCamera.StereoRole.Left, "left"),
            (GeomCamera.StereoRole.Right, "right")] with
      | none => rw [hf] at h; cases h
      | some item =>
        rw [hf] at h
        exact ⟨item, rfl, by injection h⟩
  · exact handlerBijective_of_table _ _ _ (by intro e; cases e <;> rfl) (by decide)
  · exact handlerBijective_of_table _ _ _ (by intro e; cases e <;> rfl) (by decide)

/-- C14 on the code: the table of the `wrap` handler pairs `Wrap::Pinned` with
`"periodic"`, so `"pinned"` is answered with the "Allowed tokens" error, `"periodic"`
gives `Wrap::Periodic` (the first entry with that string), and no token gives
`Wrap::Pinned`. -/
theorem C14_wrap_handler_pinned :
    GeomBasisCurves.WrapHandler "nonperiodic" = .ok .Nonperiodic
    ∧ GeomBasisCurves.WrapHandler "periodic" = .ok .Periodic
    ∧ GeomBasisCurves.WrapHandler "pinned"
      = .error "Allowed tokens are [\"nonperiodic\", \"periodic\", \"periodic\"] but got \"pinned\"."
    ∧ ∀ tok, GeomBasisCurves.WrapHandler tok ≠ .ok .Pinned := by
  refine ⟨rfl, rfl, rfl, ?_⟩
  intro tok h
  have hmem := enumHandler_ok_mem _ _ _ _ h
  simp only [List.mem_cons, Prod.mk.injEq, List.mem_singleton, List.not_mem_nil, or_false,
    false_and, false_or, true_and, reduceCtorEq] at hmem
  subst hmem
  exact absurd h (by
    intro h2
    have h3 : GeomBasisCurves.WrapHandler "periodic" = .ok .Periodic := rfl
    rw [h3] at h2
    injection h2 with h4
    cases h4)

/-! ### `faceVaryingLinearInterpolation` on a mesh (C15) -/

/-- C15 on the code: the enum arm of `ReconstructPrim<GeomMesh>` is registered under the
name `facevaryingLinearInterpolation` (lower-case `v`).  A property named
`faceVaryingLinearInterpolation`, as usdGeom.hh documents the slot, is therefore not
validated: whatever token it holds, allowed or not, reconstruction returns true, the
slot keeps its fallback and the property is copied to `props`.  Under the name with the
lower-case `v` an allowed token is stored and an unknown one fails. -/
theorem C15_faceVarying_name :
    (∀ (tok : String) (warn err : Option String),
      ReconstructPrim_GeomMesh "GeomMesh"
          [("faceVaryingLinearInterpolation", Property.ofScalar "token" .Varying (.token tok))]
          GeomMesh.fresh warn err
        = .ok ⟨insert "faceVaryingLinearInterpolation" (insert "xformOpOrder" ∅),
            { GeomMesh.fresh with
              props := [("faceVaryingLinearInterpolation",
                Property.ofScalar "token" .Varying (.token tok))] },
            warn, err⟩)
    ∧ ReconstructPrim_GeomMesh "GeomMesh"
          [("facevaryingLinearInterpolation",
            Property.ofScalar "token" .Varying (.token "cornersOnly"))]
          GeomMesh.fresh (some "") (some "")
        = .ok ⟨insert "facevaryingLinearInterpolation" (insert "xformOpOrder" ∅),
            { GeomMesh.fresh with
              faceVaryingLinearInterpolation :=
                (TypedAttributeWithFallback.fresh (Animatable.ofValue
                  GeomMesh.FaceVaryingLinearInterpolation.CornersPlus1)).set_value
                  (Animatable.ofValue .CornersOnly) },
            some "", some ""⟩
    ∧ ReconstructPrim_GeomMesh "GeomMesh"
          [("facevaryingLinearInterpolation",
            Property.ofScalar "token" .Varying (.token "bogus"))]
          GeomMesh.fresh (some "") (some "")
        = .fail ⟨insert "xformOpOrder" ∅, GeomMesh.fresh, some "",
            some "(GeomMesh) Allowed tokens are [\"cornersPlus1\", \"cornersPlus2\", \"cornersOnly\", \"boundaries\", \"none\", \"all\"] but got \"bogus\"."⟩ := by
  refine ⟨?_, ?_, ?_⟩
  · intro tok warn err
    rfl
  · rfl
  · rfl

/-! ### The `extent` attribute (C16, C17) -/

/-- A value is read as an `Extent` exactly when it is a `float3[]` of two elements. -/
theorem extentOfValue_eq_some (v : Value) (e : Extent) :
    extentOfValue v = some e ↔ v = .float3Array [e.lower, e.upper] := by
  cases v <;> simp [extentOfValue, float3ArrayTraits]
  case float3Array xs =>
    match xs with
    | [] => simp
    | [a] => simp
    | [a, b] =>
      cases e
      simp
    | a :: b :: c :: rest => simp

/-- The loop of `ConvertToAnimatable<Extent>` in terms of `extentOfValue`. -/
theorem convertSamples_Extent_cons (s : Sample) (rest : List Sample)
    (dst : Animatable Extent) :
    convertSamples_Extent (s :: rest) dst
      = if s.blocked then convertSamples_Extent rest (dst.add_blocked_sample s.t)
        else match extentOfValue s.value with
          | some e => convertSamples_Extent rest (dst.add_sample s.t e)
          | none => none := by
  cases hb : s.blocked
  · simp only [convertSamples_Extent, hb, extentOfValue, Bool.false_eq_true, if_false]
    cases hv : float3ArrayTraits.get_value s.value with
    | none => rfl
    | some pv =>
      match pv with
      | [] => rfl
      | [a] => rfl
      | [a, b] => rfl
      | a :: b :: c :: r => rfl
  · simp only [convertSamples_Extent, hb, if_true]

/-- When every sample that is not blocked holds a two-element `float3[]`, the loop of
`ConvertToAnimatable<Extent>` records one sample per raw sample, in order. -/
theorem convertSamples_Extent_some (ts : List Sample) (dst : Animatable Extent)
    (hall : ∀ s ∈ ts, s.blocked = false → (extentOfValue s.value).isSome = true) :
    convertSamples_Extent ts dst
      = some ⟨dst.value, dst.blocked, dst.samples ++ ts.map recordedExtentSample⟩ := by
  induction ts generalizing dst with
  | nil => simp [convertSamples_Extent]
  | cons s rest ih =>
    have hrest : ∀ s ∈ rest, s.blocked = false → (extentOfValue s.value).isSome = true :=
      fun x hx => hall x (List.mem_cons_of_mem _ hx)
    rw [convertSamples_Extent_cons]
    by_cases hb : s.blocked = true
    · simp [hb, ih _ hrest, Animatable.add_blocked_sample, recordedExtentSample]
    · have hb2 : s.blocked = false := by simpa using hb
      have hs := hall s (List.mem_cons_self _ _) hb2
      obtain ⟨pv, hpv⟩ := Option.isSome_iff_exists.mp hs
      simp [hb2, hpv, ih _ hrest, Animatable.add_sample, recordedExtentSample]

/-- The loop of `ConvertToAnimatable<Extent>` gives up exactly when some sample that is
not blocked does not hold a two-element `float3[]`. -/
theorem convertSamples_Extent_none (ts : List Sample) (dst : Animatable Extent) :
    convertSamples_Extent ts dst = none
      ↔ ∃ s ∈ ts, s.blocked = false ∧ extentOfValue s.value = none := by
  induction ts generalizing dst with
  | nil => simp [convertSamples_Extent]
  | cons s rest ih =>
    rw [convertSamples_Extent_cons]
    by_cases hb : s.blocked = true
    · simp [hb, ih]
    · have hb2 : s.blocked = false := by simpa using hb
      cases hpv : extentOfValue s.value with
      | none => simp [hb2, hpv]
      | some pv => simp [hb2, hpv, ih]

/-- The typed read of a `float3[]` scalar gives a two-element array exactly when the
stored value is one. -/
theorem get_float3Array_pair (attr : Attribute) (lo up : float3) :
    attr.get_value float3ArrayTraits = some [lo, up]
      ↔ attr.var.scalar = some (.float3Array [lo, up]) := by
  unfold Attribute.get_value PrimVar.get_value
  cases hs : attr.var.scalar with
  | none => simp
  | some v => cases v <;> simp [float3ArrayTraits]

/-- C16: for a property named like the slot, not yet processed, that is a non-connection
authored attribute, not blocked and not `uniform`: with a scalar value
`ParseExtentAttribute` answers `Success` exactly when the value is a `float3[]` of two
elements, `lower` being element 0 and `upper` element 1, and `TypeMismatch` otherwise;
with a (valid) time-samples value it answers `Success` exactly when every sample that is
not blocked is a `float3[]` of two elements, storing one sample per raw sample, at its
time, blocked when the raw one is blocked, and it fails (`InternalError`) otherwise.  A
call that does not succeed leaves target and table as they were. -/
theorem C16_extent_value (table : Table) (prop_name name : String) (prop : Property)
    (target : TypedAttribute (Animatable Extent))
    (hname : prop_name = name) (htable : name ∉ table)
    (hconn : prop.is_connection = false)
    (hauth : prop.get_property_type = .Attrib)
    (hblocked : prop.get_attribute.is_blocked = false)
    (hvary : prop.get_attribute.variability ≠ .Uniform) :
    (prop.get_attribute.var.is_scalar = true →
      ((ParseExtentAttribute table prop_name prop name target).ret.code = .Success
          ↔ ∃ lo up, prop.get_attribute.var.scalar = some (.float3Array [lo, up]))
      ∧ (∀ lo up, prop.get_attribute.var.scalar = some (.float3Array [lo, up]) →
          ParseExtentAttribute table prop_name prop name target
            = ⟨⟨.Success, ""⟩, insert name table,
                (target.set_value (Animatable.ofValue ⟨lo, up⟩)).set_metas
                  prop.get_attribute.metas⟩)
      ∧ ((¬ ∃ lo up, prop.get_attribute.var.scalar = some (.float3Array [lo, up])) →
          (ParseExtentAttribute table prop_name prop name target).ret.code = .TypeMismatch
          ∧ (ParseExtentAttribute table prop_name prop name target).table = table
          ∧ (ParseExtentAttribute table prop_name prop name target).target = target))
    ∧ (prop.get_attribute.var.is_scalar = false →
        prop.get_attribute.var.is_timesamples = true →
        prop.get_attribute.var.is_valid = true →
      ((ParseExtentAttribute table prop_name prop name target).ret.code = .Success
          ↔ ∀ s ∈ prop.get_attribute.var.ts_raw, s.blocked = false →
              ∃ lo up, s.value = .float3Array [lo, up])
      ∧ ((∀ s ∈ prop.get_attribute.var.ts_raw, s.blocked = false →
              ∃ lo up, s.value = .float3Array [lo, up]) →
          ParseExtentAttribute table prop_name prop name target
            = ⟨⟨.Success, ""⟩, insert name table,
                (target.set_value
                  ⟨none, false, prop.get_attribute.var.ts_raw.map recordedExtentSample⟩).set_metas
                  prop.get_attribute.metas⟩
          ∧ ∀ s ∈ prop.get_attribute.var.ts_raw,
              (recordedExtentSample s).t = s.t
              ∧ (s.blocked = true → (recordedExtentSample s).value = none)
              ∧ (∀ lo up, s.blocked = false → s.value = .float3Array [lo, up] →
                  (recordedExtentSample s).value = some ⟨lo, up⟩))
      ∧ ((¬ ∀ s ∈ prop.get_attribute.var.ts_raw, s.blocked = false →
              ∃ lo up, s.value = .float3Array [lo, up]) →
          (ParseExtentAttribute table prop_name prop name target).ret.code = .InternalError
          ∧ (ParseExtentAttribute table prop_name prop name target).table = table
          ∧ (ParseExtentAttribute table prop_name prop name target).target = target)) := by
  subst hname
  have hne := ne_append_connect prop_name
  constructor
  · intro hscalar
    have hyes : ∀ lo up, prop.get_attribute.var.scalar = some (.float3Array [lo, up]) →
        ParseExtentAttribute table prop_name prop prop_name target
          = ⟨⟨.Success, ""⟩, insert prop_name table,
              (target.set_value (Animatable.ofValue ⟨lo, up⟩)).set_metas
                prop.get_attribute.metas⟩ := by
      intro lo up hv
      have hg := (get_float3Array_pair prop.get_attribute lo up).mpr hv
      simp [ParseExtentAttribute, hne, htable, hconn, hauth, hblocked, hvary, hscalar, hg]
    have hno : (¬ ∃ lo up, prop.get_attribute.var.scalar = some (.float3Array [lo, up])) →
        (ParseExtentAttribute table prop_name prop prop_name target).ret.code = .TypeMismatch
        ∧ (ParseExtentAttribute table prop_name prop prop_name target).table = table
        ∧ (ParseExtentAttribute table prop_name prop prop_name target).target = target := by
      intro hnot
      cases hg : prop.get_attribute.get_value float3ArrayTraits with
      | none =>
        simp [ParseExtentAttribute, hne, htable, hconn, hauth, hblocked, hvary, hscalar, hg]
      | some pv =>
        match pv, hg with
        | [], hg =>
          simp [ParseExtentAttribute, hne, htable, hconn, hauth, hblocked, hvary, hscalar, hg]
        | [a], hg =>
          simp [ParseExtentAttribute, hne, htable, hconn, hauth, hblocked, hvary, hscalar, hg]
        | [a, b], hg =>
          exact absurd ⟨a, b, (get_float3Array_pair prop.get_attribute a b).mp hg⟩ hnot
        | a :: b :: c :: r, hg =>
          simp [ParseExtentAttribute, hne, htable, hconn, hauth, hblocked, hvary, hscalar, hg]
    refine ⟨?_, hyes, hno⟩
    constructor
    · intro hs
      by_contra hnot
      rw [(hno hnot).1] at hs
      cases hs
    · rintro ⟨lo, up, hv⟩
      rw [hyes lo up hv]
  · intro hscalar hts hvalid
    have hiff : ∀ s : Sample, (extentOfValue s.value).isSome = true
        ↔ ∃ lo up, s.value = .float3Array [lo, up] := by
      intro s
      constructor
      · intro h
        obtain ⟨e, he⟩ := Option.isSome_iff_exists.mp h
        exact ⟨e.lower, e.upper, (extentOfValue_eq_some _ _).mp he⟩
      · rintro ⟨lo, up, hv⟩
        rw [(extentOfValue_eq_some s.value ⟨lo, up⟩).mpr hv]
        rfl
    have hyes : (∀ s ∈ prop.get_attribute.var.ts_raw, s.blocked = false →
          ∃ lo up, s.value = .float3Array [lo, up]) →
        ParseExtentAttribute table prop_name prop prop_name target
          = ⟨⟨.Success, ""⟩, insert prop_name table,
              (target.set_value
                ⟨none, false, prop.get_attribute.var.ts_raw.map recordedExtentSample⟩).set_metas
                prop.get_attribute.metas⟩ := by
      intro hall
      have hall2 : ∀ s ∈ prop.get_attribute.var.ts_raw, s.blocked = false →
          (extentOfValue s.value).isSome = true :=
        fun s hs hb => (hiff s).mpr (hall s hs hb)
      have hconv : ConvertToAnimatable_Extent prop.get_attribute.var
          = some ⟨none, false, prop.get_attribute.var.ts_raw.map recordedExtentSample⟩ := by
        simp [ConvertToAnimatable_Extent, hvalid, hscalar, hts,
          convertSamples_Extent_some _ _ hall2, Animatable.default]
      simp [ParseExtentAttribute, hne, htable, hconn, hauth, hblocked, hvary, hscalar, hts,
        hconv]
    have hno : (¬ ∀ s ∈ prop.get_attribute.var.ts_raw, s.blocked = false →
          ∃ lo up, s.value = .float3Array [lo, up]) →
        (ParseExtentAttribute table prop_name prop prop_name target).ret.code = .InternalError
        ∧ (ParseExtentAttribute table prop_name prop prop_name target).table = table
        ∧ (ParseExtentAttribute table prop_name prop prop_name target).target = target := by
      intro hnot
      have hconv : ConvertToAnimatable_Extent prop.get_attribute.var = none := by
        have : convertSamples_Extent prop.get_attribute.var.ts_raw Animatable.default = none := by
          rw [convertSamples_Extent_none]
          by_contra hcon
          apply hnot
          intro s hs hb
          rw [← hiff s]
          cases hv : extentOfValue s.value with
          | none => exact absurd ⟨s, hs, hb, hv⟩ hcon
          | some e => rfl
        simp [ConvertToAnimatable_Extent, hvalid, hscalar, hts, this]
      simp [ParseExtentAttribute, hne, htable, hconn, hauth, hblocked, hvary, hscalar, hts,
        hconv]
    refine ⟨?_, ?_, hno⟩
    · constructor
      · intro hs
        by_contra hnot
        rw [(hno hnot).1] at hs
        cases hs
      · intro hall
        rw [hyes hall]
    · intro hall
      refine ⟨hyes hall, ?_⟩
      intro s _
      refine ⟨rfl, ?_, ?_⟩
      · intro hb
        simp [recordedExtentSample, hb]
      · intro lo up hb hv
        simp [recordedExtentSample, hb, (extentOfValue_eq_some s.value ⟨lo, up⟩).mpr hv]

/-- C16 at `float3[] extent = [(-1, -1, -1), (1, 1, 1)]`: the hypotheses hold, the value
is a scalar, and the matcher stores the two corners. -/
theorem C16_extent_value_witness :
    ("extent" ∉ (∅ : Table)
      ∧ (Property.ofScalar "float3[]" .Varying
          (.float3Array [(-1, -1, -1), (1, 1, 1)])).is_connection = false
      ∧ (Property.ofScalar "float3[]" .Varying
          (.float3Array [(-1, -1, -1), (1, 1, 1)])).get_attribute.var.is_scalar = true)
    ∧ ParseExtentAttribute ∅ "extent"
        (Property.ofScalar "float3[]" .Varying (.float3Array [(-1, -1, -1), (1, 1, 1)]))
        "extent" TypedAttribute.fresh
      = ⟨⟨.Success, ""⟩, insert "extent" ∅,
          (TypedAttribute.fresh.set_value
            (Animatable.ofValue ⟨(-1, -1, -1), (1, 1, 1)⟩)).set_metas
            (Property.ofScalar "float3[]" .Varying
              (.float3Array [(-1, -1, -1), (1, 1, 1)])).get_attribute.metas⟩ :=
  ⟨⟨by decide, rfl, rfl⟩,
    ((C16_extent_value ∅ "extent" "extent"
      (Property.ofScalar "float3[]" .Varying (.float3Array [(-1, -1, -1), (1, 1, 1)]))
      TypedAttribute.fresh rfl (by decide) rfl rfl rfl (by decide)).1 rfl).2.1
        (-1, -1, -1) (1, 1, 1) rfl⟩

/-- C17, as stated, fails on a blocked value: `uniform float3[] extent = None` is an
authored, non-connection attribute with `Uniform` variability, and `ParseExtentAttribute`
answers `Success`, marks the slot blocked and records the name. -/
theorem C17_extent_uniform_counterexample :
    (Property.ofBlocked "float3[]" .Uniform).is_connection = false
    ∧ (Property.ofBlocked "float3[]" .Uniform).get_property_type = .Attrib
    ∧ (Property.ofBlocked "float3[]" .Uniform).get_attribute.variability = .Uniform
    ∧ (ParseExtentAttribute ∅ "extent" (Property.ofBlocked "float3[]" .Uniform) "extent"
        TypedAttribute.fresh).ret.code = .Success
    ∧ (ParseExtentAttribute ∅ "extent" (Property.ofBlocked "float3[]" .Uniform) "extent"
        TypedAttribute.fresh).target.blocked = true
    ∧ (ParseExtentAttribute ∅ "extent" (Property.ofBlocked "float3[]" .Uniform) "extent"
        TypedAttribute.fresh).table = insert "extent" ∅ := by
  refine ⟨rfl, rfl, rfl, ?_, ?_, ?_⟩ <;>
    simp [ParseExtentAttribute, Property.ofBlocked, Property.is_connection,
      Property.get_attribute, Property.get_property_type, TypedAttribute.fresh,
      TypedAttribute.set_blocked, TypedAttribute.set_metas]

/-- C17, amended: for a property named like the slot, not yet processed, that is an
authored non-connection attribute with `Uniform` variability, `ParseExtentAttribute`
answers `VariabilityMismatch` and leaves target and table unchanged when the value is
not blocked; a blocked value is accepted, whatever the variability: the slot is marked
blocked, the metadata copied and the name recorded. -/
theorem C17_extent_uniform (table : Table) (prop_name name : String) (prop : Property)
    (target : TypedAttribute (Animatable Extent))
    (hname : prop_name = name) (htable : name ∉ table)
    (hconn : prop.is_connection = false)
    (hauth : prop.get_property_type = .Attrib) :
    (prop.get_attribute.variability = .Uniform → prop.get_attribute.is_blocked = false →
      ParseExtentAttribute table prop_name prop name target
        = ⟨⟨.VariabilityMismatch,
            "`extent` attribute is varying. `uniform` qualifier assigned to it."⟩,
            table, target⟩)
    ∧ (prop.get_attribute.is_blocked = true →
      ParseExtentAttribute table prop_name prop name target
        = ⟨⟨.Success, ""⟩, insert name table,
            (target.set_blocked true).set_metas prop.get_attribute.metas⟩) := by
  subst hname
  have hne := ne_append_connect prop_name
  constructor
  · intro hu hb
    simp [ParseExtentAttribute, hne, htable, hconn, hauth, hb, hu]
  · intro hb
    simp [ParseExtentAttribute, hne, htable, hconn, hauth, hb]

/-- C17 (amended) at `uniform float3[] extent = [(0, 0, 0), (1, 1, 1)]`: the hypotheses
hold and the matcher answers `VariabilityMismatch` without touching slot or table. -/
theorem C17_extent_uniform_witness :
    ("extent" ∉ (∅ : Table)
      ∧ (Property.ofScalar "float3[]" .Uniform
          (.float3Array [(0, 0, 0), (1, 1, 1)])).is_connection = false
      ∧ (Property.ofScalar "float3[]" .Uniform
          (.float3Array [(0, 0, 0), (1, 1, 1)])).get_property_type = .Attrib)
    ∧ ParseExtentAttribute ∅ "extent"
        (Property.ofScalar "float3[]" .Uniform (.float3Array [(0, 0, 0), (1, 1, 1)]))
        "extent" TypedAttribute.fresh
      = ⟨⟨.VariabilityMismatch,
          "`extent` attribute is varying. `uniform` qualifier assigned to it."⟩,
          ∅, TypedAttribute.fresh⟩ :=
  ⟨⟨by decide, rfl, rfl⟩,
    (C17_extent_uniform ∅ "extent" "extent"
      (Property.ofScalar "float3[]" .Uniform (.float3Array [(0, 0, 0), (1, 1, 1)]))
      TypedAttribute.fresh rfl (by decide) rfl rfl).1 rfl rfl⟩

/-! ### The shader dispatch (C18, C19, C20) -/

/-- C18: `ReconstructPrim<Shader>` returns false, leaving the shader as it was and
appending its message to `err`, when the property map has no `info:id` entry, when
`info:id` is not an attribute, when its type name is not `token`, and when its token is
none of the eight known names (in that last case a warning may have been pushed first,
for a variability other than `uniform`). -/
theorem C18_shader_info_id_errors (d : ShaderDefaults) (klass_name : String)
    (properties : PropertyMap) (shader : Shader) (warn err : Option String) :
    (properties.find "info:id" = none →
      ReconstructPrim_Shader d klass_name properties shader warn err
        = .fail ⟨∅, shader, warn,
            PushError err "`Shader` must contain `info:id` property."⟩)
    ∧ (∀ p, properties.find "info:id" = some p → p.is_attribute = false →
      ReconstructPrim_Shader d klass_name properties shader warn err
        = .fail ⟨∅, shader, warn,
            PushError err "Invalid type or value for `info:id` property in `Shader`."⟩)
    ∧ (∀ p, properties.find "info:id" = some p → p.is_attribute = true →
      p.get_attribute.type_name ≠ "token" →
      ReconstructPrim_Shader d klass_name properties shader warn err
        = .fail ⟨∅, shader, warn,
            PushError err "`info:id` attribute must be `token` type."⟩)
    ∧ (∀ p tok, properties.find "info:id" = some p → p.is_attribute = true →
      p.get_attribute.type_name = "token" →
      p.get_attribute.get_value tokenTraits = some tok →
      tok ∉ Shader.kinds →
      ReconstructPrim_Shader d klass_name properties shader warn err
        = .fail ⟨∅, shader,
            if p.get_attribute.variability ≠ .Uniform then
              PushWarn warn "`info:id` attribute must have `uniform` variability."
            else warn,
            PushError err
              ("Invalid or Unsupported Shader type. info:id = \"" ++ tok ++ "\n")⟩) := by
  refine ⟨?_, ?_, ?_, ?_⟩
  · intro h
    simp only [ReconstructPrim_Shader, h]
    rfl
  · intro p h ha
    simp only [ReconstructPrim_Shader, h, ha]
    rfl
  · intro p h ha hty
    simp only [ReconstructPrim_Shader, h, ha, if_true, if_neg hty]
    rfl
  · intro p tok h ha hty hv hk
    simp only [Shader.kinds, List.mem_cons, List.mem_singleton, List.not_mem_nil, or_false,
      not_or] at hk
    obtain ⟨k1, k2, k3, k4, k5, k6, k7, k8⟩ := hk
    simp only [ReconstructPrim_Shader, h, ha, if_true, hty, hv, Shader.dispatch, if_neg k1,
      if_neg k2, if_neg k3, if_neg k4, if_neg k5, if_neg k6, if_neg k7, if_neg k8]
    rfl

/-- C18 at a shader whose only property is `uniform token info:id = "MyShader"`: the
token is none of the eight names and the reconstructor returns false with the message
for an unsupported shader type. -/
theorem C18_shader_info_id_errors_witness :
    ("MyShader" ∉ Shader.kinds)
    ∧ ReconstructPrim_Shader sampleShaderDefaults "UsdUVTexture"
        [("info:id", Property.ofScalar "token" .Uniform (.token "MyShader"))]
        Shader.fresh (some "") (some "")
      = .fail ⟨∅, Shader.fresh, some "",
          some "Invalid or Unsupported Shader type. info:id = \"MyShader\n"⟩ :=
  ⟨by decide,
    ((C18_shader_info_id_errors sampleShaderDefaults "UsdUVTexture"
      [("info:id", Property.ofScalar "token" .Uniform (.token "MyShader"))]
      Shader.fresh (some "") (some "")).2.2.2
      (Property.ofScalar "token" .Uniform (.token "MyShader")) "MyShader"
      rfl rfl rfl rfl (by decide)).trans (by rfl)⟩

/-- C19, as stated, fails: with `token info:id = "UsdPrimvarReader_float2"` authored
without the `uniform` qualifier as its only property, `ReconstructPrim<Shader>` returns
true, sets `info_id` and `value`, and only pushes a warning. -/
theorem C19_info_id_varying_counterexample :
    (Property.ofScalar "token" .Varying
        (.token "UsdPrimvarReader_float2")).get_attribute.variability = .Varying
    ∧ ReconstructPrim_Shader sampleShaderDefaults "UsdUVTexture"
        [("info:id", Property.ofScalar "token" .Varying (.token "UsdPrimvarReader_float2"))]
        Shader.fresh (some "") (some "")
      = .ok ⟨∅, ⟨"UsdPrimvarReader_float2", some (.preader_float2 UsdPrimvarReader.fresh)⟩,
          some "`info:id` attribute must have `uniform` variability.", some ""⟩ :=
  ⟨rfl, rfl⟩

/-- C19, amended: when `info:id` is a token attribute whose variability is not
`uniform`, `ReconstructPrim<Shader>` does not reject the shader: it appends the warning
"`info:id` attribute must have `uniform` variability." to `warn` and goes on to the
sub-reconstructor that the token selects, exactly as it does, without the warning, for
a `uniform` one. -/
theorem C19_info_id_varying (d : ShaderDefaults) (klass_name : String)
    (properties : PropertyMap) (shader : Shader) (warn err : Option String)
    (p : Property) (tok : String)
    (hfind : properties.find "info:id" = some p)
    (hattr : p.is_attribute = true)
    (hty : p.get_attribute.type_name = "token")
    (hv : p.get_attribute.get_value tokenTraits = some tok) :
    (p.get_attribute.variability ≠ .Uniform →
      ReconstructPrim_Shader d klass_name properties shader warn err
        = Shader.dispatch d klass_name tok properties shader
            (PushWarn warn "`info:id` attribute must have `uniform` variability.") err)
    ∧ (p.get_attribute.variability = .Uniform →
      ReconstructPrim_Shader d klass_name properties shader warn err
        = Shader.dispatch d klass_name tok properties shader warn err) := by
  constructor
  · intro hu
    simp only [ReconstructPrim_Shader, hfind, hattr, if_true, hty, hv, if_pos hu]
  · intro hu
    simp only [ReconstructPrim_Shader, hfind, hattr, if_true, hty, hv, hu, ne_eq,
      not_true_eq_false, if_false]

/-- C19 (amended) at `token info:id = "UsdTransform2d"` authored without `uniform`: the
hypotheses hold and the reconstructor returns true with the warning pushed. -/
theorem C19_info_id_varying_witness :
    (PropertyMap.find
        [("info:id", Property.ofScalar "token" .Varying (.token "UsdTransform2d"))] "info:id"
        = some (Property.ofScalar "token" .Varying (.token "UsdTransform2d"))
      ∧ (Property.ofScalar "token" .Varying (.token "UsdTransform2d")).is_attribute = true
      ∧ (Property.ofScalar "token" .Varying
          (.token "UsdTransform2d")).get_attribute.variability ≠ .Uniform)
    ∧ ReconstructPrim_Shader sampleShaderDefaults "UsdUVTexture"
        [("info:id", Property.ofScalar "token" .Varying (.token "UsdTransform2d"))]
        Shader.fresh (some "") (some "")
      = .ok ⟨∅, ⟨"UsdTransform2d", some (.transform sampleShaderDefaults.transform)⟩,
          some "`info:id` attribute must have `uniform` variability.", some ""⟩ :=
  ⟨⟨rfl, rfl, by decide⟩,
    ((C19_info_id_varying sampleShaderDefaults "UsdUVTexture"
      [("info:id", Property.ofScalar "token" .Varying (.token "UsdTransform2d"))]
      Shader.fresh (some "") (some "")
      (Property.ofScalar "token" .Varying (.token "UsdTransform2d")) "UsdTransform2d"
      rfl rfl rfl rfl).1 (by decide)).trans (by rfl)⟩

/-- A property loop ends with true or with false; it is never left through an empty
optional. -/
theorem propertyLoop_ne_raise {σ : Type} (body : σ → String × Property → Step σ)
    (properties : List (String × Property)) (s : σ) :
    propertyLoop body s properties ≠ .raise := by
  induction properties generalizing s with
  | nil => simp [propertyLoop]
  | cons prop rest ih =>
    simp only [propertyLoop]
    cases body s prop with
    | next s1 => exact ih s1
    | continue_ s1 => exact ih s1
    | ret_false s1 => simp

/-- C20 on the code: `ReconstructShader<UsdPrimvarReader_int>` and
`ReconstructShader<UsdPrimvarReader_float>` end with `return false`, so for a token
`info:id` with one of these two values `ReconstructPrim<Shader>` returns false on every
property map, with "Failed to Reconstruct ..." as the last message in `err` and the
shader left as it was; `info_id` and `value` are never assigned.  The six other kinds
return true on a map that holds `info:id` alone. -/
theorem C20_primvar_reader_returns_false :
    (∀ (d : ShaderDefaults) (klass_name : String) (properties : PropertyMap)
        (shader : Shader) (warn err : Option String) (p : Property) (tok : String),
        properties.find "info:id" = some p → p.is_attribute = true →
        p.get_attribute.type_name = "token" →
        p.get_attribute.get_value tokenTraits = some tok →
        (tok = "UsdPrimvarReader_int" ∨ tok = "UsdPrimvarReader_float") →
        ∃ w e, ReconstructPrim_Shader d klass_name properties shader warn err
          = .fail ⟨∅, shader, w, PushError e ("Failed to Reconstruct " ++ tok)⟩)
    ∧ ReconstructPrim_Shader sampleShaderDefaults "UsdUVTexture"
        [("info:id", Property.ofScalar "token" .Uniform (.token "UsdPrimvarReader_int"))]
        Shader.fresh (some "") (some "")
      = .fail ⟨∅, Shader.fresh, some "", some "Failed to Reconstruct UsdPrimvarReader_int"⟩
    ∧ ReconstructPrim_Shader sampleShaderDefaults "UsdUVTexture"
        [("info:id", Property.ofScalar "token" .Uniform (.token "UsdPrimvarReader_float"))]
        Shader.fresh (some "") (some "")
      = .fail ⟨∅, Shader.fresh, some "", some "Failed to Reconstruct UsdPrimvarReader_float"⟩
    ∧ (∀ tok ∈ ["UsdPreviewSurface", "UsdUVTexture", "UsdPrimvarReader_float2",
          "UsdPrimvarReader_float3", "UsdPrimvarReader_float4", "UsdTransform2d"],
        ∃ v, ReconstructPrim_Shader sampleShaderDefaults "UsdUVTexture"
          [("info:id", Property.ofScalar "token" .Uniform (.token tok))]
          Shader.fresh (some "") (some "")
        = .ok ⟨∅, ⟨tok, some v⟩, some "", some ""⟩) := by
  refine ⟨?_, rfl, rfl, ?_⟩
  · intro d klass_name properties shader warn err p tok hfind hattr hty hv htok
    have hrun : ∃ w, ReconstructPrim_Shader d klass_name properties shader warn err
        = Shader.dispatch d klass_name tok properties shader w err := by
      by_cases hu : p.get_attribute.variability = .Uniform
      · exact ⟨warn, by
          simp only [ReconstructPrim_Shader, hfind, hattr, if_true, hty, hv, hu, ne_eq,
            not_true_eq_false, if_false]⟩
      · exact ⟨PushWarn warn "`info:id` attribute must have `uniform` variability.", by
          simp only [ReconstructPrim_Shader, hfind, hattr, if_true, hty, hv, ne_eq, hu,
            not_false_eq_true, if_true]⟩
    obtain ⟨w, hw⟩ := hrun
    rw [hw]
    rcases htok with rfl | rfl
    · have hd : Shader.dispatch d klass_name "UsdPrimvarReader_int" properties shader w err
          = Shader.finish "UsdPrimvarReader_int" .preader_int shader
              (ReconstructShader_UsdPrimvarReader_int properties UsdPrimvarReader.fresh w err) := by
        simp [Shader.dispatch]
      rw [hd]
      unfold ReconstructShader_UsdPrimvarReader_int
      cases hl : propertyLoop (UsdPrimvarReader.body intTraits)
          ⟨insert "info:id" ∅, UsdPrimvarReader.fresh, w, err⟩ properties with
      | ok s => exact ⟨s.warn, s.err, rfl⟩
      | fail s => exact ⟨s.warn, s.err, rfl⟩
      | raise => exact absurd hl (propertyLoop_ne_raise _ _ _)
    · have hd : Shader.dispatch d klass_name "UsdPrimvarReader_float" properties shader w err
          = Shader.finish "UsdPrimvarReader_float" .preader_float shader
              (ReconstructShader_UsdPrimvarReader_float properties UsdPrimvarReader.fresh w
                err) := by
        simp [Shader.dispatch]
      rw [hd]
      unfold ReconstructShader_UsdPrimvarReader_float
      cases hl : propertyLoop (UsdPrimvarReader.body floatTraits)
          ⟨insert "info:id" ∅, UsdPrimvarReader.fresh, w, err⟩ properties with
      | ok s => exact ⟨s.warn, s.err, rfl⟩
      | fail s => exact ⟨s.warn, s.err, rfl⟩
      | raise => exact absurd hl (propertyLoop_ne_raise _ _ _)
  · intro tok htok
    simp only [List.mem_cons, List.mem_singleton, List.not_mem_nil, or_false] at htok
    rcases htok with rfl | rfl | rfl | rfl | rfl | rfl
    · exact ⟨_, rfl⟩
    · exact ⟨_, rfl⟩
    · exact ⟨_, rfl⟩
    · exact ⟨_, rfl⟩
    · exact ⟨_, rfl⟩
    · exact ⟨_, rfl⟩

/-! ### The crate value types (C28) and the reader limits (C29, C30) -/

/-- Looking up a key that was just assigned gives the assigned value. -/
theorem ValueTypeTable.lookup_assign_self (t : ValueTypeTable) (k : Nat) (v : ValueType) :
    (t.assign k v).lookup k = some v := by
  induction t with
  | nil => simp [ValueTypeTable.assign, List.lookup]
  | cons kw rest ih =>
    obtain ⟨k1, w⟩ := kw
    by_cases h : k1 = k
    · subst h
      simp [ValueTypeTable.assign, List.lookup]
    · have h2 : (k == k1) = false := by simpa using fun e : k = k1 => h e.symm
      simp [ValueTypeTable.assign, h, List.lookup, h2, ih]

/-- Assigning a key leaves the other keys alone. -/
theorem ValueTypeTable.lookup_assign_ne (t : ValueTypeTable) (k k2 : Nat) (v : ValueType)
    (hne : k2 ≠ k) : (t.assign k v).lookup k2 = t.lookup k2 := by
  induction t with
  | nil =>
    have h2 : (k2 == k) = false := by simpa using hne
    simp [ValueTypeTable.assign, List.lookup, h2]
  | cons kw rest ih =>
    obtain ⟨k1, w⟩ := kw
    by_cases h : k1 = k
    · subst h
      have h2 : (k2 == k1) = false := by simpa using hne
      simp [ValueTypeTable.assign, List.lookup, h2]
    · by_cases h3 : k2 = k1
      · subst h3
        simp [ValueTypeTable.assign, h, List.lookup]
      · have h4 : (k2 == k1) = false := by simpa using h3
        simp [ValueTypeTable.assign, h, List.lookup, h4, ih]

/-- Registering rows whose ids are pairwise distinct and not yet in the table never
fails an assertion, and afterwards each id is registered with the record of its row,
every id registered before keeps its record, and nothing else is registered. -/
theorem register_rows (ids : CrateDataTypeId → Nat) (rows : List ValueTypeRow)
    (t : ValueTypeTable)
    (hnodup : (rows.map (ValueTypeRow.key ids)).Nodup)
    (hfresh : ∀ r ∈ rows, t.lookup (r.key ids) = none) :
    ∃ t2, rows.foldl
        (fun table r => ADD_VALUE_TYPE table r.name (r.key ids) r.supports_array) (some t)
        = some t2
      ∧ (∀ r ∈ rows, t2.lookup (r.key ids) = some ⟨r.name, r.key ids, r.supports_array⟩)
      ∧ (∀ k, (∀ r ∈ rows, r.key ids ≠ k) → t2.lookup k = t.lookup k) := by
  induction rows generalizing t with
  | nil => exact ⟨t, rfl, by simp, fun _ _ => rfl⟩
  | cons r rest ih =>
    simp only [List.map_cons, List.nodup_cons] at hnodup
    obtain ⟨hr, hrest⟩ := hnodup
    have hfr : t.lookup (r.key ids) = none := hfresh r (List.mem_cons_self _ _)
    have hstep : ADD_VALUE_TYPE (some t) r.name (r.key ids) r.supports_array
        = some (t.assign (r.key ids) ⟨r.name, r.key ids, r.supports_array⟩) := by
      simp [ADD_VALUE_TYPE, ValueTypeTable.count, hfr]
    have hne : ∀ r2 ∈ rest, r2.key ids ≠ r.key ids := by
      intro r2 h2 e
      exact hr (e ▸ List.mem_map_of_mem _ h2)
    obtain ⟨t2, h1, h2, h3⟩ := ih (t.assign (r.key ids) ⟨r.name, r.key ids, r.supports_array⟩)
      hrest (by
        intro r2 h2
        rw [ValueTypeTable.lookup_assign_ne _ _ _ _ (hne r2 h2)]
        exact hfresh r2 (List.mem_cons_of_mem _ h2))
    refine ⟨t2, ?_, ?_, ?_⟩
    · simp only [List.foldl_cons, hstep]
      exact h1
    · intro r2 hr2
      rcases List.mem_cons.mp hr2 with e | e
      · subst e
        rw [h3 _ (fun r3 h e2 => hne r3 h e2)]
        exact ValueTypeTable.lookup_assign_self _ _ _
      · exact h2 r2 e
    · intro k hk
      rw [h3 k (fun r2 h => hk r2 (List.mem_cons_of_mem _ h))]
      exact ValueTypeTable.lookup_assign_ne _ _ _ _ (Ne.symm (hk r (List.mem_cons_self _ _)))

/-- With pairwise distinct, non-zero constants, the ids of the registration lines are
pairwise distinct. -/
theorem valueTypeRows_keys_nodup (ids : CrateDataTypeId → Nat)
    (hinj : Function.Injective ids) (hnz : ∀ c, ids c ≠ 0) :
    (valueTypeRows.map (ValueTypeRow.key ids)).Nodup := by
  have h1 : (valueTypeRows.map (fun r => r.type_id)).Nodup := by decide
  have hkey : Function.Injective
      (fun o : Option CrateDataTypeId => match o with | none => 0 | some c => ids c) := by
    intro a b h
    cases a <;> cases b
    · rfl
    · exact absurd h.symm (hnz _)
    · exact absurd h (hnz _)
    · exact congrArg some (hinj h)
  have h2 := h1.map hkey
  rw [List.map_map] at h2
  exact h2

/-- With pairwise distinct, non-zero constants, the registration block succeeds and
`GetValueType` then answers from the table it built. -/
theorem getValueType_table (ids : CrateDataTypeId → Nat)
    (hinj : Function.Injective ids) (hnz : ∀ c, ids c ≠ 0) :
    ∃ table, registerValueTypes ids = some table
      ∧ (∀ r ∈ valueTypeRows,
          table.lookup (r.key ids) = some ⟨r.name, r.key ids, r.supports_array⟩)
      ∧ (∀ k, (∀ r ∈ valueTypeRows, r.key ids ≠ k) → table.lookup k = none) := by
  obtain ⟨t2, h1, h2, h3⟩ := register_rows ids valueTypeRows []
    (valueTypeRows_keys_nodup ids hinj hnz) (fun _ _ => rfl)
  exact ⟨t2, h1, h2, fun k hk => by rw [h3 k hk]; rfl⟩

/-- Every constant has its registration line. -/
theorem valueTypeRows_complete (c : CrateDataTypeId) :
    ∃ r ∈ valueTypeRows, r.type_id = some c := by
  cases c <;> decide

/-- What `GetValueType` returns for the id of a registration line. -/
theorem getValueType_row (ids : CrateDataTypeId → Nat)
    (hinj : Function.Injective ids) (hnz : ∀ c, ids c ≠ 0)
    (r : ValueTypeRow) (hr : r ∈ valueTypeRows) :
    GetValueType ids (r.key ids : Nat)
      = some (.ok ⟨r.name, r.key ids, r.supports_array⟩) := by
  obtain ⟨table, h1, h2, _⟩ := getValueType_table ids hinj hnz
  have hneg : ¬ ((r.key ids : Nat) : Int) < 0 := by simp
  have h3 : table.at ((r.key ids : Nat) : Int).toNat
      = some ⟨r.name, r.key ids, r.supports_array⟩ := by
    rw [Int.toNat_ofNat]
    exact h2 r hr
  unfold GetValueType
  rw [h1]
  dsimp only
  rw [if_neg hneg, h3]

/-- C28, as stated, fails at TimeCode: with the constants numbered in the order of
registration, the record returned for the id of TimeCode has `supports_array = true`. -/
theorem C28_value_types_counterexample :
    GetValueType sampleTypeId (sampleTypeId .VALUE_TYPE_TIME_CODE)
      = some (.ok ⟨"TimeCode", 56, true⟩) := by
  rfl

/-- C28, amended: with pairwise distinct, non-zero constants (what the assertions of the
registration block demand), `GetValueType` reports `supports_array = false` for the id
of each composite type of `nonArrayableTypes` (Dictionary, the nine ListOps, PathVector,
TokenVector, Specifier, Permission, Variability, VariantSelectionMap, TimeSamples,
DoubleVector, LayerOffsetVector, StringVector, ValueBlock, UnregisteredValue,
UnregisteredValueListOp) and `supports_array = true` for the id of TimeCode and of every
scalar, vector, matrix and quaternion type; for every registered id, `0` included, the
record returned carries the requested id; a negative id and an id that is not registered
yield an error. -/
theorem C28_value_types (ids : CrateDataTypeId → Nat)
    (hinj : Function.Injective ids) (hnz : ∀ c, ids c ≠ 0) :
    (∀ c ∈ nonArrayableTypes, ∃ name,
      GetValueType ids (ids c : Nat) = some (.ok ⟨name, ids c, false⟩))
    ∧ (∀ c ∈ arrayableTypes, ∃ name,
      GetValueType ids (ids c : Nat) = some (.ok ⟨name, ids c, true⟩))
    ∧ GetValueType ids (ids .VALUE_TYPE_TIME_CODE : Nat)
        = some (.ok ⟨"TimeCode", ids .VALUE_TYPE_TIME_CODE, true⟩)
    ∧ (∀ c, ∃ vt, GetValueType ids (ids c : Nat) = some (.ok vt) ∧ vt.id = ids c)
    ∧ GetValueType ids 0 = some (.ok ⟨"InvaldOrUnsupported", 0, false⟩)
    ∧ (∀ type_id : Int, type_id < 0 →
      GetValueType ids type_id = some (.error ("Unknown type id: " ++ toString type_id)))
    ∧ (∀ type_id : Int, 0 < type_id → (∀ c, (ids c : Int) ≠ type_id) →
      GetValueType ids type_id
        = some (.error ("Unknown or unspported type id: " ++ toString type_id))) := by
  have hrow := getValueType_row ids hinj hnz
  refine ⟨?_, ?_, ?_, ?_, ?_, ?_, ?_⟩
  · intro c hc
    have h : ∃ r ∈ valueTypeRows, r.type_id = some c ∧ r.supports_array = false := by
      revert c
      decide
    obtain ⟨r, hr, h1, h2⟩ := h
    have := hrow r hr
    simp only [ValueTypeRow.key, h1, h2] at this
    exact ⟨r.name, this⟩
  · intro c hc
    have h : ∃ r ∈ valueTypeRows, r.type_id = some c ∧ r.supports_array = true := by
      revert c
      decide
    obtain ⟨r, hr, h1, h2⟩ := h
    have := hrow r hr
    simp only [ValueTypeRow.key, h1, h2] at this
    exact ⟨r.name, this⟩
  · exact hrow ⟨"TimeCode", some .VALUE_TYPE_TIME_CODE, true⟩ (by decide)
  · intro c
    obtain ⟨r, hr, h1⟩ := valueTypeRows_complete c
    have := hrow r hr
    simp only [ValueTypeRow.key, h1] at this
    exact ⟨_, this, rfl⟩
  · exact hrow ⟨"InvaldOrUnsupported", none, false⟩ (by decide)
  · intro type_id hneg
    obtain ⟨table, h1, _, _⟩ := getValueType_table ids hinj hnz
    unfold GetValueType
    rw [h1]
    dsimp only
    rw [if_pos hneg]
  · intro type_id hpos hno
    obtain ⟨table, h1, _, h3⟩ := getValueType_table ids hinj hnz
    have hneg : ¬ type_id < 0 := not_lt.mpr (le_of_lt hpos)
    have hk : table.lookup type_id.toNat = none := by
      apply h3
      intro r _ e
      have e2 : ((r.key ids : Nat) : Int) = type_id := by
        rw [e]
        exact Int.toNat_of_nonneg (le_of_lt hpos)
      cases hty : r.type_id with
      | none =>
        simp only [ValueTypeRow.key, hty] at e2
        rw [← e2] at hpos
        exact absurd hpos (by simp)
      | some c =>
        simp only [ValueTypeRow.key, hty] at e2
        exact hno c e2
    have hk2 : table.at type_id.toNat = none := hk
    unfold GetValueType
    rw [h1]
    dsimp only
    rw [if_neg hneg, hk2]

/-- The sample numbering is one to one and never zero. -/
theorem sampleTypeId_spec :
    Function.Injective sampleTypeId ∧ ∀ c, sampleTypeId c ≠ 0 := by
  constructor
  · intro a b h
    have ha : sampleTypeOfId (sampleTypeId a) = some a := by cases a <;> rfl
    have hb : sampleTypeOfId (sampleTypeId b) = some b := by cases b <;> rfl
    rw [h, hb] at ha
    injection ha with ha
    exact ha.symm
  · intro c
    cases c <;> decide

/-- C28 (amended) with the constants numbered in the order of registration: the
hypotheses hold, and the id of Dictionary is reported without array form. -/
theorem C28_value_types_witness :
    (Function.Injective sampleTypeId ∧ ∀ c, sampleTypeId c ≠ 0)
    ∧ ∃ name, GetValueType sampleTypeId (sampleTypeId .VALUE_TYPE_DICTIONARY : Nat)
        = some (.ok ⟨name, sampleTypeId .VALUE_TYPE_DICTIONARY, false⟩) :=
  ⟨sampleTypeId_spec,
    (C28_value_types sampleTypeId sampleTypeId_spec.1 sampleTypeId_spec.2).1
      .VALUE_TYPE_DICTIONARY (by decide)⟩

/-- C29: the limits of a default-constructed `CrateReaderConfig`. -/
theorem C29_reader_config_defaults :
    CrateReaderConfig.default.maxTOCSections = 32
    ∧ CrateReaderConfig.default.maxNumTokens = 1048576
    ∧ CrateReaderConfig.default.maxNumStrings = 1048576
    ∧ CrateReaderConfig.default.maxNumFields = 1048576
    ∧ CrateReaderConfig.default.maxNumFieldSets = 1048576
    ∧ CrateReaderConfig.default.maxNumSpecifiers = 1048576
    ∧ CrateReaderConfig.default.maxNumPaths = 1048576
    ∧ CrateReaderConfig.default.maxNumIndices = 16777216
    ∧ CrateReaderConfig.default.maxDictElements = 256
    ∧ CrateReaderConfig.default.maxArrayElements = 1073741824
    ∧ CrateReaderConfig.default.maxAssetPathElements = 512
    ∧ CrateReaderConfig.default.maxTokenLength = 4096
    ∧ CrateReaderConfig.default.maxStringLength = 67108864 := by
  decide

/-- C30, as stated, fails: the default `maxMemoryBudget` is not 2,147,483,648. -/
theorem C30_memory_budget_counterexample :
    CrateReaderConfig.default.maxMemoryBudget ≠ 2147483648 := by
  decide

/-- C30, amended: the default `maxMemoryBudget` is the largest `int32_t`,
2,147,483,647 bytes, one byte short of 2 GiB. -/
theorem C30_memory_budget :
    CrateReaderConfig.default.maxMemoryBudget = 2147483647
    ∧ CrateReaderConfig.default.maxMemoryBudget + 1 = 2 * 1024 * 1024 * 1024 := by
  decide

/-! ### The xform ops (C21, C22, C23, C24) -/

/-- An op branch that ends `ok` has appended one op, with the `inverted` flag it was
given. -/
theorem finishOp_op (s s1 : XformState) (tok : String) (ty : OpType) (inv : Bool)
    (sfx : String) (v : Option XformOpVar) (msg : String)
    (h : finishOp s tok ty inv sfx v msg = .ok s1) :
    ∃ op, s1.xformOps = s.xformOps ++ [op] ∧ op.inverted = inv := by
  cases v with
  | none => simp [finishOp, xformError] at h
  | some var =>
    simp only [finishOp, Outcome.ok.injEq] at h
    subst h
    exact ⟨_, rfl, rfl⟩

/-- One token step that ends `ok` has appended one op, inverted exactly when the token
starts with `!invert!`. -/
theorem xformOpStep_op (properties : PropertyMap) (s : XformState) (i : Nat)
    (item : String) (s1 : XformState) (h : xformOpStep properties s i item = .ok s1) :
    ∃ op, s1.xformOps = s.xformOps ++ [op] ∧ op.inverted = startsWith item "!invert!" := by
  unfold xformOpStep at h
  by_cases c1 : startsWith item "!resetXformStack!" = true
  · rw [if_pos c1] at h
    by_cases c2 : item ≠ "!resetXformStack!"
    · rw [if_pos c2] at h
      simp [xformError] at h
    · rw [if_neg c2] at h
      by_cases c3 : i ≠ 0
      · rw [if_pos c3] at h
        simp [xformError] at h
      · rw [if_neg c3] at h
        simp only [Outcome.ok.injEq] at h
        subst h
        have c4 : item = "!resetXformStack!" := by simpa using c2
        subst c4
        exact ⟨_, rfl, by decide⟩
  · rw [if_neg c1] at h
    dsimp only at h
    generalize (if startsWith item "!invert!" = true then removePrefix item "!invert!"
      else item) = tok at h
    cases hf : properties.find tok with
    | none =>
      rw [hf] at h
      simp [xformError] at h
    | some p =>
      rw [hf] at h
      dsimp only at h
      by_cases c4 : p.is_connection = true
      · rw [if_pos c4] at h
        simp [xformError] at h
      · rw [if_neg c4] at h
        repeat' split at h
        all_goals first
          | exact finishOp_op _ _ _ _ _ _ _ _ h
          | simp [xformError] at h

/-- A token loop that ends `ok` has appended one op per token, in the order of the
tokens: the op at position `j` is the one appended by the step for the token at
position `j`, and it is inverted exactly when that token starts with `!invert!`. -/
theorem xformOpLoop_ops (properties : PropertyMap) (toks : List String)
    (s s1 : XformState) (i : Nat) (h : xformOpLoop properties s i toks = .ok s1) :
    ∃ new, s1.xformOps = s.xformOps ++ new ∧ new.length = toks.length ∧
      ∀ j tok, toks[j]? = some tok → ∃ op sj sj1, new[j]? = some op
        ∧ op.inverted = startsWith tok "!invert!"
        ∧ sj.xformOps = s.xformOps ++ new.take j
        ∧ xformOpStep properties sj (i + j) tok = .ok sj1
        ∧ sj1.xformOps = sj.xformOps ++ [op] := by
  induction toks generalizing s i with
  | nil =>
    simp only [xformOpLoop, Outcome.ok.injEq] at h
    subst h
    exact ⟨[], by simp, rfl, fun j tok hj => by simp at hj⟩
  | cons item rest ih =>
    simp only [xformOpLoop] at h
    cases hs : xformOpStep properties s i item with
    | fail s2 => simp [hs] at h
    | raise => simp [hs] at h
    | ok s2 =>
      rw [hs] at h
      obtain ⟨op0, e1, e2⟩ := xformOpStep_op properties s i item s2 hs
      obtain ⟨new, f1, f2, f3⟩ := ih s2 (i + 1) h
      refine ⟨op0 :: new, ?_, by simp [f2], ?_⟩
      · rw [f1, e1]
        simp
      · intro j tok hj
        cases j with
        | zero =>
          simp only [List.getElem?_cons_zero, Option.some.injEq] at hj
          subst hj
          exact ⟨op0, s, s2, by simp, e2, by simp, hs, e1⟩
        | succ j =>
          simp only [List.getElem?_cons_succ] at hj
          obtain ⟨op, sj, sj1, g1, g2, g3, g4, g5⟩ := f3 j tok hj
          refine ⟨op, sj, sj1, by simpa using g1, g2, ?_, ?_, g5⟩
          · rw [g3, e1]
            simp
          · have : i + (j + 1) = i + 1 + j := by omega
            rw [this]
            exact g4

/-- C21: when `ReconstructXformOpsFromProperties` returns true on a map whose
`xformOpOrder` is a token array `pv`, it has appended one op per token of `pv`, in the
order of the tokens (the op at position `j` is the one appended by the loop body for the
token at position `j`), and that op has `inverted = true` exactly when the token starts
with `!invert!`; on a map without `xformOpOrder` it returns true, the ops and `err` are
as they were, and the table has gained `xformOpOrder` alone. -/
theorem C21_xform_ops_order (table : Table) (properties : PropertyMap)
    (xformOps : List XformOp) (err : Option String) :
    (∀ prop pv x, properties.find "xformOpOrder" = some prop →
      prop.get_attribute.get_value tokenArrayTraits = some pv →
      ReconstructXformOpsFromProperties table properties xformOps err = .ok x →
      prop.get_attribute.variability = .Uniform ∧
      ∃ new, x.xformOps = xformOps ++ new ∧ new.length = pv.length ∧
        ∀ j tok, pv[j]? = some tok → ∃ op sj sj1, new[j]? = some op
          ∧ (op.inverted = true ↔ startsWith tok "!invert!" = true)
          ∧ sj.xformOps = xformOps ++ new.take j
          ∧ xformOpStep properties sj j tok = .ok sj1
          ∧ sj1.xformOps = sj.xformOps ++ [op])
    ∧ (properties.count "xformOpOrder" = false →
      ReconstructXformOpsFromProperties table properties xformOps err
        = .ok ⟨insert "xformOpOrder" table, xformOps, err⟩) := by
  constructor
  · intro prop pv x hf hv h
    unfold ReconstructXformOpsFromProperties at h
    dsimp only at h
    simp only [PropertyMap.count, hf, Option.isSome_some, if_true] at h
    by_cases c1 : prop.is_relationship = true
    · simp [c1, xformError] at h
    · rw [if_neg c1] at h
      simp only [hv] at h
      by_cases c2 : prop.get_attribute.variability ≠ .Uniform
      · simp [c2, xformError] at h
      · rw [if_neg c2] at h
        cases hl : xformOpLoop properties ⟨table, xformOps, err⟩ 0 pv with
        | fail s2 => simp [hl] at h
        | raise => simp [hl] at h
        | ok s2 =>
          simp only [hl, Outcome.ok.injEq] at h
          subst h
          obtain ⟨new, f1, f2, f3⟩ := xformOpLoop_ops properties pv _ s2 0 hl
          refine ⟨by simpa using c2, new, f1, f2, fun j tok hj => ?_⟩
          obtain ⟨op, sj, sj1, g1, g2, g3, g4, g5⟩ := f3 j tok hj
          rw [Nat.zero_add] at g4
          exact ⟨op, sj, sj1, g1, by rw [g2], g3, g4, g5⟩
  · intro h
    unfold ReconstructXformOpsFromProperties
    dsimp only
    rw [h]
    rfl

/-- A string starts with what it was built from. -/
theorem startsWith_append (p t : String) : startsWith (p ++ t) p = true := by
  simp [startsWith, List.isPrefixOf_iff_prefix]

/-- The step for the token `xformOp:translate`, when it ends `ok`, appends a Translate
op that is not inverted and has no suffix. -/
theorem xformOpStep_translate (properties : PropertyMap) (s s1 : XformState) (i : Nat)
    (h : xformOpStep properties s i "xformOp:translate" = .ok s1) :
    ∃ v, s1.xformOps = s.xformOps ++ [⟨.Translate, false, "", v⟩] := by
  have a1 : startsWith "xformOp:translate" "!resetXformStack!" = false := by decide
  have a2 : startsWith "xformOp:translate" "!invert!" = false := by decide
  have a3 : SplitXformOpToken "xformOp:translate" "xformOp:transform" = none := by decide
  have a4 : SplitXformOpToken "xformOp:translate" "xformOp:translate" = some "" := by decide
  unfold xformOpStep at h
  rw [a1] at h
  simp only [Bool.false_eq_true, if_false, a2] at h
  cases hf : properties.find "xformOp:translate" with
  | none =>
    rw [hf] at h
    simp [xformError] at h
  | some p =>
    rw [hf] at h
    dsimp only at h
    by_cases c4 : p.is_connection = true
    · rw [if_pos c4] at h
      simp [xformError] at h
    · rw [if_neg c4, a3] at h
      dsimp only at h
      rw [a4] at h
      dsimp only at h
      cases hv : readOpValue p.get_attribute p.get_attribute.get_double3
          p.get_attribute.get_float3 with
      | none =>
        rw [hv] at h
        simp [finishOp, xformError] at h
      | some var =>
        rw [hv] at h
        simp only [finishOp, Outcome.ok.injEq] at h
        subst h
        exact ⟨var, rfl⟩

/-- C22, as stated, fails on its own map: the step for `!invert!xformOp:rotateY` reads
the suffix of the `rotateX` test, which is empty, so the call does not return; and the
two ops appended before that are ResetXformStack and a Translate op with
`inverted = false`: by the order of the tokens the inverted op is the third, not the
second. -/
theorem C22_xform_order_example_counterexample :
    ReconstructXformOpsFromProperties ∅ (sampleXformOrder "xformOp:rotateY") [] none
      = .raise
    ∧ xformOpLoop (sampleXformOrder "xformOp:rotateY") ⟨∅, [], none⟩ 0
        ["!resetXformStack!", "xformOp:translate"]
      = .ok ⟨insert "xformOp:translate" ∅,
          [⟨.ResetXformStack, false, "", .none⟩,
           ⟨.Translate, false, "", .value (.double3 1 2 3)⟩], none⟩ := by
  exact ⟨rfl, rfl⟩

/-- C22, amended: on a property map whose `xformOpOrder` is the token array
`["!resetXformStack!", "xformOp:translate", "!invert!" + T]`, whenever
`ReconstructXformOpsFromProperties` returns true from an empty vector it has produced
exactly three ops in that order: ResetXformStack with no value, then the Translate op
with `inverted = false`, then the op of the third token with `inverted = true`. -/
theorem C22_xform_order_example (table : Table) (properties : PropertyMap)
    (err : Option String) (T : String) (prop : Property) (x : XformState)
    (hf : properties.find "xformOpOrder" = some prop)
    (hv : prop.get_attribute.get_value tokenArrayTraits
      = some ["!resetXformStack!", "xformOp:translate", "!invert!" ++ T])
    (h : ReconstructXformOpsFromProperties table properties [] err = .ok x) :
    ∃ v op, x.xformOps
        = [⟨.ResetXformStack, false, "", .none⟩, ⟨.Translate, false, "", v⟩, op]
      ∧ op.inverted = true := by
  unfold ReconstructXformOpsFromProperties at h
  dsimp only at h
  simp only [PropertyMap.count, hf, Option.isSome_some, if_true] at h
  by_cases c1 : prop.is_relationship = true
  · simp [c1, xformError] at h
  · rw [if_neg c1] at h
    simp only [hv] at h
    by_cases c2 : prop.get_attribute.variability ≠ .Uniform
    · simp [c2, xformError] at h
    · rw [if_neg c2] at h
      cases hl : xformOpLoop properties ⟨table, [], err⟩ 0
          ["!resetXformStack!", "xformOp:translate", "!invert!" ++ T] with
      | fail s2 => simp [hl] at h
      | raise => simp [hl] at h
      | ok s2 =>
        simp only [hl, Outcome.ok.injEq] at h
        subst h
        have r1 : xformOpStep properties ⟨table, [], err⟩ 0 "!resetXformStack!"
            = .ok ⟨table, [⟨.ResetXformStack, false, "", .none⟩], err⟩ := by
          have a1 : startsWith "!resetXformStack!" "!resetXformStack!" = true := by decide
          unfold xformOpStep
          rw [if_pos a1]
          simp
        simp only [xformOpLoop, r1] at hl
        cases h2 : xformOpStep properties
            ⟨table, [⟨.ResetXformStack, false, "", .none⟩], err⟩ (0 + 1)
            "xformOp:translate" with
        | fail s3 => simp [h2] at hl
        | raise => simp [h2] at hl
        | ok s3 =>
          simp only [h2] at hl
          obtain ⟨v, e2⟩ := xformOpStep_translate properties _ s3 _ h2
          cases h3 : xformOpStep properties s3 (0 + 1 + 1) ("!invert!" ++ T) with
          | fail s4 => simp [h3] at hl
          | raise => simp [h3] at hl
          | ok s4 =>
            simp only [h3, Outcome.ok.injEq] at hl
            subst hl
            obtain ⟨op, e3, e4⟩ := xformOpStep_op properties s3 _ _ s4 h3
            refine ⟨v, op, ?_, ?_⟩
            · rw [e3, e2]
              rfl
            · rw [e4]
              exact startsWith_append _ _

/-- C22 (amended) at the sample map whose third token is `!invert!xformOp:rotateX`: the
call returns true and the three ops are ResetXformStack, Translate and an inverted
op. -/
theorem C22_xform_order_example_witness :
    (∃ x, ReconstructXformOpsFromProperties ∅ (sampleXformOrder "xformOp:rotateX") [] none
        = .ok x
      ∧ x.xformOps = [⟨.ResetXformStack, false, "", .none⟩,
          ⟨.Translate, false, "", .value (.double3 1 2 3)⟩,
          ⟨.RotateX, true, "", .value (.double 90)⟩])
    ∧ ∃ v op, ([⟨.ResetXformStack, false, "", .none⟩,
          ⟨.Translate, false, "", .value (.double3 1 2 3)⟩,
          ⟨.RotateX, true, "", .value (.double 90)⟩] : List XformOp)
        = [⟨.ResetXformStack, false, "", .none⟩, ⟨.Translate, false, "", v⟩, op]
      ∧ op.inverted = true :=
  ⟨⟨_, rfl, rfl⟩,
    C22_xform_order_example ∅ (sampleXformOrder "xformOp:rotateX") none "xformOp:rotateX"
      (Property.ofScalar "token[]" .Uniform
        (.tokenArray ["!resetXformStack!", "xformOp:translate",
          "!invert!" ++ "xformOp:rotateX"]))
      ⟨insert "xformOpOrder" (insert "xformOp:rotateX" (insert "xformOp:translate" ∅)),
        [⟨.ResetXformStack, false, "", .none⟩,
          ⟨.Translate, false, "", .value (.double3 1 2 3)⟩,
          ⟨.RotateX, true, "", .value (.double 90)⟩], none⟩
      rfl rfl rfl⟩

/-- C21 at the sample map whose order is `["!resetXformStack!", "xformOp:translate",
"!invert!xformOp:rotateX"]`: the call returns true with three ops, and the op at
position 2 is inverted. -/
theorem C21_xform_ops_order_witness :
    ∃ new : List XformOp, ([⟨.ResetXformStack, false, "", .none⟩,
          ⟨.Translate, false, "", .value (.double3 1 2 3)⟩,
          ⟨.RotateX, true, "", .value (.double 90)⟩] : List XformOp) = [] ++ new
      ∧ new.length = 3 :=
  let h := (C21_xform_ops_order ∅ (sampleXformOrder "xformOp:rotateX") [] none).1
    (Property.ofScalar "token[]" .Uniform
      (.tokenArray ["!resetXformStack!", "xformOp:translate",
        "!invert!" ++ "xformOp:rotateX"]))
    ["!resetXformStack!", "xformOp:translate", "!invert!" ++ "xformOp:rotateX"]
    ⟨insert "xformOpOrder" (insert "xformOp:rotateX" (insert "xformOp:translate" ∅)),
      [⟨.ResetXformStack, false, "", .none⟩,
        ⟨.Translate, false, "", .value (.double3 1 2 3)⟩,
        ⟨.RotateX, true, "", .value (.double 90)⟩], none⟩
    rfl rfl rfl
  match h with
  | ⟨_, new, h1, h2, _⟩ => ⟨new, h1, h2⟩

/-- Two starts of one string: one of them starts with the other. -/
theorem startsWith_disjoint (tok pre q : String) (h : startsWith tok pre = true)
    (h1 : startsWith pre q = false) (h2 : startsWith q pre = false) :
    startsWith tok q = false := by
  by_contra hc
  have hq : startsWith tok q = true := by simpa using hc
  simp only [startsWith, List.isPrefixOf_iff_prefix] at h hq
  rcases List.prefix_or_prefix_of_prefix h hq with h3 | h3
  · have : startsWith q pre = true := by simpa [startsWith, List.isPrefixOf_iff_prefix] using h3
    rw [h2] at this
    exact Bool.noConfusion this
  · have : startsWith pre q = true := by simpa [startsWith, List.isPrefixOf_iff_prefix] using h3
    rw [h1] at this
    exact Bool.noConfusion this

/-- A token that `SplitXformOpToken` accepts for a prefix starts with that prefix. -/
theorem splitXformOpToken_startsWith (s pre sfx : String)
    (h : SplitXformOpToken s pre = some sfx) : startsWith s pre = true := by
  by_contra hc
  simp [SplitXformOpToken, hc] at h

/-- A token that does not start with a prefix is refused for it. -/
theorem splitXformOpToken_none (s pre : String) (h : startsWith s pre = false) :
    SplitXformOpToken s pre = none := by
  simp [SplitXformOpToken, h]

/-- Every token that the `rotateY` branch takes stops the call: the branch reads the
suffix of the `rotateX` test, which has failed. -/
theorem xformOpStep_rotateY (properties : PropertyMap) (s : XformState) (i : Nat)
    (item : String) (p : Property) (sfx : String)
    (hr : startsWith item "!resetXformStack!" = false)
    (hf : properties.find (xformOpName item) = some p)
    (hc : p.is_connection = false)
    (hy : SplitXformOpToken (xformOpName item) "xformOp:rotateY" = some sfx) :
    xformOpStep properties s i item = .raise := by
  have hs := splitXformOpToken_startsWith _ _ _ hy
  have b1 := splitXformOpToken_none _ _
    (startsWith_disjoint _ _ "xformOp:transform" hs (by decide) (by decide))
  have b2 := splitXformOpToken_none _ _
    (startsWith_disjoint _ _ "xformOp:translate" hs (by decide) (by decide))
  have b3 := splitXformOpToken_none _ _
    (startsWith_disjoint _ _ "xformOp:scale" hs (by decide) (by decide))
  have b4 := splitXformOpToken_none _ _
    (startsWith_disjoint _ _ "xformOp:rotateX" hs (by decide) (by decide))
  unfold xformOpStep
  rw [hr]
  unfold xformOpName at hf hy b1 b2 b3 b4
  simp only [Bool.false_eq_true, if_false]
  rw [hf]
  simp only [hc, Bool.false_eq_true, if_false, b1, b2, b3, b4, hy]

/-- Every token that the `rotateZ` branch takes and that ends `ok` has appended an op of
type RotateY, with the suffix of the token. -/
theorem xformOpStep_rotateZ (properties : PropertyMap) (s s1 : XformState) (i : Nat)
    (item : String) (sfx : String)
    (hr : startsWith item "!resetXformStack!" = false)
    (hz : SplitXformOpToken (xformOpName item) "xformOp:rotateZ" = some sfx)
    (h : xformOpStep properties s i item = .ok s1) :
    ∃ v, s1.xformOps
      = s.xformOps ++ [⟨.RotateY, startsWith item "!invert!", sfx, v⟩] := by
  have hs := splitXformOpToken_startsWith _ _ _ hz
  have b1 := splitXformOpToken_none _ _
    (startsWith_disjoint _ _ "xformOp:transform" hs (by decide) (by decide))
  have b2 := splitXformOpToken_none _ _
    (startsWith_disjoint _ _ "xformOp:translate" hs (by decide) (by decide))
  have b3 := splitXformOpToken_none _ _
    (startsWith_disjoint _ _ "xformOp:scale" hs (by decide) (by decide))
  have b4 := splitXformOpToken_none _ _
    (startsWith_disjoint _ _ "xformOp:rotateX" hs (by decide) (by decide))
  have b5 := splitXformOpToken_none _ _
    (startsWith_disjoint _ _ "xformOp:rotateY" hs (by decide) (by decide))
  unfold xformOpStep at h
  rw [hr] at h
  unfold xformOpName at hz b1 b2 b3 b4 b5
  simp only [Bool.false_eq_true, if_false] at h
  cases hf : properties.find (if startsWith item "!invert!" = true
      then removePrefix item "!invert!" else item) with
  | none =>
    rw [hf] at h
    simp [xformError] at h
  | some p =>
    rw [hf] at h
    dsimp only at h
    by_cases c4 : p.is_connection = true
    · rw [if_pos c4] at h
      simp [xformError] at h
    · rw [if_neg c4] at h
      simp only [b1, b2, b3, b4, b5, hz] at h
      cases hv : readOpValue p.get_attribute p.get_attribute.get_double
          p.get_attribute.get_float with
      | none =>
        rw [hv] at h
        simp [finishOp, xformError] at h
      | some var =>
        rw [hv] at h
        simp only [finishOp, Outcome.ok.injEq] at h
        subst h
        exact ⟨var, rfl⟩

/-- C24 (the code departs from it): the `rotateY` branch assigns the suffix of the
`rotateX` test, which has failed, so the call does not return: on the map with
`double xformOp:rotateY = 90` and `xformOpOrder = ["xformOp:rotateY"]`, on the same with
the suffix `:pivot`, and for every token that the `rotateY` branch takes.  The twelve
other kinds complete with the suffix matched in their own branch, the empty string for
`xformOp:K` and the text after `xformOp:K:` otherwise (listed as op type, `inverted`,
suffix). -/
theorem C24_rotateY_suffix :
    ReconstructXformOpsFromProperties ∅
        (sampleOp "xformOp:rotateY" "xformOp:rotateY" "double" (.double 90)) [] none
      = .raise
    ∧ ReconstructXformOpsFromProperties ∅
        (sampleOp "xformOp:rotateY:pivot" "xformOp:rotateY:pivot" "double" (.double 90))
        [] none
      = .raise
    ∧ (∀ (properties : PropertyMap) (s : XformState) (i : Nat) (item : String)
        (p : Property) (sfx : String),
        startsWith item "!resetXformStack!" = false →
        properties.find (xformOpName item) = some p →
        p.is_connection = false →
        SplitXformOpToken (xformOpName item) "xformOp:rotateY" = some sfx →
        xformOpStep properties s i item = .raise)
    ∧ opsOf (sampleOp "xformOp:transform" "xformOp:transform" "matrix4d" (.matrix4d [1, 0, 0, 0, 0, 1, 0, 0, 0, 0, 1, 0, 0, 0, 0, 1]))
        = some [(.Transform, false, "")]
    ∧ opsOf (sampleOp "xformOp:transform:pivot" "xformOp:transform:pivot" "matrix4d" (.matrix4d [1, 0, 0, 0, 0, 1, 0, 0, 0, 0, 1, 0, 0, 0, 0, 1]))
        = some [(.Transform, false, "pivot")]
    ∧ opsOf (sampleOp "!invert!xformOp:transform:blender:pivot" "xformOp:transform:blender:pivot" "matrix4d" (.matrix4d [1, 0, 0, 0, 0, 1, 0, 0, 0, 0, 1, 0, 0, 0, 0, 1]))
        = some [(.Transform, true, "blender:pivot")]
    ∧ opsOf (sampleOp "xformOp:translate" "xformOp:translate" "double3" (.double3 1 2 3))
        = some [(.Translate, false, "")]
    ∧ opsOf (sampleOp "xformOp:translate:pivot" "xformOp:translate:pivot" "double3" (.double3 1 2 3))
        = some [(.Translate, false, "pivot")]
    ∧ opsOf (sampleOp "!invert!xformOp:translate:blender:pivot" "xformOp:translate:blender:pivot" "double3" (.double3 1 2 3))
        = some [(.Translate, true, "blender:pivot")]
    ∧ opsOf (sampleOp "xformOp:scale" "xformOp:scale" "float3" (.float3 1 2 3))
        = some [(.Scale, false, "")]
    ∧ opsOf (sampleOp "xformOp:scale:pivot" "xformOp:scale:pivot" "float3" (.float3 1 2 3))
        = some [(.Scale, false, "pivot")]
    ∧ opsOf (sampleOp "!invert!xformOp:scale:blender:pivot" "xformOp:scale:blender:pivot" "float3" (.float3 1 2 3))
        = some [(.Scale, true, "blender:pivot")]
    ∧ opsOf (sampleOp "xformOp:rotateX" "xformOp:rotateX" "double" (.double 90))
        = some [(.RotateX, false, "")]
    ∧ opsOf (sampleOp "xformOp:rotateX:pivot" "xformOp:rotateX:pivot" "double" (.double 90))
        = some [(.RotateX, false, "pivot")]
    ∧ opsOf (sampleOp "!invert!xformOp:rotateX:blender:pivot" "xformOp:rotateX:blender:pivot" "double" (.double 90))
        = some [(.RotateX, true, "blender:pivot")]
    ∧ opsOf (sampleOp "xformOp:rotateZ" "xformOp:rotateZ" "double" (.double 90))
        = some [(.RotateY, false, "")]
    ∧ opsOf (sampleOp "xformOp:rotateZ:pivot" "xformOp:rotateZ:pivot" "double" (.double 90))
        = some [(.RotateY, false, "pivot")]
    ∧ opsOf (sampleOp "!invert!xformOp:rotateZ:blender:pivot" "xformOp:rotateZ:blender:pivot" "double" (.double 90))
        = some [(.RotateY, true, "blender:pivot")]
    ∧ opsOf (sampleOp "xformOp:rotateXYZ" "xformOp:rotateXYZ" "double3" (.double3 1 2 3))
        = some [(.RotateXYZ, false, "")]
    ∧ opsOf (sampleOp "xformOp:rotateXYZ:pivot" "xformOp:rotateXYZ:pivot" "double3" (.double3 1 2 3))
        = some [(.RotateXYZ, false, "pivot")]
    ∧ opsOf (sampleOp "!invert!xformOp:rotateXYZ:blender:pivot" "xformOp:rotateXYZ:blender:pivot" "double3" (.double3 1 2 3))
        = some [(.RotateXYZ, true, "blender:pivot")]
    ∧ opsOf (sampleOp "xformOp:rotateXZY" "xformOp:rotateXZY" "double3" (.double3 1 2 3))
        = some [(.RotateXZY, false, "")]
    ∧ opsOf (sampleOp "xformOp:rotateXZY:pivot" "xformOp:rotateXZY:pivot" "double3" (.double3 1 2 3))
        = some [(.RotateXZY, false, "pivot")]
    ∧ opsOf (sampleOp "!invert!xformOp:rotateXZY:blender:pivot" "xformOp:rotateXZY:blender:pivot" "double3" (.double3 1 2 3))
        = some [(.RotateXZY, true, "blender:pivot")]
    ∧ opsOf (sampleOp "xformOp:rotateYXZ" "xformOp:rotateYXZ" "float3" (.float3 1 2 3))
        = some [(.RotateYXZ, false, "")]
    ∧ opsOf (sampleOp "xformOp:rotateYXZ:pivot" "xformOp:rotateYXZ:pivot" "float3" (.float3 1 2 3))
        = some [(.RotateYXZ, false, "pivot")]
    ∧ opsOf (sampleOp "!invert!xformOp:rotateYXZ:blender:pivot" "xformOp:rotateYXZ:blender:pivot" "float3" (.float3 1 2 3))
        = some [(.RotateYXZ, true, "blender:pivot")]
    ∧ opsOf (sampleOp "xformOp:rotateYZX" "xformOp:rotateYZX" "double3" (.double3 1 2 3))
        = some [(.RotateYZX, false, "")]
    ∧ opsOf (sampleOp "xformOp:rotateYZX:pivot" "xformOp:rotateYZX:pivot" "double3" (.double3 1 2 3))
        = some [(.RotateYZX, false, "pivot")]
    ∧ opsOf (sampleOp "!invert!xformOp:rotateYZX:blender:pivot" "xformOp:rotateYZX:blender:pivot" "double3" (.double3 1 2 3))
        = some [(.RotateYZX, true, "blender:pivot")]
    ∧ opsOf (sampleOp "xformOp:rotateZXY" "xformOp:rotateZXY" "double3" (.double3 1 2 3))
        = some [(.RotateZXY, false, "")]
    ∧ opsOf (sampleOp "xformOp:rotateZXY:pivot" "xformOp:rotateZXY:pivot" "double3" (.double3 1 2 3))
        = some [(.RotateZXY, false, "pivot")]
    ∧ opsOf (sampleOp "!invert!xformOp:rotateZXY:blender:pivot" "xformOp:rotateZXY:blender:pivot" "double3" (.double3 1 2 3))
        = some [(.RotateZXY, true, "blender:pivot")]
    ∧ opsOf (sampleOp "xformOp:rotateZYX" "xformOp:rotateZYX" "float3" (.float3 1 2 3))
        = some [(.RotateZYX, false, "")]
    ∧ opsOf (sampleOp "xformOp:rotateZYX:pivot" "xformOp:rotateZYX:pivot" "float3" (.float3 1 2 3))
        = some [(.RotateZYX, false, "pivot")]
    ∧ opsOf (sampleOp "!invert!xformOp:rotateZYX:blender:pivot" "xformOp:rotateZYX:blender:pivot" "float3" (.float3 1 2 3))
        = some [(.RotateZYX, true, "blender:pivot")]
    ∧ opsOf (sampleOp "xformOp:orient" "xformOp:orient" "quatf" (.quatf 0 0 0 1))
        = some [(.Orient, false, "")]
    ∧ opsOf (sampleOp "xformOp:orient:pivot" "xformOp:orient:pivot" "quatf" (.quatf 0 0 0 1))
        = some [(.Orient, false, "pivot")]
    ∧ opsOf (sampleOp "!invert!xformOp:orient:blender:pivot" "xformOp:orient:blender:pivot" "quatf" (.quatf 0 0 0 1))
        = some [(.Orient, true, "blender:pivot")] := by
  refine ⟨rfl, rfl, ?_, ?_, ?_, ?_, ?_, ?_, ?_, ?_, ?_, ?_, ?_, ?_, ?_, ?_, ?_, ?_, ?_, ?_, ?_, ?_, ?_, ?_, ?_, ?_, ?_, ?_, ?_, ?_, ?_, ?_, ?_, ?_, ?_, ?_, ?_, ?_, ?_⟩
  · intro properties s i item p sfx hr hf hc hy
    exact xformOpStep_rotateY properties s i item p sfx hr hf hc hy
  all_goals rfl

/-- C34 (the code departs from it): the `rotateZ` branch sets the op type RotateY, so
`double xformOp:rotateZ = 90` with `xformOpOrder = ["xformOp:rotateZ"]` yields one op of
type RotateY, as does every token that the `rotateZ` branch takes; and a token
`xformOp:rotateY` appends no op, because the call does not return.  The eleven other
kinds yield the op type of their own kind, with or without a suffix and an `!invert!`
start; `xformOp:rotateXYZ` yields RotateXYZ. -/
theorem C34_rotateZ_op_type :
    ReconstructXformOpsFromProperties ∅
        (sampleOp "xformOp:rotateZ" "xformOp:rotateZ" "double" (.double 90)) [] none
      = .ok ⟨insert "xformOpOrder" (insert "xformOp:rotateZ" ∅),
          [⟨.RotateY, false, "", .value (.double 90)⟩], none⟩
    ∧ (∀ (properties : PropertyMap) (s s1 : XformState) (i : Nat) (item sfx : String),
        startsWith item "!resetXformStack!" = false →
        SplitXformOpToken (xformOpName item) "xformOp:rotateZ" = some sfx →
        xformOpStep properties s i item = .ok s1 →
        ∃ v, s1.xformOps
          = s.xformOps ++ [⟨.RotateY, startsWith item "!invert!", sfx, v⟩])
    ∧ opsOf (sampleOp "xformOp:rotateY" "xformOp:rotateY" "double" (.double 90)) = none
    ∧ (opsOf (sampleOp "xformOp:transform" "xformOp:transform" "matrix4d" (.matrix4d [1, 0, 0, 0, 0, 1, 0, 0, 0, 0, 1, 0, 0, 0, 0, 1]))).map
        (List.map Prod.fst) = some [.Transform]
    ∧ (opsOf (sampleOp "xformOp:transform:pivot" "xformOp:transform:pivot" "matrix4d" (.matrix4d [1, 0, 0, 0, 0, 1, 0, 0, 0, 0, 1, 0, 0, 0, 0, 1]))).map
        (List.map Prod.fst) = some [.Transform]
    ∧ (opsOf (sampleOp "!invert!xformOp:transform:blender:pivot" "xformOp:transform:blender:pivot" "matrix4d" (.matrix4d [1, 0, 0, 0, 0, 1, 0, 0, 0, 0, 1, 0, 0, 0, 0, 1]))).map
        (List.map Prod.fst) = some [.Transform]
    ∧ (opsOf (sampleOp "xformOp:translate" "xformOp:translate" "double3" (.double3 1 2 3))).map
        (List.map Prod.fst) = some [.Translate]
    ∧ (opsOf (sampleOp "xformOp:translate:pivot" "xformOp:translate:pivot" "double3" (.double3 1 2 3))).map
        (List.map Prod.fst) = some [.Translate]
    ∧ (opsOf (sampleOp "!invert!xformOp:translate:blender:pivot" "xformOp:translate:blender:pivot" "double3" (.double3 1 2 3))).map
        (List.map Prod.fst) = some [.Translate]
    ∧ (opsOf (sampleOp "xformOp:scale" "xformOp:scale" "float3" (.float3 1 2 3))).map
        (List.map Prod.fst) = some [.Scale]
    ∧ (opsOf (sampleOp "xformOp:scale:pivot" "xformOp:scale:pivot" "float3" (.float3 1 2 3))).map
        (List.map Prod.fst) = some [.Scale]
    ∧ (opsOf (sampleOp "!invert!xformOp:scale:blender:pivot" "xformOp:scale:blender:pivot" "float3" (.float3 1 2 3))).map
        (List.map Prod.fst) = some [.Scale]
    ∧ (opsOf (sampleOp "xformOp:rotateX" "xformOp:rotateX" "double" (.double 90))).map
        (List.map Prod.fst) = some [.RotateX]
    ∧ (opsOf (sampleOp "xformOp:rotateX:pivot" "xformOp:rotateX:pivot" "double" (.double 90))).map
        (List.map Prod.fst) = some [.RotateX]
    ∧ (opsOf (sampleOp "!invert!xformOp:rotateX:blender:pivot" "xformOp:rotateX:blender:pivot" "double" (.double 90))).map
        (List.map Prod.fst) = some [.RotateX]
    ∧ (opsOf (sampleOp "xformOp:rotateXYZ" "xformOp:rotateXYZ" "double3" (.double3 1 2 3))).map
        (List.map Prod.fst) = some [.RotateXYZ]
    ∧ (opsOf (sampleOp "xformOp:rotateXYZ:pivot" "xformOp:rotateXYZ:pivot" "double3" (.double3 1 2 3))).map
        (List.map Prod.fst) = some [.RotateXYZ]
    ∧ (opsOf (sampleOp "!invert!xformOp:rotateXYZ:blender:pivot" "xformOp:rotateXYZ:blender:pivot" "double3" (.double3 1 2 3))).map
        (List.map Prod.fst) = some [.RotateXYZ]
    ∧ (opsOf (sampleOp "xformOp:rotateXZY" "xformOp:rotateXZY" "double3" (.double3 1 2 3))).map
        (List.map Prod.fst) = some [.RotateXZY]
    ∧ (opsOf (sampleOp "xformOp:rotateXZY:pivot" "xformOp:rotateXZY:pivot" "double3" (.double3 1 2 3))).map
        (List.map Prod.fst) = some [.RotateXZY]
    ∧ (opsOf (sampleOp "!invert!xformOp:rotateXZY:blender:pivot" "xformOp:rotateXZY:blender:pivot" "double3" (.double3 1 2 3))).map
        (List.map Prod.fst) = some [.RotateXZY]
    ∧ (opsOf (sampleOp "xformOp:rotateYXZ" "xformOp:rotateYXZ" "float3" (.float3 1 2 3))).map
        (List.map Prod.fst) = some [.RotateYXZ]
    ∧ (opsOf (sampleOp "xformOp:rotateYXZ:pivot" "xformOp:rotateYXZ:pivot" "float3" (.float3 1 2 3))).map
        (List.map Prod.fst) = some [.RotateYXZ]
    ∧ (opsOf (sampleOp "!invert!xformOp:rotateYXZ:blender:pivot" "xformOp:rotateYXZ:blender:pivot" "float3" (.float3 1 2 3))).map
        (List.map Prod.fst) = some [.RotateYXZ]
    ∧ (opsOf (sampleOp "xformOp:rotateYZX" "xformOp:rotateYZX" "double3" (.double3 1 2 3))).map
        (List.map Prod.fst) = some [.RotateYZX]
    ∧ (opsOf (sampleOp "xformOp:rotateYZX:pivot" "xformOp:rotateYZX:pivot" "double3" (.double3 1 2 3))).map
        (List.map Prod.fst) = some [.RotateYZX]
    ∧ (opsOf (sampleOp "!invert!xformOp:rotateYZX:blender:pivot" "xformOp:rotateYZX:blender:pivot" "double3" (.double3 1 2 3))).map
        (List.map Prod.fst) = some [.RotateYZX]
    ∧ (opsOf (sampleOp "xformOp:rotateZXY" "xformOp:rotateZXY" "double3" (.double3 1 2 3))).map
        (List.map Prod.fst) = some [.RotateZXY]
    ∧ (opsOf (sampleOp "xformOp:rotateZXY:pivot" "xformOp:rotateZXY:pivot" "double3" (.double3 1 2 3))).map
        (List.map Prod.fst) = some [.RotateZXY]
    ∧ (opsOf (sampleOp "!invert!xformOp:rotateZXY:blender:pivot" "xformOp:rotateZXY:blender:pivot" "double3" (.double3 1 2 3))).map
        (List.map Prod.fst) = some [.RotateZXY]
    ∧ (opsOf (sampleOp "xformOp:rotateZYX" "xformOp:rotateZYX" "float3" (.float3 1 2 3))).map
        (List.map Prod.fst) = some [.RotateZYX]
    ∧ (opsOf (sampleOp "xformOp:rotateZYX:pivot" "xformOp:rotateZYX:pivot" "float3" (.float3 1 2 3))).map
        (List.map Prod.fst) = some [.RotateZYX]
    ∧ (opsOf (sampleOp "!invert!xformOp:rotateZYX:blender:pivot" "xformOp:rotateZYX:blender:pivot" "float3" (.float3 1 2 3))).map
        (List.map Prod.fst) = some [.RotateZYX]
    ∧ (opsOf (sampleOp "xformOp:orient" "xformOp:orient" "quatf" (.quatf 0 0 0 1))).map
        (List.map Prod.fst) = some [.Orient]
    ∧ (opsOf (sampleOp "xformOp:orient:pivot" "xformOp:orient:pivot" "quatf" (.quatf 0 0 0 1))).map
        (List.map Prod.fst) = some [.Orient]
    ∧ (opsOf (sampleOp "!invert!xformOp:orient:blender:pivot" "xformOp:orient:blender:pivot" "quatf" (.quatf 0 0 0 1))).map
        (List.map Prod.fst) = some [.Orient] := by
  refine ⟨rfl, ?_, rfl, ?_, ?_, ?_, ?_, ?_, ?_, ?_, ?_, ?_, ?_, ?_, ?_, ?_, ?_, ?_, ?_, ?_, ?_, ?_, ?_, ?_, ?_, ?_, ?_, ?_, ?_, ?_, ?_, ?_, ?_, ?_, ?_, ?_⟩
  · intro properties s s1 i item sfx hr hz h
    exact xformOpStep_rotateZ properties s s1 i item sfx hr hz h
  all_goals rfl

/-- The token loop over a list in two parts. -/
theorem xformOpLoop_append (properties : PropertyMap) (a b : List String)
    (s : XformState) (i : Nat) :
    xformOpLoop properties s i (a ++ b)
      = match xformOpLoop properties s i a with
        | .ok s1 => xformOpLoop properties s1 (i + a.length) b
        | .fail s1 => .fail s1
        | .raise => .raise := by
  induction a generalizing s i with
  | nil => simp [xformOpLoop]
  | cons item rest ih =>
    rw [List.cons_append]
    rw [xformOpLoop, xformOpLoop]
    cases hs : xformOpStep properties s i item with
    | fail s2 => rfl
    | raise => rfl
    | ok s2 =>
      dsimp only
      rw [ih]
      have : i + 1 + rest.length = i + (rest.length + 1) := by omega
      simp only [List.length_cons, this]

/-- What the loop body does with a token that starts with `!resetXformStack!`. -/
theorem xformOpStep_reset (properties : PropertyMap) (s : XformState) (i : Nat)
    (tok : String) (h : startsWith tok "!resetXformStack!" = true) :
    xformOpStep properties s i tok =
      if tok ≠ "!resetXformStack!" then
        xformError s
          "`!resetXformStack!` must be defined solely(not to be a prefix to \"xformOp:*\")"
      else if i ≠ 0 then
        xformError s
          "`!resetXformStack!` must appear at the first element of xformOpOrder list."
      else
        .ok { s with xformOps := s.xformOps ++ [⟨.ResetXformStack, false, "", .none⟩] } := by
  unfold xformOpStep
  rw [if_pos h]

/-- C23: at index 0 the token `!resetXformStack!` appends an op of type
ResetXformStack, whatever the property map holds, and leaves the table and `err` as they
were; at an index greater than 0 the loop body returns false with the error "must appear
at the first element", and for a longer token that starts with `!resetXformStack!` it
returns false with the error "must be defined solely".  For the whole function, on a map
whose `xformOpOrder` is a uniform token array `pre ++ tok :: rest` with such a misplaced
or longer token `tok`: it never returns true, and once the tokens of `pre` are accepted
it returns false with one of these two errors. -/
theorem C23_reset_xform_stack (properties : PropertyMap) (s : XformState) :
    xformOpStep properties s 0 "!resetXformStack!"
      = .ok ⟨s.table, s.xformOps ++ [⟨.ResetXformStack, false, "", .none⟩], s.err⟩
    ∧ (∀ i, i ≠ 0 → xformOpStep properties s i "!resetXformStack!"
      = .fail ⟨s.table, s.xformOps, PushError s.err
          "`!resetXformStack!` must appear at the first element of xformOpOrder list."⟩)
    ∧ (∀ i tok, startsWith tok "!resetXformStack!" = true → tok ≠ "!resetXformStack!" →
      xformOpStep properties s i tok
        = .fail ⟨s.table, s.xformOps, PushError s.err
          "`!resetXformStack!` must be defined solely(not to be a prefix to \"xformOp:*\")"⟩)
    ∧ (∀ prop pre tok rest,
      properties.find "xformOpOrder" = some prop →
      prop.is_relationship = false →
      prop.get_attribute.get_value tokenArrayTraits = some (pre ++ tok :: rest) →
      prop.get_attribute.variability = .Uniform →
      startsWith tok "!resetXformStack!" = true →
      (tok ≠ "!resetXformStack!" ∨ pre ≠ []) →
      (∀ x, ReconstructXformOpsFromProperties s.table properties s.xformOps s.err ≠ .ok x)
      ∧ ∀ s1, xformOpLoop properties s 0 pre = .ok s1 →
        ReconstructXformOpsFromProperties s.table properties s.xformOps s.err
          = .fail ⟨s1.table, s1.xformOps, PushError s1.err
              (if tok ≠ "!resetXformStack!" then
                "`!resetXformStack!` must be defined solely(not to be a prefix to \"xformOp:*\")"
              else
                "`!resetXformStack!` must appear at the first element of xformOpOrder list.")⟩) := by
  refine ⟨?_, ?_, ?_, ?_⟩
  · rw [xformOpStep_reset properties s 0 _ (by decide)]
    rfl
  · intro i hi
    rw [xformOpStep_reset properties s i _ (by decide)]
    simp [hi, xformError]
  · intro i tok h1 h2
    rw [xformOpStep_reset properties s i tok h1, if_pos h2]
    rfl
  · intro prop pre tok rest hf hrel hv hu h1 h2
    have hstep : ∀ s1 : XformState, xformOpStep properties s1 (0 + pre.length) tok
        = .fail ⟨s1.table, s1.xformOps, PushError s1.err
            (if tok ≠ "!resetXformStack!" then
              "`!resetXformStack!` must be defined solely(not to be a prefix to \"xformOp:*\")"
            else
              "`!resetXformStack!` must appear at the first element of xformOpOrder list.")⟩ := by
      intro s1
      rw [xformOpStep_reset properties s1 _ tok h1]
      by_cases c : tok ≠ "!resetXformStack!"
      · rw [if_pos c, if_pos c]
        rfl
      · rw [if_neg c, if_neg c]
        have hp : pre ≠ [] := by
          rcases h2 with h2 | h2
          · exact absurd h2 c
          · exact h2
        have hl : 0 + pre.length ≠ 0 := by
          cases pre with
          | nil => exact absurd rfl hp
          | cons a l => simp
        rw [if_pos hl]
        rfl
    have hrun : ReconstructXformOpsFromProperties s.table properties s.xformOps s.err
        = match xformOpLoop properties s 0 (pre ++ tok :: rest) with
          | .ok s1 => .ok { s1 with table := insert "xformOpOrder" s1.table }
          | .fail s1 => .fail s1
          | .raise => .raise := by
      unfold ReconstructXformOpsFromProperties
      simp only [PropertyMap.count, hf, hrel, hv, hu, Option.isSome_some, if_true,
        Bool.false_eq_true, if_false, ne_eq, not_true_eq_false]
    rw [hrun, xformOpLoop_append]
    constructor
    · intro x
      cases hl : xformOpLoop properties s 0 pre with
      | ok s1 =>
        dsimp only
        rw [xformOpLoop, hstep]
        simp
      | fail s1 => simp
      | raise => simp
    · intro s1 hl
      rw [hl]
      dsimp only
      rw [xformOpLoop, hstep]

/-- C23 at the sample map whose order is `["xformOp:translate", "!resetXformStack!"]`:
the translate token is accepted and the call returns false with the error "must appear
at the first element". -/
theorem C23_reset_xform_stack_witness :
    ReconstructXformOpsFromProperties ∅ sampleResetSecond [] (some "")
      = .fail ⟨insert "xformOp:translate" ∅,
          [⟨.Translate, false, "", .value (.double3 1 2 3)⟩],
          PushError (some "") (if "!resetXformStack!" ≠ "!resetXformStack!" then
            "`!resetXformStack!` must be defined solely(not to be a prefix to \"xformOp:*\")"
          else
            "`!resetXformStack!` must appear at the first element of xformOpOrder list.")⟩ :=
  ((C23_reset_xform_stack sampleResetSecond ⟨∅, [], some ""⟩).2.2.2
    (Property.ofScalar "token[]" .Uniform
      (.tokenArray ["xformOp:translate", "!resetXformStack!"]))
    ["xformOp:translate"] "!resetXformStack!" [] rfl rfl rfl rfl (by decide)
    (Or.inr (by simp))).2
    ⟨insert "xformOp:translate" ∅, [⟨.Translate, false, "", .value (.double3 1 2 3)⟩],
      some ""⟩ rfl

/-! ### Single-target relationships (C25) -/

/-- The residual map of `ReconstructPrim<GeomMesh>`, run into a fresh mesh over
properties with pairwise distinct names, holds no property named like a schema slot. -/
theorem geomMesh_props_no_slot (klass_name : String) (properties : PropertyMap)
    (warn err : Option String) (st : ReconState GeomMesh)
    (hnodup : (properties.map Prod.fst).Nodup)
    (hrun : ReconstructPrim_GeomMesh klass_name properties GeomMesh.fresh warn err = .ok st) :
    ∀ kv ∈ st.prim.props, kv ∈ properties ∧ kv.1 ∉ GeomMesh.slotNames := by
  unfold ReconstructPrim_GeomMesh at hrun
  cases hx : ReconstructXformOpsFromProperties ∅ properties GeomMesh.fresh.xformOps err with
  | fail x => simp [hx] at hrun
  | raise => simp [hx] at hrun
  | ok x =>
    rw [hx] at hrun
    dsimp only at hrun
    have h := props_eq_filter (GeomMesh.arms klass_name) GeomMesh.propsField
      PARSE_PROPERTY_END_MAKE_WARN GeomMesh.slotNames x.table
      { GeomMesh.fresh with xformOps := x.xformOps } warn x.err properties st
      (Or.inr rfl) (fun _ _ => rfl) (armSpec_GeomMesh klass_name) hnodup rfl hrun
    have h' : st.prim.props = properties.filter
        (fun kv => decide (kv.1 ∉ GeomMesh.slotNames ∧ kv.1 ∉ x.table)) := h
    intro kv hkv
    rw [h', List.mem_filter] at hkv
    exact ⟨hkv.1, (of_decide_eq_true hkv.2).1⟩

/-- The relationship arm never falls through at the property it is written for. -/
theorem relation_andThen {τ : Type} (propname : String)
    (target : Field τ (Option Relationship)) (s : ReconState τ) (prop : String × Property)
    (f : ReconState τ → Step (ReconState τ)) (h : prop.1 = propname) :
    (PARSE_SINGLE_TARGET_PATH_RELATION propname target s prop).andThen f
      = PARSE_SINGLE_TARGET_PATH_RELATION propname target s prop := by
  unfold PARSE_SINGLE_TARGET_PATH_RELATION
  rw [if_pos h]
  by_cases c2 : propname ∈ s.table
  · rw [if_pos c2]; rfl
  · rw [if_neg c2]
    by_cases c3 : (prop.2.is_relationship && prop.2.is_empty) = true
    · rw [if_pos c3]; rfl
    · rw [if_neg c3]
      dsimp only
      by_cases c4 : prop.2.get_relationship.is_path = true
      · rw [if_pos c4]; rfl
      · rw [if_neg c4]
        by_cases c5 : prop.2.get_relationship.is_pathvector = true
        · rw [if_pos c5]
          by_cases c6 : prop.2.get_relationship.targetPathVector.length = 1
          · rw [if_pos c6]; rfl
          · rw [if_neg c6]; rfl
        · rw [if_neg c5]; rfl

/-- An arm that falls through hands the state to the next arm. -/
theorem next_andThen {σ : Type} (s : σ) (f : σ → Step σ) :
    (Step.next s).andThen f = f s := rfl

/-- The relationship arm falls through, changing nothing, at any other property. -/
theorem relation_skip {τ : Type} (propname : String)
    (target : Field τ (Option Relationship)) (s : ReconState τ) (prop : String × Property)
    (h : prop.1 ≠ propname) :
    PARSE_SINGLE_TARGET_PATH_RELATION propname target s prop = .next s := by
  unfold PARSE_SINGLE_TARGET_PATH_RELATION
  rw [if_neg h]

/-- The proxy-prim arm falls through, changing nothing, at any other property. -/
theorem proxyPrim_skip {τ : Type} (target : Field τ (Option Relationship))
    (s : ReconState τ) (prop : String × Property) (h : prop.1 ≠ "proxyPrim") :
    PARSE_PROXY_PRIM_RELATION target s prop = .next s := by
  unfold PARSE_PROXY_PRIM_RELATION
  rw [if_neg h]

/-- C25: `PARSE_SINGLE_TARGET_PATH_RELATION`, at the property it is written for and not
yet processed, stores a relationship whose target is a single path, or a path vector of
exactly one path, in its slot, records the name and goes on to the next property (so the
property never reaches `ADD_PROPERTY`); for a relationship declared without target, for a
path vector of any other length and for a target that is no path it appends its error
and the reconstructor returns false.  In `ReconstructPrim<GeomMesh>` the loop body at a
property named `material:binding`, `material:binding:correction`,
`material:binding:preview` or `skel:skeleton` is this macro with the slot of that name,
and in `ReconstructPrim<GeomSphere>` likewise for the three material bindings; a body
that returns false ends the loop with false; and a mesh reconstructed with success has
none of the four names in `props`. -/
theorem C25_single_target_relation :
    (∀ {τ : Type} (propname : String) (target : Field τ (Option Relationship))
        (s : ReconState τ) (prop : String × Property),
        prop.1 = propname → propname ∉ s.table →
        ((prop.2.is_relationship && prop.2.is_empty) = false →
          (∃ p, prop.2.get_relationship.target = .path p
            ∨ prop.2.get_relationship.target = .pathvector [p]) →
          PARSE_SINGLE_TARGET_PATH_RELATION propname target s prop
            = .continue_ { s with prim := target.set (some prop.2.get_relationship) s.prim,
                                  table := insert propname s.table })
        ∧ ((prop.2.is_relationship && prop.2.is_empty) = true →
          PARSE_SINGLE_TARGET_PATH_RELATION propname target s prop
            = .ret_false (s.withError
                ("`" ++ propname ++ "` must be a Relationship with Path target.")))
        ∧ ((prop.2.is_relationship && prop.2.is_empty) = false →
          ∀ ps, prop.2.get_relationship.target = .pathvector ps → ps.length ≠ 1 →
          PARSE_SINGLE_TARGET_PATH_RELATION propname target s prop
            = .ret_false (s.withError ("`" ++ propname
                ++ "` target is empty or has mutiple Paths. Must be single Path.")))
        ∧ ((prop.2.is_relationship && prop.2.is_empty) = false →
          prop.2.get_relationship.target = .empty →
          PARSE_SINGLE_TARGET_PATH_RELATION propname target s prop
            = .ret_false (s.withError ("`" ++ propname ++ "` target must be Path."))))
    ∧ (∀ (klass_name : String) (s : ReconState GeomMesh) (p : Property),
        GeomMesh.body klass_name s ("material:binding", p)
          = PARSE_SINGLE_TARGET_PATH_RELATION "material:binding"
              GeomMesh.materialBindingField s ("material:binding", p)
        ∧ GeomMesh.body klass_name s ("material:binding:correction", p)
          = PARSE_SINGLE_TARGET_PATH_RELATION "material:binding:correction"
              GeomMesh.materialBindingCorrectionField s ("material:binding:correction", p)
        ∧ GeomMesh.body klass_name s ("material:binding:preview", p)
          = PARSE_SINGLE_TARGET_PATH_RELATION "material:binding:preview"
              GeomMesh.materialBindingPreviewField s ("material:binding:preview", p)
        ∧ GeomMesh.body klass_name s ("skel:skeleton", p)
          = PARSE_SINGLE_TARGET_PATH_RELATION "skel:skeleton"
              GeomMesh.skeletonField s ("skel:skeleton", p))
    ∧ (∀ (klass_name : String) (s : ReconState GeomSphere) (p : Property),
        GeomSphere.body klass_name s ("material:binding", p)
          = PARSE_SINGLE_TARGET_PATH_RELATION "material:binding"
              GeomSphere.materialBindingField s ("material:binding", p)
        ∧ GeomSphere.body klass_name s ("material:binding:correction", p)
          = PARSE_SINGLE_TARGET_PATH_RELATION "material:binding:correction"
              GeomSphere.materialBindingCorrectionField s ("material:binding:correction", p)
        ∧ GeomSphere.body klass_name s ("material:binding:preview", p)
          = PARSE_SINGLE_TARGET_PATH_RELATION "material:binding:preview"
              GeomSphere.materialBindingPreviewField s ("material:binding:preview", p))
    ∧ (∀ {σ : Type} (body : σ → String × Property → Step σ) (pre rest : PropertyMap)
        (prop : String × Property) (s0 s s1 : σ),
        propertyLoop body s0 pre = .ok s → body s prop = .ret_false s1 →
        propertyLoop body s0 (pre ++ prop :: rest) = .fail s1)
    ∧ (∀ (klass_name : String) (properties : PropertyMap) (warn err : Option String)
        (st : ReconState GeomMesh),
        (properties.map Prod.fst).Nodup →
        ReconstructPrim_GeomMesh klass_name properties GeomMesh.fresh warn err = .ok st →
        ∀ kv ∈ st.prim.props, kv ∈ properties ∧ kv.1 ≠ "material:binding"
          ∧ kv.1 ≠ "material:binding:correction" ∧ kv.1 ≠ "material:binding:preview"
          ∧ kv.1 ≠ "skel:skeleton") := by
  refine ⟨?_, ?_, ?_, ?_, ?_⟩
  · intro τ propname target s prop h1 h2
    refine ⟨?_, ?_, ?_, ?_⟩
    · intro h3 h4
      obtain ⟨p, h4 | h4⟩ := h4
      · simp [PARSE_SINGLE_TARGET_PATH_RELATION, h1, h2, h3, Relationship.is_path, h4]
      · simp [PARSE_SINGLE_TARGET_PATH_RELATION, h1, h2, h3, Relationship.is_path,
          Relationship.is_pathvector, Relationship.targetPathVector, h4]
    · intro h3
      simp [PARSE_SINGLE_TARGET_PATH_RELATION, h1, h2, h3, PUSH_ERROR_AND_RETURN]
    · intro h3 ps h4 h5
      simp [PARSE_SINGLE_TARGET_PATH_RELATION, h1, h2, h3, PUSH_ERROR_AND_RETURN,
        Relationship.is_path, Relationship.is_pathvector, Relationship.targetPathVector,
        h4, h5]
    · intro h3 h4
      simp [PARSE_SINGLE_TARGET_PATH_RELATION, h1, h2, h3, PUSH_ERROR_AND_RETURN,
        Relationship.is_path, Relationship.is_pathvector, h4]
  · intro klass_name s p
    refine ⟨?_, ?_, ?_, ?_⟩
    · simp only [GeomMesh.body, GeomMesh.arms, GeomMesh.relationArms]
      rw [proxyPrim_skip _ _ _ (by simp), next_andThen]
      simp only [relation_andThen "material:binding" GeomMesh.materialBindingField s
        ("material:binding", p) _ rfl]
    · simp only [GeomMesh.body, GeomMesh.arms, GeomMesh.relationArms]
      rw [proxyPrim_skip _ _ _ (by simp), next_andThen]
      rw [relation_skip "material:binding" _ _ _ (by simp), next_andThen]
      simp only [relation_andThen "material:binding:correction" GeomMesh.materialBindingCorrectionField s
        ("material:binding:correction", p) _ rfl]
    · simp only [GeomMesh.body, GeomMesh.arms, GeomMesh.relationArms]
      rw [proxyPrim_skip _ _ _ (by simp), next_andThen]
      rw [relation_skip "material:binding" _ _ _ (by simp), next_andThen]
      rw [relation_skip "material:binding:correction" _ _ _ (by simp), next_andThen]
      simp only [relation_andThen "material:binding:preview" GeomMesh.materialBindingPreviewField s
        ("material:binding:preview", p) _ rfl]
    · simp only [GeomMesh.body, GeomMesh.arms, GeomMesh.relationArms]
      rw [proxyPrim_skip _ _ _ (by simp), next_andThen]
      rw [relation_skip "material:binding" _ _ _ (by simp), next_andThen]
      rw [relation_skip "material:binding:correction" _ _ _ (by simp), next_andThen]
      rw [relation_skip "material:binding:preview" _ _ _ (by simp), next_andThen]
      simp only [relation_andThen "skel:skeleton" GeomMesh.skeletonField s
        ("skel:skeleton", p) _ rfl]
  · intro klass_name s p
    refine ⟨?_, ?_, ?_⟩
    · simp only [GeomSphere.body, GeomSphere.arms]
      simp only [relation_andThen "material:binding" GeomSphere.materialBindingField s
        ("material:binding", p) _ rfl]
    · simp only [GeomSphere.body, GeomSphere.arms]
      rw [relation_skip "material:binding" _ _ _ (by simp), next_andThen]
      simp only [relation_andThen "material:binding:correction" GeomSphere.materialBindingCorrectionField s
        ("material:binding:correction", p) _ rfl]
    · simp only [GeomSphere.body, GeomSphere.arms]
      rw [relation_skip "material:binding" _ _ _ (by simp), next_andThen]
      rw [relation_skip "material:binding:correction" _ _ _ (by simp), next_andThen]
      simp only [relation_andThen "material:binding:preview" GeomSphere.materialBindingPreviewField s
        ("material:binding:preview", p) _ rfl]
  · intro σ body pre rest prop s0 s s1 h1 h2
    rw [propertyLoop_append body pre (prop :: rest) s0 s h1]
    exact propertyLoop_ret_false body s s1 prop rest h2
  · intro klass_name properties warn err st hnodup hrun kv hkv
    obtain ⟨h1, h2⟩ := geomMesh_props_no_slot klass_name properties warn err st hnodup hrun
      kv hkv
    refine ⟨h1, ?_, ?_, ?_, ?_⟩ <;>
    · intro h
      apply h2
      rw [h]
      decide

/-- C25 at `sampleMesh`: the reconstructor returns true, `material:binding` and
`skel:skeleton` are in their slots and `props` holds the custom property alone; and a
`material:binding` declared without target is refused by the loop body. -/
theorem C25_single_target_relation_witness :
    (∃ st, ReconstructPrim_GeomMesh "GeomMesh" sampleMesh GeomMesh.fresh (some "") (some "")
        = .ok st
      ∧ st.prim.materialBinding = some ⟨.path "/Looks/Mat", []⟩
      ∧ st.prim.skeleton = some ⟨.pathvector ["/Skel"], []⟩
      ∧ st.prim.props
        = [("userProperties:note", Property.ofScalar "string" .Varying (.string "hello"))])
    ∧ PARSE_SINGLE_TARGET_PATH_RELATION "material:binding" GeomMesh.materialBindingField
        ⟨∅, GeomMesh.fresh, some "", some ""⟩
        ("material:binding", Property.ofNoTargetsRelation)
      = .ret_false (ReconState.withError ⟨∅, GeomMesh.fresh, some "", some ""⟩
          ("`" ++ "material:binding" ++ "` must be a Relationship with Path target.")) :=
  ⟨⟨_, rfl, rfl, rfl, rfl⟩,
    (C25_single_target_relation.1 "material:binding" GeomMesh.materialBindingField
      ⟨∅, GeomMesh.fresh, some "", some ""⟩
      ("material:binding", Property.ofNoTargetsRelation) rfl (by simp)).2.1 rfl⟩

/-! ### A blocked `radius` (C26) -/

/-- C26, as stated, fails: on the map whose only entry is `float radius = None`,
`ReconstructPrim<GeomSphere>` returns false; the slot `radius` is of type `double`, the
type name is compared before the blocked flag is looked at, and `radius` is left as it
was, not blocked. -/
theorem C26_blocked_radius_counterexample :
    ∃ st, ReconstructPrim_GeomSphere "GeomSphere"
        [("radius", Property.ofBlocked "float" .Varying)] GeomSphere.fresh (some "") (some "")
      = .fail st
    ∧ st.prim.radius = GeomSphere.fresh.radius
    ∧ st.prim.radius.blocked = false
    ∧ st.err = some ("" ++ ("Parsing attribute `" ++ "radius" ++ "` failed. Error: "
        ++ ("Property type mismatch. " ++ "radius" ++ " expects type `" ++ "double"
          ++ "` but defined as type `" ++ "float" ++ "`"))) :=
  ⟨_, rfl, rfl, rfl, rfl⟩

/-- C26, amended: on the map whose only entry is `double radius = None` (an authored,
non-connection attribute of declared type `double`, blocked, of either variability and
with any metadata), `ReconstructPrim<GeomSphere>` returns true and `radius` is blocked,
with no value and no connection; its metadata are those of the attribute. -/
theorem C26_blocked_radius (klass_name : String) (vy : Variability) (metas : AttrMeta)
    (warn err : Option String) :
    ∃ st, ReconstructPrim_GeomSphere klass_name
        [("radius", ⟨.Attrib, ⟨"double", vy, true, [], metas, PrimVar.none⟩,
          Relationship.none⟩)] GeomSphere.fresh warn err
      = .ok st
    ∧ st.prim.radius.blocked = true
    ∧ st.prim.radius.attrib = none
    ∧ st.prim.radius.paths = []
    ∧ st.prim.radius.metas = metas
    ∧ st.prim.props = []
    ∧ st.warn = warn ∧ st.err = err :=
  ⟨_, rfl, rfl, rfl, rfl, rfl, rfl, rfl, rfl⟩

/-! ### The SubD attributes of a mesh (C27) -/

/-- C27 (the code departs from it): the six SubD arms of `ReconstructPrim<GeomMesh>` all
name `mesh->cornerIndices` as their target.  An authored `int[] creaseIndices`,
`int[] creaseLengths` or `int[] holeIndices` is accepted but stored in `cornerIndices`,
the field of its own name staying as it was; an authored `float[] cornerSharpnesses` or
`float[] creaseSharpnesses` is refused with a type mismatch against `int[]`, and the
reconstructor returns false.  Only `int[] cornerIndices` reaches the field of its own
name. -/
theorem C27_subd_attributes :
    (∃ st, ReconstructPrim_GeomMesh "GeomMesh"
        [("cornerIndices", Property.ofScalar "int[]" .Varying (.intArray [0, 1]))]
        GeomMesh.fresh (some "") (some "") = .ok st
      ∧ st.prim.cornerIndices
        = (TypedAttribute.fresh.set_value (Animatable.ofValue [0, 1])).set_metas [])
    ∧ (∃ st, ReconstructPrim_GeomMesh "GeomMesh"
        [("creaseIndices", Property.ofScalar "int[]" .Varying (.intArray [0, 1]))]
        GeomMesh.fresh (some "") (some "") = .ok st
      ∧ st.prim.creaseIndices = TypedAttribute.fresh
      ∧ st.prim.cornerIndices
        = (TypedAttribute.fresh.set_value (Animatable.ofValue [0, 1])).set_metas [])
    ∧ (∃ st, ReconstructPrim_GeomMesh "GeomMesh"
        [("creaseLengths", Property.ofScalar "int[]" .Varying (.intArray [2]))]
        GeomMesh.fresh (some "") (some "") = .ok st
      ∧ st.prim.creaseLengths = TypedAttribute.fresh
      ∧ st.prim.cornerIndices
        = (TypedAttribute.fresh.set_value (Animatable.ofValue [2])).set_metas [])
    ∧ (∃ st, ReconstructPrim_GeomMesh "GeomMesh"
        [("holeIndices", Property.ofScalar "int[]" .Varying (.intArray [3]))]
        GeomMesh.fresh (some "") (some "") = .ok st
      ∧ st.prim.holeIndices = TypedAttribute.fresh
      ∧ st.prim.cornerIndices
        = (TypedAttribute.fresh.set_value (Animatable.ofValue [3])).set_metas [])
    ∧ (∃ st, ReconstructPrim_GeomMesh "GeomMesh"
        [("cornerSharpnesses", Property.ofScalar "float[]" .Varying (.floatArray [10]))]
        GeomMesh.fresh (some "") (some "") = .fail st
      ∧ st.prim.cornerSharpnesses = TypedAttribute.fresh
      ∧ st.err = some ("" ++ ("Parsing attribute `" ++ "cornerSharpnesses"
          ++ "` failed. Error: " ++ ("Property type mismatch. " ++ "cornerSharpnesses"
            ++ " expects type `" ++ "int[]" ++ "` but defined as type `" ++ "float[]"
            ++ "`"))))
    ∧ (∃ st, ReconstructPrim_GeomMesh "GeomMesh"
        [("creaseSharpnesses", Property.ofScalar "float[]" .Varying (.floatArray [10]))]
        GeomMesh.fresh (some "") (some "") = .fail st
      ∧ st.prim.creaseSharpnesses = TypedAttribute.fresh
      ∧ st.err = some ("" ++ ("Parsing attribute `" ++ "creaseSharpnesses"
          ++ "` failed. Error: " ++ ("Property type mismatch. " ++ "creaseSharpnesses"
            ++ " expects type `" ++ "int[]" ++ "` but defined as type `" ++ "float[]"
            ++ "`")))) :=
  ⟨⟨_, rfl, rfl⟩, ⟨_, rfl, rfl, rfl⟩, ⟨_, rfl, rfl, rfl⟩, ⟨_, rfl, rfl, rfl⟩,
    ⟨_, rfl, rfl, rfl⟩, ⟨_, rfl, rfl, rfl⟩⟩

/-! ### Reading an `Animatable` (C31, C32) -/

/-- C35 (the code departs from it): `ReconstructShader<UsdPreviewSurface>` registers the
slot `displacement` under the name `inputs:dispacement`.  An authored
`inputs:displacement`, whatever it holds, is therefore taken by no arm: the
reconstructor returns true, `surface.displacement` is as it was, and the property is
copied into `props`.  The misspelt `inputs:dispacement` is what reaches the slot, and the
neighbouring `inputs:occlusion` goes to its slot and stays out of `props`. -/
theorem C35_displacement_input :
    (∀ (surface : UsdPreviewSurface) (warn err : Option String) (p : Property),
      ReconstructShader_UsdPreviewSurface [("inputs:displacement", p)] surface warn err
        = .ok ⟨insert "inputs:displacement" (insert "info:id" ∅),
            { surface with props := surface.props.assign "inputs:displacement" p },
            warn, err⟩)
    ∧ (∃ st, ReconstructShader_UsdPreviewSurface
        [("inputs:displacement", Property.ofScalar "float" .Varying (.float (1/2)))]
        sampleShaderDefaults.surface (some "") (some "") = .ok st
      ∧ st.prim.displacement = sampleShaderDefaults.surface.displacement
      ∧ st.prim.displacement.attrib = none
      ∧ st.prim.props
        = [("inputs:displacement", Property.ofScalar "float" .Varying (.float (1/2)))])
    ∧ (∃ st, ReconstructShader_UsdPreviewSurface
        [("inputs:dispacement", Property.ofScalar "float" .Varying (.float (1/2)))]
        sampleShaderDefaults.surface (some "") (some "") = .ok st
      ∧ st.prim.displacement.attrib = some (Animatable.ofValue (1/2))
      ∧ st.prim.props = [])
    ∧ (∃ st, ReconstructShader_UsdPreviewSurface
        [("inputs:occlusion", Property.ofScalar "float" .Varying (.float (1/2)))]
        sampleShaderDefaults.surface (some "") (some "") = .ok st
      ∧ st.prim.occlusion.attrib = some (Animatable.ofValue (1/2))
      ∧ st.prim.props = []) :=
  ⟨fun _ _ _ _ => rfl, ⟨_, rfl, rfl, rfl, rfl⟩, ⟨_, rfl, rfl, rfl⟩, ⟨_, rfl, rfl, rfl⟩⟩

/-! ### The path stack of the ASCII parser (C40) -/

/-- C40 (the code departs from it): `PathStackDepth` is declared `bool`, so it tells
whether the path stack is non-empty, not how many paths it holds: after two `PushPath`
calls the stack holds two paths and the result is `true`, which reads as 1.  The result
is the number of paths only while that number is 0 or 1.  The stack itself does what the
claim says: `PushPath` adds one path, `PopPath` removes one, and on an empty stack
`PopPath` changes nothing. -/
theorem C40_path_stack_depth :
    ((AsciiParser.mk []).PushPath "/a").PushPath "/a/b" = ⟨["/a/b", "/a"]⟩
    ∧ (((AsciiParser.mk []).PushPath "/a").PushPath "/a/b").PathStackDepth = true
    ∧ (((AsciiParser.mk []).PushPath "/a").PushPath "/a/b").PathStackDepth.toNat = 1
    ∧ (∀ a : AsciiParser, a.PathStackDepth = decide (0 < a._path_stack.length))
    ∧ (∀ a : AsciiParser, a.PathStackDepth.toNat = min 1 a._path_stack.length)
    ∧ (∀ a : AsciiParser, 2 ≤ a._path_stack.length →
        a.PathStackDepth.toNat ≠ a._path_stack.length)
    ∧ (∀ (a : AsciiParser) (p : String),
        (a.PushPath p)._path_stack.length = a._path_stack.length + 1)
    ∧ (∀ a : AsciiParser, a.PopPath._path_stack.length = a._path_stack.length - 1)
    ∧ (AsciiParser.mk []).PopPath = ⟨[]⟩
    ∧ (AsciiParser.mk []).PopPath.PathStackDepth = false := by
  refine ⟨rfl, rfl, rfl, ?_, ?_, ?_, ?_, ?_, rfl, rfl⟩
  · intro a
    cases h : a._path_stack <;> simp [AsciiParser.PathStackDepth, h]
  · intro a
    cases h : a._path_stack <;> simp [AsciiParser.PathStackDepth, h]
  · intro a h2
    cases h : a._path_stack with
    | nil =>
      rw [h] at h2
      simp at h2
    | cons x xs =>
      have h3 : 2 ≤ (x :: xs).length := by rw [← h]; exact h2
      rw [List.length_cons] at h3
      have e : (AsciiParser.PathStackDepth a).toNat = 1 := by
        simp [AsciiParser.PathStackDepth, h]
      rw [e, List.length_cons]
      omega
  · intro a p
    rfl
  · intro a
    cases h : a._path_stack <;> simp [AsciiParser.PopPath, h]

/-! ### A shader output `.connect` without target (C36) -/

/-- C36 (the code departs from it): in its `.connect` branch `ParseShaderOutputProperty`
has no exit for a property without target path, so for a property named
`name + ".connect"`, not yet processed and without relation target, it answers
`Unmatched` and changes nothing; `PARSE_SHADER_OUTPUT_PROPERTY` then falls through, and
`ReconstructShader<UsdPreviewSurface>` returns true with `outputs:surface.connect`
copied into `props` as an unknown property.  The matcher of a typed attribute answers
`InvalidConnection` on the same property.  The other parts of the claim hold:
a property named neither `name` nor `name + ".connect"` gives `Unmatched`, and a
property named `name` never does. -/
theorem C36_output_connect_without_target :
    (∀ (table : Table) (prop : Property) (name : String) (target : Option Relationship),
      removeSuffix name ".connect" ∉ table → prop.get_relationTarget = none →
      ParseShaderOutputProperty table (name ++ ".connect") prop name target
        = ⟨⟨.Unmatched, ""⟩, table, target⟩)
    ∧ ParseShaderOutputProperty ∅ "outputs:surface.connect"
        (Property.ofConnection "token" [] .empty) "outputs:surface" none
      = ⟨⟨.Unmatched, ""⟩, ∅, none⟩
    ∧ (ParseTypedAttribute_WithFallbackAnimatable floatTraits ∅ "inputs:roughness.connect"
        (Property.ofConnection "float" [] .empty) "inputs:roughness"
        (TypedAttributeWithFallback.fresh (Animatable.ofValue 0))).ret
      = ⟨.InvalidConnection, "Connection target not found."⟩
    ∧ (∃ st, ReconstructShader_UsdPreviewSurface
        [("outputs:surface.connect", Property.ofConnection "token" [] .empty)]
        sampleShaderDefaults.surface (some "") (some "") = .ok st
      ∧ st.prim.outputsSurface = none
      ∧ st.prim.props
        = [("outputs:surface.connect", Property.ofConnection "token" [] .empty)]
      ∧ st.err = some "")
    ∧ (∀ (table : Table) (prop_name : String) (prop : Property) (name : String)
        (target : Option Relationship),
        prop_name ≠ name → prop_name ≠ name ++ ".connect" →
        ParseShaderOutputProperty table prop_name prop name target
          = ⟨⟨.Unmatched, ""⟩, table, target⟩)
    ∧ (∀ (table : Table) (prop : Property) (name : String) (target : Option Relationship),
        (ParseShaderOutputProperty table name prop name target).ret.code ≠ .Unmatched) := by
  refine ⟨?_, rfl, rfl, ⟨_, rfl, rfl, rfl, rfl⟩, ?_, ?_⟩
  · intro table prop name target h1 h2
    simp [ParseShaderOutputProperty, h1, h2]
  · intro table prop_name prop name target h1 h2
    simp [ParseShaderOutputProperty, h1, h2]
  · intro table prop name target
    have hne := ne_append_connect name
    unfold ParseShaderOutputProperty
    rw [if_neg hne, if_pos rfl]
    by_cases c1 : name ∈ table
    · rw [if_pos c1]
      simp
    · rw [if_neg c1]
      by_cases c2 : prop.is_connection = true
      · rw [if_pos c2]
        dsimp only
        by_cases c3 : prop.get_attribute.is_connection = true
        · rw [if_pos c3]
          by_cases c4 : prop.get_attribute.connections.length = 0
          · rw [if_pos c4]
            simp
          · rw [if_neg c4]
            simp
        · rw [if_neg c3]
          simp
      · rw [if_neg c2]
        dsimp only
        by_cases c5 : tokenTraits.type_name = prop.get_attribute.type_name
        · rw [if_pos c5]
          by_cases c6 : prop.get_property_type = .EmptyAttrib
          · rw [if_pos c6]
            simp
          · rw [if_neg c6]
            simp
        · rw [if_neg c5]
          simp

/-! ### The two uniform matchers (C39) -/

/-- The two uniform matchers side by side: the same table and the same message always,
and the same code except in the one branch where the typed read of a scalar fails. -/
theorem uniform_matchers_compare {T : Type} (tt : TypeTraits T) (table : Table)
    (prop_name : String) (prop : Property) (name : String)
    (t1 : TypedAttributeWithFallback T) (t2 : TypedAttribute T) :
    (ParseTypedAttribute_WithFallback tt table prop_name prop name t1).table
      = (ParseTypedAttribute_Uniform tt table prop_name prop name t2).table
    ∧ (ParseTypedAttribute_WithFallback tt table prop_name prop name t1).ret.err
      = (ParseTypedAttribute_Uniform tt table prop_name prop name t2).ret.err
    ∧ ((ParseTypedAttribute_WithFallback tt table prop_name prop name t1).ret.code
        = (ParseTypedAttribute_Uniform tt table prop_name prop name t2).ret.code
      ∨ ((ParseTypedAttribute_WithFallback tt table prop_name prop name t1).ret
          = ⟨.InternalError, "Internal data corrupsed."⟩
        ∧ (ParseTypedAttribute_Uniform tt table prop_name prop name t2).ret
          = ⟨.VariabilityMismatch, "Internal data corrupsed."⟩
        ∧ prop_name = name ∧ name ∉ table ∧ prop.is_connection = false
        ∧ prop.get_attribute.var.is_scalar = true
        ∧ prop.get_attribute.get_value tt = none)) := by
  unfold ParseTypedAttribute_WithFallback ParseTypedAttribute_Uniform
  by_cases c1 : prop_name = name ++ ".connect"
  · rw [if_pos c1, if_pos c1]
    dsimp only
    by_cases c2 : removeSuffix name ".connect" ∈ table
    · rw [if_pos c2, if_pos c2]
      exact ⟨rfl, rfl, Or.inl rfl⟩
    · rw [if_neg c2, if_neg c2]
      by_cases c3 : prop.is_connection = true
      · rw [if_pos c3, if_pos c3]
        by_cases c4 : prop.get_attribute.is_connection = true
        · rw [if_pos c4, if_pos c4]
          exact ⟨rfl, rfl, Or.inl rfl⟩
        · rw [if_neg c4, if_neg c4]
          exact ⟨rfl, rfl, Or.inl rfl⟩
      · rw [if_neg c3, if_neg c3]
        exact ⟨rfl, rfl, Or.inl rfl⟩
  · rw [if_neg c1, if_neg c1]
    by_cases d1 : prop_name = name
    · rw [if_pos d1, if_pos d1]
      by_cases d2 : name ∈ table
      · rw [if_pos d2, if_pos d2]
        exact ⟨rfl, rfl, Or.inl rfl⟩
      · rw [if_neg d2, if_neg d2]
        by_cases d3 : prop.is_connection = true
        · rw [if_pos d3, if_pos d3]
          dsimp only
          by_cases d4 : prop.get_attribute.is_connection = true
          · rw [if_pos d4, if_pos d4]
            exact ⟨rfl, rfl, Or.inl rfl⟩
          · rw [if_neg d4, if_neg d4]
            exact ⟨rfl, rfl, Or.inl rfl⟩
        · rw [if_neg d3, if_neg d3]
          dsimp only
          by_cases d5 : tt.type_name = prop.get_attribute.type_name
              ∨ tt.underlying_type_name = prop.get_attribute.type_name
          · rw [if_pos d5, if_pos d5]
            by_cases d6 : prop.get_property_type = .EmptyAttrib
            · rw [if_pos d6, if_pos d6]
              exact ⟨rfl, rfl, Or.inl rfl⟩
            · rw [if_neg d6, if_neg d6]
              by_cases d7 : prop.get_property_type = .Attrib
              · rw [if_pos d7, if_pos d7]
                by_cases d8 : prop.get_attribute.variability ≠ .Uniform
                · rw [if_pos d8, if_pos d8]
                  exact ⟨rfl, rfl, Or.inl rfl⟩
                · rw [if_neg d8, if_neg d8]
                  by_cases d9 : prop.get_attribute.is_blocked = true
                  · rw [if_pos d9, if_pos d9]
                    exact ⟨rfl, rfl, Or.inl rfl⟩
                  · rw [if_neg d9, if_neg d9]
                    by_cases d10 : prop.get_attribute.var.is_scalar = true
                    · rw [if_pos d10, if_pos d10]
                      cases d11 : prop.get_attribute.get_value tt with
                      | some pv => exact ⟨rfl, rfl, Or.inl rfl⟩
                      | none =>
                        exact ⟨rfl, rfl, Or.inr ⟨rfl, rfl, d1, d2, by simpa using d3, d10,
                          rfl⟩⟩
                    · rw [if_neg d10, if_neg d10]
                      exact ⟨rfl, rfl, Or.inl rfl⟩
              · rw [if_neg d7, if_neg d7]
                exact ⟨rfl, rfl, Or.inl rfl⟩
          · rw [if_neg d5, if_neg d5]
            exact ⟨rfl, rfl, Or.inl rfl⟩
    · rw [if_neg d1, if_neg d1]
      exact ⟨rfl, rfl, Or.inl rfl⟩

/-- C39 (the code departs from it): the two uniform matchers differ in one result code.
For a property named like the slot, authored `uniform` with the type name of the slot,
holding a scalar that the typed read refuses, the `TypedAttributeWithFallback<T>`
overload answers `InternalError` and the `TypedAttribute<T>` overload answers
`VariabilityMismatch`, both with the message "Internal data corrupsed."; shown on
`uniform bool doubleSided` holding an `int`.  Everywhere else the two codes are equal,
and the tables and messages are equal everywhere. -/
theorem C39_uniform_matchers :
    (ParseTypedAttribute_WithFallback boolTraits ∅ "doubleSided"
        (Property.ofScalar "bool" .Uniform (.int 1)) "doubleSided"
        (TypedAttributeWithFallback.fresh false)).ret
      = ⟨.InternalError, "Internal data corrupsed."⟩
    ∧ (ParseTypedAttribute_Uniform boolTraits ∅ "doubleSided"
        (Property.ofScalar "bool" .Uniform (.int 1)) "doubleSided"
        TypedAttribute.fresh).ret
      = ⟨.VariabilityMismatch, "Internal data corrupsed."⟩
    ∧ (∀ {T : Type} (tt : TypeTraits T) (table : Table) (prop_name : String)
        (prop : Property) (name : String)
        (t1 : TypedAttributeWithFallback T) (t2 : TypedAttribute T),
        (ParseTypedAttribute_WithFallback tt table prop_name prop name t1).table
          = (ParseTypedAttribute_Uniform tt table prop_name prop name t2).table
        ∧ (ParseTypedAttribute_WithFallback tt table prop_name prop name t1).ret.err
          = (ParseTypedAttribute_Uniform tt table prop_name prop name t2).ret.err
        ∧ ((ParseTypedAttribute_WithFallback tt table prop_name prop name t1).ret.code
            = (ParseTypedAttribute_Uniform tt table prop_name prop name t2).ret.code
          ∨ ((ParseTypedAttribute_WithFallback tt table prop_name prop name t1).ret
              = ⟨.InternalError, "Internal data corrupsed."⟩
            ∧ (ParseTypedAttribute_Uniform tt table prop_name prop name t2).ret
              = ⟨.VariabilityMismatch, "Internal data corrupsed."⟩
            ∧ prop_name = name ∧ name ∉ table ∧ prop.is_connection = false
            ∧ prop.get_attribute.var.is_scalar = true
            ∧ prop.get_attribute.get_value tt = none))) :=
  ⟨rfl, rfl, fun tt table prop_name prop name t1 t2 =>
    uniform_matchers_compare tt table prop_name prop name t1 t2⟩

/-! ### The closing check after `ADD_PROPERTY` (C38) -/

/-- After `ADD_PROPERTY` the name of the property is in the table, so the closing
`PARSE_PROPERTY_END_MAKE_ERROR` falls through without an error. -/
theorem addProperty_then_error {τ : Type} (dst : Field τ PropertyMap) (s : ReconState τ)
    (prop : String × Property) :
    (ADD_PROPERTY dst s prop).andThen (fun s2 => PARSE_PROPERTY_END_MAKE_ERROR s2 prop)
      = .next (if prop.1 ∈ s.table then s
          else { s with prim := dst.set ((dst.get s.prim).assign prop.1 prop.2) s.prim,
                        table := insert prop.1 s.table }) := by
  by_cases h : prop.1 ∈ s.table
  · simp [ADD_PROPERTY, PARSE_PROPERTY_END_MAKE_ERROR, Step.andThen, h]
  · simp [ADD_PROPERTY, PARSE_PROPERTY_END_MAKE_ERROR, Step.andThen, h]

/-- A loop that returns false does so at one of its properties, with the state that the
body left there. -/
theorem propertyLoop_fail {σ : Type} (body : σ → String × Property → Step σ)
    (properties : List (String × Property)) (s sf : σ)
    (h : propertyLoop body s properties = .fail sf) :
    ∃ s1 prop, prop ∈ properties ∧ body s1 prop = .ret_false sf := by
  induction properties generalizing s with
  | nil => simp [propertyLoop] at h
  | cons prop rest ih =>
    simp only [propertyLoop] at h
    cases hb : body s prop with
    | next s1 =>
      rw [hb] at h
      obtain ⟨s2, q, hq, hr⟩ := ih s1 h
      exact ⟨s2, q, List.mem_cons_of_mem _ hq, hr⟩
    | continue_ s1 =>
      rw [hb] at h
      obtain ⟨s2, q, hq, hr⟩ := ih s1 h
      exact ⟨s2, q, List.mem_cons_of_mem _ hq, hr⟩
    | ret_false s1 =>
      rw [hb] at h
      simp only [Outcome.fail.injEq] at h
      subst h
      exact ⟨s, prop, List.mem_cons_self _ _, hb⟩

/-- C38: in a loop body that places `ADD_PROPERTY` before
`PARSE_PROPERTY_END_MAKE_ERROR`, the name of the property is in the table whenever
`ADD_PROPERTY` has run, so the closing check always falls through, with the state
`ADD_PROPERTY` left; the two together never return false; and whenever such a body
returns false, it is one of the schema arms that has returned false, with that very
state: `err` holds what the arm appended and nothing more.  So it is for the body of
`ReconstructPrim<GeomSphere>`: when that reconstructor returns false, either
`ReconstructXformOpsFromProperties` has returned false or one of the schema arms has, at
one of the properties, and the state returned is the one that arm left. -/
theorem C38_end_error_unreachable :
    (∀ {τ : Type} (dst : Field τ PropertyMap) (s s1 : ReconState τ)
        (prop : String × Property),
        ADD_PROPERTY dst s prop = .next s1 →
        prop.1 ∈ s1.table ∧ PARSE_PROPERTY_END_MAKE_ERROR s1 prop = .next s1)
    ∧ (∀ {τ : Type} (dst : Field τ PropertyMap) (s : ReconState τ)
        (prop : String × Property),
        (∃ s1, ADD_PROPERTY dst s prop = .next s1)
        ∧ ∀ s1, (ADD_PROPERTY dst s prop).andThen
            (fun s2 => PARSE_PROPERTY_END_MAKE_ERROR s2 prop) ≠ .ret_false s1)
    ∧ (∀ {τ : Type} (arms : ReconState τ → String × Property → Step (ReconState τ))
        (dst : Field τ PropertyMap) (s s1 : ReconState τ) (prop : String × Property),
        bodyWithAddProperty arms dst PARSE_PROPERTY_END_MAKE_ERROR s prop = .ret_false s1 →
        arms s prop = .ret_false s1)
    ∧ (∀ (klass_name : String) (s s1 : ReconState GeomSphere) (prop : String × Property),
        GeomSphere.body klass_name s prop = .ret_false s1 →
        GeomSphere.arms klass_name s prop = .ret_false s1)
    ∧ (∀ (klass_name : String) (properties : PropertyMap) (sphere : GeomSphere)
        (warn err : Option String) (st : ReconState GeomSphere),
        ReconstructPrim_GeomSphere klass_name properties sphere warn err = .fail st →
        (∃ x, ReconstructXformOpsFromProperties ∅ properties sphere.xformOps err = .fail x)
        ∨ ∃ s prop, prop ∈ properties
            ∧ GeomSphere.arms klass_name s prop = .ret_false st) := by
  have key : ∀ {τ : Type} (arms : ReconState τ → String × Property → Step (ReconState τ))
      (dst : Field τ PropertyMap) (s s1 : ReconState τ) (prop : String × Property),
      bodyWithAddProperty arms dst PARSE_PROPERTY_END_MAKE_ERROR s prop = .ret_false s1 →
      arms s prop = .ret_false s1 := by
    intro τ arms dst s s1 prop h
    unfold bodyWithAddProperty at h
    cases ha : arms s prop with
    | next s2 =>
      rw [ha] at h
      simp only [Step.andThen] at h
      have h2 := addProperty_then_error dst s2 prop
      simp only [Step.andThen] at h2
      rw [h2] at h
      cases h
    | continue_ s2 =>
      rw [ha] at h
      cases h
    | ret_false s2 =>
      rw [ha] at h
      simpa [Step.andThen] using h
  refine ⟨?_, ?_, key, ?_, ?_⟩
  · intro τ dst s s1 prop h
    unfold ADD_PROPERTY at h
    by_cases c : prop.1 ∉ s.table
    · rw [if_pos c] at h
      cases h
      have hm : prop.1 ∈ insert prop.1 s.table := Finset.mem_insert_self _ _
      exact ⟨hm, by simp [PARSE_PROPERTY_END_MAKE_ERROR]⟩
    · rw [if_neg c] at h
      cases h
      have hm : prop.1 ∈ s.table := by simpa using c
      exact ⟨hm, by simp [PARSE_PROPERTY_END_MAKE_ERROR, hm]⟩
  · intro τ dst s prop
    refine ⟨?_, ?_⟩
    · unfold ADD_PROPERTY
      by_cases c : prop.1 ∉ s.table
      · rw [if_pos c]
        exact ⟨_, rfl⟩
      · rw [if_neg c]
        exact ⟨_, rfl⟩
    · intro s1
      rw [addProperty_then_error]
      simp
  · intro klass_name s s1 prop h
    exact key (GeomSphere.arms klass_name) GeomSphere.propsField s s1 prop h
  · intro klass_name properties sphere warn err st h
    unfold ReconstructPrim_GeomSphere at h
    cases hx : ReconstructXformOpsFromProperties ∅ properties sphere.xformOps err with
    | fail x => exact Or.inl ⟨x, rfl⟩
    | raise => simp [hx] at h
    | ok x =>
      rw [hx] at h
      dsimp only at h
      obtain ⟨s1, prop, hp, hb⟩ := propertyLoop_fail _ _ _ _ h
      exact Or.inr ⟨s1, prop, hp,
        key (GeomSphere.arms klass_name) GeomSphere.propsField s1 st prop hb⟩

/-! ### `purpose` and `visibility` of a SkelRoot (C33) -/

/-- C33 (the code departs from it): the loop of `ReconstructPrim<SkelRoot>` has
`ADD_PROPERTY` as its first line, so every property, `purpose` and `visibility`
included, is copied into `props` and recorded in the table before the enum arms see it;
these then find the name in the table and go on to the next property.  For every
property `p`, allowed token or not, a map holding `purpose` (or `visibility`) alone is
reconstructed with success, the typed slot keeps its fallback and the property is in
`props`.  `ReconstructPrim<Xform>`, whose loop ends with `ADD_PROPERTY`, stores
`purpose = "render"` in its slot, keeps it out of `props`, and returns false on an
unknown token. -/
theorem C33_skelroot_enums :
    (∀ (klass_name : String) (warn err : Option String) (p : Property),
      ReconstructPrim_SkelRoot klass_name [("purpose", p)] SkelRoot.fresh warn err
        = .ok ⟨insert "purpose" (insert "xformOpOrder" ∅),
            { SkelRoot.fresh with props := [("purpose", p)] }, warn, err⟩)
    ∧ (∀ (klass_name : String) (warn err : Option String) (p : Property),
      ReconstructPrim_SkelRoot klass_name [("visibility", p)] SkelRoot.fresh warn err
        = .ok ⟨insert "visibility" (insert "xformOpOrder" ∅),
            { SkelRoot.fresh with props := [("visibility", p)] }, warn, err⟩)
    ∧ (∃ st, ReconstructPrim_SkelRoot "SkelRoot"
        [("purpose", Property.ofScalar "token" .Uniform (.token "render"))]
        SkelRoot.fresh (some "") (some "") = .ok st
      ∧ st.prim.purpose = TypedAttributeWithFallback.fresh .Default
      ∧ st.prim.props
        = [("purpose", Property.ofScalar "token" .Uniform (.token "render"))])
    ∧ (∃ st, ReconstructPrim_SkelRoot "SkelRoot"
        [("purpose", Property.ofScalar "token" .Uniform (.token "bogus"))]
        SkelRoot.fresh (some "") (some "") = .ok st
      ∧ st.err = some "")
    ∧ (∃ st, ReconstructPrim_Xform "Xform"
        [("purpose", Property.ofScalar "token" .Uniform (.token "render"))]
        Xform.fresh (some "") (some "") = .ok st
      ∧ st.prim.purpose.attrib = some .Render
      ∧ st.prim.props = [])
    ∧ (∃ st, ReconstructPrim_Xform "Xform"
        [("purpose", Property.ofScalar "token" .Uniform (.token "bogus"))]
        Xform.fresh (some "") (some "") = .fail st) :=
  ⟨fun _ _ _ _ => rfl, fun _ _ _ _ => rfl, ⟨_, rfl, rfl, rfl⟩, ⟨_, rfl, rfl⟩,
    ⟨_, rfl, rfl, rfl⟩, ⟨_, rfl⟩⟩

/-! ### The transforms of a Skeleton (C37) -/

/-- The state that `PARSE_TYPED_ATTRIBUTE` hands on when it does not return false. -/
theorem typed_state {τ α : Type} (m : Matcher α) (name : String) (target : Field τ α)
    (s s1 : ReconState τ) (prop : String × Property)
    (h : PARSE_TYPED_ATTRIBUTE m name target s prop = .next s1
      ∨ PARSE_TYPED_ATTRIBUTE m name target s prop = .continue_ s1) :
    s1 = { s with table := (m s.table prop.1 prop.2 name (target.get s.prim)).table,
                  prim := target.set (m s.table prop.1 prop.2 name (target.get s.prim)).target
                    s.prim } := by
  unfold PARSE_TYPED_ATTRIBUTE at h
  dsimp only at h
  by_cases c1 : (m s.table prop.1 prop.2 name (target.get s.prim)).ret.code = .Success
      ∨ (m s.table prop.1 prop.2 name (target.get s.prim)).ret.code = .AlreadyProcessed
  · rw [if_pos c1] at h
    rcases h with h | h
    · cases h
    · cases h
      rfl
  · rw [if_neg c1] at h
    by_cases c2 : (m s.table prop.1 prop.2 name (target.get s.prim)).ret.code = .Unmatched
    · rw [if_pos c2] at h
      rcases h with h | h
      · cases h
        rfl
      · cases h
    · rw [if_neg c2] at h
      rcases h with h | h <;> simp [PUSH_ERROR_AND_RETURN] at h

/-- The state that `PARSE_EXTENT_ATTRIBUTE` hands on when it does not return false. -/
theorem extent_state {τ : Type} (name : String)
    (target : Field τ (TypedAttribute (Animatable Extent)))
    (s s1 : ReconState τ) (prop : String × Property)
    (h : PARSE_EXTENT_ATTRIBUTE name target s prop = .next s1
      ∨ PARSE_EXTENT_ATTRIBUTE name target s prop = .continue_ s1) :
    s1 = { s with
      table := (ParseExtentAttribute s.table prop.1 prop.2 name (target.get s.prim)).table,
      prim := target.set
        (ParseExtentAttribute s.table prop.1 prop.2 name (target.get s.prim)).target
        s.prim } := by
  unfold PARSE_EXTENT_ATTRIBUTE at h
  dsimp only at h
  by_cases c1 :
      (ParseExtentAttribute s.table prop.1 prop.2 name (target.get s.prim)).ret.code = .Success
      ∨ (ParseExtentAttribute s.table prop.1 prop.2 name (target.get s.prim)).ret.code
        = .AlreadyProcessed
  · rw [if_pos c1] at h
    rcases h with h | h
    · cases h
    · cases h
      rfl
  · rw [if_neg c1] at h
    by_cases c2 :
        (ParseExtentAttribute s.table prop.1 prop.2 name (target.get s.prim)).ret.code
          = .Unmatched
    · rw [if_pos c2] at h
      rcases h with h | h
      · cases h
        rfl
      · cases h
    · rw [if_neg c2] at h
      rcases h with h | h <;> simp [PUSH_ERROR_AND_RETURN] at h

/-- An arm that never changes the slot satisfies every `SlotSpec` of it. -/
theorem slotSpec_of_frame {τ V : Type} (f : τ → Option V)
    (R : String × Property → V → Prop)
    (arm : ReconState τ → String × Property → Step (ReconState τ))
    (h : ∀ s prop s1, (arm s prop = .next s1 ∨ arm s prop = .continue_ s1) →
      f s1.prim = f s.prim) :
    SlotSpec f R arm :=
  fun s prop s1 hs => Or.inl (h s prop s1 hs)

/-- `SlotSpec` goes through the sequencing of arms. -/
theorem slotSpec_seq {τ V : Type} {f : τ → Option V} {R : String × Property → V → Prop}
    {a1 a2 : ReconState τ → String × Property → Step (ReconState τ)}
    (h1 : SlotSpec f R a1) (h2 : SlotSpec f R a2) :
    SlotSpec f R (fun s prop => (a1 s prop).andThen fun s1 => a2 s1 prop) := by
  intro s prop s2 hs
  dsimp only at hs
  cases ha : a1 s prop with
  | next s1 =>
    rw [ha] at hs
    simp only [Step.andThen] at hs
    rcases h2 s1 prop s2 hs with e | e
    · rcases h1 s prop s1 (Or.inl ha) with e1 | e1
      · exact Or.inl (e.trans e1)
      · obtain ⟨v, hv, hr⟩ := e1
        exact Or.inr ⟨v, e.trans hv, hr⟩
    · exact Or.inr e
  | continue_ s1 =>
    rw [ha] at hs
    simp only [Step.andThen] at hs
    rcases hs with hs | hs
    · cases hs
    · have e : s1 = s2 := by injection hs
      rw [← e]
      exact h1 s prop s1 (Or.inr ha)
  | ret_false s1 =>
    rw [ha] at hs
    simp only [Step.andThen] at hs
    rcases hs with hs | hs <;> cases hs

/-- `PARSE_TYPED_ATTRIBUTE` on another slot leaves the slot alone. -/
theorem frame_typed {τ α β : Type} (f : τ → β) (m : Matcher α) (name : String)
    (target : Field τ α)
    (s : ReconState τ) (prop : String × Property) (s1 : ReconState τ)
    (h : PARSE_TYPED_ATTRIBUTE m name target s prop = .next s1
      ∨ PARSE_TYPED_ATTRIBUTE m name target s prop = .continue_ s1)
    (hf : ∀ v x, f (target.set v x) = f x) :
    f s1.prim = f s.prim := by
  rw [typed_state m name target s s1 prop h]
  exact hf _ _

/-- `PARSE_EXTENT_ATTRIBUTE` leaves every other slot alone. -/
theorem frame_extent {τ β : Type} (f : τ → β) (name : String)
    (target : Field τ (TypedAttribute (Animatable Extent)))
    (s : ReconState τ) (prop : String × Property) (s1 : ReconState τ)
    (h : PARSE_EXTENT_ATTRIBUTE name target s prop = .next s1
      ∨ PARSE_EXTENT_ATTRIBUTE name target s prop = .continue_ s1)
    (hf : ∀ v x, f (target.set v x) = f x) :
    f s1.prim = f s.prim := by
  rw [extent_state name target s s1 prop h]
  exact hf _ _

/-- `PARSE_ENUM_PROPETY` leaves every slot alone that its assignment does not write. -/
theorem frame_enum {τ E β : Type} (f : τ → β) (name : String)
    (enum_handler : String → Except String E) (klass_name : String) (assign : E → τ → τ)
    (s : ReconState τ) (prop : String × Property) (s1 : ReconState τ)
    (h : PARSE_ENUM_PROPETY name enum_handler klass_name assign s prop = .next s1
      ∨ PARSE_ENUM_PROPETY name enum_handler klass_name assign s prop = .continue_ s1)
    (hf : ∀ e x, f (assign e x) = f x) :
    f s1.prim = f s.prim := by
  unfold PARSE_ENUM_PROPETY at h
  by_cases c1 : prop.1 = name
  · rw [if_pos c1] at h
    by_cases c2 : name ∈ s.table
    · rw [if_pos c2] at h
      rcases h with h | h <;> cases h
      rfl
    · rw [if_neg c2] at h
      dsimp only at h
      cases hv : prop.2.get_attribute.get_value tokenTraits with
      | none =>
        rw [hv] at h
        rcases h with h | h <;> simp [PUSH_ERROR_AND_RETURN] at h
      | some tok =>
        rw [hv] at h
        dsimp only at h
        cases he : enum_handler tok with
        | error msg =>
          rw [he] at h
          rcases h with h | h <;> simp [PUSH_ERROR_AND_RETURN] at h
        | ok e =>
          rw [he] at h
          rcases h with h | h
          · cases h
            exact hf _ _
          · cases h
  · rw [if_neg c1] at h
    rcases h with h | h <;> cases h
    rfl

/-- `ADD_PROPERTY` leaves every slot alone that is not the residual map. -/
theorem frame_addProperty {τ β : Type} (f : τ → β) (dst : Field τ PropertyMap)
    (s : ReconState τ) (prop : String × Property) (s1 : ReconState τ)
    (h : ADD_PROPERTY dst s prop = .next s1 ∨ ADD_PROPERTY dst s prop = .continue_ s1)
    (hf : ∀ v x, f (dst.set v x) = f x) :
    f s1.prim = f s.prim := by
  unfold ADD_PROPERTY at h
  by_cases c : prop.1 ∉ s.table
  · rw [if_pos c] at h
    rcases h with h | h <;> cases h
    exact hf _ _
  · rw [if_neg c] at h
    rcases h with h | h <;> cases h
    rfl

/-- `PARSE_PROPERTY_END_MAKE_ERROR` changes nothing when it falls through. -/
theorem end_error_state {τ : Type} (s : ReconState τ) (prop : String × Property)
    (s1 : ReconState τ)
    (h : PARSE_PROPERTY_END_MAKE_ERROR s prop = .next s1
      ∨ PARSE_PROPERTY_END_MAKE_ERROR s prop = .continue_ s1) : s1 = s := by
  unfold PARSE_PROPERTY_END_MAKE_ERROR at h
  by_cases c : prop.1 ∉ s.table
  · rw [if_pos c] at h
    rcases h with h | h <;> simp [PUSH_ERROR_AND_RETURN] at h
  · rw [if_neg c] at h
    rcases h with h | h <;> cases h
    rfl

/-- What the `skel:animationSource` block hands on when it does not return false: the
state as it was, or with `animationSource` set and the name recorded. -/
theorem animationSource_state (s s1 : ReconState Skeleton) (prop : String × Property)
    (h : Skeleton.animationSourceArm s prop = .next s1
      ∨ Skeleton.animationSourceArm s prop = .continue_ s1) :
    s1 = s ∨ (prop.1 = "skel:animationSource"
      ∧ s1 = { s with prim := { s.prim with
                  animationSource := some prop.2.get_relationship },
                      table := insert "skel:animationSource" s.table }) := by
  unfold Skeleton.animationSourceArm at h
  by_cases c1 : prop.1 = "skel:animationSource"
  · rw [if_pos c1] at h
    by_cases c2 : (prop.2.is_relationship && prop.2.get_relationship.is_path) = true
    · rw [if_pos c2] at h
      dsimp only at h
      by_cases c3 : prop.2.get_relationship.is_path = true
      · rw [if_pos c3] at h
        rcases h with h | h <;> cases h
        exact Or.inr ⟨c1, rfl⟩
      · rw [if_neg c3] at h
        rcases h with h | h <;> simp [PUSH_ERROR_AND_RETURN] at h
    · rw [if_neg c2] at h
      rcases h with h | h <;> simp [PUSH_ERROR_AND_RETURN] at h
  · rw [if_neg c1] at h
    rcases h with h | h <;> cases h
    exact Or.inl rfl

/-- The uniform matcher and the value of its slot: the value is left as it was, or set
to the value read from a property named like the slot that is no connection and not
blocked. -/
theorem uniform_value_spec {T : Type} (tt : TypeTraits T) (table : Table)
    (prop_name : String) (prop : Property) (X : String) (target : TypedAttribute T) :
    (ParseTypedAttribute_Uniform tt table prop_name prop X target).target.attrib
      = target.attrib
    ∨ ∃ v, (ParseTypedAttribute_Uniform tt table prop_name prop X target).target.attrib
        = some v
      ∧ AuthoredValue tt X (prop_name, prop) v := by
  unfold ParseTypedAttribute_Uniform
  by_cases c1 : prop_name = X ++ ".connect"
  · rw [if_pos c1]
    dsimp only
    by_cases c2 : removeSuffix X ".connect" ∈ table
    · rw [if_pos c2]
      exact Or.inl rfl
    · rw [if_neg c2]
      by_cases c3 : prop.is_connection = true
      · rw [if_pos c3]
        by_cases c4 : prop.get_attribute.is_connection = true
        · rw [if_pos c4]
          exact Or.inl rfl
        · rw [if_neg c4]
          exact Or.inl rfl
      · rw [if_neg c3]
        exact Or.inl rfl
  · rw [if_neg c1]
    by_cases d1 : prop_name = X
    · rw [if_pos d1]
      by_cases d2 : X ∈ table
      · rw [if_pos d2]
        exact Or.inl rfl
      · rw [if_neg d2]
        by_cases d3 : prop.is_connection = true
        · rw [if_pos d3]
          dsimp only
          by_cases d4 : prop.get_attribute.is_connection = true
          · rw [if_pos d4]
            exact Or.inl rfl
          · rw [if_neg d4]
            exact Or.inl rfl
        · rw [if_neg d3]
          dsimp only
          by_cases d5 : tt.type_name = prop.get_attribute.type_name
              ∨ tt.underlying_type_name = prop.get_attribute.type_name
          · rw [if_pos d5]
            by_cases d6 : prop.get_property_type = .EmptyAttrib
            · rw [if_pos d6]
              exact Or.inl rfl
            · rw [if_neg d6]
              by_cases d7 : prop.get_property_type = .Attrib
              · rw [if_pos d7]
                by_cases d8 : prop.get_attribute.variability ≠ .Uniform
                · rw [if_pos d8]
                  exact Or.inl rfl
                · rw [if_neg d8]
                  by_cases d9 : prop.get_attribute.is_blocked = true
                  · rw [if_pos d9]
                    exact Or.inl rfl
                  · rw [if_neg d9]
                    by_cases d10 : prop.get_attribute.var.is_scalar = true
                    · rw [if_pos d10]
                      cases d11 : prop.get_attribute.get_value tt with
                      | some pv =>
                        exact Or.inr ⟨pv, rfl, d1, by simpa using d3, by simpa using d9,
                          d11⟩
                      | none => exact Or.inl rfl
                    · rw [if_neg d10]
                      exact Or.inl rfl
              · rw [if_neg d7]
                exact Or.inl rfl
          · rw [if_neg d5]
            exact Or.inl rfl
    · rw [if_neg d1]
      exact Or.inl rfl

/-- `SlotSpec` of the uniform typed arm for the value of its own slot. -/
theorem slotSpec_uniform {τ T : Type} (tt : TypeTraits T) (X : String)
    (target : Field τ (TypedAttribute T))
    (hget : ∀ v x, target.get (target.set v x) = v) :
    SlotSpec (fun g => (target.get g).attrib) (AuthoredValue tt X)
      (PARSE_TYPED_ATTRIBUTE (ParseTypedAttribute_Uniform tt) X target) := by
  intro s prop s1 hs
  rw [typed_state _ X target s s1 prop hs]
  dsimp only
  rw [hget]
  exact uniform_value_spec tt s.table prop.1 prop.2 X (target.get s.prim)

/-- A loop whose body satisfies a `SlotSpec` and that returns true leaves the slot as it
was or holding a value that one of the properties accounts for. -/
theorem propertyLoop_slot {τ V : Type} (f : τ → Option V)
    (R : String × Property → V → Prop)
    (body : ReconState τ → String × Property → Step (ReconState τ))
    (hb : SlotSpec f R body) (properties : List (String × Property))
    (s sf : ReconState τ) (h : propertyLoop body s properties = .ok sf) :
    f sf.prim = f s.prim ∨ ∃ v prop, prop ∈ properties ∧ f sf.prim = some v ∧ R prop v := by
  induction properties generalizing s with
  | nil =>
    simp only [propertyLoop, Outcome.ok.injEq] at h
    subst h
    exact Or.inl rfl
  | cons prop rest ih =>
    simp only [propertyLoop] at h
    have step : ∀ s1, (body s prop = .next s1 ∨ body s prop = .continue_ s1) →
        propertyLoop body s1 rest = .ok sf →
        f sf.prim = f s.prim
          ∨ ∃ v q, q ∈ prop :: rest ∧ f sf.prim = some v ∧ R q v := by
      intro s1 hs1 hl
      rcases ih s1 hl with e | ⟨v, q, hq, hv, hr⟩
      · rcases hb s prop s1 hs1 with e1 | ⟨v, hv, hr⟩
        · exact Or.inl (e.trans e1)
        · exact Or.inr ⟨v, prop, List.mem_cons_self _ _, e.trans hv, hr⟩
      · exact Or.inr ⟨v, q, List.mem_cons_of_mem _ hq, hv, hr⟩
    cases hs : body s prop with
    | next s1 =>
      rw [hs] at h
      exact step s1 (Or.inl hs) h
    | continue_ s1 =>
      rw [hs] at h
      exact step s1 (Or.inr hs) h
    | ret_false s1 =>
      rw [hs] at h
      cases h

/-- `KeySpec` from `ArmSpec`: an arm that takes the names `names` adds `k` to the table
only at a property named in `own`, as soon as `k` is none of its names or all its names
are in `own`. -/
theorem keySpec_of_armSpec {τ : Type} {dst : Field τ PropertyMap}
    {arm : ReconState τ → String × Property → Step (ReconState τ)} {names : List String}
    (h : ArmSpec dst arm names) (k : String) (own : List String)
    (hcond : k ∉ names ∨ ∀ n ∈ names, n ∈ own) :
    KeySpec k own arm := by
  intro s prop s1 hs hk
  obtain ⟨c1, c2, _⟩ := h s prop
  rcases (c2 s1 hs).2.2 k hk with h1 | h1
  · exact Or.inl h1
  · rcases hcond with hn | hsub
    · exact absurd h1 hn
    · by_cases hp : prop.1 ∈ names
      · exact Or.inr (hsub _ hp)
      · have e := c1 hp
        rcases hs with hs | hs
        · rw [e] at hs
          have e2 : s = s1 := by injection hs
          rw [e2]
          exact Or.inl hk
        · rw [e] at hs
          cases hs

/-- `KeySpec` goes through the sequencing of arms. -/
theorem keySpec_seq {τ : Type} {k : String} {own : List String}
    {a1 a2 : ReconState τ → String × Property → Step (ReconState τ)}
    (h1 : KeySpec k own a1) (h2 : KeySpec k own a2) :
    KeySpec k own (fun s prop => (a1 s prop).andThen fun s1 => a2 s1 prop) := by
  intro s prop s2 hs hk
  dsimp only at hs
  cases ha : a1 s prop with
  | next s1 =>
    rw [ha] at hs
    simp only [Step.andThen] at hs
    rcases h2 s1 prop s2 hs hk with e | e
    · exact h1 s prop s1 (Or.inl ha) e
    · exact Or.inr e
  | continue_ s1 =>
    rw [ha] at hs
    simp only [Step.andThen] at hs
    rcases hs with hs | hs
    · cases hs
    · have e : s1 = s2 := by injection hs
      rw [← e] at hk
      exact h1 s prop s1 (Or.inr ha) hk
  | ret_false s1 =>
    rw [ha] at hs
    simp only [Step.andThen] at hs
    rcases hs with hs | hs <;> cases hs

/-- `ADD_PROPERTY` adds the name of the property, nothing else. -/
theorem keySpec_addProperty {τ : Type} (dst : Field τ PropertyMap) (k : String)
    (own : List String) (hk : k ∈ own) : KeySpec k own (ADD_PROPERTY dst) := by
  intro s prop s1 hs hm
  unfold ADD_PROPERTY at hs
  by_cases c : prop.1 ∉ s.table
  · rw [if_pos c] at hs
    rcases hs with hs | hs
    · injection hs with e
      rw [← e] at hm
      rcases Finset.mem_insert.mp hm with h1 | h1
      · exact Or.inr (by rw [← h1]; exact hk)
      · exact Or.inl h1
    · cases hs
  · rw [if_neg c] at hs
    rcases hs with hs | hs
    · have e : s = s1 := by injection hs
      rw [e]
      exact Or.inl hm
    · cases hs

/-- `PARSE_PROPERTY_END_MAKE_ERROR` adds nothing to the table. -/
theorem keySpec_end_error {τ : Type} (k : String) (own : List String) :
    KeySpec k own (PARSE_PROPERTY_END_MAKE_ERROR : ReconState τ → _ → _) := by
  intro s prop s1 hs hm
  rw [end_error_state s prop s1 hs] at hm
  exact Or.inl hm

/-- The `skel:animationSource` block adds its own name alone. -/
theorem keySpec_animationSource (k : String) (own : List String)
    (hk : k ≠ "skel:animationSource") : KeySpec k own Skeleton.animationSourceArm := by
  intro s prop s1 hs hm
  rcases animationSource_state s s1 prop hs with e | ⟨_, e⟩
  · rw [e] at hm
    exact Or.inl hm
  · rw [e] at hm
    rcases Finset.mem_insert.mp hm with h1 | h1
    · exact absurd h1 hk
    · exact Or.inl h1

/-- A loop whose body satisfies a `KeySpec` and that returns true has `k` in the table
only if it was there or one of the properties is named in `own`. -/
theorem propertyLoop_key {τ : Type} (k : String) (own : List String)
    (body : ReconState τ → String × Property → Step (ReconState τ))
    (hb : KeySpec k own body) (properties : List (String × Property))
    (s sf : ReconState τ) (h : propertyLoop body s properties = .ok sf)
    (hk : k ∈ sf.table) :
    k ∈ s.table ∨ ∃ prop ∈ properties, prop.1 ∈ own := by
  induction properties generalizing s with
  | nil =>
    simp only [propertyLoop, Outcome.ok.injEq] at h
    subst h
    exact Or.inl hk
  | cons prop rest ih =>
    simp only [propertyLoop] at h
    have step : ∀ s1, (body s prop = .next s1 ∨ body s prop = .continue_ s1) →
        propertyLoop body s1 rest = .ok sf →
        k ∈ s.table ∨ ∃ q ∈ prop :: rest, q.1 ∈ own := by
      intro s1 hs1 hl
      rcases ih s1 hl with e | ⟨q, hq, ho⟩
      · rcases hb s prop s1 hs1 e with e1 | e1
        · exact Or.inl e1
        · exact Or.inr ⟨prop, List.mem_cons_self _ _, e1⟩
      · exact Or.inr ⟨q, List.mem_cons_of_mem _ hq, ho⟩
    cases hs : body s prop with
    | next s1 =>
      rw [hs] at h
      exact step s1 (Or.inl hs) h
    | continue_ s1 =>
      rw [hs] at h
      exact step s1 (Or.inr hs) h
    | ret_false s1 =>
      rw [hs] at h
      cases h

/-- The `skel:animationSource` block leaves the transforms alone. -/
theorem frame_animationSource {β : Type} (f : Skeleton → β)
    (s : ReconState Skeleton) (prop : String × Property) (s1 : ReconState Skeleton)
    (h : Skeleton.animationSourceArm s prop = .next s1
      ∨ Skeleton.animationSourceArm s prop = .continue_ s1)
    (hf : ∀ v x, f { x with animationSource := v } = f x) :
    f s1.prim = f s.prim := by
  rcases animationSource_state s s1 prop h with e | ⟨_, e⟩
  · rw [e]
  · rw [e]
    exact hf _ _

/-- The body of the loop of `ReconstructPrim<Skeleton>` sets the value of
`bindTransforms` only from an authored `bindTransforms`. -/
theorem slotSpec_bindTransforms (klass_name : String) :
    SlotSpec (fun g : Skeleton => g.bindTransforms.attrib)
      (AuthoredValue matrix4dArrayTraits "bindTransforms") (Skeleton.body klass_name) := by
  have hs : SlotSpec (fun g : Skeleton => g.bindTransforms.attrib)
      (AuthoredValue matrix4dArrayTraits "bindTransforms")
      (Skeleton.schemaArms klass_name) :=
    slotSpec_seq (slotSpec_uniform matrix4dArrayTraits "bindTransforms"
        Skeleton.bindTransformsField (fun _ _ => rfl))
      (slotSpec_seq (slotSpec_of_frame _ _ _ (fun s prop s1 h =>
          frame_typed (fun g : Skeleton => g.bindTransforms.attrib) _ _ _ s prop s1 h
            (fun _ _ => rfl)))
        (slotSpec_seq (slotSpec_of_frame _ _ _ (fun s prop s1 h =>
          frame_typed (fun g : Skeleton => g.bindTransforms.attrib) _ _ _ s prop s1 h
            (fun _ _ => rfl)))
          (slotSpec_seq (slotSpec_of_frame _ _ _ (fun s prop s1 h =>
          frame_typed (fun g : Skeleton => g.bindTransforms.attrib) _ _ _ s prop s1 h
            (fun _ _ => rfl)))
            (slotSpec_seq (slotSpec_of_frame _ _ _ (fun s prop s1 h =>
          frame_enum (fun g : Skeleton => g.bindTransforms.attrib) _ _ _ _ s prop s1 h
            (fun _ _ => rfl)))
              (slotSpec_seq
                (slotSpec_of_frame _ _ _ (fun s prop s1 h =>
          frame_enum (fun g : Skeleton => g.bindTransforms.attrib) _ _ _ _ s prop s1 h
            (fun _ _ => rfl)))
                (slotSpec_of_frame _ _ _ (fun s prop s1 h =>
          frame_extent (fun g : Skeleton => g.bindTransforms.attrib) _ _ s prop s1 h
            (fun _ _ => rfl))))))))
  have ha : SlotSpec (fun g : Skeleton => g.bindTransforms.attrib)
      (AuthoredValue matrix4dArrayTraits "bindTransforms") (Skeleton.arms klass_name) :=
    slotSpec_seq (slotSpec_of_frame _ _ _ (fun s prop s1 h =>
      frame_animationSource (fun g : Skeleton => g.bindTransforms.attrib) s prop s1 h
        (fun _ _ => rfl))) hs
  exact slotSpec_seq ha
    (slotSpec_seq (slotSpec_of_frame _ _ _ (fun s prop s1 h =>
      frame_addProperty (fun g : Skeleton => g.bindTransforms.attrib) _ s prop s1 h
        (fun _ _ => rfl)))
      (slotSpec_of_frame _ _ _ (fun s prop s1 h => by rw [end_error_state s prop s1 h])))

/-- The body of the loop of `ReconstructPrim<Skeleton>` sets the value of
`restTransforms` only from an authored `restTransforms`. -/
theorem slotSpec_restTransforms (klass_name : String) :
    SlotSpec (fun g : Skeleton => g.restTransforms.attrib)
      (AuthoredValue matrix4dArrayTraits "restTransforms") (Skeleton.body klass_name) := by
  have hs : SlotSpec (fun g : Skeleton => g.restTransforms.attrib)
      (AuthoredValue matrix4dArrayTraits "restTransforms")
      (Skeleton.schemaArms klass_name) :=
    slotSpec_seq (slotSpec_of_frame _ _ _ (fun s prop s1 h =>
          frame_typed (fun g : Skeleton => g.restTransforms.attrib) _ _ _ s prop s1 h
            (fun _ _ => rfl)))
      (slotSpec_seq (slotSpec_of_frame _ _ _ (fun s prop s1 h =>
          frame_typed (fun g : Skeleton => g.restTransforms.attrib) _ _ _ s prop s1 h
            (fun _ _ => rfl)))
        (slotSpec_seq (slotSpec_of_frame _ _ _ (fun s prop s1 h =>
          frame_typed (fun g : Skeleton => g.restTransforms.attrib) _ _ _ s prop s1 h
            (fun _ _ => rfl)))
          (slotSpec_seq (slotSpec_uniform matrix4dArrayTraits "restTransforms"
              Skeleton.restTransformsField (fun _ _ => rfl))
            (slotSpec_seq (slotSpec_of_frame _ _ _ (fun s prop s1 h =>
          frame_enum (fun g : Skeleton => g.restTransforms.attrib) _ _ _ _ s prop s1 h
            (fun _ _ => rfl)))
              (slotSpec_seq
                (slotSpec_of_frame _ _ _ (fun s prop s1 h =>
          frame_enum (fun g : Skeleton => g.restTransforms.attrib) _ _ _ _ s prop s1 h
            (fun _ _ => rfl)))
                (slotSpec_of_frame _ _ _ (fun s prop s1 h =>
          frame_extent (fun g : Skeleton => g.restTransforms.attrib) _ _ s prop s1 h
            (fun _ _ => rfl))))))))
  have ha : SlotSpec (fun g : Skeleton => g.restTransforms.attrib)
      (AuthoredValue matrix4dArrayTraits "restTransforms") (Skeleton.arms klass_name) :=
    slotSpec_seq (slotSpec_of_frame _ _ _ (fun s prop s1 h =>
      frame_animationSource (fun g : Skeleton => g.restTransforms.attrib) s prop s1 h
        (fun _ _ => rfl))) hs
  exact slotSpec_seq ha
    (slotSpec_seq (slotSpec_of_frame _ _ _ (fun s prop s1 h =>
      frame_addProperty (fun g : Skeleton => g.restTransforms.attrib) _ s prop s1 h
        (fun _ _ => rfl)))
      (slotSpec_of_frame _ _ _ (fun s prop s1 h => by rw [end_error_state s prop s1 h])))

/-- The body of the loop of `ReconstructPrim<Skeleton>` records the name `X` of a
transform slot only at a property named `X` or `X.connect`. -/
theorem keySpec_Skeleton (klass_name : String) (X : String)
    (hX : X = "bindTransforms" ∨ X = "restTransforms") :
    KeySpec X [X, X ++ ".connect"] (Skeleton.body klass_name) := by
  have hu : ∀ (T : Type) (tt : TypeTraits T) (name : String)
      (target : Field Skeleton (TypedAttribute T)),
      removeSuffix name ".connect" = name →
      (∀ v x, Skeleton.propsField.get (target.set v x) = Skeleton.propsField.get x) →
      (∀ x, target.set (target.get x) x = x) →
      (X ∉ [name, name ++ ".connect"]
        ∨ ∀ n ∈ [name, name ++ ".connect"], n ∈ [X, X ++ ".connect"]) →
      KeySpec X [X, X ++ ".connect"]
        (PARSE_TYPED_ATTRIBUTE (ParseTypedAttribute_Uniform tt) name target) :=
    fun T tt name target h1 h2 h3 h4 =>
      keySpec_of_armSpec (armSpec_typed Skeleton.propsField _ name target
        (matcherSpec_Uniform tt name h1) h2 h3) X _ h4
  have he : ∀ (E : Type) (name : String) (handler : String → Except String E)
      (assign : E → Skeleton → Skeleton),
      (∀ e x, Skeleton.propsField.get (assign e x) = Skeleton.propsField.get x) →
      X ∉ [name] →
      KeySpec X [X, X ++ ".connect"]
        (PARSE_ENUM_PROPETY name handler klass_name assign) :=
    fun E name handler assign h1 h2 =>
      keySpec_of_armSpec (armSpec_enum Skeleton.propsField name handler klass_name assign h1)
        X _ (Or.inl h2)
  have hs : KeySpec X [X, X ++ ".connect"] (Skeleton.schemaArms klass_name) := by
    rcases hX with hX | hX <;> subst hX
    · exact keySpec_seq (hu _ _ "bindTransforms" _ (by decide) (fun _ _ => rfl)
          (fun _ => rfl) (Or.inr (fun n hn => hn)))
        (keySpec_seq (hu _ _ "joints" _ (by decide) (fun _ _ => rfl) (fun _ => rfl)
            (Or.inl (by decide)))
          (keySpec_seq (hu _ _ "jointNames" _ (by decide) (fun _ _ => rfl) (fun _ => rfl)
              (Or.inl (by decide)))
            (keySpec_seq (hu _ _ "restTransforms" _ (by decide) (fun _ _ => rfl)
                (fun _ => rfl) (Or.inl (by decide)))
              (keySpec_seq (he _ "visibility" _ _ (fun _ _ => rfl) (by decide))
                (keySpec_seq (he _ "purpose" _ _ (fun _ _ => rfl) (by decide))
                  (keySpec_of_armSpec (armSpec_extent Skeleton.propsField "extent"
                    Skeleton.extentField (matcherSpec_Extent "extent" (by decide))
                    (fun _ _ => rfl) (fun _ => rfl)) _ _ (Or.inl (by decide))))))))
    · exact keySpec_seq (hu _ _ "bindTransforms" _ (by decide) (fun _ _ => rfl)
          (fun _ => rfl) (Or.inl (by decide)))
        (keySpec_seq (hu _ _ "joints" _ (by decide) (fun _ _ => rfl) (fun _ => rfl)
            (Or.inl (by decide)))
          (keySpec_seq (hu _ _ "jointNames" _ (by decide) (fun _ _ => rfl) (fun _ => rfl)
              (Or.inl (by decide)))
            (keySpec_seq (hu _ _ "restTransforms" _ (by decide) (fun _ _ => rfl)
                (fun _ => rfl) (Or.inr (fun n hn => hn)))
              (keySpec_seq (he _ "visibility" _ _ (fun _ _ => rfl) (by decide))
                (keySpec_seq (he _ "purpose" _ _ (fun _ _ => rfl) (by decide))
                  (keySpec_of_armSpec (armSpec_extent Skeleton.propsField "extent"
                    Skeleton.extentField (matcherSpec_Extent "extent" (by decide))
                    (fun _ _ => rfl) (fun _ => rfl)) _ _ (Or.inl (by decide))))))))
  have hne : X ≠ "skel:animationSource" := by
    rcases hX with hX | hX <;> subst hX <;> decide
  have ha : KeySpec X [X, X ++ ".connect"] (Skeleton.arms klass_name) :=
    keySpec_seq (keySpec_animationSource X _ hne) hs
  exact keySpec_seq ha
    (keySpec_seq (keySpec_addProperty Skeleton.propsField X _ (List.mem_cons_self _ _))
      (keySpec_end_error X _))

/-- `ReconstructPrim<Skeleton>` in terms of its loop: what it returns once the loop has
returned true. -/
theorem skeleton_after_loop (klass_name : String) (properties : PropertyMap)
    (skel : Skeleton) (warn err : Option String) (s : ReconState Skeleton)
    (hl : propertyLoop (Skeleton.body klass_name) ⟨∅, skel, warn, err⟩ properties = .ok s) :
    ReconstructPrim_Skeleton klass_name properties skel warn err
      = if "bindTransforms" ∉ s.table then
          .fail (s.withError
            "`bindTransforms` is missing in Skeleton. Currently TinyUSDZ expects `bindTransforms` must exist in Skeleton.")
        else if "restTransforms" ∉ s.table then
          .fail (s.withError
            "`restTransforms`(local joint matrices at rest state) is missing in Skeleton. Currently TinyUSDZ expects `restTransforms` must exist in Skeleton.")
        else if !s.prim.valid then
          .fail (s.withError
            "Array length must be same for `bindTransforms` and `restTransforms`.")
        else .ok s := by
  unfold ReconstructPrim_Skeleton
  rw [hl]

/-- C37: `ReconstructPrim<Skeleton>`, run into a fresh skeleton, returns true only if
the property map holds a property `bindTransforms` and a property `restTransforms`, each
no connection, not blocked and read as a `matrix4d[]` value, these two values are what
the slots hold, and the two arrays have the same length.  For any skeleton handed in:
when no property is named `bindTransforms` or `bindTransforms.connect` the loop returns
false or the reconstructor returns false with the error that `bindTransforms` is
missing; likewise for `restTransforms` (after the check of `bindTransforms`); when both
names are recorded and the slots do not hold two arrays of the same length it returns
false with the error on the array length; and it always returns. -/
theorem C37_skeleton_transforms (klass_name : String) (properties : PropertyMap)
    (warn err : Option String) :
    (∀ st, ReconstructPrim_Skeleton klass_name properties Skeleton.fresh warn err = .ok st →
      ∃ p q bt rt, ("bindTransforms", p) ∈ properties ∧ ("restTransforms", q) ∈ properties
        ∧ p.is_connection = false ∧ p.get_attribute.is_blocked = false
        ∧ q.is_connection = false ∧ q.get_attribute.is_blocked = false
        ∧ p.get_attribute.get_value matrix4dArrayTraits = some bt
        ∧ q.get_attribute.get_value matrix4dArrayTraits = some rt
        ∧ st.prim.bindTransforms.get_value = some bt
        ∧ st.prim.restTransforms.get_value = some rt
        ∧ bt.length = rt.length)
    ∧ (∀ skel : Skeleton,
      (∀ prop ∈ properties, prop.1 ≠ "bindTransforms" ∧ prop.1 ≠ "bindTransforms.connect") →
      (∃ st, propertyLoop (Skeleton.body klass_name) ⟨∅, skel, warn, err⟩ properties
          = .fail st
        ∧ ReconstructPrim_Skeleton klass_name properties skel warn err = .fail st)
      ∨ ∃ s, propertyLoop (Skeleton.body klass_name) ⟨∅, skel, warn, err⟩ properties = .ok s
        ∧ ReconstructPrim_Skeleton klass_name properties skel warn err
          = .fail (s.withError
              "`bindTransforms` is missing in Skeleton. Currently TinyUSDZ expects `bindTransforms` must exist in Skeleton."))
    ∧ (∀ skel : Skeleton,
      (∀ prop ∈ properties, prop.1 ≠ "restTransforms" ∧ prop.1 ≠ "restTransforms.connect") →
      (∃ st, propertyLoop (Skeleton.body klass_name) ⟨∅, skel, warn, err⟩ properties
          = .fail st
        ∧ ReconstructPrim_Skeleton klass_name properties skel warn err = .fail st)
      ∨ ∃ s, propertyLoop (Skeleton.body klass_name) ⟨∅, skel, warn, err⟩ properties = .ok s
        ∧ (ReconstructPrim_Skeleton klass_name properties skel warn err
            = .fail (s.withError
              "`bindTransforms` is missing in Skeleton. Currently TinyUSDZ expects `bindTransforms` must exist in Skeleton.")
          ∨ ReconstructPrim_Skeleton klass_name properties skel warn err
            = .fail (s.withError
              "`restTransforms`(local joint matrices at rest state) is missing in Skeleton. Currently TinyUSDZ expects `restTransforms` must exist in Skeleton.")))
    ∧ (∀ (skel : Skeleton) (s : ReconState Skeleton),
      propertyLoop (Skeleton.body klass_name) ⟨∅, skel, warn, err⟩ properties = .ok s →
      "bindTransforms" ∈ s.table → "restTransforms" ∈ s.table →
      (∀ bt rt, s.prim.bindTransforms.get_value = some bt →
        s.prim.restTransforms.get_value = some rt → bt.length ≠ rt.length) →
      ReconstructPrim_Skeleton klass_name properties skel warn err
        = .fail (s.withError
            "Array length must be same for `bindTransforms` and `restTransforms`."))
    ∧ (∀ skel : Skeleton,
      ReconstructPrim_Skeleton klass_name properties skel warn err ≠ .raise) := by
  have hloop : ∀ skel : Skeleton,
      (∃ st, propertyLoop (Skeleton.body klass_name) ⟨∅, skel, warn, err⟩ properties
          = .fail st
        ∧ ReconstructPrim_Skeleton klass_name properties skel warn err = .fail st)
      ∨ ∃ s, propertyLoop (Skeleton.body klass_name) ⟨∅, skel, warn, err⟩ properties
          = .ok s := by
    intro skel
    cases hl : propertyLoop (Skeleton.body klass_name) ⟨∅, skel, warn, err⟩ properties with
    | ok s => exact Or.inr ⟨s, rfl⟩
    | fail s =>
      refine Or.inl ⟨s, rfl, ?_⟩
      unfold ReconstructPrim_Skeleton
      rw [hl]
    | raise => exact absurd hl (propertyLoop_ne_raise _ _ _)
  have hmissing : ∀ (skel : Skeleton) (X : String) (s : ReconState Skeleton),
      (X = "bindTransforms" ∨ X = "restTransforms") →
      (∀ prop ∈ properties, prop.1 ≠ X ∧ prop.1 ≠ X ++ ".connect") →
      propertyLoop (Skeleton.body klass_name) ⟨∅, skel, warn, err⟩ properties = .ok s →
      X ∉ s.table := by
    intro skel X s hX hno hl hk
    rcases propertyLoop_key X [X, X ++ ".connect"] _ (keySpec_Skeleton klass_name X hX)
      properties _ s hl hk with h | ⟨prop, hp, ho⟩
    · simp at h
    · obtain ⟨h1, h2⟩ := hno prop hp
      simp only [List.mem_cons, List.mem_singleton, List.not_mem_nil, or_false] at ho
      rcases ho with ho | ho
      · exact h1 ho
      · exact h2 ho
  refine ⟨?_, ?_, ?_, ?_, ?_⟩
  · intro st h
    rcases hloop Skeleton.fresh with ⟨s, _, hf⟩ | ⟨s, hl⟩
    · rw [hf] at h
      cases h
    · rw [skeleton_after_loop klass_name properties _ warn err s hl] at h
      by_cases c1 : "bindTransforms" ∉ s.table
      · rw [if_pos c1] at h
        cases h
      · rw [if_neg c1] at h
        by_cases c2 : "restTransforms" ∉ s.table
        · rw [if_pos c2] at h
          cases h
        · rw [if_neg c2] at h
          by_cases c3 : (!s.prim.valid) = true
          · rw [if_pos c3] at h
            cases h
          · rw [if_neg c3] at h
            have e : s = st := by injection h
            subst e
            have hv : s.prim.valid = true := by simpa using c3
            unfold Skeleton.valid at hv
            cases hb : s.prim.bindTransforms.get_value with
            | none => simp [hb] at hv
            | some bt =>
              cases hr : s.prim.restTransforms.get_value with
              | none => simp [hb, hr] at hv
              | some rt =>
                simp only [hb, hr, decide_eq_true_eq] at hv
                have kb := propertyLoop_slot _ _ _ (slotSpec_bindTransforms klass_name)
                  properties _ s hl
                have kr := propertyLoop_slot _ _ _ (slotSpec_restTransforms klass_name)
                  properties _ s hl
                have hb2 : s.prim.bindTransforms.attrib = some bt := hb
                have hr2 : s.prim.restTransforms.attrib = some rt := hr
                rcases kb with kb | ⟨v, prop, hp, hv1, ha1, ha2, ha3, ha4⟩
                · have kb2 : s.prim.bindTransforms.attrib
                      = Skeleton.fresh.bindTransforms.attrib := kb
                  rw [hb2] at kb2
                  cases kb2
                · rcases kr with kr | ⟨w, prop2, hp2, hw1, hc1, hc2, hc3, hc4⟩
                  · have kr2 : s.prim.restTransforms.attrib
                        = Skeleton.fresh.restTransforms.attrib := kr
                    rw [hr2] at kr2
                    cases kr2
                  · have hv2 : s.prim.bindTransforms.attrib = some v := hv1
                    have hw2 : s.prim.restTransforms.attrib = some w := hw1
                    rw [hb2] at hv2
                    rw [hr2] at hw2
                    have ev : bt = v := by injection hv2
                    have ew : rt = w := by injection hw2
                    subst ev
                    subst ew
                    refine ⟨prop.2, prop2.2, bt, rt, ?_, ?_, ha2, ha3, hc2, hc3, ha4, hc4,
                      rfl, rfl, hv⟩
                    · rw [← ha1]
                      exact hp
                    · rw [← hc1]
                      exact hp2
  · intro skel hno
    rcases hloop skel with h | ⟨s, hl⟩
    · exact Or.inl h
    · refine Or.inr ⟨s, hl, ?_⟩
      rw [skeleton_after_loop klass_name properties _ warn err s hl,
        if_pos (hmissing skel "bindTransforms" s (Or.inl rfl) hno hl)]
  · intro skel hno
    rcases hloop skel with h | ⟨s, hl⟩
    · exact Or.inl h
    · refine Or.inr ⟨s, hl, ?_⟩
      rw [skeleton_after_loop klass_name properties _ warn err s hl]
      by_cases c1 : "bindTransforms" ∉ s.table
      · rw [if_pos c1]
        exact Or.inl rfl
      · rw [if_neg c1, if_pos (hmissing skel "restTransforms" s (Or.inr rfl) hno hl)]
        exact Or.inr rfl
  · intro skel s hl h1 h2 hlen
    rw [skeleton_after_loop klass_name properties _ warn err s hl,
      if_neg (not_not.mpr h1), if_neg (not_not.mpr h2)]
    have hv : s.prim.valid = false := by
      unfold Skeleton.valid
      cases hb : s.prim.bindTransforms.get_value with
      | none => rfl
      | some bt =>
        cases hr : s.prim.restTransforms.get_value with
        | none => rfl
        | some rt =>
          simp only [decide_eq_false_iff_not]
          exact hlen bt rt hb hr
    rw [hv]
    rfl
  · intro skel h
    rcases hloop skel with ⟨s, _, hf⟩ | ⟨s, hl⟩
    · rw [hf] at h
      cases h
    · rw [skeleton_after_loop klass_name properties _ warn err s hl] at h
      by_cases c1 : "bindTransforms" ∉ s.table
      · rw [if_pos c1] at h
        cases h
      · rw [if_neg c1] at h
        by_cases c2 : "restTransforms" ∉ s.table
        · rw [if_pos c2] at h
          cases h
        · rw [if_neg c2] at h
          by_cases c3 : (!s.prim.valid) = true
          · rw [if_pos c3] at h
            cases h
          · rw [if_neg c3] at h
            cases h

/-- C37 at `sampleSkeleton`, two bind transforms and two rest transforms: the
reconstructor returns true, and both properties are found with arrays of the same
length; on a map with `bindTransforms` alone it returns false. -/
theorem C37_skeleton_transforms_witness :
    (∃ st, ReconstructPrim_Skeleton "Skeleton" sampleSkeleton Skeleton.fresh (some "")
        (some "") = .ok st)
    ∧ (∃ st, ReconstructPrim_Skeleton "Skeleton"
        [("bindTransforms", Property.ofScalar "matrix4d[]" .Uniform
          (.matrix4dArray [[1, 0, 0, 0, 0, 1, 0, 0, 0, 0, 1, 0, 0, 0, 0, 1]]))]
        Skeleton.fresh (some "") (some "") = .fail st)
    ∧ ∃ p q bt rt, ("bindTransforms", p) ∈ sampleSkeleton
        ∧ ("restTransforms", q) ∈ sampleSkeleton
        ∧ p.get_attribute.get_value matrix4dArrayTraits = some bt
        ∧ q.get_attribute.get_value matrix4dArrayTraits = some rt
        ∧ bt.length = rt.length :=
  have h0 : ∃ st, ReconstructPrim_Skeleton "Skeleton" sampleSkeleton Skeleton.fresh (some "")
      (some "") = .ok st := ⟨_, rfl⟩
  ⟨h0, ⟨_, rfl⟩, Exists.elim h0 (fun st h =>
    match (C37_skeleton_transforms "Skeleton" sampleSkeleton (some "") (some "")).1 st h with
    | ⟨p, q, bt, rt, h1, h2, _, _, _, _, h7, h8, _, _, h11⟩ =>
      ⟨p, q, bt, rt, h1, h2, h7, h8, h11⟩)⟩

end tinyusdz
